import Mathlib

/-! Credential and client resolution caches of awsx-api.

A shallow embedding of the panel handlers under `handlers/getElementDetails`:
the package-level `sync.Map` caches and `sync.RWMutex` locks become fields of an
explicit process state, the external collaborators (`authenticate.DoAuthenticate`,
`awsclient.GetClient`) become parameters whose answer may depend on the whole history of
collaborator calls, and every resolver is a function from a process state to an outcome.
The handlers are functions of the query values, the package state and the state of the
`http.ResponseWriter`; the metric collaborators and the functions of `encoding/json` they
call are parameters. The handlers `GetEc2` and `GetDynamodb` of package `handlers` are
embedded the same way, and `fmt.Sprintf` is followed for the calls that pass a format and no
operand.
-/

namespace AwsxApi

/-! ## Go values -/

/-- Go `error` interface value: `none` is `nil`, `some msg` is an error whose `Error()`
text is `msg`. -/
abbrev GoError := Option String

/-- The fields of `model.CommandParam` that the handlers assign. The zero value
`model.CommandParam{}` has every field empty. -/
structure CommandParam where
  CloudElementId : String
  CloudElementApiUrl : String
  Region : String
  CrossAccountRoleArn : String
  ExternalId : String
deriving DecidableEq, Repr

/-- Zero value `model.CommandParam{}`. -/
def CommandParam.zero : CommandParam := ⟨"", "", "", "", ""⟩

/-- Credentials `model.Auth` (a record of the `awsx-common` library). The resolvers read only
its field `CrossAccountRoleArn`; `rest` stands for all remaining fields of the record. -/
structure Auth where
  CrossAccountRoleArn : String
  rest : String
deriving DecidableEq, Repr

/-- A `cloudwatch.CloudWatch` client object, identified by a handle. -/
structure CloudWatch where
  handle : Nat
deriving DecidableEq, Repr

/-- Service kinds `awsclient.CLOUDWATCH` and `awsclient.CLOUDWATCH_LOG`. -/
inductive ServiceKind where
  | CLOUDWATCH
  | CLOUDWATCH_LOG
deriving DecidableEq, Repr

/-- Pointer `*model.Auth`; `none` is the nil pointer. -/
abbrev AuthPtr := Option Auth

/-- Pointer `*cloudwatch.CloudWatch`; `none` is the nil pointer. -/
abbrev CloudWatchPtr := Option CloudWatch

/-! ## sync.Map with string keys -/

/-- A `sync.Map` whose keys are strings: at most one entry per key. -/
structure SyncMap (V : Type) where
  entries : List (String × V)
deriving DecidableEq, Repr

namespace SyncMap

variable {V : Type}

/-- Zero value of `sync.Map`: no entries. -/
def empty : SyncMap V := ⟨[]⟩

/-- `m.Load(key)`: `some v` when the key is present (`ok == true`), `none` otherwise. -/
def Load (m : SyncMap V) (key : String) : Option V :=
  (m.entries.find? (fun e => e.1 == key)).map (fun e => e.2)

/-- `m.Store(key, value)`: sets the value for the key, replacing an earlier one. -/
def Store (m : SyncMap V) (key : String) (value : V) : SyncMap V :=
  ⟨(key, value) :: m.entries.filter (fun e => !(e.1 == key))⟩

end SyncMap

/-! ## sync.RWMutex (writer side only: the handlers never call RLock) -/

/-- State of a `sync.RWMutex`: whether it is held by a writer. -/
structure RWMutex where
  locked : Bool
deriving DecidableEq, Repr

namespace RWMutex

/-- Zero value: unlocked. -/
def zero : RWMutex := ⟨false⟩

/-- `Lock()`: `some` of the held mutex when it was free, `none` when it is held (the caller
waits until somebody releases it). -/
def Lock (m : RWMutex) : Option RWMutex :=
  if m.locked then none else some ⟨true⟩

/-- `Unlock()`: `some` of the free mutex when it was held, `none` when it was not held
(Go aborts the process with "fatal error: sync: Unlock of unlocked RWMutex"). -/
def Unlock (m : RWMutex) : Option RWMutex :=
  if m.locked then some ⟨false⟩ else none

end RWMutex

/-! ## Collaborators and the process state -/

/-- One invocation of an external collaborator. -/
inductive Call where
  | DoAuthenticate (commandParam : CommandParam)
  | GetClient (clientAuth : Auth) (kind : ServiceKind)
deriving DecidableEq, Repr

/-- The external collaborators. Each answer may depend on every collaborator call made so
far (the first argument), so a collaborator may succeed once and fail later.
`DoAuthenticate` returns `(bool, *model.Auth, error)`; `GetClient` returns the client after
the type assertion `.(*cloudwatch.CloudWatch)`. -/
structure Collaborators where
  DoAuthenticate : List Call → CommandParam → Bool × AuthPtr × GoError
  GetClient : List Call → Auth → ServiceKind → CloudWatchPtr

/-- Number of `DoAuthenticate` invocations in a call history. -/
def authCalls (t : List Call) : Nat :=
  t.countP (fun c => match c with
    | Call.DoAuthenticate _ => true
    | Call.GetClient _ _ => false)

/-- Number of `GetClient` invocations in a call history. -/
def clientCalls (t : List Call) : Nat :=
  t.countP (fun c => match c with
    | Call.DoAuthenticate _ => false
    | Call.GetClient _ _ => true)

/-- Number of `GetClient` invocations in a call history whose credentials carry the role
key `roleKey`. -/
def clientCallsFor (roleKey : String) (t : List Call) : Nat :=
  t.countP (fun c => match c with
    | Call.DoAuthenticate _ => false
    | Call.GetClient a _ => a.CrossAccountRoleArn == roleKey)

/-- How a call of a Go function ends, with the process state it leaves behind. -/
inductive Outcome (σ α : Type) where
  /-- The function returned `value`. -/
  | returned (value : α) (s : σ)
  /-- The function waits in `Lock()` on a mutex nobody will release. -/
  | blocked (s : σ)
  /-- The runtime aborted the process: `Unlock()` of a mutex that is not locked. -/
  | fatal (s : σ)
deriving DecidableEq, Repr

namespace Outcome

variable {σ α : Type}

/-- The state an outcome leaves behind. -/
def state : Outcome σ α → σ
  | returned _ s => s
  | blocked s => s
  | fatal s => s

/-- The returned value, when the function returned. -/
def value? : Outcome σ α → Option α
  | returned v _ => some v
  | blocked _ => none
  | fatal _ => none

end Outcome

/-! ## Package ApiGateway -/

namespace ApiGateway

/-- Package-level variables of `4xx_errors_panel_handler.go`, `latency_panel.go` and
`integration_latency_panel.go`. -/
structure Vars where
  authCache4XX : SyncMap AuthPtr
  clientCache4XX : SyncMap CloudWatchPtr
  authCacheLock4XX : RWMutex
  clientCacheLock4XX : RWMutex
  authCacheLatency : SyncMap AuthPtr
  clientCacheLatency : SyncMap CloudWatchPtr
  authCacheLockLatency : RWMutex
  clientCacheLockLatency : RWMutex
  authCacheIntegLatency : SyncMap AuthPtr
  clientCacheIntegLatency : SyncMap CloudWatchPtr
  authCacheLockIntegLatency : RWMutex
  clientCacheLockIntegLatency : RWMutex
deriving DecidableEq, Repr

/-- Zero values at process start. -/
def Vars.init : Vars :=
  ⟨SyncMap.empty, SyncMap.empty, RWMutex.zero, RWMutex.zero,
   SyncMap.empty, SyncMap.empty, RWMutex.zero, RWMutex.zero,
   SyncMap.empty, SyncMap.empty, RWMutex.zero, RWMutex.zero⟩

/-- The package as seen by its resolvers: the collaborator call history and the
package-level variables. -/
structure State where
  trace : List Call
  vars : Vars
deriving DecidableEq, Repr

/-- Process start: no collaborator call yet, every variable at its zero value. -/
def State.init : State := ⟨[], Vars.init⟩

/-- `authenticateAndCache4XX(commandParam)`. -/
def authenticateAndCache4XX (env : Collaborators) (commandParam : CommandParam)
    (s : State) : Outcome State (AuthPtr × GoError) :=
  let cacheKey := commandParam.CloudElementId
  -- authCacheLock4XX.Lock()
  match s.vars.authCacheLock4XX.Lock with
  | none => Outcome.blocked s
  | some held =>
    let s1 : State := { s with vars := { s.vars with authCacheLock4XX := held } }
    -- body, up to its return statement
    let body : (AuthPtr × GoError) × State :=
      match s1.vars.authCache4XX.Load cacheKey with
      | some auth => ((auth, none), s1)
      | none =>
        let r := env.DoAuthenticate s1.trace commandParam
        let s2 : State := { s1 with trace := s1.trace ++ [Call.DoAuthenticate commandParam] }
        match r.2.2 with
        | some err => ((none, some err), s2)
        | none =>
          ((r.2.1, none),
            { s2 with vars := { s2.vars with
                authCache4XX := s2.vars.authCache4XX.Store cacheKey r.2.1 } })
    -- defer authCacheLock4XX.Unlock()
    match body.2.vars.authCacheLock4XX.Unlock with
    | none => Outcome.fatal body.2
    | some free =>
      Outcome.returned body.1
        { body.2 with vars := { body.2.vars with authCacheLock4XX := free } }

/-- `cloudwatchClientCache4XX(clientAuth)`. -/
def cloudwatchClientCache4XX (env : Collaborators) (clientAuth : Auth)
    (s : State) : Outcome State (CloudWatchPtr × GoError) :=
  let cacheKey := clientAuth.CrossAccountRoleArn
  -- clientCacheLock4XX.Lock()
  match s.vars.clientCacheLock4XX.Lock with
  | none => Outcome.blocked s
  | some held =>
    let s1 : State := { s with vars := { s.vars with clientCacheLock4XX := held } }
    let body : (CloudWatchPtr × GoError) × State :=
      match s1.vars.clientCache4XX.Load cacheKey with
      | some client => ((client, none), s1)
      | none =>
        let cloudWatchClient := env.GetClient s1.trace clientAuth ServiceKind.CLOUDWATCH
        let s2 : State :=
          { s1 with trace := s1.trace ++ [Call.GetClient clientAuth ServiceKind.CLOUDWATCH] }
        ((cloudWatchClient, none),
          { s2 with vars := { s2.vars with
              clientCache4XX := s2.vars.clientCache4XX.Store cacheKey cloudWatchClient } })
    -- defer clientCacheLock4XX.Unlock()
    match body.2.vars.clientCacheLock4XX.Unlock with
    | none => Outcome.fatal body.2
    | some free =>
      Outcome.returned body.1
        { body.2 with vars := { body.2.vars with clientCacheLock4XX := free } }

end ApiGateway

/-! ## Query values and the identity descriptor of Get4XXErrorsPanel -/

/-- Query values `url.Values`: each key maps to the list of its values. -/
structure Values where
  entries : List (String × List String)
deriving DecidableEq, Repr

/-- `v.Get(key)`: the first value of the key, or the empty string when the key has none. -/
def Values.Get (v : Values) (key : String) : String :=
  match v.entries.find? (fun e => e.1 == key) with
  | some (_, value :: _) => value
  | _ => ""

namespace ApiGateway

/-- The identity descriptor that `Get4XXErrorsPanel` builds from `r.URL.Query()` before it
calls the credential cache. -/
def Get4XXErrorsPanel_commandParam (query : Values) : CommandParam :=
  let region := query.Get "zone"
  let elementId := query.Get "elementId"
  let elementApiUrl := query.Get "cmdbApiUrl"
  let crossAccountRoleArn := query.Get "crossAccountRoleArn"
  let externalId := query.Get "externalId"
  let commandParam := CommandParam.zero
  if elementId ≠ "" then
    { commandParam with
        CloudElementId := elementId, CloudElementApiUrl := elementApiUrl, Region := region }
  else
    { commandParam with
        CrossAccountRoleArn := crossAccountRoleArn, ExternalId := externalId, Region := region }

end ApiGateway

/-! ## Package ECS -/

namespace ECS

/-- Package-level variables of `volume_write_bytes_panel_handler.go`, together with
`readBytesClientCacheLock`, the mutex of the same package that the hit path of
`writeBytesCloudwatchClientCache` unlocks. It belongs to the read-bytes panel, which declares
it alongside its own caches; like its siblings it is a `sync.RWMutex`, and its state is part
of the package state so that both of its states can be considered. -/
structure Vars where
  writeBytesAuthCache : SyncMap AuthPtr
  writeBytesClientCache : SyncMap CloudWatchPtr
  writeBytesAuthCacheLock : RWMutex
  writeBytesClientCacheLock : RWMutex
  readBytesClientCacheLock : RWMutex
deriving DecidableEq, Repr

/-- Zero values at process start. -/
def Vars.init : Vars :=
  ⟨SyncMap.empty, SyncMap.empty, RWMutex.zero, RWMutex.zero, RWMutex.zero⟩

/-- The package as seen by its resolvers. -/
structure State where
  trace : List Call
  vars : Vars
deriving DecidableEq, Repr

/-- Process start. -/
def State.init : State := ⟨[], Vars.init⟩

/-- `writeBytesAuthenticateAndCache(commandParam)`: the unlocks are explicit statements, one
before each return that has one. -/
def writeBytesAuthenticateAndCache (env : Collaborators) (commandParam : CommandParam)
    (s : State) : Outcome State (AuthPtr × GoError) :=
  let cacheKey := commandParam.CloudElementId
  -- writeBytesAuthCacheLock.Lock()
  match s.vars.writeBytesAuthCacheLock.Lock with
  | none => Outcome.blocked s
  | some held =>
    let s1 : State := { s with vars := { s.vars with writeBytesAuthCacheLock := held } }
    match s1.vars.writeBytesAuthCache.Load cacheKey with
    | some auth =>
      -- writeBytesAuthCacheLock.Unlock(); return auth, nil
      match s1.vars.writeBytesAuthCacheLock.Unlock with
      | none => Outcome.fatal s1
      | some free =>
        Outcome.returned (auth, none)
          { s1 with vars := { s1.vars with writeBytesAuthCacheLock := free } }
    | none =>
      let r := env.DoAuthenticate s1.trace commandParam
      let s2 : State := { s1 with trace := s1.trace ++ [Call.DoAuthenticate commandParam] }
      match r.2.2 with
      | some err =>
        -- return nil, err
        Outcome.returned (none, some err) s2
      | none =>
        let s3 : State := { s2 with vars := { s2.vars with
          writeBytesAuthCache := s2.vars.writeBytesAuthCache.Store cacheKey r.2.1 } }
        -- writeBytesAuthCacheLock.Unlock(); return clientAuth, nil
        match s3.vars.writeBytesAuthCacheLock.Unlock with
        | none => Outcome.fatal s3
        | some free =>
          Outcome.returned (r.2.1, none)
            { s3 with vars := { s3.vars with writeBytesAuthCacheLock := free } }

/-- `writeBytesCloudwatchClientCache(clientAuth)`. -/
def writeBytesCloudwatchClientCache (env : Collaborators) (clientAuth : Auth)
    (s : State) : Outcome State (CloudWatchPtr × GoError) :=
  let cacheKey := clientAuth.CrossAccountRoleArn
  -- writeBytesClientCacheLock.Lock()
  match s.vars.writeBytesClientCacheLock.Lock with
  | none => Outcome.blocked s
  | some held =>
    let s1 : State := { s with vars := { s.vars with writeBytesClientCacheLock := held } }
    match s1.vars.writeBytesClientCache.Load cacheKey with
    | some client =>
      -- readBytesClientCacheLock.Unlock(); return client, nil
      match s1.vars.readBytesClientCacheLock.Unlock with
      | none => Outcome.fatal s1
      | some free =>
        Outcome.returned (client, none)
          { s1 with vars := { s1.vars with readBytesClientCacheLock := free } }
    | none =>
      let cloudWatchClient := env.GetClient s1.trace clientAuth ServiceKind.CLOUDWATCH
      let s2 : State :=
        { s1 with trace := s1.trace ++ [Call.GetClient clientAuth ServiceKind.CLOUDWATCH] }
      let s3 : State := { s2 with vars := { s2.vars with
        writeBytesClientCache := s2.vars.writeBytesClientCache.Store cacheKey cloudWatchClient } }
      -- writeBytesClientCacheLock.Unlock(); return cloudWatchClient, nil
      match s3.vars.writeBytesClientCacheLock.Unlock with
      | none => Outcome.fatal s3
      | some free =>
        Outcome.returned (cloudWatchClient, none)
          { s3 with vars := { s3.vars with writeBytesClientCacheLock := free } }

end ECS

/-! ## Package EKS -/

namespace EKS

/-- Package-level variables of `node_uptime_panel_handler.go` and
`allocatable_cpu_panel_handler.go`. -/
structure Vars where
  nodeUptimeAuthCache : SyncMap AuthPtr
  nodeUptimeClientCache : SyncMap CloudWatchPtr
  nodeUptimeAuthCacheLock : RWMutex
  nodeUptimeClientCacheLock : RWMutex
  allocatableCPUAuthCache : SyncMap AuthPtr
  allocatableCPUClientCache : SyncMap CloudWatchPtr
  allocatableCPUAuthCacheLock : RWMutex
  allocatableCPUClientCacheLock : RWMutex
deriving DecidableEq, Repr

/-- Zero values at process start. -/
def Vars.init : Vars :=
  ⟨SyncMap.empty, SyncMap.empty, RWMutex.zero, RWMutex.zero,
   SyncMap.empty, SyncMap.empty, RWMutex.zero, RWMutex.zero⟩

/-- The package as seen by its resolvers. -/
structure State where
  trace : List Call
  vars : Vars
deriving DecidableEq, Repr

/-- Process start. -/
def State.init : State := ⟨[], Vars.init⟩

/-- `nodeUptimeAuthenticateAndCache(commandParam)`. -/
def nodeUptimeAuthenticateAndCache (env : Collaborators) (commandParam : CommandParam)
    (s : State) : Outcome State (AuthPtr × GoError) :=
  let cacheKey := commandParam.CloudElementId
  -- nodeUptimeAuthCacheLock.Lock()
  match s.vars.nodeUptimeAuthCacheLock.Lock with
  | none => Outcome.blocked s
  | some held =>
    let s1 : State := { s with vars := { s.vars with nodeUptimeAuthCacheLock := held } }
    let body : (AuthPtr × GoError) × State :=
      match s1.vars.nodeUptimeAuthCache.Load cacheKey with
      | some auth => ((auth, none), s1)
      | none =>
        let r := env.DoAuthenticate s1.trace commandParam
        let s2 : State := { s1 with trace := s1.trace ++ [Call.DoAuthenticate commandParam] }
        match r.2.2 with
        | some err => ((none, some err), s2)
        | none =>
          ((r.2.1, none),
            { s2 with vars := { s2.vars with
                nodeUptimeAuthCache := s2.vars.nodeUptimeAuthCache.Store cacheKey r.2.1 } })
    -- defer nodeUptimeAuthCacheLock.Unlock()
    match body.2.vars.nodeUptimeAuthCacheLock.Unlock with
    | none => Outcome.fatal body.2
    | some free =>
      Outcome.returned body.1
        { body.2 with vars := { body.2.vars with nodeUptimeAuthCacheLock := free } }

end EKS

/-! ## Package RDS -/

namespace RDS

/-- Package-level variables of `network_receive_throughput_panel_handler.go`. -/
structure Vars where
  authCachenr : SyncMap AuthPtr
  clientCachenr : SyncMap CloudWatchPtr
  authCacheLocknr : RWMutex
  clientCacheLocknr : RWMutex
deriving DecidableEq, Repr

/-- Zero values at process start. -/
def Vars.init : Vars := ⟨SyncMap.empty, SyncMap.empty, RWMutex.zero, RWMutex.zero⟩

/-- The package as seen by its resolvers. -/
structure State where
  trace : List Call
  vars : Vars
deriving DecidableEq, Repr

/-- Process start. -/
def State.init : State := ⟨[], Vars.init⟩

/-- `authenticateAndCachenr(commandParam)`. -/
def authenticateAndCachenr (env : Collaborators) (commandParam : CommandParam)
    (s : State) : Outcome State (AuthPtr × GoError) :=
  let cacheKey := commandParam.CloudElementId
  -- authCacheLocknr.Lock()
  match s.vars.authCacheLocknr.Lock with
  | none => Outcome.blocked s
  | some held =>
    let s1 : State := { s with vars := { s.vars with authCacheLocknr := held } }
    let body : (AuthPtr × GoError) × State :=
      match s1.vars.authCachenr.Load cacheKey with
      | some auth => ((auth, none), s1)
      | none =>
        let r := env.DoAuthenticate s1.trace commandParam
        let s2 : State := { s1 with trace := s1.trace ++ [Call.DoAuthenticate commandParam] }
        match r.2.2 with
        | some err => ((none, some err), s2)
        | none =>
          ((r.2.1, none),
            { s2 with vars := { s2.vars with
                authCachenr := s2.vars.authCachenr.Store cacheKey r.2.1 } })
    -- defer authCacheLocknr.Unlock()
    match body.2.vars.authCacheLocknr.Unlock with
    | none => Outcome.fatal body.2
    | some free =>
      Outcome.returned body.1
        { body.2 with vars := { body.2.vars with authCacheLocknr := free } }

/-- `cloudwatchClientCachenr(clientAuth)`. -/
def cloudwatchClientCachenr (env : Collaborators) (clientAuth : Auth)
    (s : State) : Outcome State (CloudWatchPtr × GoError) :=
  let cacheKey := clientAuth.CrossAccountRoleArn
  -- clientCacheLocknr.Lock()
  match s.vars.clientCacheLocknr.Lock with
  | none => Outcome.blocked s
  | some held =>
    let s1 : State := { s with vars := { s.vars with clientCacheLocknr := held } }
    let body : (CloudWatchPtr × GoError) × State :=
      match s1.vars.clientCachenr.Load cacheKey with
      | some client => ((client, none), s1)
      | none =>
        let cloudWatchClient := env.GetClient s1.trace clientAuth ServiceKind.CLOUDWATCH
        let s2 : State :=
          { s1 with trace := s1.trace ++ [Call.GetClient clientAuth ServiceKind.CLOUDWATCH] }
        ((cloudWatchClient, none),
          { s2 with vars := { s2.vars with
              clientCachenr := s2.vars.clientCachenr.Store cacheKey cloudWatchClient } })
    -- defer clientCacheLocknr.Unlock()
    match body.2.vars.clientCacheLocknr.Unlock with
    | none => Outcome.fatal body.2
    | some free =>
      Outcome.returned body.1
        { body.2 with vars := { body.2.vars with clientCacheLocknr := free } }

end RDS

/-! ## Sequential composition of resolutions -/

/-- Run `f` on each argument in turn, each call starting in the state the previous one left
behind; stops at the first call that does not return. -/
def runSeq {σ α β : Type} (f : α → σ → Outcome σ β) : List α → σ → Outcome σ (List β)
  | [], s => Outcome.returned [] s
  | a :: as, s =>
    match f a s with
    | Outcome.returned r s1 =>
      match runSeq f as s1 with
      | Outcome.returned rs s2 => Outcome.returned (r :: rs) s2
      | Outcome.blocked s2 => Outcome.blocked s2
      | Outcome.fatal s2 => Outcome.fatal s2
    | Outcome.blocked s1 => Outcome.blocked s1
    | Outcome.fatal s1 => Outcome.fatal s1

/-! ## Goroutines running authenticateAndCache4XX concurrently

Each goroutine executes the statements of `authenticateAndCache4XX` one at a time on the
shared package state; a schedule picks which goroutine moves next. A goroutine whose
`Lock()` finds the mutex held does not move. -/

namespace ApiGateway

/-- Where a goroutine that executes `authenticateAndCache4XX` stands. -/
inductive Pc where
  /-- Before `authCacheLock4XX.Lock()`. -/
  | start
  /-- The lock is acquired (and its release deferred); before `authCache4XX.Load`. -/
  | locked
  /-- `Load` found nothing; before `authenticate.DoAuthenticate`. -/
  | miss
  /-- `DoAuthenticate` returned `r`; before the test of `err` and the `Store`. -/
  | authenticated (r : Bool × AuthPtr × GoError)
  /-- The return value is fixed; the deferred `Unlock()` is pending. -/
  | returning (result : AuthPtr × GoError)
  /-- The function returned `result`. -/
  | done (result : AuthPtr × GoError)
  /-- The deferred `Unlock()` found the mutex not locked: the runtime aborted. -/
  | fatal
deriving DecidableEq, Repr

/-- One statement of `authenticateAndCache4XX(commandParam)` executed at `pc` on the shared
state `s`. -/
def stepAuthenticateAndCache4XX (env : Collaborators) (commandParam : CommandParam)
    (s : State) : Pc → State × Pc
  | Pc.start =>
    match s.vars.authCacheLock4XX.Lock with
    | none => (s, Pc.start)
    | some held => ({ s with vars := { s.vars with authCacheLock4XX := held } }, Pc.locked)
  | Pc.locked =>
    match s.vars.authCache4XX.Load commandParam.CloudElementId with
    | some auth => (s, Pc.returning (auth, none))
    | none => (s, Pc.miss)
  | Pc.miss =>
    ({ s with trace := s.trace ++ [Call.DoAuthenticate commandParam] },
      Pc.authenticated (env.DoAuthenticate s.trace commandParam))
  | Pc.authenticated r =>
    match r.2.2 with
    | some err => (s, Pc.returning (none, some err))
    | none =>
      ({ s with vars := { s.vars with
          authCache4XX := s.vars.authCache4XX.Store commandParam.CloudElementId r.2.1 } },
        Pc.returning (r.2.1, none))
  | Pc.returning result =>
    match s.vars.authCacheLock4XX.Unlock with
    | none => (s, Pc.fatal)
    | some free => ({ s with vars := { s.vars with authCacheLock4XX := free } }, Pc.done result)
  | Pc.done result => (s, Pc.done result)
  | Pc.fatal => (s, Pc.fatal)

/-- A goroutine: the descriptor it resolves and where it stands. -/
structure Goroutine where
  commandParam : CommandParam
  pc : Pc
deriving DecidableEq, Repr

/-- The shared package state and the goroutines working on it. -/
structure Config where
  shared : State
  goroutines : List Goroutine
deriving DecidableEq, Repr

namespace Config

/-- `N` callers about to enter `authenticateAndCache4XX`, one per descriptor. -/
def start (s : State) (ps : List CommandParam) : Config :=
  ⟨s, ps.map (fun p => ⟨p, Pc.start⟩)⟩

/-- Goroutine `i` executes its next statement (nothing happens when there is no such
goroutine). -/
def step (env : Collaborators) (c : Config) (i : Nat) : Config :=
  match c.goroutines[i]? with
  | none => c
  | some g =>
    let r := stepAuthenticateAndCache4XX env g.commandParam c.shared g.pc
    ⟨r.1, c.goroutines.set i ⟨g.commandParam, r.2⟩⟩

/-- The goroutines move in the order given by the schedule. -/
def run (env : Collaborators) (c : Config) (schedule : List Nat) : Config :=
  schedule.foldl (step env) c

/-- Every caller has returned. -/
def allDone (c : Config) : Bool :=
  c.goroutines.all (fun g => match g.pc with
    | Pc.done _ => true
    | _ => false)

end Config

/-- Statements a goroutine at `pc` still has to execute at most before it has returned. -/
def Pc.fuel : Pc → Nat
  | Pc.start => 5
  | Pc.locked => 4
  | Pc.miss => 3
  | Pc.authenticated _ => 2
  | Pc.returning _ => 1
  | Pc.done _ => 0
  | Pc.fatal => 0

/-- The goroutine holds the lock. -/
def Pc.active : Pc → Bool
  | Pc.locked => true
  | Pc.miss => true
  | Pc.authenticated _ => true
  | Pc.returning _ => true
  | _ => false

/-- A goroutine running alone: `n` statements from `pc`. -/
def stepsAuthenticateAndCache4XX (env : Collaborators) (commandParam : CommandParam) :
    Nat → State × Pc → State × Pc
  | 0, x => x
  | n + 1, x =>
    stepsAuthenticateAndCache4XX env commandParam n
      (stepAuthenticateAndCache4XX env commandParam x.1 x.2)

end ApiGateway

/-! ## Invariant of the concurrent executions -/

namespace ApiGateway

/-- What the position of a goroutine says about the shared state, for resolutions of key `k`
started at call history `t0`. -/
def Ok (env : Collaborators) (k : String) (t0 : List Call) (s : State) (g : Goroutine) : Prop :=
  match g.pc with
  | Pc.start => True
  | Pc.locked => True
  | Pc.miss => s.vars.authCache4XX.Load k = none ∧ s.trace = t0
  | Pc.authenticated r =>
    s.vars.authCache4XX.Load k = none ∧
    s.trace = t0 ++ [Call.DoAuthenticate g.commandParam] ∧
    r = env.DoAuthenticate t0 g.commandParam
  | Pc.returning result => ∃ v, s.vars.authCache4XX.Load k = some v ∧ result = (v, none)
  | Pc.done result => ∃ v, s.vars.authCache4XX.Load k = some v ∧ result = (v, none)
  | Pc.fatal => False

/-- Invariant of every configuration reached by goroutines that resolve key `k` from call
history `t0`, when `DoAuthenticate` succeeds at `t0` for each of their descriptors: `h` is the
goroutine that holds the lock, if any. -/
structure InvH (env : Collaborators) (k : String) (t0 : List Call) (h : Option Nat)
    (c : Config) : Prop where
  lock : c.shared.vars.authCacheLock4XX.locked = h.isSome
  holder : ∀ i, h = some i → i < c.goroutines.length
  each : ∀ (i : Nat) (g : Goroutine), c.goroutines[i]? = some g →
    g.commandParam.CloudElementId = k ∧
    (env.DoAuthenticate t0 g.commandParam).2.2 = none ∧
    (g.pc.active = true ↔ h = some i) ∧
    Ok env k t0 c.shared g
  cached : ∀ v, c.shared.vars.authCache4XX.Load k = some v →
    ∃ p, c.shared.trace = t0 ++ [Call.DoAuthenticate p] ∧ v = (env.DoAuthenticate t0 p).2.1
  absent : c.shared.vars.authCache4XX.Load k = none →
    c.shared.trace = t0 ∨
      ∃ (i : Nat) (g : Goroutine) (r : Bool × AuthPtr × GoError),
        c.goroutines[i]? = some g ∧ g.pc = Pc.authenticated r

/-- Statements still to execute, summed over the goroutines. -/
def totalFuel (gs : List Goroutine) : Nat :=
  (gs.map (fun g => g.pc.fuel)).sum

end ApiGateway

/-! ## Sample collaborators and descriptors -/

/-- A sample pair of collaborators: authentication fails when the descriptor has no region
and otherwise yields credentials built from the descriptor; every client build yields a
fresh client numbered by the length of the call history. -/
def sampleEnv : Collaborators where
  DoAuthenticate := fun _ p =>
    if p.Region = "" then (false, none, some "region missing")
    else (true, some ⟨p.CrossAccountRoleArn, p.CloudElementId⟩, none)
  GetClient := fun t _ _ => some ⟨t.length⟩

/-- Sample descriptor of the delegated path: element `i-123` in `us-east-1`. -/
def sampleElement : CommandParam := ⟨"i-123", "http://cmdb", "us-east-1", "", ""⟩

/-- Same element, other region and lookup endpoint. -/
def sampleElementWest : CommandParam := ⟨"i-123", "http://cmdb2", "us-west-2", "", ""⟩

/-- Sample descriptor with an element id but no region: `sampleEnv` rejects it. -/
def sampleNoRegion : CommandParam := ⟨"i-123", "http://cmdb", "", "", ""⟩

/-- Sample descriptors of the cross-account path, for two different roles. -/
def sampleRoleA : CommandParam := ⟨"", "", "us-east-1", "arn:aws:iam::1:role/a", "ext-a"⟩

/-- Second cross-account descriptor. -/
def sampleRoleB : CommandParam := ⟨"", "", "eu-west-1", "arn:aws:iam::2:role/b", "ext-b"⟩

/-- Sample state: the 4XX credential cache holds an entry for element `i-999` only. -/
def sampleOtherCached : ApiGateway.State :=
  { ApiGateway.State.init with
    vars := { ApiGateway.Vars.init with
      authCache4XX := SyncMap.empty.Store "i-999" (some ⟨"arn:other", "i-999"⟩) } }

/-- Sample query of a request that names neither an element nor a role. -/
def sampleBareQuery : Values := ⟨[("zone", ["us-east-1"]), ("instanceId", ["i-1"])]⟩

/-! ## The HTTP response

The `http.ResponseWriter` of a request as explicit state: the header map the handler edits,
the status line once it has been sent (only the first `WriteHeader` takes effect, and a
`Write` before any `WriteHeader` sends status 200), the body bytes written, and the outcome of
each `Write` call still to come (a write fails when the connection is gone). -/

/-- State of an `http.ResponseWriter`. -/
structure ResponseWriter where
  /-- The header map returned by `w.Header()`. -/
  header : List (String × String)
  /-- The status code sent, with the header map as it stood at that moment. -/
  wroteHeader : Option (Nat × List (String × String))
  /-- The body bytes written so far. -/
  body : String
  /-- Outcomes of the coming `Write` calls, in order; once exhausted, writes succeed. -/
  writeErrs : List GoError
deriving DecidableEq, Repr

/-- `h.Set(key, value)` on a header map: replaces the value of the key or adds the key. -/
def headerSet : List (String × String) → String → String → List (String × String)
  | [], key, value => [(key, value)]
  | (k, v) :: rest, key, value =>
    if k == key then (key, value) :: rest else (k, v) :: headerSet rest key value

/-- `h.Get(key)` on a header map: the value of the key, or the empty string. -/
def headerGet (h : List (String × String)) (key : String) : String :=
  match h.find? (fun e => e.1 == key) with
  | some (_, value) => value
  | none => ""

namespace ResponseWriter

/-- The writer a handler receives: nothing set, nothing sent. -/
def fresh (writeErrs : List GoError) : ResponseWriter := ⟨[], none, "", writeErrs⟩

/-- `w.Header().Set(key, value)`. -/
def HeaderSet (w : ResponseWriter) (key value : String) : ResponseWriter :=
  { w with header := headerSet w.header key value }

/-- `w.WriteHeader(statusCode)`: sends the status line and the current header map; a second
call has no effect on the response. -/
def WriteHeader (w : ResponseWriter) (statusCode : Nat) : ResponseWriter :=
  match w.wroteHeader with
  | some _ => w
  | none => { w with wroteHeader := some (statusCode, w.header) }

/-- `w.Write(data)`: sends status 200 first when no status was sent yet, then appends the data
to the body, or fails with the next scripted error and appends nothing. Returns the error. -/
def Write (w : ResponseWriter) (data : String) : GoError × ResponseWriter :=
  let w1 := w.WriteHeader 200
  match w1.writeErrs with
  | [] => (none, { w1 with body := w1.body ++ data })
  | none :: rest => (none, { w1 with body := w1.body ++ data, writeErrs := rest })
  | some err :: rest => (some err, { w1 with writeErrs := rest })

/-- The status code of the response, once sent. -/
def status (w : ResponseWriter) : Option Nat := w.wroteHeader.map (fun x => x.1)

/-- The `Content-Type` header as it was sent with the status line. -/
def sentContentType (w : ResponseWriter) : Option String :=
  w.wroteHeader.map (fun x => headerGet x.2 "Content-Type")

end ResponseWriter

namespace http

/-- `http.Error(w, error, code)` of `net/http`: sets `Content-Type: text/plain; charset=utf-8`
and `X-Content-Type-Options: nosniff`, writes the status code and prints the message followed
by a newline (`fmt.Fprintln`), ignoring the result of that write. -/
def Error (w : ResponseWriter) (error : String) (code : Nat) : ResponseWriter :=
  let w1 := w.HeaderSet "Content-Type" "text/plain; charset=utf-8"
  let w2 := w1.HeaderSet "X-Content-Type-Options" "nosniff"
  let w3 := w2.WriteHeader code
  (w3.Write (error ++ "\n")).2

/-- `http.StatusOK`. -/
def StatusOK : Nat := 200

/-- `http.StatusInternalServerError`. -/
def StatusInternalServerError : Nat := 500

end http

namespace json

/-- `json.NewEncoder(w).Encode(v)`, given what `json.Marshal(v)` yields: a marshalling error is
returned and nothing is written; otherwise the encoding followed by a newline is written and
the result of that write is returned. -/
def Encode (w : ResponseWriter) (marshalled : Except String String) : GoError × ResponseWriter :=
  match marshalled with
  | Except.error err => (some err, w)
  | Except.ok text => w.Write (text ++ "\n")

end json

/-! ## Handlers: how they end, what they pass to the metric collaborators -/

/-- How the call of a handler ends. -/
inductive Ending where
  /-- The handler returned. -/
  | returned
  /-- The handler waits in `Lock()` on a mutex nobody will release. -/
  | blocked
  /-- The runtime aborted the process (`Unlock()` of an unlocked mutex). -/
  | fatal
  /-- The handler panicked (nil pointer dereference); `net/http` recovers the panic and
  drops the connection. -/
  | panicked
deriving DecidableEq, Repr

/-- What a handler call leaves behind: how it ended, the package state, the response, and how
often it invoked the panel's metric collaborator. -/
structure Served (σ : Type) where
  ending : Ending
  state : σ
  w : ResponseWriter
  fetches : Nat
deriving DecidableEq, Repr

/-- The flags a panel handler registers on the `cobra.Command` it hands to the metric
collaborator, each with the request's value. -/
structure PanelFlags where
  elementId : String
  instanceId : String
  elementType : String
  startTime : String
  endTime : String
  responseType : String
deriving DecidableEq, Repr

/-- The series a metric collaborator returns next to its document (a value of a type of the
`awsx-getelementdetails` library), identified by a handle. -/
structure MetricData where
  handle : Nat
deriving DecidableEq, Repr

/-- The series as the handlers hold it: `none` is the nil value. -/
abbrev MetricDataPtr := Option MetricData

/-- A metric collaborator of a CloudWatch panel, `(cmd, clientAuth, cloudwatchClient) ↦
(jsonString, cloudwatchMetricData, err)`. -/
abbrev PanelFetch := PanelFlags → Auth → CloudWatchPtr → String × MetricDataPtr × GoError

/-- A `time.Time`, identified by its RFC 3339 text. -/
structure Time where
  rfc3339 : String
deriving DecidableEq, Repr

/-- Zero value `time.Time{}`. -/
def Time.zero : Time := ⟨"0001-01-01T00:00:00Z"⟩

/-- A `float64`, identified by the decimal text Go prints for it. -/
structure Float64 where
  text : String
deriving DecidableEq, Repr

/-- Zero value of `float64`. -/
def Float64.zero : Float64 := ⟨"0"⟩

/-- The element type of `RawData`: `struct { Timestamp time.Time; Value float64 }`. -/
structure DataPoint where
  Timestamp : Time
  Value : Float64
deriving DecidableEq, Repr

namespace ApiGateway

/-- The statements of `Get4XXErrorsPanel` after `ApiGateway.GetApi4xxErrorData` has returned
`(jsonString, _, err)`. -/
def Get4XXErrorsPanel_respond (jsonString : String) (err : GoError) (w : ResponseWriter) :
    ResponseWriter :=
  match err with
  | some e => http.Error w ("Exception: " ++ e) http.StatusInternalServerError
  | none =>
    -- Set Content-Type header and write the JSON response
    let w1 := w.HeaderSet "Content-Type" "application/json"
    match w1.Write jsonString with
    | (some e, w2) => http.Error w2 ("Exception: " ++ e) http.StatusInternalServerError
    | (none, w2) => w2

/-- `Get4XXErrorsPanel(w, r)`, with `query = r.URL.Query()`. -/
def Get4XXErrorsPanel (env : Collaborators) (GetApi4xxErrorData : PanelFetch)
    (query : Values) (s : State) (w : ResponseWriter) : Served State :=
  let w0 := w.HeaderSet "Content-Type" "application/json"
  let flags : PanelFlags :=
    ⟨query.Get "elementId", query.Get "instanceId", query.Get "elementType",
     query.Get "startTime", query.Get "endTime", query.Get "responseType"⟩
  let commandParam := Get4XXErrorsPanel_commandParam query
  match authenticateAndCache4XX env commandParam s with
  | Outcome.blocked s1 => ⟨Ending.blocked, s1, w0, 0⟩
  | Outcome.fatal s1 => ⟨Ending.fatal, s1, w0, 0⟩
  | Outcome.returned (_, some err) s1 =>
    ⟨Ending.returned, s1,
      http.Error w0 ("Authentication failed: " ++ err) http.StatusInternalServerError, 0⟩
  | Outcome.returned (none, none) s1 =>
    -- `*clientAuth` with a nil pointer
    ⟨Ending.panicked, s1, w0, 0⟩
  | Outcome.returned (some clientAuth, none) s1 =>
    match cloudwatchClientCache4XX env clientAuth s1 with
    | Outcome.blocked s2 => ⟨Ending.blocked, s2, w0, 0⟩
    | Outcome.fatal s2 => ⟨Ending.fatal, s2, w0, 0⟩
    | Outcome.returned (_, some err) s2 =>
      ⟨Ending.returned, s2,
        http.Error w0 ("Cloudwatch client creation/store in cache failed: " ++ err)
          http.StatusInternalServerError, 0⟩
    | Outcome.returned (cloudwatchClient, none) s2 =>
      -- `if clientAuth != nil`: the pointer was dereferenced above, so it is not nil
      let r := GetApi4xxErrorData flags clientAuth cloudwatchClient
      ⟨Ending.returned, s2, Get4XXErrorsPanel_respond r.1 r.2.2 w0, 1⟩

end ApiGateway

namespace ECS

/-- The typed structure `WriteBytes`: `RawData` is a slice, `none` being the nil slice. -/
structure WriteBytes where
  RawData : Option (List DataPoint)
deriving DecidableEq, Repr

/-- The functions of `encoding/json` that `GetECSWriteBytesPanel` calls, at the types it calls
them with. -/
structure JSON where
  /-- `json.Marshal(cloudwatchMetricData)`, as used by `json.NewEncoder(w).Encode`. -/
  MarshalMetricData : MetricDataPtr → Except String String
  /-- `json.Unmarshal([]byte(jsonString), &data)` with `var data WriteBytes`. -/
  UnmarshalWriteBytes : String → Except String WriteBytes
  /-- `json.Marshal(data)` with `data` of type `WriteBytes`. -/
  MarshalWriteBytes : WriteBytes → Except String String

/-- The identity descriptor that `GetECSWriteBytesPanel` builds from `r.URL.Query()`. -/
def GetECSWriteBytesPanel_commandParam (query : Values) : CommandParam :=
  let region := query.Get "zone"
  let elementId := query.Get "elementId"
  let elementApiUrl := query.Get "cmdbApiUrl"
  let crossAccountRoleArn := query.Get "crossAccountRoleArn"
  let externalId := query.Get "externalId"
  let commandParam := CommandParam.zero
  if elementId ≠ "" then
    { commandParam with
        CloudElementId := elementId, CloudElementApiUrl := elementApiUrl, Region := region }
  else
    { commandParam with
        CrossAccountRoleArn := crossAccountRoleArn, ExternalId := externalId, Region := region }

/-- The statements of `GetECSWriteBytesPanel` after `ECS.GetECSWriteBytesPanel` has returned
`(jsonString, cloudwatchMetricData, err)`. -/
def GetECSWriteBytesPanel_respond (lib : JSON) (responseType : String) (jsonString : String)
    (cloudwatchMetricData : MetricDataPtr) (err : GoError) (w : ResponseWriter) :
    ResponseWriter :=
  match err with
  | some e => http.Error w ("Exception: " ++ e) http.StatusInternalServerError
  | none =>
    if responseType = "frame" then
      match json.Encode w (lib.MarshalMetricData cloudwatchMetricData) with
      | (some e, w1) => http.Error w1 ("Exception: " ++ e ++ " ") http.StatusInternalServerError
      | (none, w1) => w1
    else
      match lib.UnmarshalWriteBytes jsonString with
      | Except.error e => http.Error w ("Exception: " ++ e) http.StatusInternalServerError
      | Except.ok data =>
        match lib.MarshalWriteBytes data with
        | Except.error e => http.Error w ("Exception: " ++ e) http.StatusInternalServerError
        | Except.ok jsonBytes =>
          let w1 := w.HeaderSet "Content-Type" "application/json"
          match w1.Write jsonBytes with
          | (some e, w2) => http.Error w2 ("Exception: " ++ e) http.StatusInternalServerError
          | (none, w2) => w2

/-- `GetECSWriteBytesPanel(w, r)`, with `query = r.URL.Query()`. -/
def GetECSWriteBytesPanel (env : Collaborators) (lib : JSON) (fetch : PanelFetch)
    (query : Values) (s : State) (w : ResponseWriter) : Served State :=
  let w0 := w.HeaderSet "Content-Type" "application/json"
  let responseType := query.Get "responseType"
  let flags : PanelFlags :=
    ⟨query.Get "elementId", query.Get "instanceId", query.Get "elementType",
     query.Get "startTime", query.Get "endTime", responseType⟩
  let commandParam := GetECSWriteBytesPanel_commandParam query
  match writeBytesAuthenticateAndCache env commandParam s with
  | Outcome.blocked s1 => ⟨Ending.blocked, s1, w0, 0⟩
  | Outcome.fatal s1 => ⟨Ending.fatal, s1, w0, 0⟩
  | Outcome.returned (_, some err) s1 =>
    ⟨Ending.returned, s1,
      http.Error w0 ("Authentication failed: " ++ err) http.StatusInternalServerError, 0⟩
  | Outcome.returned (none, none) s1 =>
    -- `*clientAuth` with a nil pointer
    ⟨Ending.panicked, s1, w0, 0⟩
  | Outcome.returned (some clientAuth, none) s1 =>
    match writeBytesCloudwatchClientCache env clientAuth s1 with
    | Outcome.blocked s2 => ⟨Ending.blocked, s2, w0, 0⟩
    | Outcome.fatal s2 => ⟨Ending.fatal, s2, w0, 0⟩
    | Outcome.returned (_, some err) s2 =>
      ⟨Ending.returned, s2,
        http.Error w0 ("Cloudwatch client creation/store in cache failed: " ++ err)
          http.StatusInternalServerError, 0⟩
    | Outcome.returned (cloudwatchClient, none) s2 =>
      let r := fetch flags clientAuth cloudwatchClient
      ⟨Ending.returned, s2,
        GetECSWriteBytesPanel_respond lib responseType r.1 r.2.1 r.2.2 w0, 1⟩

end ECS

namespace RDS

/-- The typed structure `NetworkReceiveThroughput`. -/
structure NetworkReceiveThroughput where
  Timestamp : Time
  Value : Float64
deriving DecidableEq, Repr

/-- The functions of `encoding/json` that `GetNetworkReceiveThroughputPanel` calls, at the
types it calls them with. -/
structure JSON where
  /-- `json.Marshal(cloudwatchMetricData)`, as used by `json.NewEncoder(w).Encode`. -/
  MarshalMetricData : MetricDataPtr → Except String String
  /-- `json.Unmarshal([]byte(jsonString), &data)` with `var data NetworkReceiveThroughput`. -/
  UnmarshalNetworkReceiveThroughput : String → Except String NetworkReceiveThroughput
  /-- `json.Marshal(data)` with `data` of type `NetworkReceiveThroughput`. -/
  MarshalNetworkReceiveThroughput : NetworkReceiveThroughput → Except String String

/-- The identity descriptor that `GetNetworkReceiveThroughputPanel` builds from
`r.URL.Query()`. -/
def GetNetworkReceiveThroughputPanel_commandParam (query : Values) : CommandParam :=
  let region := query.Get "zone"
  let elementId := query.Get "elementId"
  let elementApiUrl := query.Get "cmdbApiUrl"
  let crossAccountRoleArn := query.Get "crossAccountRoleArn"
  let externalId := query.Get "externalId"
  let commandParam := CommandParam.zero
  if elementId ≠ "" then
    { commandParam with
        CloudElementId := elementId, CloudElementApiUrl := elementApiUrl, Region := region }
  else
    { commandParam with
        CrossAccountRoleArn := crossAccountRoleArn, ExternalId := externalId, Region := region }

/-- The statements of `GetNetworkReceiveThroughputPanel` after
`RDS.GetRDSNetworkReceiveThroughputPanel` has returned
`(jsonString, cloudwatchMetricData, err)`. -/
def GetNetworkReceiveThroughputPanel_respond (lib : JSON) (responseType : String)
    (jsonString : String) (cloudwatchMetricData : MetricDataPtr) (err : GoError)
    (w : ResponseWriter) : ResponseWriter :=
  match err with
  | some e => http.Error w ("Exception: " ++ e) http.StatusInternalServerError
  | none =>
    if responseType = "frame" then
      match json.Encode w (lib.MarshalMetricData cloudwatchMetricData) with
      | (some e, w1) => http.Error w1 ("Exception: " ++ e) http.StatusInternalServerError
      | (none, w1) => w1
    else
      match lib.UnmarshalNetworkReceiveThroughput jsonString with
      | Except.error e => http.Error w ("Exception: " ++ e) http.StatusInternalServerError
      | Except.ok data =>
        -- Marshal the struct back to JSON
        match lib.MarshalNetworkReceiveThroughput data with
        | Except.error e => http.Error w ("Exception: " ++ e) http.StatusInternalServerError
        | Except.ok jsonBytes =>
          -- Set Content-Type header and write the JSON response
          let w1 := w.HeaderSet "Content-Type" "application/json"
          match w1.Write jsonBytes with
          | (some e, w2) => http.Error w2 ("Exception: " ++ e) http.StatusInternalServerError
          | (none, w2) => w2

/-- `GetNetworkReceiveThroughputPanel(w, r)`, with `query = r.URL.Query()`. -/
def GetNetworkReceiveThroughputPanel (env : Collaborators) (lib : JSON) (fetch : PanelFetch)
    (query : Values) (s : State) (w : ResponseWriter) : Served State :=
  let w0 := w.HeaderSet "Content-Type" "application/json"
  let responseType := query.Get "responseType"
  let flags : PanelFlags :=
    ⟨query.Get "elementId", query.Get "instanceId", query.Get "elementType",
     query.Get "startTime", query.Get "endTime", responseType⟩
  let commandParam := GetNetworkReceiveThroughputPanel_commandParam query
  match authenticateAndCachenr env commandParam s with
  | Outcome.blocked s1 => ⟨Ending.blocked, s1, w0, 0⟩
  | Outcome.fatal s1 => ⟨Ending.fatal, s1, w0, 0⟩
  | Outcome.returned (_, some err) s1 =>
    ⟨Ending.returned, s1,
      http.Error w0 ("Authentication failed: " ++ err) http.StatusInternalServerError, 0⟩
  | Outcome.returned (none, none) s1 =>
    -- `*clientAuth` with a nil pointer
    ⟨Ending.panicked, s1, w0, 0⟩
  | Outcome.returned (some clientAuth, none) s1 =>
    match cloudwatchClientCachenr env clientAuth s1 with
    | Outcome.blocked s2 => ⟨Ending.blocked, s2, w0, 0⟩
    | Outcome.fatal s2 => ⟨Ending.fatal, s2, w0, 0⟩
    | Outcome.returned (_, some err) s2 =>
      ⟨Ending.returned, s2,
        http.Error w0 ("Cloudwatch client creation/store in cache failed: " ++ err)
          http.StatusInternalServerError, 0⟩
    | Outcome.returned (cloudwatchClient, none) s2 =>
      let r := fetch flags clientAuth cloudwatchClient
      ⟨Ending.returned, s2,
        GetNetworkReceiveThroughputPanel_respond lib responseType r.1 r.2.1 r.2.2 w0, 1⟩

end RDS

namespace EKS

/-- `nodeUptimeCloudwatchClientCache(clientAuth)`. -/
def nodeUptimeCloudwatchClientCache (env : Collaborators) (clientAuth : Auth)
    (s : State) : Outcome State (CloudWatchPtr × GoError) :=
  let cacheKey := clientAuth.CrossAccountRoleArn
  -- nodeUptimeClientCacheLock.Lock()
  match s.vars.nodeUptimeClientCacheLock.Lock with
  | none => Outcome.blocked s
  | some held =>
    let s1 : State := { s with vars := { s.vars with nodeUptimeClientCacheLock := held } }
    let body : (CloudWatchPtr × GoError) × State :=
      match s1.vars.nodeUptimeClientCache.Load cacheKey with
      | some client => ((client, none), s1)
      | none =>
        let cloudWatchClient := env.GetClient s1.trace clientAuth ServiceKind.CLOUDWATCH
        let s2 : State :=
          { s1 with trace := s1.trace ++ [Call.GetClient clientAuth ServiceKind.CLOUDWATCH] }
        ((cloudWatchClient, none),
          { s2 with vars := { s2.vars with
              nodeUptimeClientCache :=
                s2.vars.nodeUptimeClientCache.Store cacheKey cloudWatchClient } })
    -- defer nodeUptimeClientCacheLock.Unlock()
    match body.2.vars.nodeUptimeClientCacheLock.Unlock with
    | none => Outcome.fatal body.2
    | some free =>
      Outcome.returned body.1
        { body.2 with vars := { body.2.vars with nodeUptimeClientCacheLock := free } }

/-- The identity descriptor that `NodeUptimePanelHandler` builds from `r.URL.Query()`; the
lookup endpoint is read from `elementApiUrl`. -/
def NodeUptimePanelHandler_commandParam (query : Values) : CommandParam :=
  let region := query.Get "zone"
  let elementID := query.Get "elementId"
  let elementAPIURL := query.Get "elementApiUrl"
  let crossAccountRoleArn := query.Get "crossAccountRoleArn"
  let externalID := query.Get "externalId"
  let commandParam := CommandParam.zero
  if elementID ≠ "" then
    { commandParam with
        CloudElementId := elementID, CloudElementApiUrl := elementAPIURL, Region := region }
  else
    { commandParam with
        CrossAccountRoleArn := crossAccountRoleArn, ExternalId := externalID, Region := region }

/-- The statements of `NodeUptimePanelHandler` after `EKS.GetNodeUptimePanel` has returned
`(jsonString, nodeUptimeData, err)`; `MarshalNodeUptimeData` is `json.Marshal` at the type of
`nodeUptimeData`. -/
def NodeUptimePanelHandler_respond (MarshalNodeUptimeData : MetricDataPtr → Except String String)
    (responseType : String) (jsonString : String) (nodeUptimeData : MetricDataPtr)
    (err : GoError) (w : ResponseWriter) : ResponseWriter :=
  match err with
  | some e => http.Error w ("Exception: " ++ e) http.StatusInternalServerError
  | none =>
    if responseType = "frame" then
      -- Handle frame response
      match json.Encode w (MarshalNodeUptimeData nodeUptimeData) with
      | (some e, w1) => http.Error w1 ("Exception: " ++ e) http.StatusInternalServerError
      | (none, w1) => w1
    else
      -- Handle JSON response
      let w1 := w.HeaderSet "Content-Type" "application/json"
      match w1.Write jsonString with
      | (some e, w2) => http.Error w2 ("Exception: " ++ e) http.StatusInternalServerError
      | (none, w2) => w2

/-- `NodeUptimePanelHandler(w, r)`, with `query = r.URL.Query()`. -/
def NodeUptimePanelHandler (env : Collaborators)
    (MarshalNodeUptimeData : MetricDataPtr → Except String String) (fetch : PanelFetch)
    (query : Values) (s : State) (w : ResponseWriter) : Served State :=
  let w0 := w.HeaderSet "Content-Type" "application/json"
  let responseType := query.Get "responseType"
  let flags : PanelFlags :=
    ⟨query.Get "elementId", query.Get "instanceId", query.Get "elementType",
     query.Get "startTime", query.Get "endTime", responseType⟩
  let commandParam := NodeUptimePanelHandler_commandParam query
  -- Authenticate and get client authentication details
  match nodeUptimeAuthenticateAndCache env commandParam s with
  | Outcome.blocked s1 => ⟨Ending.blocked, s1, w0, 0⟩
  | Outcome.fatal s1 => ⟨Ending.fatal, s1, w0, 0⟩
  | Outcome.returned (_, some err) s1 =>
    ⟨Ending.returned, s1,
      http.Error w0 ("Authentication failed: " ++ err) http.StatusInternalServerError, 0⟩
  | Outcome.returned (none, none) s1 =>
    -- `*clientAuth` with a nil pointer
    ⟨Ending.panicked, s1, w0, 0⟩
  | Outcome.returned (some clientAuth, none) s1 =>
    -- Get CloudWatch client
    match nodeUptimeCloudwatchClientCache env clientAuth s1 with
    | Outcome.blocked s2 => ⟨Ending.blocked, s2, w0, 0⟩
    | Outcome.fatal s2 => ⟨Ending.fatal, s2, w0, 0⟩
    | Outcome.returned (_, some err) s2 =>
      ⟨Ending.returned, s2,
        http.Error w0 ("Cloudwatch client creation/store in cache failed: " ++ err)
          http.StatusInternalServerError, 0⟩
    | Outcome.returned (cloudwatchClient, none) s2 =>
      -- Get node uptime panel data
      let r := fetch flags clientAuth cloudwatchClient
      ⟨Ending.returned, s2,
        NodeUptimePanelHandler_respond MarshalNodeUptimeData responseType r.1 r.2.1 r.2.2 w0,
        1⟩

end EKS

/-! ## Package EC2 -/

namespace EC2

/-- Package-level variables of `instance_hours_stopped_panel.go` and
`instance_stop_count_panel.go`, together with the four variables of the instance-start panel
that the resolvers of the stop-count panel name (`authCacheInstanceStartPanel`,
`clientCacheInstanceStartPanel` and their locks; the start panel declares them alongside its
handler, with the same types as its siblings). -/
structure Vars where
  authCacheInstancehourStoppedPanel : SyncMap AuthPtr
  clientCacheInstancehourStoppedPanel : SyncMap CloudWatchPtr
  authCacheLockInstancehourStoppedPanel : RWMutex
  clientCacheLockInstancehourStoppedPanel : RWMutex
  authCacheInstanceStopPanel : SyncMap AuthPtr
  clientCacheInstanceStopPanel : SyncMap CloudWatchPtr
  authCacheLockInstanceStopPanel : RWMutex
  clientCacheLockInstanceStopPanel : RWMutex
  authCacheInstanceStartPanel : SyncMap AuthPtr
  clientCacheInstanceStartPanel : SyncMap CloudWatchPtr
  authCacheLockInstanceStartPanel : RWMutex
  clientCacheLockInstanceStartPanel : RWMutex
deriving DecidableEq, Repr

/-- Zero values at process start. -/
def Vars.init : Vars :=
  ⟨SyncMap.empty, SyncMap.empty, RWMutex.zero, RWMutex.zero,
   SyncMap.empty, SyncMap.empty, RWMutex.zero, RWMutex.zero,
   SyncMap.empty, SyncMap.empty, RWMutex.zero, RWMutex.zero⟩

/-- The package as seen by its resolvers. -/
structure State where
  trace : List Call
  vars : Vars
deriving DecidableEq, Repr

/-- Process start. -/
def State.init : State := ⟨[], Vars.init⟩

/-- The flags the EC2 log panels register on the `cobra.Command`. -/
structure LogsPanelFlags where
  elementId : String
  instanceId : String
  elementType : String
  startTime : String
  endTime : String
  responseType : String
  logGroupName : String
deriving DecidableEq, Repr

/-- The query results a log-metric collaborator returns
(`[]*cloudwatchlogs.GetQueryResultsOutput`), identified by a handle. -/
structure QueryResults where
  handle : Nat
deriving DecidableEq, Repr

/-- A log-metric collaborator, `(cmd, clientAuth, cloudWatchLogs) ↦ (cloudwatchMetricData,
err)`; `none` is the nil slice. The client is the one `GetClient` yields for
`CLOUDWATCH_LOG`. -/
abbrev LogsFetch := LogsPanelFlags → Auth → CloudWatchPtr → Option QueryResults × GoError

/-- The library functions the EC2 log panels call. -/
structure Lib where
  /-- `cmd.ParseFlags(nil)` of `cobra`, for the command with the given flags. -/
  ParseFlags : LogsPanelFlags → GoError
  /-- `json.Marshal(cloudwatchMetricData)` for a slice that is not nil. -/
  MarshalQueryResults : QueryResults → Except String String
  /-- `json.Marshal` of a `map[string]string`; it cannot fail. -/
  MarshalStringMap : List (String × String) → String

/-- `authenticateAndCacheInstanceHourStoppedPanel(commandParam)`. -/
def authenticateAndCacheInstanceHourStoppedPanel (env : Collaborators)
    (commandParam : CommandParam) (s : State) : Outcome State (AuthPtr × GoError) :=
  let cacheKey := commandParam.CloudElementId
  -- authCacheLockInstancehourStoppedPanel.Lock()
  match s.vars.authCacheLockInstancehourStoppedPanel.Lock with
  | none => Outcome.blocked s
  | some held =>
    let s1 : State :=
      { s with vars := { s.vars with authCacheLockInstancehourStoppedPanel := held } }
    let body : (AuthPtr × GoError) × State :=
      match s1.vars.authCacheInstancehourStoppedPanel.Load cacheKey with
      | some auth => ((auth, none), s1)
      | none =>
        let r := env.DoAuthenticate s1.trace commandParam
        let s2 : State := { s1 with trace := s1.trace ++ [Call.DoAuthenticate commandParam] }
        match r.2.2 with
        | some err => ((none, some err), s2)
        | none =>
          ((r.2.1, none),
            { s2 with vars := { s2.vars with
                authCacheInstancehourStoppedPanel :=
                  s2.vars.authCacheInstancehourStoppedPanel.Store cacheKey r.2.1 } })
    -- defer authCacheLockInstancehourStoppedPanel.Unlock()
    match body.2.vars.authCacheLockInstancehourStoppedPanel.Unlock with
    | none => Outcome.fatal body.2
    | some free =>
      Outcome.returned body.1
        { body.2 with vars := { body.2.vars with
            authCacheLockInstancehourStoppedPanel := free } }

/-- `cloudwatchClientCacheInstanceHourStoppedPanel(clientAuth)`. -/
def cloudwatchClientCacheInstanceHourStoppedPanel (env : Collaborators) (clientAuth : Auth)
    (s : State) : Outcome State (CloudWatchPtr × GoError) :=
  let cacheKey := clientAuth.CrossAccountRoleArn
  -- clientCacheLockInstancehourStoppedPanel.Lock()
  match s.vars.clientCacheLockInstancehourStoppedPanel.Lock with
  | none => Outcome.blocked s
  | some held =>
    let s1 : State :=
      { s with vars := { s.vars with clientCacheLockInstancehourStoppedPanel := held } }
    let body : (CloudWatchPtr × GoError) × State :=
      match s1.vars.clientCacheInstancehourStoppedPanel.Load cacheKey with
      | some client => ((client, none), s1)
      | none =>
        let cloudWatchClient := env.GetClient s1.trace clientAuth ServiceKind.CLOUDWATCH_LOG
        let s2 : State :=
          { s1 with
            trace := s1.trace ++ [Call.GetClient clientAuth ServiceKind.CLOUDWATCH_LOG] }
        ((cloudWatchClient, none),
          { s2 with vars := { s2.vars with
              clientCacheInstancehourStoppedPanel :=
                s2.vars.clientCacheInstancehourStoppedPanel.Store cacheKey cloudWatchClient } })
    -- defer clientCacheLockInstancehourStoppedPanel.Unlock()
    match body.2.vars.clientCacheLockInstancehourStoppedPanel.Unlock with
    | none => Outcome.fatal body.2
    | some free =>
      Outcome.returned body.1
        { body.2 with vars := { body.2.vars with
            clientCacheLockInstancehourStoppedPanel := free } }

/-- `authenticateAndCacheInstanceStopPanel(commandParam)`: it locks, reads and writes the
variables of the instance-start panel. -/
def authenticateAndCacheInstanceStopPanel (env : Collaborators)
    (commandParam : CommandParam) (s : State) : Outcome State (AuthPtr × GoError) :=
  let cacheKey := commandParam.CloudElementId
  -- authCacheLockInstanceStartPanel.Lock()
  match s.vars.authCacheLockInstanceStartPanel.Lock with
  | none => Outcome.blocked s
  | some held =>
    let s1 : State := { s with vars := { s.vars with authCacheLockInstanceStartPanel := held } }
    let body : (AuthPtr × GoError) × State :=
      match s1.vars.authCacheInstanceStartPanel.Load cacheKey with
      | some auth => ((auth, none), s1)
      | none =>
        let r := env.DoAuthenticate s1.trace commandParam
        let s2 : State := { s1 with trace := s1.trace ++ [Call.DoAuthenticate commandParam] }
        match r.2.2 with
        | some err => ((none, some err), s2)
        | none =>
          ((r.2.1, none),
            { s2 with vars := { s2.vars with
                authCacheInstanceStartPanel :=
                  s2.vars.authCacheInstanceStartPanel.Store cacheKey r.2.1 } })
    -- defer authCacheLockInstanceStartPanel.Unlock()
    match body.2.vars.authCacheLockInstanceStartPanel.Unlock with
    | none => Outcome.fatal body.2
    | some free =>
      Outcome.returned body.1
        { body.2 with vars := { body.2.vars with authCacheLockInstanceStartPanel := free } }

/-- `cloudwatchClientCacheInstanceStopPanel(clientAuth)`: it locks, reads and writes the
variables of the instance-start panel. -/
def cloudwatchClientCacheInstanceStopPanel (env : Collaborators) (clientAuth : Auth)
    (s : State) : Outcome State (CloudWatchPtr × GoError) :=
  let cacheKey := clientAuth.CrossAccountRoleArn
  -- clientCacheLockInstanceStartPanel.Lock()
  match s.vars.clientCacheLockInstanceStartPanel.Lock with
  | none => Outcome.blocked s
  | some held =>
    let s1 : State :=
      { s with vars := { s.vars with clientCacheLockInstanceStartPanel := held } }
    let body : (CloudWatchPtr × GoError) × State :=
      match s1.vars.clientCacheInstanceStartPanel.Load cacheKey with
      | some client => ((client, none), s1)
      | none =>
        let cloudWatchClient := env.GetClient s1.trace clientAuth ServiceKind.CLOUDWATCH_LOG
        let s2 : State :=
          { s1 with
            trace := s1.trace ++ [Call.GetClient clientAuth ServiceKind.CLOUDWATCH_LOG] }
        ((cloudWatchClient, none),
          { s2 with vars := { s2.vars with
              clientCacheInstanceStartPanel :=
                s2.vars.clientCacheInstanceStartPanel.Store cacheKey cloudWatchClient } })
    -- defer clientCacheLockInstanceStartPanel.Unlock()
    match body.2.vars.clientCacheLockInstanceStartPanel.Unlock with
    | none => Outcome.fatal body.2
    | some free =>
      Outcome.returned body.1
        { body.2 with vars := { body.2.vars with clientCacheLockInstanceStartPanel := free } }

/-- `sendErrorrResponse(w, message, statusCode)`. -/
def sendErrorrResponse (lib : Lib) (w : ResponseWriter) (message : String)
    (statusCode : Nat) : ResponseWriter :=
  let w1 := w.HeaderSet "Content-Type" "application/json"
  let w2 := w1.WriteHeader statusCode
  let response := [("error", message)]
  (json.Encode w2 (Except.ok (lib.MarshalStringMap response))).2

/-- `sendErrResponse(w, message, statusCode)`. -/
def sendErrResponse (lib : Lib) (w : ResponseWriter) (message : String)
    (statusCode : Nat) : ResponseWriter :=
  let w1 := w.HeaderSet "Content-Type" "application/json"
  let w2 := w1.WriteHeader statusCode
  let response := [("error", message)]
  (json.Encode w2 (Except.ok (lib.MarshalStringMap response))).2

/-- The identity descriptor that the two EC2 log panels build from `r.URL.Query()`. -/
def InstanceHourStoppedPanel_commandParam (queries : Values) : CommandParam :=
  let region := queries.Get "zone"
  let elementId := queries.Get "elementId"
  let elementApiUrl := queries.Get "cmdbApiUrl"
  let crossAccountRoleArn := queries.Get "crossAccountRoleArn"
  let externalId := queries.Get "externalId"
  -- Prepare command parameters
  let commandParam := CommandParam.zero
  if elementId ≠ "" then
    { commandParam with
        CloudElementId := elementId, CloudElementApiUrl := elementApiUrl, Region := region }
  else
    { commandParam with
        CrossAccountRoleArn := crossAccountRoleArn, ExternalId := externalId, Region := region }

/-- The flags both EC2 log panels register, each with the request's value. -/
def InstanceHourStoppedPanel_flags (queries : Values) : LogsPanelFlags :=
  ⟨queries.Get "elementId", queries.Get "instanceId", queries.Get "elementType",
   queries.Get "startTime", queries.Get "endTime", queries.Get "responseType",
   queries.Get "logGroupName"⟩

/-- The statements of `InstanceHourStoppedPanel` after `EC2.GetInstanceStoppedCountPanel` has
returned `(cloudwatchMetricData, err)`. The collaborator's `err` is not read: the next
assignment to `err` is the result of `json.Marshal`. -/
def InstanceHourStoppedPanel_respond (lib : Lib) (cloudwatchMetricData : Option QueryResults)
    (_err : GoError) (w : ResponseWriter) : ResponseWriter :=
  match cloudwatchMetricData with
  | none =>
    sendErrorrResponse lib w "Failed to get instance hours stopped metrics data"
      http.StatusInternalServerError
  | some metricData =>
    match lib.MarshalQueryResults metricData with
    | Except.error e =>
      sendErrorrResponse lib w ("Failed to encode data: " ++ e) http.StatusInternalServerError
    | Except.ok data =>
      -- Write the JSON response
      let w1 := w.WriteHeader http.StatusOK
      match w1.Write data with
      | (some e, w2) =>
        sendErrorrResponse lib w2 ("Failed to write response: " ++ e)
          http.StatusInternalServerError
      | (none, w2) => w2

/-- `InstanceHourStoppedPanel(w, r)`, with `queries = r.URL.Query()`. -/
def InstanceHourStoppedPanel (env : Collaborators) (lib : Lib)
    (GetInstanceStoppedCountPanel : LogsFetch) (queries : Values) (s : State)
    (w : ResponseWriter) : Served State :=
  let w0 := w.HeaderSet "Content-Type" "application/json"
  let commandParam := InstanceHourStoppedPanel_commandParam queries
  -- Authenticate and get client credentials
  match authenticateAndCacheInstanceHourStoppedPanel env commandParam s with
  | Outcome.blocked s1 => ⟨Ending.blocked, s1, w0, 0⟩
  | Outcome.fatal s1 => ⟨Ending.fatal, s1, w0, 0⟩
  | Outcome.returned (_, some err) s1 =>
    ⟨Ending.returned, s1,
      sendErrorrResponse lib w0 ("Authentication failed: " ++ err)
        http.StatusInternalServerError, 0⟩
  | Outcome.returned (none, none) s1 =>
    -- `*clientAuth` with a nil pointer
    ⟨Ending.panicked, s1, w0, 0⟩
  | Outcome.returned (some clientAuth, none) s1 =>
    -- Create CloudWatch Logs client
    match cloudwatchClientCacheInstanceHourStoppedPanel env clientAuth s1 with
    | Outcome.blocked s2 => ⟨Ending.blocked, s2, w0, 0⟩
    | Outcome.fatal s2 => ⟨Ending.fatal, s2, w0, 0⟩
    | Outcome.returned (_, some err) s2 =>
      ⟨Ending.returned, s2,
        sendErrorrResponse lib w0 ("Failed to create CloudWatch client: " ++ err)
          http.StatusInternalServerError, 0⟩
    | Outcome.returned (cloudWatchLogs, none) s2 =>
      -- Create Cobra command for passing flags
      let flags := InstanceHourStoppedPanel_flags queries
      -- Parse flags
      match lib.ParseFlags flags with
      | some err =>
        ⟨Ending.returned, s2,
          sendErrorrResponse lib w0 ("Failed to parse flags: " ++ err)
            http.StatusInternalServerError, 0⟩
      | none =>
        let r := GetInstanceStoppedCountPanel flags clientAuth cloudWatchLogs
        ⟨Ending.returned, s2, InstanceHourStoppedPanel_respond lib r.1 r.2 w0, 1⟩

/-- The statements of `InstanceStopCountPanelHandler` after `EC2.GetInstanceStopCountPanel`
has returned `(cloudwatchMetricData, err)`. The collaborator's `err` is not read: the next
assignment to `err` is the result of `json.Marshal`. -/
def InstanceStopCountPanelHandler_respond (lib : Lib)
    (cloudwatchMetricData : Option QueryResults) (_err : GoError) (w : ResponseWriter) :
    ResponseWriter :=
  match cloudwatchMetricData with
  | none =>
    sendErrResponse lib w "Failed to get instance start count metrics data"
      http.StatusInternalServerError
  | some metricData =>
    match lib.MarshalQueryResults metricData with
    | Except.error e =>
      sendErrResponse lib w ("Failed to encode data: " ++ e) http.StatusInternalServerError
    | Except.ok data =>
      -- Write the JSON response
      let w1 := w.WriteHeader http.StatusOK
      match w1.Write data with
      | (some e, w2) =>
        sendErrResponse lib w2 ("Failed to write response: " ++ e)
          http.StatusInternalServerError
      | (none, w2) => w2

/-- `InstanceStopCountPanelHandler(w, r)`, with `queries = r.URL.Query()`. -/
def InstanceStopCountPanelHandler (env : Collaborators) (lib : Lib)
    (GetInstanceStopCountPanel : LogsFetch) (queries : Values) (s : State)
    (w : ResponseWriter) : Served State :=
  let w0 := w.HeaderSet "Content-Type" "application/json"
  let commandParam := InstanceHourStoppedPanel_commandParam queries
  -- Authenticate and get client credentials
  match authenticateAndCacheInstanceStopPanel env commandParam s with
  | Outcome.blocked s1 => ⟨Ending.blocked, s1, w0, 0⟩
  | Outcome.fatal s1 => ⟨Ending.fatal, s1, w0, 0⟩
  | Outcome.returned (_, some err) s1 =>
    ⟨Ending.returned, s1,
      sendErrResponse lib w0 ("Authentication failed: " ++ err)
        http.StatusInternalServerError, 0⟩
  | Outcome.returned (none, none) s1 =>
    -- `*clientAuth` with a nil pointer
    ⟨Ending.panicked, s1, w0, 0⟩
  | Outcome.returned (some clientAuth, none) s1 =>
    -- Create CloudWatch Logs client
    match cloudwatchClientCacheInstanceStopPanel env clientAuth s1 with
    | Outcome.blocked s2 => ⟨Ending.blocked, s2, w0, 0⟩
    | Outcome.fatal s2 => ⟨Ending.fatal, s2, w0, 0⟩
    | Outcome.returned (_, some err) s2 =>
      ⟨Ending.returned, s2,
        sendErrResponse lib w0 ("Failed to create CloudWatch client: " ++ err)
          http.StatusInternalServerError, 0⟩
    | Outcome.returned (cloudWatchLogs, none) s2 =>
      -- Create Cobra command for passing flags
      let flags := InstanceHourStoppedPanel_flags queries
      -- Parse flags
      match lib.ParseFlags flags with
      | some err =>
        ⟨Ending.returned, s2,
          sendErrResponse lib w0 ("Failed to parse flags: " ++ err)
            http.StatusInternalServerError, 0⟩
      | none =>
        let r := GetInstanceStopCountPanel flags clientAuth cloudWatchLogs
        ⟨Ending.returned, s2, InstanceStopCountPanelHandler_respond lib r.1 r.2 w0, 1⟩

end EC2

/-! ## JSON texts

A reading of JSON texts that follows the scanner of `encoding/json` state by state: a text
it accepts is one `json.Valid` accepts, and a text it rejects with a message is rejected by
the scanner with that message. One part of the scanner is left out and reported as
`notModelled`: escape sequences inside string literals. -/

/-- A JSON value; a number keeps its literal text. -/
inductive Json where
  | null
  | bool (b : Bool)
  | num (lexeme : String)
  | str (s : String)
  | arr (items : List Json)
  | obj (members : List (String × Json))

namespace Json

/-- Why a text is not read. -/
inductive SyntaxError where
  /-- "unexpected end of JSON input". -/
  | unexpectedEnd
  /-- "invalid character 'c' " followed by the context. -/
  | invalidCharacter (c : Char) (context : String)
  /-- The text leaves the part of the scanner that is modelled. -/
  | notModelled
deriving DecidableEq, Repr

/-- Where the scanner stands inside a number literal. -/
inductive NumState where
  | neg | zero | int | dot | frac | e | esign | exp
deriving DecidableEq, Repr

/-- A container that is being read: the items or members read so far, newest first, and for
an object the key whose value is awaited. -/
inductive Frame where
  | arr (items : List Json)
  | obj (members : List (String × Json)) (key : Option String)

/-- What the scanner expects next. -/
inductive Mode where
  | beginValue
  | beginValueOrEmpty
  | beginStringOrEmpty
  | beginString
  | inString (acc : List Char) (isKey : Bool)
  | afterKey
  | inNumber (lexeme : List Char) (st : NumState)
  | inLiteral (name : String) (rest : List Char) (value : Json)
  | endValue

/-- State of the scanner: open containers (innermost first), what is expected next, and the
top-level value once it is complete. -/
structure Scanner where
  stack : List Frame
  mode : Mode
  top : Option Json

/-- Scanner before the first character. -/
def Scanner.init : Scanner := ⟨[], Mode.beginValue, none⟩

/-- `isSpace` of the scanner. -/
def isSpace (c : Char) : Bool :=
  c == ' ' || c == '\t' || c == '\r' || c == '\n'

/-- Decimal digit. -/
def isDigit (c : Char) : Bool := '0'.val ≤ c.val && c.val ≤ '9'.val

/-- The scanner's error for the offending character `c`. -/
def invalid (c : Char) (context : String) : SyntaxError :=
  SyntaxError.invalidCharacter c context

/-- A value is complete: it becomes the top-level value, the next array item, or the value of
the awaited key. -/
def complete (stack : List Frame) (v : Json) : Scanner :=
  match stack with
  | [] => ⟨[], Mode.endValue, some v⟩
  | Frame.arr items :: rest => ⟨Frame.arr (v :: items) :: rest, Mode.endValue, none⟩
  | Frame.obj members (some k) :: rest =>
    ⟨Frame.obj ((k, v) :: members) none :: rest, Mode.endValue, none⟩
  | Frame.obj members none :: rest => ⟨Frame.obj members none :: rest, Mode.endValue, none⟩

/-- `stateEndValue`: after a value. -/
def stepEndValue (sc : Scanner) (c : Char) : Except SyntaxError Scanner :=
  match sc.stack with
  | [] =>
    -- stateEndTop
    if isSpace c then Except.ok sc else Except.error (invalid c "after top-level value")
  | Frame.arr items :: rest =>
    if isSpace c then Except.ok sc
    else if c == ',' then Except.ok { sc with mode := Mode.beginValue }
    else if c == ']' then Except.ok (complete rest (Json.arr items.reverse))
    else Except.error (invalid c "after array element")
  | Frame.obj members _ :: rest =>
    if isSpace c then Except.ok sc
    else if c == ',' then Except.ok { sc with mode := Mode.beginString }
    else if c == Char.ofNat 125 then Except.ok (complete rest (Json.obj members.reverse))
    else Except.error (invalid c "after object key:value pair")

/-- The scanner's limit on the number of open containers. -/
def maxNestingDepth : Nat := 10000

/-- `pushParseState`: a container is opened by `c`, unless that exceeds the limit on the
nesting depth. -/
def pushParseState (sc : Scanner) (c : Char) (frame : Frame) (mode : Mode) :
    Except SyntaxError Scanner :=
  if sc.stack.length + 1 ≤ maxNestingDepth then Except.ok ⟨frame :: sc.stack, mode, none⟩
  else Except.error (invalid c "exceeded max depth")

/-- `stateBeginValue`: at the beginning of a value. -/
def stepBeginValue (sc : Scanner) (c : Char) : Except SyntaxError Scanner :=
  if isSpace c then Except.ok sc
  else if c == Char.ofNat 123 then
    pushParseState sc c (Frame.obj [] none) Mode.beginStringOrEmpty
  else if c == '[' then pushParseState sc c (Frame.arr []) Mode.beginValueOrEmpty
  else if c == '"' then Except.ok { sc with mode := Mode.inString [] false }
  else if c == '-' then Except.ok { sc with mode := Mode.inNumber [c] NumState.neg }
  else if c == '0' then Except.ok { sc with mode := Mode.inNumber [c] NumState.zero }
  else if isDigit c then Except.ok { sc with mode := Mode.inNumber [c] NumState.int }
  else if c == 't' then
    Except.ok { sc with mode := Mode.inLiteral "true" ['r', 'u', 'e'] (Json.bool true) }
  else if c == 'f' then
    Except.ok { sc with mode := Mode.inLiteral "false" ['a', 'l', 's', 'e'] (Json.bool false) }
  else if c == 'n' then
    Except.ok { sc with mode := Mode.inLiteral "null" ['u', 'l', 'l'] Json.null }
  else Except.error (invalid c "looking for beginning of value")

/-- `stateBeginString`: at the beginning of an object key. -/
def stepBeginString (sc : Scanner) (c : Char) : Except SyntaxError Scanner :=
  if isSpace c then Except.ok sc
  else if c == '"' then Except.ok { sc with mode := Mode.inString [] true }
  else Except.error (invalid c "looking for beginning of object key string")

/-- A number literal ends before `c`: the number is complete and `c` is read after it. -/
def endNumber (sc : Scanner) (lexeme : List Char) (c : Char) : Except SyntaxError Scanner :=
  stepEndValue (complete sc.stack (Json.num (String.mk lexeme))) c

/-- The states of the scanner inside a number literal. -/
def stepNumber (sc : Scanner) (lexeme : List Char) (st : NumState) (c : Char) :
    Except SyntaxError Scanner :=
  let next (st2 : NumState) : Except SyntaxError Scanner :=
    Except.ok { sc with mode := Mode.inNumber (lexeme ++ [c]) st2 }
  match st with
  | NumState.neg =>
    if c == '0' then next NumState.zero
    else if isDigit c then next NumState.int
    else Except.error (invalid c "in numeric literal")
  | NumState.int =>
    if isDigit c then next NumState.int
    else if c == '.' then next NumState.dot
    else if c == 'e' || c == 'E' then next NumState.e
    else endNumber sc lexeme c
  | NumState.zero =>
    if c == '.' then next NumState.dot
    else if c == 'e' || c == 'E' then next NumState.e
    else endNumber sc lexeme c
  | NumState.dot =>
    if isDigit c then next NumState.frac
    else Except.error (invalid c "after decimal point in numeric literal")
  | NumState.frac =>
    if isDigit c then next NumState.frac
    else if c == 'e' || c == 'E' then next NumState.e
    else endNumber sc lexeme c
  | NumState.e =>
    if c == '+' || c == '-' then next NumState.esign
    else if isDigit c then next NumState.exp
    else Except.error (invalid c "in exponent of numeric literal")
  | NumState.esign =>
    if isDigit c then next NumState.exp
    else Except.error (invalid c "in exponent of numeric literal")
  | NumState.exp =>
    if isDigit c then next NumState.exp
    else endNumber sc lexeme c

/-- The scanner reads one character. -/
def step (sc : Scanner) (c : Char) : Except SyntaxError Scanner :=
  match sc.mode with
  | Mode.beginValue => stepBeginValue sc c
  | Mode.beginValueOrEmpty =>
    if isSpace c then Except.ok sc
    else if c == ']' then stepEndValue sc c
    else stepBeginValue sc c
  | Mode.beginStringOrEmpty =>
    if isSpace c then Except.ok sc
    else if c == Char.ofNat 125 then stepEndValue sc c
    else stepBeginString sc c
  | Mode.beginString => stepBeginString sc c
  | Mode.inString acc isKey =>
    if c == '"' then
      if isKey then
        match sc.stack with
        | Frame.obj members _ :: rest =>
          Except.ok ⟨Frame.obj members (some (String.mk acc)) :: rest, Mode.afterKey, none⟩
        | _ => Except.error SyntaxError.notModelled
      else Except.ok (complete sc.stack (Json.str (String.mk acc)))
    else if c == '\\' then Except.error SyntaxError.notModelled
    else if c.val.toNat < 32 then Except.error (invalid c "in string literal")
    else Except.ok { sc with mode := Mode.inString (acc ++ [c]) isKey }
  | Mode.afterKey =>
    if isSpace c then Except.ok sc
    else if c == ':' then Except.ok { sc with mode := Mode.beginValue }
    else Except.error (invalid c "after object key")
  | Mode.inNumber lexeme st => stepNumber sc lexeme st c
  | Mode.inLiteral name rest value =>
    match rest with
    | [] => Except.error SyntaxError.notModelled
    | expected :: more =>
      if c == expected then
        match more with
        | [] => Except.ok (complete sc.stack value)
        | _ => Except.ok { sc with mode := Mode.inLiteral name more value }
      else
        Except.error (invalid c
          ("in literal " ++ name ++ " (expecting '" ++ String.mk [expected] ++ "')"))
  | Mode.endValue => stepEndValue sc c

/-- The scanner reads the characters in order and stops at the first error. -/
def scan : Scanner → List Char → Except SyntaxError Scanner
  | sc, [] => Except.ok sc
  | sc, c :: cs =>
    match step sc c with
    | Except.error err => Except.error err
    | Except.ok sc1 => scan sc1 cs

/-- The top-level value, when the scanner stands after it. -/
def Scanner.endTop (sc : Scanner) : Option Json :=
  match sc.mode, sc.stack with
  | Mode.endValue, [] => sc.top
  | _, _ => none

/-- `eof` of the scanner: at the end of the text the value must be complete; a value that only
the end of the text completes (a number) is completed by reading a space. -/
def eof (sc : Scanner) : Except SyntaxError Json :=
  match sc.endTop with
  | some v => Except.ok v
  | none =>
    match step sc ' ' with
    | Except.error err => Except.error err
    | Except.ok sc1 =>
      match sc1.endTop with
      | some v => Except.ok v
      | none => Except.error SyntaxError.unexpectedEnd

/-- Reads a whole text. -/
def parse (text : String) : Except SyntaxError Json :=
  match scan Scanner.init text.data with
  | Except.error err => Except.error err
  | Except.ok sc => eof sc

/-- Hexadecimal digit. -/
def hexDigit (n : Nat) : Char :=
  if n < 10 then Char.ofNat (48 + n) else Char.ofNat (87 + n)

/-- The first byte of the UTF-8 encoding of `c`. -/
def firstByte (c : Char) : Nat :=
  if c.val.toNat < 128 then c.val.toNat
  else if c.val.toNat < 2048 then 192 + c.val.toNat / 64
  else if c.val.toNat < 65536 then 224 + c.val.toNat / 4096
  else 240 + c.val.toNat / 262144

/-- `quoteChar` of the scanner for the offending character. The scanner reads bytes, so of a
character that is not ASCII it quotes the first byte, as the character with that number;
apart from the two quotes the byte is written as `strconv.Quote` writes it. -/
def quoteChar (c : Char) : String :=
  if c == '\'' then "'\\''"
  else if c == '"' then "'\"'"
  else if c == '\\' then "'\\\\'"
  else if c.val.toNat = 7 then "'\\a'"
  else if c.val.toNat = 8 then "'\\b'"
  else if c.val.toNat = 12 then "'\\f'"
  else if c == '\n' then "'\\n'"
  else if c == '\r' then "'\\r'"
  else if c == '\t' then "'\\t'"
  else if c.val.toNat = 11 then "'\\v'"
  else if c.val.toNat < 32 ∨ c.val.toNat = 127 then
    "'\\x" ++ String.mk [hexDigit (c.val.toNat / 16), hexDigit (c.val.toNat % 16)] ++ "'"
  else "'" ++ String.mk [Char.ofNat (firstByte c)] ++ "'"

/-- The `Error()` text of a syntax error. -/
def SyntaxError.Error : SyntaxError → String
  | SyntaxError.unexpectedEnd => "unexpected end of JSON input"
  | SyntaxError.invalidCharacter c context => "invalid character " ++ quoteChar c ++ " " ++ context
  | SyntaxError.notModelled => "(error text not modelled)"

end Json

/-! ## A sample of encoding/json at the types of the handlers

The sample reads a document with `Json.parse` and fills the typed structure the way
`json.Unmarshal` does: `null` leaves the structure at its zero value, the members of an object
are matched to the fields by name without regard to case, members that match no field are
ignored, and fields without a member keep their zero value. It answers like `encoding/json`
on the documents it models and reports every other document as not modelled: a document whose
keys are not all ASCII, that repeats a field, that gives a field a value of another kind, or
whose timestamps and numbers are not in the form Go prints them
(`2006-01-02T15:04:05Z`; a non-negative integer of at most fifteen digits). -/

namespace Json

/-- The error text the sample gives for a document it does not model. -/
def notModelledText : String := "(document not modelled)"

/-- All characters are ASCII. -/
def isAscii (s : String) : Bool := s.data.all (fun c => c.val.toNat < 128)

/-- The key names the field, without regard to case. -/
def keyIs (field key : String) : Bool :=
  key.data.map Char.toLower == field.data.map Char.toLower

/-- Two decimal digits at the front of `cs` that denote a number between `lo` and `hi`. -/
def twoDigits (lo hi : Nat) : List Char → Bool
  | a :: b :: _ =>
    isDigit a && isDigit b &&
      decide (lo ≤ (a.val.toNat - 48) * 10 + (b.val.toNat - 48)) &&
      decide ((a.val.toNat - 48) * 10 + (b.val.toNat - 48) ≤ hi)
  | _ => false

/-- The text has the form `YYYY-MM-DDTHH:MM:SSZ` with month 01-12, day 01-28, hour 00-23,
minute and second 00-59. -/
def isCanonicalTime (s : String) : Bool :=
  match s.data with
  | [y1, y2, y3, y4, d1, m1, m2, d2, dd1, dd2, t, h1, h2, c1, n1, n2, c2, s1, s2, z] =>
    isDigit y1 && isDigit y2 && isDigit y3 && isDigit y4 &&
    d1 == '-' && twoDigits 1 12 [m1, m2] && d2 == '-' && twoDigits 1 28 [dd1, dd2] &&
    t == 'T' && twoDigits 0 23 [h1, h2] && c1 == ':' && twoDigits 0 59 [n1, n2] &&
    c2 == ':' && twoDigits 0 59 [s1, s2] && z == 'Z'
  | _ => false

/-- The number literal is a non-negative integer of at most fifteen digits; JSON allows no
leading zero. -/
def isCanonicalNumber (lexeme : String) : Bool :=
  lexeme.data.all isDigit && decide (0 < lexeme.length) && decide (lexeme.length ≤ 15)

/-- A member value stored into a field of type `time.Time`: `null` leaves the field as it is,
a string in canonical form sets it. -/
def storeTime (old : Time) : Json → Option Time
  | Json.null => some old
  | Json.str s => if isCanonicalTime s then some ⟨s⟩ else none
  | _ => none

/-- A member value stored into a field of type `float64`. -/
def storeFloat (old : Float64) : Json → Option Float64
  | Json.null => some old
  | Json.num lexeme => if isCanonicalNumber lexeme then some ⟨lexeme⟩ else none
  | _ => none

/-- The members of an object stored into a `Timestamp`/`Value` pair, in order. -/
def storePointMembers : List (String × Json) → Time × Float64 → Option (Time × Float64)
  | [], acc => some acc
  | (key, value) :: rest, acc =>
    if keyIs "Timestamp" key then
      match storeTime acc.1 value with
      | some t => storePointMembers rest (t, acc.2)
      | none => none
    else if keyIs "Value" key then
      match storeFloat acc.2 value with
      | some v => storePointMembers rest (acc.1, v)
      | none => none
    else storePointMembers rest acc

/-- A JSON value decoded into a fresh `struct { Timestamp time.Time; Value float64 }`. -/
def decodePoint : Json → Option (Time × Float64)
  | Json.null => some (Time.zero, Float64.zero)
  | Json.obj members =>
    if members.all (fun m => isAscii m.1) then
      storePointMembers members (Time.zero, Float64.zero)
    else none
  | _ => none

/-- The items of an array decoded into data points. -/
def decodePoints : List Json → Option (List DataPoint)
  | [] => some []
  | item :: rest =>
    match decodePoint item, decodePoints rest with
    | some p, some ps => some (⟨p.1, p.2⟩ :: ps)
    | _, _ => none

/-- A document value decoded into `var data WriteBytes`. -/
def decodeWriteBytes : Json → Option ECS.WriteBytes
  | Json.null => some ⟨none⟩
  | Json.obj members =>
    if members.all (fun m => isAscii m.1) then
      match members.filter (fun m => keyIs "RawData" m.1) with
      | [] => some ⟨none⟩
      | [(_, Json.null)] => some ⟨none⟩
      | [(_, Json.arr items)] => (decodePoints items).map (fun ps => ⟨some ps⟩)
      | _ => none
    else none
  | _ => none

/-- A document value decoded into `var data NetworkReceiveThroughput`. -/
def decodeNetworkReceiveThroughput (j : Json) : Option RDS.NetworkReceiveThroughput :=
  (decodePoint j).map (fun p => ⟨p.1, p.2⟩)

/-- The encoding of one data point, the fields in declaration order. -/
def encodePoint (timestamp : Time) (value : Float64) : String :=
  "\x7b\"Timestamp\":\"" ++ timestamp.rfc3339 ++ "\",\"Value\":" ++ value.text ++ "\x7d"

/-- `json.Marshal` of a `WriteBytes`: a nil slice is `null`. -/
def encodeWriteBytes (data : ECS.WriteBytes) : String :=
  match data.RawData with
  | none => "\x7b\"RawData\":null\x7d"
  | some points =>
    "\x7b\"RawData\":[" ++
      ",".intercalate (points.map (fun p => encodePoint p.Timestamp p.Value)) ++ "]\x7d"

/-- One character of a string as `json.Marshal` writes it: quotes, backslashes and control
characters are escaped, and so are `<`, `>`, `&`, U+2028 and U+2029. -/
def escapeChar (c : Char) : String :=
  if c == '"' then "\\\""
  else if c == '\\' then "\\\\"
  else if c.val.toNat = 8 then "\\b"
  else if c.val.toNat = 12 then "\\f"
  else if c == '\n' then "\\n"
  else if c == '\r' then "\\r"
  else if c == '\t' then "\\t"
  else if c.val.toNat < 32 ∨ c == '<' ∨ c == '>' ∨ c == '&' then
    "\\u00" ++ String.mk [hexDigit (c.val.toNat / 16), hexDigit (c.val.toNat % 16)]
  else if c.val.toNat = 8232 then "\\u2028"
  else if c.val.toNat = 8233 then "\\u2029"
  else String.mk [c]

/-- A string as `json.Marshal` writes it. -/
def encodeString (s : String) : String :=
  "\"" ++ String.join (s.data.map escapeChar) ++ "\""

/-- `json.Marshal` of a `map[string]string`, the entries in the order given (a map with one
key has one order). -/
def encodeStringMap (entries : List (String × String)) : String :=
  "\x7b" ++ ",".intercalate (entries.map (fun e => encodeString e.1 ++ ":" ++ encodeString e.2))
    ++ "\x7d"

end Json

/-- Sample `json.Marshal` of a series: the nil value is `null`; a series that is not nil is
written as an object that carries its handle, which stands in for the encoding of the
library's type. -/
def sampleMarshalMetricData : MetricDataPtr → Except String String
  | none => Except.ok "null"
  | some m => Except.ok ("\x7b\"series\":" ++ toString m.handle ++ "\x7d")

/-- Sample of `encoding/json` for `GetECSWriteBytesPanel`. -/
def ECS.sampleJSON : ECS.JSON where
  MarshalMetricData := sampleMarshalMetricData
  UnmarshalWriteBytes := fun doc =>
    match Json.parse doc with
    | Except.error err => Except.error err.Error
    | Except.ok j =>
      match Json.decodeWriteBytes j with
      | some data => Except.ok data
      | none => Except.error Json.notModelledText
  MarshalWriteBytes := fun data => Except.ok (Json.encodeWriteBytes data)

/-- Sample of `encoding/json` for `GetNetworkReceiveThroughputPanel`. -/
def RDS.sampleJSON : RDS.JSON where
  MarshalMetricData := sampleMarshalMetricData
  UnmarshalNetworkReceiveThroughput := fun doc =>
    match Json.parse doc with
    | Except.error err => Except.error err.Error
    | Except.ok j =>
      match Json.decodeNetworkReceiveThroughput j with
      | some data => Except.ok data
      | none => Except.error Json.notModelledText
  MarshalNetworkReceiveThroughput := fun data =>
    Except.ok (Json.encodePoint data.Timestamp data.Value)

/-- Sample library for the EC2 log panels: parsing an empty argument list succeeds; query
results are written as an object that carries their handle, which stands in for the encoding
of the library's type. -/
def EC2.sampleLib : EC2.Lib where
  ParseFlags := fun _ => none
  MarshalQueryResults := fun d => Except.ok ("\x7b\"results\":" ++ toString d.handle ++ "\x7d")
  MarshalStringMap := Json.encodeStringMap

/-- The next `Write` on a writer with these scripted outcomes fails. -/
def firstWriteFails : List GoError → Bool
  | some _ :: _ => true
  | _ => false

/-- A metric collaborator that returns the same document, series and error for every call. -/
def samplePanelFetch (jsonString : String) (data : MetricDataPtr) (err : GoError) : PanelFetch :=
  fun _ _ _ => (jsonString, data, err)

/-- A log-metric collaborator that returns the same results and error for every call. -/
def sampleLogsFetch (data : Option EC2.QueryResults) (err : GoError) : EC2.LogsFetch :=
  fun _ _ _ => (data, err)

/-- Sample request for element `i-123` in `us-east-1`, default response type. -/
def sampleQuery : Values := ⟨[("zone", ["us-east-1"]), ("elementId", ["i-123"])]⟩

/-- Sample request for element `i-123` in `us-east-1`, response type `frame`. -/
def sampleFrameQuery : Values :=
  ⟨[("zone", ["us-east-1"]), ("elementId", ["i-123"]), ("responseType", ["frame"])]⟩

/-- Sample request for element `i-123` without a zone: `sampleEnv` fails to authenticate it. -/
def sampleNoZoneQuery : Values := ⟨[("elementId", ["i-123"])]⟩

/-! ## The latency panels of package ApiGateway -/

namespace ApiGateway

/-- `authenticateAndCacheLatency(commandParam)`. -/
def authenticateAndCacheLatency (env : Collaborators) (commandParam : CommandParam)
    (s : State) : Outcome State (AuthPtr × GoError) :=
  let cacheKey := commandParam.CloudElementId
  -- authCacheLockLatency.Lock()
  match s.vars.authCacheLockLatency.Lock with
  | none => Outcome.blocked s
  | some held =>
    let s1 : State := { s with vars := { s.vars with authCacheLockLatency := held } }
    -- body, up to its return statement
    let body : (AuthPtr × GoError) × State :=
      match s1.vars.authCacheLatency.Load cacheKey with
      | some auth => ((auth, none), s1)
      | none =>
        let r := env.DoAuthenticate s1.trace commandParam
        let s2 : State := { s1 with trace := s1.trace ++ [Call.DoAuthenticate commandParam] }
        match r.2.2 with
        | some err => ((none, some err), s2)
        | none =>
          ((r.2.1, none),
            { s2 with vars := { s2.vars with
                authCacheLatency := s2.vars.authCacheLatency.Store cacheKey r.2.1 } })
    -- defer authCacheLockLatency.Unlock()
    match body.2.vars.authCacheLockLatency.Unlock with
    | none => Outcome.fatal body.2
    | some free =>
      Outcome.returned body.1
        { body.2 with vars := { body.2.vars with authCacheLockLatency := free } }

/-- `cloudwatchClientCacheLatency(clientAuth)`. -/
def cloudwatchClientCacheLatency (env : Collaborators) (clientAuth : Auth)
    (s : State) : Outcome State (CloudWatchPtr × GoError) :=
  let cacheKey := clientAuth.CrossAccountRoleArn
  -- clientCacheLockLatency.Lock()
  match s.vars.clientCacheLockLatency.Lock with
  | none => Outcome.blocked s
  | some held =>
    let s1 : State := { s with vars := { s.vars with clientCacheLockLatency := held } }
    let body : (CloudWatchPtr × GoError) × State :=
      match s1.vars.clientCacheLatency.Load cacheKey with
      | some client => ((client, none), s1)
      | none =>
        let cloudWatchClient := env.GetClient s1.trace clientAuth ServiceKind.CLOUDWATCH
        let s2 : State :=
          { s1 with trace := s1.trace ++ [Call.GetClient clientAuth ServiceKind.CLOUDWATCH] }
        ((cloudWatchClient, none),
          { s2 with vars := { s2.vars with
              clientCacheLatency := s2.vars.clientCacheLatency.Store cacheKey cloudWatchClient } })
    -- defer clientCacheLockLatency.Unlock()
    match body.2.vars.clientCacheLockLatency.Unlock with
    | none => Outcome.fatal body.2
    | some free =>
      Outcome.returned body.1
        { body.2 with vars := { body.2.vars with clientCacheLockLatency := free } }

/-- The identity descriptor that `GetLatencyPanel` builds from `r.URL.Query()` before it
calls the credential cache. -/
def GetLatencyPanel_commandParam (query : Values) : CommandParam :=
  let region := query.Get "zone"
  let elementId := query.Get "elementId"
  let elementApiUrl := query.Get "cmdbApiUrl"
  let crossAccountRoleArn := query.Get "crossAccountRoleArn"
  let externalId := query.Get "externalId"
  let commandParam := CommandParam.zero
  if elementId ≠ "" then
    { commandParam with
        CloudElementId := elementId, CloudElementApiUrl := elementApiUrl, Region := region }
  else
    { commandParam with
        CrossAccountRoleArn := crossAccountRoleArn, ExternalId := externalId, Region := region }

/-- The statements of `GetLatencyPanel` after `ApiGateway.GetApiLatencyData` has returned
`(jsonString, _, err)`. -/
def GetLatencyPanel_respond (jsonString : String) (err : GoError) (w : ResponseWriter) :
    ResponseWriter :=
  match err with
  | some e => http.Error w ("Exception: " ++ e) http.StatusInternalServerError
  | none =>
    -- Set Content-Type header and write the JSON response
    let w1 := w.HeaderSet "Content-Type" "application/json"
    match w1.Write jsonString with
    | (some e, w2) => http.Error w2 ("Exception: " ++ e) http.StatusInternalServerError
    | (none, w2) => w2

/-- `GetLatencyPanel(w, r)`, with `query = r.URL.Query()`. -/
def GetLatencyPanel (env : Collaborators) (GetApiLatencyData : PanelFetch)
    (query : Values) (s : State) (w : ResponseWriter) : Served State :=
  let w0 := w.HeaderSet "Content-Type" "application/json"
  let flags : PanelFlags :=
    ⟨query.Get "elementId", query.Get "instanceId", query.Get "elementType",
     query.Get "startTime", query.Get "endTime", query.Get "responseType"⟩
  let commandParam := GetLatencyPanel_commandParam query
  match authenticateAndCacheLatency env commandParam s with
  | Outcome.blocked s1 => ⟨Ending.blocked, s1, w0, 0⟩
  | Outcome.fatal s1 => ⟨Ending.fatal, s1, w0, 0⟩
  | Outcome.returned (_, some err) s1 =>
    ⟨Ending.returned, s1,
      http.Error w0 ("Authentication failed: " ++ err) http.StatusInternalServerError, 0⟩
  | Outcome.returned (none, none) s1 =>
    -- `*clientAuth` with a nil pointer
    ⟨Ending.panicked, s1, w0, 0⟩
  | Outcome.returned (some clientAuth, none) s1 =>
    match cloudwatchClientCacheLatency env clientAuth s1 with
    | Outcome.blocked s2 => ⟨Ending.blocked, s2, w0, 0⟩
    | Outcome.fatal s2 => ⟨Ending.fatal, s2, w0, 0⟩
    | Outcome.returned (_, some err) s2 =>
      ⟨Ending.returned, s2,
        http.Error w0 ("Cloudwatch client creation/store in cache failed: " ++ err)
          http.StatusInternalServerError, 0⟩
    | Outcome.returned (cloudwatchClient, none) s2 =>
      -- `if clientAuth != nil`: the pointer was dereferenced above, so it is not nil
      let r := GetApiLatencyData flags clientAuth cloudwatchClient
      ⟨Ending.returned, s2, GetLatencyPanel_respond r.1 r.2.2 w0, 1⟩

/-- `authenticateAndCacheIntegLatency(commandParam)`. -/
def authenticateAndCacheIntegLatency (env : Collaborators) (commandParam : CommandParam)
    (s : State) : Outcome State (AuthPtr × GoError) :=
  let cacheKey := commandParam.CloudElementId
  -- authCacheLockIntegLatency.Lock()
  match s.vars.authCacheLockIntegLatency.Lock with
  | none => Outcome.blocked s
  | some held =>
    let s1 : State := { s with vars := { s.vars with authCacheLockIntegLatency := held } }
    -- body, up to its return statement
    let body : (AuthPtr × GoError) × State :=
      match s1.vars.authCacheIntegLatency.Load cacheKey with
      | some auth => ((auth, none), s1)
      | none =>
        let r := env.DoAuthenticate s1.trace commandParam
        let s2 : State := { s1 with trace := s1.trace ++ [Call.DoAuthenticate commandParam] }
        match r.2.2 with
        | some err => ((none, some err), s2)
        | none =>
          ((r.2.1, none),
            { s2 with vars := { s2.vars with
                authCacheIntegLatency := s2.vars.authCacheIntegLatency.Store cacheKey r.2.1 } })
    -- defer authCacheLockIntegLatency.Unlock()
    match body.2.vars.authCacheLockIntegLatency.Unlock with
    | none => Outcome.fatal body.2
    | some free =>
      Outcome.returned body.1
        { body.2 with vars := { body.2.vars with authCacheLockIntegLatency := free } }

/-- `cloudwatchClientCacheIntegLatency(clientAuth)`. -/
def cloudwatchClientCacheIntegLatency (env : Collaborators) (clientAuth : Auth)
    (s : State) : Outcome State (CloudWatchPtr × GoError) :=
  let cacheKey := clientAuth.CrossAccountRoleArn
  -- clientCacheLockIntegLatency.Lock()
  match s.vars.clientCacheLockIntegLatency.Lock with
  | none => Outcome.blocked s
  | some held =>
    let s1 : State := { s with vars := { s.vars with clientCacheLockIntegLatency := held } }
    let body : (CloudWatchPtr × GoError) × State :=
      match s1.vars.clientCacheIntegLatency.Load cacheKey with
      | some client => ((client, none), s1)
      | none =>
        let cloudWatchClient := env.GetClient s1.trace clientAuth ServiceKind.CLOUDWATCH
        let s2 : State :=
          { s1 with trace := s1.trace ++ [Call.GetClient clientAuth ServiceKind.CLOUDWATCH] }
        ((cloudWatchClient, none),
          { s2 with vars := { s2.vars with
              clientCacheIntegLatency :=
                s2.vars.clientCacheIntegLatency.Store cacheKey cloudWatchClient } })
    -- defer clientCacheLockIntegLatency.Unlock()
    match body.2.vars.clientCacheLockIntegLatency.Unlock with
    | none => Outcome.fatal body.2
    | some free =>
      Outcome.returned body.1
        { body.2 with vars := { body.2.vars with clientCacheLockIntegLatency := free } }

/-- The identity descriptor that `GetIntegrationLatencyPanel` builds from `r.URL.Query()` before it
calls the credential cache. -/
def GetIntegrationLatencyPanel_commandParam (query : Values) : CommandParam :=
  let region := query.Get "zone"
  let elementId := query.Get "elementId"
  let elementApiUrl := query.Get "cmdbApiUrl"
  let crossAccountRoleArn := query.Get "crossAccountRoleArn"
  let externalId := query.Get "externalId"
  let commandParam := CommandParam.zero
  if elementId ≠ "" then
    { commandParam with
        CloudElementId := elementId, CloudElementApiUrl := elementApiUrl, Region := region }
  else
    { commandParam with
        CrossAccountRoleArn := crossAccountRoleArn, ExternalId := externalId, Region := region }

/-- The statements of `GetIntegrationLatencyPanel` after
`ApiGateway.GetApiIntegrationLatencyData` has returned `(jsonString, _, err)`. -/
def GetIntegrationLatencyPanel_respond (jsonString : String) (err : GoError) (w : ResponseWriter) :
    ResponseWriter :=
  match err with
  | some e => http.Error w ("Exception: " ++ e) http.StatusInternalServerError
  | none =>
    -- Set Content-Type header and write the JSON response
    let w1 := w.HeaderSet "Content-Type" "application/json"
    match w1.Write jsonString with
    | (some e, w2) => http.Error w2 ("Exception: " ++ e) http.StatusInternalServerError
    | (none, w2) => w2

/-- `GetIntegrationLatencyPanel(w, r)`, with `query = r.URL.Query()`. -/
def GetIntegrationLatencyPanel (env : Collaborators) (GetApiIntegrationLatencyData : PanelFetch)
    (query : Values) (s : State) (w : ResponseWriter) : Served State :=
  let w0 := w.HeaderSet "Content-Type" "application/json"
  let flags : PanelFlags :=
    ⟨query.Get "elementId", query.Get "instanceId", query.Get "elementType",
     query.Get "startTime", query.Get "endTime", query.Get "responseType"⟩
  let commandParam := GetIntegrationLatencyPanel_commandParam query
  match authenticateAndCacheIntegLatency env commandParam s with
  | Outcome.blocked s1 => ⟨Ending.blocked, s1, w0, 0⟩
  | Outcome.fatal s1 => ⟨Ending.fatal, s1, w0, 0⟩
  | Outcome.returned (_, some err) s1 =>
    ⟨Ending.returned, s1,
      http.Error w0 ("Authentication failed: " ++ err) http.StatusInternalServerError, 0⟩
  | Outcome.returned (none, none) s1 =>
    -- `*clientAuth` with a nil pointer
    ⟨Ending.panicked, s1, w0, 0⟩
  | Outcome.returned (some clientAuth, none) s1 =>
    match cloudwatchClientCacheIntegLatency env clientAuth s1 with
    | Outcome.blocked s2 => ⟨Ending.blocked, s2, w0, 0⟩
    | Outcome.fatal s2 => ⟨Ending.fatal, s2, w0, 0⟩
    | Outcome.returned (_, some err) s2 =>
      ⟨Ending.returned, s2,
        http.Error w0 ("Cloudwatch client creation/store in cache failed: " ++ err)
          http.StatusInternalServerError, 0⟩
    | Outcome.returned (cloudwatchClient, none) s2 =>
      -- `if clientAuth != nil`: the pointer was dereferenced above, so it is not nil
      let r := GetApiIntegrationLatencyData flags clientAuth cloudwatchClient
      ⟨Ending.returned, s2, GetIntegrationLatencyPanel_respond r.1 r.2.2 w0, 1⟩

end ApiGateway

/-! ## The allocatable CPU panel of package EKS -/

namespace EKS

/-- `allocatedAuthenticateAndCache(commandParam)`. -/
def allocatedAuthenticateAndCache (env : Collaborators) (commandParam : CommandParam)
    (s : State) : Outcome State (AuthPtr × GoError) :=
  let cacheKey := commandParam.CloudElementId
  -- allocatableCPUAuthCacheLock.Lock()
  match s.vars.allocatableCPUAuthCacheLock.Lock with
  | none => Outcome.blocked s
  | some held =>
    let s1 : State := { s with vars := { s.vars with allocatableCPUAuthCacheLock := held } }
    let body : (AuthPtr × GoError) × State :=
      match s1.vars.allocatableCPUAuthCache.Load cacheKey with
      | some auth => ((auth, none), s1)
      | none =>
        let r := env.DoAuthenticate s1.trace commandParam
        let s2 : State := { s1 with trace := s1.trace ++ [Call.DoAuthenticate commandParam] }
        match r.2.2 with
        | some err => ((none, some err), s2)
        | none =>
          ((r.2.1, none),
            { s2 with vars := { s2.vars with
                allocatableCPUAuthCache := s2.vars.allocatableCPUAuthCache.Store cacheKey r.2.1 } })
    -- defer allocatableCPUAuthCacheLock.Unlock()
    match body.2.vars.allocatableCPUAuthCacheLock.Unlock with
    | none => Outcome.fatal body.2
    | some free =>
      Outcome.returned body.1
        { body.2 with vars := { body.2.vars with allocatableCPUAuthCacheLock := free } }

/-- `allocatedCloudwatchClientCache(clientAuth)`. -/
def allocatedCloudwatchClientCache (env : Collaborators) (clientAuth : Auth)
    (s : State) : Outcome State (CloudWatchPtr × GoError) :=
  let cacheKey := clientAuth.CrossAccountRoleArn
  -- allocatableCPUClientCacheLock.Lock()
  match s.vars.allocatableCPUClientCacheLock.Lock with
  | none => Outcome.blocked s
  | some held =>
    let s1 : State := { s with vars := { s.vars with allocatableCPUClientCacheLock := held } }
    let body : (CloudWatchPtr × GoError) × State :=
      match s1.vars.allocatableCPUClientCache.Load cacheKey with
      | some client => ((client, none), s1)
      | none =>
        let cloudWatchClient := env.GetClient s1.trace clientAuth ServiceKind.CLOUDWATCH
        let s2 : State :=
          { s1 with trace := s1.trace ++ [Call.GetClient clientAuth ServiceKind.CLOUDWATCH] }
        ((cloudWatchClient, none),
          { s2 with vars := { s2.vars with
              allocatableCPUClientCache :=
                s2.vars.allocatableCPUClientCache.Store cacheKey cloudWatchClient } })
    -- defer allocatableCPUClientCacheLock.Unlock()
    match body.2.vars.allocatableCPUClientCacheLock.Unlock with
    | none => Outcome.fatal body.2
    | some free =>
      Outcome.returned body.1
        { body.2 with vars := { body.2.vars with allocatableCPUClientCacheLock := free } }

/-- The typed structure `allocatableResult` declared inside `GetEKSAllocatableCPUPanel`:
`RawData` is a slice, `none` being the nil slice. -/
structure allocatableResult where
  RawData : Option (List DataPoint)
deriving DecidableEq, Repr

/-- The functions of `encoding/json` that `GetEKSAllocatableCPUPanel` calls, at the types it
calls them with. -/
structure AllocatableJSON where
  /-- `json.Marshal(cloudwatchMetricData)`, as used by `json.NewEncoder(w).Encode`. -/
  MarshalMetricData : MetricDataPtr → Except String String
  /-- `json.Unmarshal([]byte(jsonString), &data)` with `var data allocatableResult`. -/
  UnmarshalAllocatableResult : String → Except String allocatableResult
  /-- `json.Marshal(data)` with `data` of type `allocatableResult`. -/
  MarshalAllocatableResult : allocatableResult → Except String String

/-- The identity descriptor that `GetEKSAllocatableCPUPanel` builds from `r.URL.Query()`; the
lookup endpoint is read from `elementApiUrl`. -/
def GetEKSAllocatableCPUPanel_commandParam (query : Values) : CommandParam :=
  let region := query.Get "zone"
  let elementId := query.Get "elementId"
  let elementApiUrl := query.Get "elementApiUrl"
  let crossAccountRoleArn := query.Get "crossAccountRoleArn"
  let externalId := query.Get "externalId"
  let commandParam := CommandParam.zero
  if elementId ≠ "" then
    { commandParam with
        CloudElementId := elementId, CloudElementApiUrl := elementApiUrl, Region := region }
  else
    { commandParam with
        CrossAccountRoleArn := crossAccountRoleArn, ExternalId := externalId, Region := region }

/-- The statements of `GetEKSAllocatableCPUPanel` after `EKS.GetAllocatableCPUData` has
returned `(jsonString, cloudwatchMetricData, err)`. -/
def GetEKSAllocatableCPUPanel_respond (lib : AllocatableJSON) (responseType : String)
    (jsonString : String) (cloudwatchMetricData : MetricDataPtr) (err : GoError)
    (w : ResponseWriter) : ResponseWriter :=
  match err with
  | some e => http.Error w ("Exception: " ++ e) http.StatusInternalServerError
  | none =>
    if responseType = "frame" then
      match json.Encode w (lib.MarshalMetricData cloudwatchMetricData) with
      | (some e, w1) => http.Error w1 ("Exception: " ++ e ++ " ") http.StatusInternalServerError
      | (none, w1) => w1
    else
      match lib.UnmarshalAllocatableResult jsonString with
      | Except.error e => http.Error w ("Exception: " ++ e) http.StatusInternalServerError
      | Except.ok data =>
        match lib.MarshalAllocatableResult data with
        | Except.error e => http.Error w ("Exception: " ++ e) http.StatusInternalServerError
        | Except.ok jsonBytes =>
          let w1 := w.HeaderSet "Content-Type" "application/json"
          match w1.Write jsonBytes with
          | (some e, w2) => http.Error w2 ("Exception: " ++ e) http.StatusInternalServerError
          | (none, w2) => w2

/-- `GetEKSAllocatableCPUPanel(w, r)`, with `query = r.URL.Query()`. -/
def GetEKSAllocatableCPUPanel (env : Collaborators) (lib : AllocatableJSON)
    (GetAllocatableCPUData : PanelFetch) (query : Values) (s : State) (w : ResponseWriter) :
    Served State :=
  let w0 := w.HeaderSet "Content-Type" "application/json"
  let responseType := query.Get "responseType"
  let flags : PanelFlags :=
    ⟨query.Get "elementId", query.Get "instanceId", query.Get "elementType",
     query.Get "startTime", query.Get "endTime", responseType⟩
  let commandParam := GetEKSAllocatableCPUPanel_commandParam query
  -- Authenticate and get client authentication details
  match allocatedAuthenticateAndCache env commandParam s with
  | Outcome.blocked s1 => ⟨Ending.blocked, s1, w0, 0⟩
  | Outcome.fatal s1 => ⟨Ending.fatal, s1, w0, 0⟩
  | Outcome.returned (_, some err) s1 =>
    ⟨Ending.returned, s1,
      http.Error w0 ("Authentication failed: " ++ err) http.StatusInternalServerError, 0⟩
  | Outcome.returned (none, none) s1 =>
    -- `*clientAuth` with a nil pointer
    ⟨Ending.panicked, s1, w0, 0⟩
  | Outcome.returned (some clientAuth, none) s1 =>
    -- Get CloudWatch client
    match allocatedCloudwatchClientCache env clientAuth s1 with
    | Outcome.blocked s2 => ⟨Ending.blocked, s2, w0, 0⟩
    | Outcome.fatal s2 => ⟨Ending.fatal, s2, w0, 0⟩
    | Outcome.returned (_, some err) s2 =>
      ⟨Ending.returned, s2,
        http.Error w0 ("Cloudwatch client creation/store in cache failed: " ++ err)
          http.StatusInternalServerError, 0⟩
    | Outcome.returned (cloudwatchClient, none) s2 =>
      -- Get allocatable CPU panel data
      let r := GetAllocatableCPUData flags clientAuth cloudwatchClient
      ⟨Ending.returned, s2,
        GetEKSAllocatableCPUPanel_respond lib responseType r.1 r.2.1 r.2.2 w0, 1⟩

end EKS

/-! ## fmt.Sprintf without operands

`fmt.Sprintf(format)` for a call that passes a format and no operand, following `doPrintf` of
package `fmt` directive by directive: the text up to the next `%` is copied; after a `%` the
flags, an argument index, the width, the precision and a second argument index are read, and
then the verb. As there is no operand, the verb `%` prints `%`, a verb after an argument index
prints `%!verb(BADINDEX)`, any other verb prints `%!verb(MISSING)`, a width or precision `*`
prints `%!(BADWIDTH)` or `%!(BADPREC)`, and a format that ends inside a directive prints
`%!(NOVERB)`. A dot is read as the start of a precision only when a character follows it; a
dot that ends the format is the verb of its directive, so `100%.` prints `100%!.(MISSING)`.
A format is a list of characters here, so it is a valid UTF-8 text. -/

namespace fmt

/-- The flags of a directive: the loop over `#`, `0`, `+`, `-` and space. -/
def skipFlags : List Char → List Char
  | [] => []
  | c :: cs =>
    if c == '#' || c == '0' || c == '+' || c == '-' || c == ' ' then skipFlags cs else c :: cs

/-- `parsenum` on the characters from `start` up to `end`, given the number read so far and
whether a digit was read: the number, whether a digit was read, and the characters from `newi`
on. A number that exceeds `1e6` before its next digit gives `(0, false, end)`. -/
def parsenum : List Char → Nat → Bool → Nat × Bool × List Char
  | [], num, isnum => (num, isnum, [])
  | c :: cs, num, isnum =>
    if '0'.val ≤ c.val && c.val ≤ '9'.val then
      if num > 1000000 then (0, false, [])
      else parsenum cs (num * 10 + (c.toNat - '0'.toNat)) true
    else (num, isnum, c :: cs)

/-- Whether the characters take fewer than two bytes in UTF-8. -/
def underTwoBytes : List Char → Bool
  | [] => true
  | [c] => c.toNat < 128
  | _ => false

/-- `argNumber` with `parseArgNumber`, for `numArgs = 0`: the characters left, `found`, and
whether the format continued with `[`, in which case `goodArgNum` is cleared (no index is
below `numArgs`). A `[` with fewer than three bytes from it on, or without a closing bracket,
is skipped alone; otherwise everything up to the closing bracket is skipped, and `found` says
whether a number filled the brackets. -/
def argNumber (cs : List Char) : List Char × Bool × Bool :=
  match cs with
  | [] => ([], false, false)
  | c :: rest =>
    if c == '[' then
      if underTwoBytes rest then (rest, false, true)
      else
        match rest.dropWhile (fun c => c != ']') with
        | [] => (rest, false, true)
        | _ :: after =>
          let r := parsenum (rest.takeWhile (fun c => c != ']')) 0 false
          (after, r.2.1 && r.2.2.isEmpty, true)
    else (c :: rest, false, false)

/-- The width of a directive, given the characters left, `afterIndex` and `goodArgNum` so
far: what is printed, and the three again. A `*` finds no operand and prints
`%!(BADWIDTH)`. -/
def width (cs : List Char) (afterIndex goodArgNum : Bool) :
    String × List Char × Bool × Bool :=
  match cs with
  | '*' :: rest => ("%!(BADWIDTH)", rest, false, goodArgNum)
  | _ =>
    let n := parsenum cs 0 false
    ("", n.2.2, afterIndex, goodArgNum && !(afterIndex && n.2.1))

/-- The precision of a directive, given the characters left, `afterIndex` and `goodArgNum` so
far: what is printed, and the three again. A dot starts a precision only when a character
follows it (`i+1 < end`); a dot that ends the format is left to be read as the verb. A `*`
finds no operand and prints `%!(BADPREC)`. -/
def precision (cs : List Char) (afterIndex goodArgNum : Bool) :
    String × List Char × Bool × Bool :=
  match cs with
  | '.' :: c :: more =>
    let a := argNumber (c :: more)
    let good : Bool := goodArgNum && !afterIndex && !a.2.2
    match a.1 with
    | '*' :: rest2 => ("%!(BADPREC)", rest2, false, good)
    | _ => ("", (parsenum a.1 0 false).2.2, a.2.1, good)
  | _ => ("", cs, afterIndex, goodArgNum)

/-- The verb of a directive, given the characters left and `goodArgNum`: what is printed and
the characters left after the verb. -/
def verb (cs : List Char) (goodArgNum : Bool) : String × List Char :=
  match cs with
  | [] => ("%!(NOVERB)", [])
  | c :: rest =>
    if c == '%' then ("%", rest)
    else if !goodArgNum then ("%!" ++ String.mk [c] ++ "(BADINDEX)", rest)
    else ("%!" ++ String.mk [c] ++ "(MISSING)", rest)

/-- One directive, from the character after its `%`: what it prints and the characters left
after its verb. -/
def directive (cs : List Char) : String × List Char :=
  -- Do we have flags?
  let cs1 := skipFlags cs
  -- Do we have an explicit argument index?
  let a1 := argNumber cs1
  -- Do we have width?
  let w := width a1.1 a1.2.1 (!a1.2.2)
  -- Do we have precision?
  let p := precision w.2.1 w.2.2.1 w.2.2.2
  let a3 := if p.2.2.1 then (p.2.1, true, false) else argNumber p.2.1
  let v := verb a3.1 (p.2.2.2 && !a3.2.2)
  (w.1 ++ p.1 ++ v.1, v.2)

/-- The loop of `doPrintf`, one round for each directive; `fuel` bounds the number of rounds,
and a round takes at least the `%` of its directive off the format. -/
def doPrintf : Nat → List Char → String → String
  | 0, _, buf => buf
  | fuel + 1, cs, buf =>
    match cs.dropWhile (fun c => c != '%') with
    | [] => buf ++ String.mk cs
    | _ :: rest =>
      let d := directive rest
      doPrintf fuel d.2 (buf ++ String.mk (cs.takeWhile (fun c => c != '%')) ++ d.1)

/-- `fmt.Sprintf(format)` without operands. -/
def Sprintf (format : String) : String :=
  doPrintf (format.length + 1) format.data ""

end fmt

/-! ## Package Lambda -/

namespace Lambda

/-- Package-level variables of `function_by_region_panel_handler.go`. -/
structure Vars where
  authCacheFR : SyncMap AuthPtr
  clientCacheFR : SyncMap CloudWatchPtr
  authCacheLockFR : RWMutex
  clientCacheLockFR : RWMutex
deriving DecidableEq, Repr

/-- Zero values at process start. -/
def Vars.init : Vars := ⟨SyncMap.empty, SyncMap.empty, RWMutex.zero, RWMutex.zero⟩

/-- The package as seen by its resolvers. -/
structure State where
  trace : List Call
  vars : Vars
deriving DecidableEq, Repr

/-- Process start. -/
def State.init : State := ⟨[], Vars.init⟩

/-- `authenticateAndCacheFR(commandParam)`. -/
def authenticateAndCacheFR (env : Collaborators) (commandParam : CommandParam)
    (s : State) : Outcome State (AuthPtr × GoError) :=
  let cacheKey := commandParam.CloudElementId
  -- authCacheLockFR.Lock()
  match s.vars.authCacheLockFR.Lock with
  | none => Outcome.blocked s
  | some held =>
    let s1 : State := { s with vars := { s.vars with authCacheLockFR := held } }
    let body : (AuthPtr × GoError) × State :=
      match s1.vars.authCacheFR.Load cacheKey with
      | some auth => ((auth, none), s1)
      | none =>
        let r := env.DoAuthenticate s1.trace commandParam
        let s2 : State := { s1 with trace := s1.trace ++ [Call.DoAuthenticate commandParam] }
        match r.2.2 with
        | some err => ((none, some err), s2)
        | none =>
          ((r.2.1, none),
            { s2 with vars := { s2.vars with
                authCacheFR := s2.vars.authCacheFR.Store cacheKey r.2.1 } })
    -- defer authCacheLockFR.Unlock()
    match body.2.vars.authCacheLockFR.Unlock with
    | none => Outcome.fatal body.2
    | some free =>
      Outcome.returned body.1
        { body.2 with vars := { body.2.vars with authCacheLockFR := free } }

/-- `cloudwatchClientCacheFR(clientAuth)`. -/
def cloudwatchClientCacheFR (env : Collaborators) (clientAuth : Auth)
    (s : State) : Outcome State (CloudWatchPtr × GoError) :=
  let cacheKey := clientAuth.CrossAccountRoleArn
  -- clientCacheLockFR.Lock()
  match s.vars.clientCacheLockFR.Lock with
  | none => Outcome.blocked s
  | some held =>
    let s1 : State := { s with vars := { s.vars with clientCacheLockFR := held } }
    let body : (CloudWatchPtr × GoError) × State :=
      match s1.vars.clientCacheFR.Load cacheKey with
      | some client => ((client, none), s1)
      | none =>
        let cloudWatchClient := env.GetClient s1.trace clientAuth ServiceKind.CLOUDWATCH
        let s2 : State :=
          { s1 with trace := s1.trace ++ [Call.GetClient clientAuth ServiceKind.CLOUDWATCH] }
        ((cloudWatchClient, none),
          { s2 with vars := { s2.vars with
              clientCacheFR := s2.vars.clientCacheFR.Store cacheKey cloudWatchClient } })
    -- defer clientCacheLockFR.Unlock()
    match body.2.vars.clientCacheLockFR.Unlock with
    | none => Outcome.fatal body.2
    | some free =>
      Outcome.returned body.1
        { body.2 with vars := { body.2.vars with clientCacheLockFR := free } }

/-- The function counts that `Lambda.GetLambdaFunctionsByRegion` returns next to its document
(a value of a type of the `awsx-getelementdetails` library), identified by a handle. -/
structure FunctionCounts where
  handle : Nat
deriving DecidableEq, Repr

/-- The collaborator `Lambda.GetLambdaFunctionsByRegion(clientAuth)`, which yields
`(jsonString, functionCounts, totalFunctions)` and no error; `none` is the nil value of the
function counts. -/
abbrev FunctionsFetch := Auth → String × Option FunctionCounts × Int

/-- The identity descriptor that `GetFunctionByRegionPanel` builds from `r.URL.Query()`. -/
def GetFunctionByRegionPanel_commandParam (query : Values) : CommandParam :=
  let region := query.Get "zone"
  let elementId := query.Get "elementId"
  let elementApiUrl := query.Get "cmdbApiUrl"
  let crossAccountRoleArn := query.Get "crossAccountRoleArn"
  let externalId := query.Get "externalId"
  let commandParam := CommandParam.zero
  if elementId ≠ "" then
    { commandParam with
        CloudElementId := elementId, CloudElementApiUrl := elementApiUrl, Region := region }
  else
    { commandParam with
        CrossAccountRoleArn := crossAccountRoleArn, ExternalId := externalId, Region := region }

/-- The statements of `GetFunctionByRegionPanel` after `Lambda.GetLambdaFunctionsByRegion` has
returned `(jsonString, functionCounts, totalFunctions)`. The `err` they test first is the
variable `err` of the handler, whose last assignment is the result of
`authenticateAndCacheFR`; `MarshalFunctionCounts` is `json.Marshal` at the type of
`functionCounts`. -/
def GetFunctionByRegionPanel_respond
    (MarshalFunctionCounts : Option FunctionCounts → Except String String)
    (responseType : String) (jsonString : String) (functionCounts : Option FunctionCounts)
    (err : GoError) (w : ResponseWriter) : ResponseWriter :=
  match err with
  | some e => http.Error w ("Exception: " ++ e) http.StatusInternalServerError
  | none =>
    if responseType = "frame" then
      match json.Encode w (MarshalFunctionCounts functionCounts) with
      | (some e, w1) => http.Error w1 ("Exception: " ++ e) http.StatusInternalServerError
      | (none, w1) => w1
    else
      -- Marshal the JSON string directly
      let w1 := w.HeaderSet "Content-Type" "application/json"
      match w1.Write (fmt.Sprintf jsonString) with
      | (some e, w2) => http.Error w2 ("Exception: " ++ e) http.StatusInternalServerError
      | (none, w2) => w2

/-- `GetFunctionByRegionPanel(w, r)`, with `query = r.URL.Query()`. The handler resolves no
client (those statements are commented out), so a nil `clientAuth` reaches the guard
`if clientAuth != nil`, and the handler then returns without having written anything. -/
def GetFunctionByRegionPanel (env : Collaborators)
    (MarshalFunctionCounts : Option FunctionCounts → Except String String)
    (GetLambdaFunctionsByRegion : FunctionsFetch) (query : Values) (s : State)
    (w : ResponseWriter) : Served State :=
  let w0 := w.HeaderSet "Content-Type" "application/json"
  let responseType := query.Get "responseType"
  let commandParam := GetFunctionByRegionPanel_commandParam query
  match authenticateAndCacheFR env commandParam s with
  | Outcome.blocked s1 => ⟨Ending.blocked, s1, w0, 0⟩
  | Outcome.fatal s1 => ⟨Ending.fatal, s1, w0, 0⟩
  | Outcome.returned (clientAuth, err) s1 =>
    match err with
    | some e =>
      ⟨Ending.returned, s1,
        http.Error w0 ("Authentication failed: " ++ e) http.StatusInternalServerError, 0⟩
    | none =>
      match clientAuth with
      | none => ⟨Ending.returned, s1, w0, 0⟩
      | some auth =>
        let r := GetLambdaFunctionsByRegion auth
        ⟨Ending.returned, s1,
          GetFunctionByRegionPanel_respond MarshalFunctionCounts responseType r.1 r.2.1 err w0,
          1⟩

end Lambda

/-! ## Package handlers: GetEc2 and GetDynamodb

The two handlers keep no package state; their collaborators are
`authenticate.AuthenticateData` and the resource controllers. `Served.fetches` counts the
calls of the resource controller. -/

namespace handlers

/-- The collaborator `authenticate.AuthenticateData(vaultUrl, vaultToken, accountId, region,
accessKey, secretKey, crossAccountRoleArn, externalId)`, which yields
`(authFlag, clientAuth, err)`. -/
abbrev Authenticate :=
  String → String → String → String → String → String → String → String →
    Bool × AuthPtr × GoError

/-- The instances `controller.GetEc2Instances` returns (a value of a type of the `awsx-ec2`
library), identified by a handle. -/
structure Ec2Instances where
  handle : Nat
deriving DecidableEq, Repr

/-- The collaborator `controller.GetEc2Instances(clientAuth)`, which yields
`(result, respErr)`; `none` is the nil result. -/
abbrev Ec2Controller := AuthPtr → Option Ec2Instances × GoError

/-- The statements of `GetEc2` after `authenticate.AuthenticateData` has returned
`(authFlag, clientAuth, err)`; they are the same in both branches of `if vaultUrl != ""`.
`MarshalEc2Instances` is `json.Marshal` at the type of `result`. When `err` is nil and
`authFlag` is false, `err.Error()` is a method call on a nil interface value. -/
def GetEc2_respond (GetEc2Instances : Ec2Controller)
    (MarshalEc2Instances : Option Ec2Instances → Except String String)
    (authFlag : Bool) (clientAuth : AuthPtr) (err : GoError) (w : ResponseWriter) :
    Served Unit :=
  if err.isSome || !authFlag then
    match err with
    | none =>
      -- `log.Error(err.Error())` with a nil `err`
      ⟨Ending.panicked, (), w, 0⟩
    | some e =>
      ⟨Ending.returned, (),
        http.Error w (fmt.Sprintf ("Exception: " ++ e)) http.StatusInternalServerError, 0⟩
  else
    let r := GetEc2Instances clientAuth
    match r.2 with
    | some e =>
      ⟨Ending.returned, (),
        http.Error w (fmt.Sprintf ("Exception: " ++ e)) http.StatusInternalServerError, 1⟩
    | none => ⟨Ending.returned, (), (json.Encode w (MarshalEc2Instances r.1)).2, 1⟩

/-- `GetEc2(w, r)`, with `query = r.URL.Query()`. -/
def GetEc2 (AuthenticateData : Authenticate) (GetEc2Instances : Ec2Controller)
    (MarshalEc2Instances : Option Ec2Instances → Except String String)
    (query : Values) (w : ResponseWriter) : Served Unit :=
  let w0 := w.HeaderSet "Content-Type" "application/json"
  let region := query.Get "zone"
  let vaultUrl := query.Get "vaultUrl"
  if vaultUrl ≠ "" then
    let accountId := query.Get "accountId"
    let vaultToken := query.Get "vaultToken"
    let r := AuthenticateData vaultUrl vaultToken accountId region "" "" "" ""
    GetEc2_respond GetEc2Instances MarshalEc2Instances r.1 r.2.1 r.2.2 w0
  else
    let accessKey := query.Get "accessKey"
    let secretKey := query.Get "secretKey"
    let crossAccountRoleArn := query.Get "crossAccountRoleArn"
    let externalId := query.Get "externalId"
    let r := AuthenticateData "" "" "" region accessKey secretKey crossAccountRoleArn externalId
    GetEc2_respond GetEc2Instances MarshalEc2Instances r.1 r.2.1 r.2.2 w0

/-- A slice `[]command.DynamodbObj` (a type of the `awsx-dynamodb` library), identified by a
handle. -/
structure DynamodbObjs where
  handle : Nat
deriving DecidableEq, Repr

/-- The collaborator `controller.GetDynamodbDetails(clientAuth)`, which yields
`(result, respErr)` with `result` a string. -/
abbrev DynamodbController := AuthPtr → String × GoError

/-- The functions of `encoding/json` that `GetDynamodb` calls, at the types it calls them
with. -/
structure DynamodbJSON where
  /-- `json.Unmarshal([]byte(result), &dynamodbObj)` with `var dynamodbObj
  []command.DynamodbObj`. -/
  UnmarshalDynamodbObjs : String → Except String DynamodbObjs
  /-- `json.Marshal(dynamodbObj)`, as used by `json.NewEncoder(w).Encode`. -/
  MarshalDynamodbObjs : DynamodbObjs → Except String String

/-- The statements of `GetDynamodb` after `authenticate.AuthenticateData` has returned
`(authFlag, clientAuth, err)`; they are the same in both branches of `if vaultUrl != ""`.
When `err` is nil and `authFlag` is false, `err.Error()` is a method call on a nil interface
value. -/
def GetDynamodb_respond (GetDynamodbDetails : DynamodbController) (lib : DynamodbJSON)
    (authFlag : Bool) (clientAuth : AuthPtr) (err : GoError) (w : ResponseWriter) :
    Served Unit :=
  if err.isSome || !authFlag then
    match err with
    | none =>
      -- `log.Error(err.Error())` with a nil `err`
      ⟨Ending.panicked, (), w, 0⟩
    | some e =>
      ⟨Ending.returned, (),
        http.Error w (fmt.Sprintf ("Exception: " ++ e)) http.StatusInternalServerError, 0⟩
  else
    let r := GetDynamodbDetails clientAuth
    match r.2 with
    | some e =>
      ⟨Ending.returned, (),
        http.Error w (fmt.Sprintf ("Exception: " ++ e)) http.StatusInternalServerError, 1⟩
    | none =>
      match lib.UnmarshalDynamodbObjs r.1 with
      | Except.error e =>
        ⟨Ending.returned, (),
          http.Error w (fmt.Sprintf ("Exception: " ++ e)) http.StatusInternalServerError, 1⟩
      | Except.ok dynamodbObj =>
        ⟨Ending.returned, (), (json.Encode w (lib.MarshalDynamodbObjs dynamodbObj)).2, 1⟩

/-- `GetDynamodb(w, r)`, with `query = r.URL.Query()`. -/
def GetDynamodb (AuthenticateData : Authenticate) (GetDynamodbDetails : DynamodbController)
    (lib : DynamodbJSON) (query : Values) (w : ResponseWriter) : Served Unit :=
  let w0 := w.HeaderSet "Content-Type" "application/json"
  let region := query.Get "zone"
  let vaultUrl := query.Get "vaultUrl"
  if vaultUrl ≠ "" then
    let accountId := query.Get "accountId"
    let vaultToken := query.Get "vaultToken"
    let r := AuthenticateData vaultUrl vaultToken accountId region "" "" "" ""
    GetDynamodb_respond GetDynamodbDetails lib r.1 r.2.1 r.2.2 w0
  else
    let accessKey := query.Get "accessKey"
    let secretKey := query.Get "secretKey"
    let crossAccountRoleArn := query.Get "crossAccountRoleArn"
    let externalId := query.Get "externalId"
    let r := AuthenticateData "" "" "" region accessKey secretKey crossAccountRoleArn externalId
    GetDynamodb_respond GetDynamodbDetails lib r.1 r.2.1 r.2.2 w0

end handlers

/-! ## States that differ in some variables -/

/-- The outcome with `f` applied to the state it leaves behind. -/
def Outcome.mapState {σ α : Type} (f : σ → σ) : Outcome σ α → Outcome σ α
  | Outcome.returned v s => Outcome.returned v (f s)
  | Outcome.blocked s => Outcome.blocked (f s)
  | Outcome.fatal s => Outcome.fatal (f s)

/-! ## More sample collaborators -/

/-- A sample pair of collaborators whose authentication reports success with a nil credentials
pointer and a nil error. -/
def sampleNilAuthEnv : Collaborators where
  DoAuthenticate := fun _ _ => (true, none, none)
  GetClient := fun t _ _ => some ⟨t.length⟩

/-- A Lambda collaborator that returns the same document, counts and total for every call. -/
def sampleFunctionsFetch (jsonString : String) (functionCounts : Option Lambda.FunctionCounts)
    (totalFunctions : Int) : Lambda.FunctionsFetch :=
  fun _ => (jsonString, functionCounts, totalFunctions)

/-- Sample `json.Marshal` of function counts: the nil value is `null`; counts that are not nil
are written as an object that carries their handle, which stands in for the encoding of the
library's type. -/
def sampleMarshalFunctionCounts : Option Lambda.FunctionCounts → Except String String
  | none => Except.ok "null"
  | some c => Except.ok ("\x7b\"counts\":" ++ toString c.handle ++ "\x7d")

/-- A sample document with a percent sign inside a string. -/
def samplePercentDocument : String := "\x7b\"cpu\":\"50%\"\x7d"

/-- An `AuthenticateData` that returns the same triple for every call. -/
def sampleAuthenticateData (authFlag : Bool) (clientAuth : AuthPtr) (err : GoError) :
    handlers.Authenticate :=
  fun _ _ _ _ _ _ _ _ => (authFlag, clientAuth, err)

/-- Sample state of package EC2: the start panel has stored credentials for element `i-123`;
every other map is empty. -/
def sampleStartCached : EC2.State :=
  { EC2.State.init with
    vars := { EC2.Vars.init with
      authCacheInstanceStartPanel :=
        SyncMap.empty.Store "i-123" (some ⟨"arn:start", "i-123"⟩) } }

/-! ## The JSON values of the typed structures

What a document must be for `json.Unmarshal` followed by `json.Marshal` to give its value
back: an object with exactly the fields of the structure, with timestamps and numbers in the
form `json.Marshal` prints. -/

namespace Json

end Json

namespace SyncMap

variable {V : Type}

theorem Load_empty (key : String) : (empty : SyncMap V).Load key = none := rfl

theorem Load_Store_self (m : SyncMap V) (key : String) (value : V) :
    (m.Store key value).Load key = some value := by
  simp [Load, Store]

theorem Load_Store_of_ne (m : SyncMap V) {key key2 : String} (value : V) (h : key2 ≠ key) :
    (m.Store key value).Load key2 = m.Load key2 := by
  have hk : (key == key2) = false := by simpa using fun e => h e.symm
  simp only [Load, Store, List.find?_cons, hk]
  congr 1
  induction m.entries with
  | nil => rfl
  | cons e es ih =>
    obtain ⟨k, v⟩ := e
    by_cases h1 : k = key
    · subst h1
      simp [List.filter_cons, List.find?_cons, hk, ih]
    · by_cases h3 : k = key2
      · subst h3
        simp [List.filter_cons, List.find?_cons, h1]
      · simp [List.filter_cons, List.find?_cons, h1, h3, ih]

theorem Load_Store (m : SyncMap V) (key key2 : String) (value : V) :
    (m.Store key value).Load key2 = if key2 = key then some value else m.Load key2 := by
  by_cases h : key2 = key
  · subst h; simp [Load_Store_self]
  · simp [h, Load_Store_of_ne]

end SyncMap

/-! ## One resolution of authenticateAndCache4XX, case by case -/

namespace ApiGateway

/-- A state whose 4XX credential lock is free and then released again is the state itself. -/
theorem State.relock_authCacheLock4XX (s : State) (h : s.vars.authCacheLock4XX.locked = false) :
    ({ s with vars := { s.vars with authCacheLock4XX := ⟨false⟩ } } : State) = s := by
  obtain ⟨t, v⟩ := s
  obtain ⟨a, b, ⟨l⟩, d⟩ := v
  simp_all

/-- Cache hit: the stored pointer is returned, nothing changes. -/
theorem authenticateAndCache4XX_hit (env : Collaborators) (p : CommandParam) (s : State)
    (u : AuthPtr) (hl : s.vars.authCacheLock4XX.locked = false)
    (hk : s.vars.authCache4XX.Load p.CloudElementId = some u) :
    authenticateAndCache4XX env p s = Outcome.returned (u, none) s := by
  simp only [authenticateAndCache4XX, RWMutex.Lock, RWMutex.Unlock, hl, hk]
  simp [State.relock_authCacheLock4XX s hl]

/-- Successful miss: one `DoAuthenticate` call, its pointer is stored and returned. -/
theorem authenticateAndCache4XX_miss_ok (env : Collaborators) (p : CommandParam) (s : State)
    (hl : s.vars.authCacheLock4XX.locked = false)
    (hk : s.vars.authCache4XX.Load p.CloudElementId = none)
    (hr : (env.DoAuthenticate s.trace p).2.2 = none) :
    authenticateAndCache4XX env p s =
      Outcome.returned ((env.DoAuthenticate s.trace p).2.1, none)
        { trace := s.trace ++ [Call.DoAuthenticate p],
          vars := { s.vars with
            authCache4XX :=
              s.vars.authCache4XX.Store p.CloudElementId (env.DoAuthenticate s.trace p).2.1 } } := by
  simp only [authenticateAndCache4XX, RWMutex.Lock, RWMutex.Unlock, hl, hk, hr]
  obtain ⟨t, v⟩ := s
  obtain ⟨a, b, ⟨l⟩, d⟩ := v
  simp_all

/-- Failed miss: one `DoAuthenticate` call, `(nil, err)` is returned, nothing is stored. -/
theorem authenticateAndCache4XX_miss_err (env : Collaborators) (p : CommandParam) (s : State)
    (err : String) (hl : s.vars.authCacheLock4XX.locked = false)
    (hk : s.vars.authCache4XX.Load p.CloudElementId = none)
    (hr : (env.DoAuthenticate s.trace p).2.2 = some err) :
    authenticateAndCache4XX env p s =
      Outcome.returned (none, some err) { s with trace := s.trace ++ [Call.DoAuthenticate p] } := by
  simp only [authenticateAndCache4XX, RWMutex.Lock, RWMutex.Unlock, hl, hk, hr]
  obtain ⟨t, v⟩ := s
  obtain ⟨a, b, ⟨l⟩, d⟩ := v
  simp_all

/-- The lock is held: the resolver waits and nothing changes. -/
theorem authenticateAndCache4XX_held (env : Collaborators) (p : CommandParam) (s : State)
    (hl : s.vars.authCacheLock4XX.locked = true) :
    authenticateAndCache4XX env p s = Outcome.blocked s := by
  simp [authenticateAndCache4XX, RWMutex.Lock, hl]

end ApiGateway

/-! ## One resolution of nodeUptimeAuthenticateAndCache, case by case -/

namespace EKS

/-- Cache hit: the stored pointer is returned, nothing changes. -/
theorem nodeUptimeAuthenticateAndCache_hit (env : Collaborators) (p : CommandParam)
    (s : State) (u : AuthPtr) (hl : s.vars.nodeUptimeAuthCacheLock.locked = false)
    (hk : s.vars.nodeUptimeAuthCache.Load p.CloudElementId = some u) :
    nodeUptimeAuthenticateAndCache env p s = Outcome.returned (u, none) s := by
  simp only [nodeUptimeAuthenticateAndCache, RWMutex.Lock, RWMutex.Unlock, hl, hk]
  obtain ⟨t, v⟩ := s
  obtain ⟨a, b, ⟨l⟩, d⟩ := v
  simp_all

/-- Successful miss: one `DoAuthenticate` call, its pointer is stored and returned. -/
theorem nodeUptimeAuthenticateAndCache_miss_ok (env : Collaborators) (p : CommandParam)
    (s : State) (hl : s.vars.nodeUptimeAuthCacheLock.locked = false)
    (hk : s.vars.nodeUptimeAuthCache.Load p.CloudElementId = none)
    (hr : (env.DoAuthenticate s.trace p).2.2 = none) :
    nodeUptimeAuthenticateAndCache env p s =
      Outcome.returned ((env.DoAuthenticate s.trace p).2.1, none)
        { trace := s.trace ++ [Call.DoAuthenticate p],
          vars := { s.vars with
            nodeUptimeAuthCache :=
              s.vars.nodeUptimeAuthCache.Store p.CloudElementId
                (env.DoAuthenticate s.trace p).2.1 } } := by
  simp only [nodeUptimeAuthenticateAndCache, RWMutex.Lock, RWMutex.Unlock, hl, hk, hr]
  obtain ⟨t, v⟩ := s
  obtain ⟨a, b, ⟨l⟩, d⟩ := v
  simp_all

end EKS

/-! ## Sequences of resolutions -/

/-- A call that returns `r` and leaves the state `s` as it was does so any number of times. -/
theorem runSeq_fixed {σ α β : Type} (f : α → σ → Outcome σ β) (as : List α) (s : σ) (r : β)
    (h : ∀ a ∈ as, f a s = Outcome.returned r s) :
    runSeq f as s = Outcome.returned (List.replicate as.length r) s := by
  induction as with
  | nil => rfl
  | cons a as ih =>
    have h1 := h a (List.mem_cons_self a as)
    have h2 := ih (fun b hb => h b (List.mem_cons_of_mem a hb))
    simp [runSeq, h1, h2, List.replicate_succ]

theorem authCalls_append_auth (t : List Call) (p : CommandParam) :
    authCalls (t ++ [Call.DoAuthenticate p]) = authCalls t + 1 := by
  simp [authCalls, List.countP_append]

theorem authCalls_append_client (t : List Call) (a : Auth) (k : ServiceKind) :
    authCalls (t ++ [Call.GetClient a k]) = authCalls t := by
  simp [authCalls, List.countP_append]

theorem clientCalls_append_client (t : List Call) (a : Auth) (k : ServiceKind) :
    clientCalls (t ++ [Call.GetClient a k]) = clientCalls t + 1 := by
  simp [clientCalls, List.countP_append]

theorem clientCalls_append_auth (t : List Call) (p : CommandParam) :
    clientCalls (t ++ [Call.DoAuthenticate p]) = clientCalls t := by
  simp [clientCalls, List.countP_append]

/-! ## Claims -/

/-- C1. Miss-then-hit for `authenticateAndCache4XX` and its defer-style copy
`nodeUptimeAuthenticateAndCache`: from any cache state with the lock at rest, for a non-empty
sequence of resolutions whose descriptors all carry the key `k`, (a) if `k` is already cached
with `u`, every resolution returns `(u, nil)` and `DoAuthenticate` is never invoked (the state,
call history included, is unchanged); (b) if `k` is absent and the first `DoAuthenticate` call
succeeds with `v`, every resolution returns `(v, nil)` and the call history grows by exactly
that one `DoAuthenticate` call, `v` being stored under `k`. -/
theorem C1_authenticate_once (env : Collaborators) (k : String) :
    (∀ (s : ApiGateway.State) (p0 : CommandParam) (ps : List CommandParam),
      s.vars.authCacheLock4XX.locked = false →
      (∀ p ∈ p0 :: ps, p.CloudElementId = k) →
      (∀ u, s.vars.authCache4XX.Load k = some u →
        runSeq (ApiGateway.authenticateAndCache4XX env) (p0 :: ps) s =
          Outcome.returned (List.replicate (ps.length + 1) (u, none)) s) ∧
      (∀ v, s.vars.authCache4XX.Load k = none →
        (env.DoAuthenticate s.trace p0).2 = (v, none) →
        runSeq (ApiGateway.authenticateAndCache4XX env) (p0 :: ps) s =
          Outcome.returned (List.replicate (ps.length + 1) (v, none))
            { trace := s.trace ++ [Call.DoAuthenticate p0],
              vars := { s.vars with authCache4XX := s.vars.authCache4XX.Store k v } } ∧
        authCalls (s.trace ++ [Call.DoAuthenticate p0]) = authCalls s.trace + 1)) ∧
    (∀ (s : EKS.State) (p0 : CommandParam) (ps : List CommandParam),
      s.vars.nodeUptimeAuthCacheLock.locked = false →
      (∀ p ∈ p0 :: ps, p.CloudElementId = k) →
      (∀ u, s.vars.nodeUptimeAuthCache.Load k = some u →
        runSeq (EKS.nodeUptimeAuthenticateAndCache env) (p0 :: ps) s =
          Outcome.returned (List.replicate (ps.length + 1) (u, none)) s) ∧
      (∀ v, s.vars.nodeUptimeAuthCache.Load k = none →
        (env.DoAuthenticate s.trace p0).2 = (v, none) →
        runSeq (EKS.nodeUptimeAuthenticateAndCache env) (p0 :: ps) s =
          Outcome.returned (List.replicate (ps.length + 1) (v, none))
            { trace := s.trace ++ [Call.DoAuthenticate p0],
              vars := { s.vars with
                nodeUptimeAuthCache := s.vars.nodeUptimeAuthCache.Store k v } } ∧
        authCalls (s.trace ++ [Call.DoAuthenticate p0]) = authCalls s.trace + 1)) := by
  refine ⟨?_, ?_⟩
  · intro s p0 ps hl hkey
    refine ⟨?_, ?_⟩
    · intro u hu
      have := runSeq_fixed (ApiGateway.authenticateAndCache4XX env) (p0 :: ps) s (u, none)
        (fun p hp => ApiGateway.authenticateAndCache4XX_hit env p s u hl
          (by rw [hkey p hp]; exact hu))
      simpa using this
    · intro v hk hr
      have hk0 : p0.CloudElementId = k := hkey p0 (List.mem_cons_self p0 ps)
      have h1 : (env.DoAuthenticate s.trace p0).2.2 = none := by rw [hr]
      have h2 : (env.DoAuthenticate s.trace p0).2.1 = v := by rw [hr]
      have hfirst := ApiGateway.authenticateAndCache4XX_miss_ok env p0 s hl
        (by rw [hk0]; exact hk) h1
      rw [h2, hk0] at hfirst
      refine ⟨?_, authCalls_append_auth s.trace p0⟩
      have hrest := runSeq_fixed (ApiGateway.authenticateAndCache4XX env) ps
        { trace := s.trace ++ [Call.DoAuthenticate p0],
          vars := { s.vars with authCache4XX := s.vars.authCache4XX.Store k v } } (v, none)
        (fun p hp => ApiGateway.authenticateAndCache4XX_hit env p _ v hl
          (by rw [hkey p (List.mem_cons_of_mem p0 hp)]; exact SyncMap.Load_Store_self _ _ _))
      simp [runSeq, hfirst, hrest, List.replicate_succ]
  · intro s p0 ps hl hkey
    refine ⟨?_, ?_⟩
    · intro u hu
      have := runSeq_fixed (EKS.nodeUptimeAuthenticateAndCache env) (p0 :: ps) s (u, none)
        (fun p hp => EKS.nodeUptimeAuthenticateAndCache_hit env p s u hl
          (by rw [hkey p hp]; exact hu))
      simpa using this
    · intro v hk hr
      have hk0 : p0.CloudElementId = k := hkey p0 (List.mem_cons_self p0 ps)
      have h1 : (env.DoAuthenticate s.trace p0).2.2 = none := by rw [hr]
      have h2 : (env.DoAuthenticate s.trace p0).2.1 = v := by rw [hr]
      have hfirst := EKS.nodeUptimeAuthenticateAndCache_miss_ok env p0 s hl
        (by rw [hk0]; exact hk) h1
      rw [h2, hk0] at hfirst
      refine ⟨?_, authCalls_append_auth s.trace p0⟩
      have hrest := runSeq_fixed (EKS.nodeUptimeAuthenticateAndCache env) ps
        { trace := s.trace ++ [Call.DoAuthenticate p0],
          vars := { s.vars with
            nodeUptimeAuthCache := s.vars.nodeUptimeAuthCache.Store k v } } (v, none)
        (fun p hp => EKS.nodeUptimeAuthenticateAndCache_hit env p _ v hl
          (by rw [hkey p (List.mem_cons_of_mem p0 hp)]; exact SyncMap.Load_Store_self _ _ _))
      simp [runSeq, hfirst, hrest, List.replicate_succ]

/-- C1 at a concrete input: three sequential resolutions for element `i-123` on the empty
cache authenticate once and all return the credentials of the first descriptor. -/
theorem C1_authenticate_once_witness :
    runSeq (ApiGateway.authenticateAndCache4XX sampleEnv)
        [sampleElement, sampleElementWest, sampleNoRegion] ApiGateway.State.init =
      Outcome.returned (List.replicate 3 (some ⟨"", "i-123"⟩, none))
        { trace := [Call.DoAuthenticate sampleElement],
          vars := { ApiGateway.Vars.init with
            authCache4XX := SyncMap.empty.Store "i-123" (some ⟨"", "i-123"⟩) } } ∧
    authCalls ([] ++ [Call.DoAuthenticate sampleElement]) = authCalls [] + 1 :=
  ((C1_authenticate_once sampleEnv "i-123").1 ApiGateway.State.init sampleElement
    [sampleElementWest, sampleNoRegion] (by decide) (by decide)).2
    (some ⟨"", "i-123"⟩) (by decide) (by decide)

/-- Whatever the collaborator answers, a resolution by `authenticateAndCache4XX` that finds
the lock free and the key absent extends the call history by exactly the one call
`DoAuthenticate p` and returns what that call yields. -/
theorem ApiGateway.authenticateAndCache4XX_miss_trace (env : Collaborators) (p : CommandParam)
    (s : ApiGateway.State) (hl : s.vars.authCacheLock4XX.locked = false)
    (hk : s.vars.authCache4XX.Load p.CloudElementId = none) :
    (ApiGateway.authenticateAndCache4XX env p s).state.trace =
        s.trace ++ [Call.DoAuthenticate p] ∧
    (ApiGateway.authenticateAndCache4XX env p s).value? =
      some (match (env.DoAuthenticate s.trace p).2.2 with
        | some err => (none, some err)
        | none => ((env.DoAuthenticate s.trace p).2.1, none)) := by
  cases hr : (env.DoAuthenticate s.trace p).2.2 with
  | none =>
    rw [ApiGateway.authenticateAndCache4XX_miss_ok env p s hl hk hr]
    simp [Outcome.state, Outcome.value?]
  | some err =>
    rw [ApiGateway.authenticateAndCache4XX_miss_err env p s err hl hk hr]
    simp [Outcome.state, Outcome.value?]

/-- C2. Failure non-poisoning for `authenticateAndCache4XX`: when the key is absent, the lock
is at rest and `DoAuthenticate` returns an error, the resolver returns `(nil, err)`, the cache
map is unchanged (the key is still absent), the lock is released, and the next resolution for
the same key invokes `DoAuthenticate` again and returns what that second call yields. -/
theorem C2_failure_not_cached (env : Collaborators) (p : CommandParam) (s : ApiGateway.State)
    (err : String) (hl : s.vars.authCacheLock4XX.locked = false)
    (hk : s.vars.authCache4XX.Load p.CloudElementId = none)
    (hr : (env.DoAuthenticate s.trace p).2.2 = some err) :
    ∃ s1, ApiGateway.authenticateAndCache4XX env p s = Outcome.returned (none, some err) s1 ∧
      s1.vars.authCache4XX = s.vars.authCache4XX ∧
      s1.vars.authCache4XX.Load p.CloudElementId = none ∧
      s1.vars.authCacheLock4XX.locked = false ∧
      s1.trace = s.trace ++ [Call.DoAuthenticate p] ∧
      ∀ p2 : CommandParam, p2.CloudElementId = p.CloudElementId →
        (ApiGateway.authenticateAndCache4XX env p2 s1).state.trace =
          s.trace ++ [Call.DoAuthenticate p, Call.DoAuthenticate p2] ∧
        (ApiGateway.authenticateAndCache4XX env p2 s1).value? =
          some (match (env.DoAuthenticate s1.trace p2).2.2 with
            | some err2 => (none, some err2)
            | none => ((env.DoAuthenticate s1.trace p2).2.1, none)) := by
  refine ⟨{ s with trace := s.trace ++ [Call.DoAuthenticate p] },
    ApiGateway.authenticateAndCache4XX_miss_err env p s err hl hk hr, rfl, hk, hl, rfl, ?_⟩
  intro p2 h2
  have h := ApiGateway.authenticateAndCache4XX_miss_trace env p2
    { s with trace := s.trace ++ [Call.DoAuthenticate p] } hl (by rw [h2]; exact hk)
  refine ⟨?_, h.2⟩
  rw [h.1]
  simp

/-- C2 at a concrete input: a descriptor without region fails on the empty cache, nothing is
stored, and the retry with a region authenticates again, now with success. -/
theorem C2_failure_not_cached_witness :
    ∃ s1, ApiGateway.authenticateAndCache4XX sampleEnv sampleNoRegion ApiGateway.State.init =
        Outcome.returned (none, some "region missing") s1 ∧
      s1.vars.authCache4XX = ApiGateway.State.init.vars.authCache4XX ∧
      s1.vars.authCache4XX.Load sampleNoRegion.CloudElementId = none ∧
      s1.vars.authCacheLock4XX.locked = false ∧
      s1.trace = ApiGateway.State.init.trace ++ [Call.DoAuthenticate sampleNoRegion] ∧
      ∀ p2 : CommandParam, p2.CloudElementId = sampleNoRegion.CloudElementId →
        (ApiGateway.authenticateAndCache4XX sampleEnv p2 s1).state.trace =
          ApiGateway.State.init.trace ++
            [Call.DoAuthenticate sampleNoRegion, Call.DoAuthenticate p2] ∧
        (ApiGateway.authenticateAndCache4XX sampleEnv p2 s1).value? =
          some (match (sampleEnv.DoAuthenticate s1.trace p2).2.2 with
            | some err2 => (none, some err2)
            | none => ((sampleEnv.DoAuthenticate s1.trace p2).2.1, none)) :=
  C2_failure_not_cached sampleEnv sampleNoRegion ApiGateway.State.init "region missing"
    (by decide) (by decide) (by decide)

/-- C3. `writeBytesAuthenticateAndCache` evaluated on a failing authentication: on the empty
cache, the descriptor without region makes `DoAuthenticate` fail; the resolver returns
`(nil, err)` and stores nothing, but `writeBytesAuthCacheLock` is still held when it returns,
and the next resolution for the same key waits in `Lock()` without ever invoking
`DoAuthenticate` again. The hit path and the successful miss do release the lock. -/
theorem C3_writeBytes_auth_failure_keeps_lock :
    ∃ s1, ECS.writeBytesAuthenticateAndCache sampleEnv sampleNoRegion ECS.State.init =
        Outcome.returned (none, some "region missing") s1 ∧
      s1.vars.writeBytesAuthCache = SyncMap.empty ∧
      s1.vars.writeBytesAuthCacheLock.locked = true ∧
      ECS.writeBytesAuthenticateAndCache sampleEnv sampleElement s1 = Outcome.blocked s1 ∧
      authCalls s1.trace = 1 ∧
      (∃ s2, ECS.writeBytesAuthenticateAndCache sampleEnv sampleElement ECS.State.init =
          Outcome.returned (some ⟨"", "i-123"⟩, none) s2 ∧
        s2.vars.writeBytesAuthCacheLock.locked = false ∧
        ∃ s3, ECS.writeBytesAuthenticateAndCache sampleEnv sampleElement s2 =
          Outcome.returned (some ⟨"", "i-123"⟩, none) s3 ∧
        s3.vars.writeBytesAuthCacheLock.locked = false) := by
  refine ⟨_, rfl, ?_, ?_, ?_, ?_, _, rfl, ?_, _, rfl, ?_⟩ <;> decide

/-- C4. `writeBytesCloudwatchClientCache` evaluated on a miss followed by a hit for the same
role key. From process start the miss builds the client and releases
`writeBytesClientCacheLock`; the hit then calls `Unlock()` on `readBytesClientCacheLock`,
which is not held, so the runtime aborts with `writeBytesClientCacheLock` still held. When
the read-bytes panel happens to hold `readBytesClientCacheLock`, the hit returns the client
but releases that other lock and keeps `writeBytesClientCacheLock`, so the third resolution
waits in `Lock()`. -/
theorem C4_writeBytes_client_hit_unlocks_other_lock :
    (∃ s1 s2, ECS.writeBytesCloudwatchClientCache sampleEnv ⟨"role", "x"⟩ ECS.State.init =
        Outcome.returned (some ⟨0⟩, none) s1 ∧
      s1.vars.writeBytesClientCacheLock.locked = false ∧
      ECS.writeBytesCloudwatchClientCache sampleEnv ⟨"role", "x"⟩ s1 = Outcome.fatal s2 ∧
      s2.vars.writeBytesClientCacheLock.locked = true) ∧
    (∃ s1 s2,
      ECS.writeBytesCloudwatchClientCache sampleEnv ⟨"role", "x"⟩
          { ECS.State.init with
            vars := { ECS.Vars.init with readBytesClientCacheLock := ⟨true⟩ } } =
        Outcome.returned (some ⟨0⟩, none) s1 ∧
      ECS.writeBytesCloudwatchClientCache sampleEnv ⟨"role", "x"⟩ s1 =
        Outcome.returned (some ⟨0⟩, none) s2 ∧
      s1.vars.readBytesClientCacheLock.locked = true ∧
      s2.vars.readBytesClientCacheLock.locked = false ∧
      s2.vars.writeBytesClientCacheLock.locked = true ∧
      ECS.writeBytesCloudwatchClientCache sampleEnv ⟨"role", "x"⟩ s2 = Outcome.blocked s2) := by
  refine ⟨⟨_, _, rfl, ?_, rfl, ?_⟩, ⟨_, _, rfl, rfl, ?_, ?_, ?_, ?_⟩⟩ <;> decide

/-- Storing under an absent key keeps every entry that was there. -/
theorem SyncMap.Load_Store_of_absent {V : Type} (m : SyncMap V) (key : String) (value : V)
    (h : m.Load key = none) (k : String) (v : V) (hk : m.Load k = some v) :
    (m.Store key value).Load k = some v := by
  have hne : k ≠ key := by
    intro e
    rw [e, h] at hk
    exact Option.noConfusion hk
  rw [SyncMap.Load_Store_of_ne m value hne, hk]

/-- C5. Key isolation in `authenticateAndCache4XX`: for distinct keys `a` and `b`, a resolution
for `a` (in any state, whatever its outcome) leaves the entry or absence at `b` unchanged; and
for two states with the same call history and lock state whose caches agree on every key
other than `b`, the resolution for `a` returns the same value and produces the same call
history (so it invokes `DoAuthenticate` in the one exactly when it does in the other). -/
theorem C5_key_isolation (env : Collaborators) (a b : String) (hab : a ≠ b)
    (p : CommandParam) (hp : p.CloudElementId = a) :
    (∀ s : ApiGateway.State,
      (ApiGateway.authenticateAndCache4XX env p s).state.vars.authCache4XX.Load b =
        s.vars.authCache4XX.Load b) ∧
    (∀ s1 s2 : ApiGateway.State, s1.trace = s2.trace →
      s1.vars.authCacheLock4XX = s2.vars.authCacheLock4XX →
      (∀ k, k ≠ b → s1.vars.authCache4XX.Load k = s2.vars.authCache4XX.Load k) →
      (ApiGateway.authenticateAndCache4XX env p s1).value? =
        (ApiGateway.authenticateAndCache4XX env p s2).value? ∧
      (ApiGateway.authenticateAndCache4XX env p s1).state.trace =
        (ApiGateway.authenticateAndCache4XX env p s2).state.trace) := by
  refine ⟨?_, ?_⟩
  · intro s
    cases hl : s.vars.authCacheLock4XX.locked with
    | true => rw [ApiGateway.authenticateAndCache4XX_held env p s hl]; rfl
    | false =>
      cases hk : s.vars.authCache4XX.Load p.CloudElementId with
      | some u => rw [ApiGateway.authenticateAndCache4XX_hit env p s u hl hk]; rfl
      | none =>
        cases hr : (env.DoAuthenticate s.trace p).2.2 with
        | some err => rw [ApiGateway.authenticateAndCache4XX_miss_err env p s err hl hk hr]; rfl
        | none =>
          rw [ApiGateway.authenticateAndCache4XX_miss_ok env p s hl hk hr]
          simp only [Outcome.state]
          rw [hp]
          exact SyncMap.Load_Store_of_ne _ _ (fun e => hab e.symm)
  · intro s1 s2 ht hlk hag
    have hka : s1.vars.authCache4XX.Load p.CloudElementId =
        s2.vars.authCache4XX.Load p.CloudElementId := hag _ (by rw [hp]; exact hab)
    cases hl : s1.vars.authCacheLock4XX.locked with
    | true =>
      have hl2 : s2.vars.authCacheLock4XX.locked = true := by rw [← hlk]; exact hl
      rw [ApiGateway.authenticateAndCache4XX_held env p s1 hl,
        ApiGateway.authenticateAndCache4XX_held env p s2 hl2]
      exact ⟨rfl, ht⟩
    | false =>
      have hl2 : s2.vars.authCacheLock4XX.locked = false := by rw [← hlk]; exact hl
      cases hk : s1.vars.authCache4XX.Load p.CloudElementId with
      | some u =>
        rw [ApiGateway.authenticateAndCache4XX_hit env p s1 u hl hk,
          ApiGateway.authenticateAndCache4XX_hit env p s2 u hl2 (by rw [← hka]; exact hk)]
        exact ⟨rfl, ht⟩
      | none =>
        have hk2 : s2.vars.authCache4XX.Load p.CloudElementId = none := by rw [← hka]; exact hk
        have h1 := ApiGateway.authenticateAndCache4XX_miss_trace env p s1 hl hk
        have h2 := ApiGateway.authenticateAndCache4XX_miss_trace env p s2 hl2 hk2
        rw [h1.1, h1.2, h2.1, h2.2, ht]
        exact ⟨rfl, rfl⟩

/-- C5 at a concrete input: resolving element `i-123` on a cache that holds an entry for
`i-999` leaves that entry alone, and returns what it returns on the empty cache, with the
same call history. -/
theorem C5_key_isolation_witness :
    (ApiGateway.authenticateAndCache4XX sampleEnv sampleElement
        sampleOtherCached).state.vars.authCache4XX.Load "i-999" =
      sampleOtherCached.vars.authCache4XX.Load "i-999" ∧
    (ApiGateway.authenticateAndCache4XX sampleEnv sampleElement ApiGateway.State.init).value? =
      (ApiGateway.authenticateAndCache4XX sampleEnv sampleElement sampleOtherCached).value? ∧
    (ApiGateway.authenticateAndCache4XX sampleEnv sampleElement
        ApiGateway.State.init).state.trace =
      (ApiGateway.authenticateAndCache4XX sampleEnv sampleElement
        sampleOtherCached).state.trace :=
  ⟨(C5_key_isolation sampleEnv "i-123" "i-999" (by decide) sampleElement (by decide)).1
      sampleOtherCached,
   (C5_key_isolation sampleEnv "i-123" "i-999" (by decide) sampleElement (by decide)).2
      ApiGateway.State.init sampleOtherCached rfl rfl
      (fun k hk => (SyncMap.Load_Store_of_ne SyncMap.empty _ hk).symm)⟩

/-! ## One resolution of cloudwatchClientCache4XX, case by case -/

namespace ApiGateway

/-- Cache hit: the stored client is returned, nothing changes. -/
theorem cloudwatchClientCache4XX_hit (env : Collaborators) (a : Auth) (s : State)
    (c : CloudWatchPtr) (hl : s.vars.clientCacheLock4XX.locked = false)
    (hk : s.vars.clientCache4XX.Load a.CrossAccountRoleArn = some c) :
    cloudwatchClientCache4XX env a s = Outcome.returned (c, none) s := by
  simp only [cloudwatchClientCache4XX, RWMutex.Lock, RWMutex.Unlock, hl, hk]
  obtain ⟨t, v⟩ := s
  obtain ⟨a1, a2, a3, ⟨l⟩, d⟩ := v
  simp_all

/-- Miss: one `GetClient` call, its client is stored under the role key and returned. -/
theorem cloudwatchClientCache4XX_miss (env : Collaborators) (a : Auth) (s : State)
    (hl : s.vars.clientCacheLock4XX.locked = false)
    (hk : s.vars.clientCache4XX.Load a.CrossAccountRoleArn = none) :
    cloudwatchClientCache4XX env a s =
      Outcome.returned (env.GetClient s.trace a ServiceKind.CLOUDWATCH, none)
        { trace := s.trace ++ [Call.GetClient a ServiceKind.CLOUDWATCH],
          vars := { s.vars with
            clientCache4XX :=
              s.vars.clientCache4XX.Store a.CrossAccountRoleArn
                (env.GetClient s.trace a ServiceKind.CLOUDWATCH) } } := by
  simp only [cloudwatchClientCache4XX, RWMutex.Lock, RWMutex.Unlock, hl, hk]
  obtain ⟨t, v⟩ := s
  obtain ⟨a1, a2, a3, ⟨l⟩, d⟩ := v
  simp_all

/-- The lock is held: the resolver waits and nothing changes. -/
theorem cloudwatchClientCache4XX_held (env : Collaborators) (a : Auth) (s : State)
    (hl : s.vars.clientCacheLock4XX.locked = true) :
    cloudwatchClientCache4XX env a s = Outcome.blocked s := by
  simp [cloudwatchClientCache4XX, RWMutex.Lock, hl]

end ApiGateway

/-! ## One resolution of the RDS resolvers, case by case -/

namespace RDS

theorem authenticateAndCachenr_held (env : Collaborators) (p : CommandParam) (s : State)
    (hl : s.vars.authCacheLocknr.locked = true) :
    authenticateAndCachenr env p s = Outcome.blocked s := by
  simp [authenticateAndCachenr, RWMutex.Lock, hl]

theorem authenticateAndCachenr_hit (env : Collaborators) (p : CommandParam) (s : State)
    (u : AuthPtr) (hl : s.vars.authCacheLocknr.locked = false)
    (hk : s.vars.authCachenr.Load p.CloudElementId = some u) :
    authenticateAndCachenr env p s = Outcome.returned (u, none) s := by
  simp only [authenticateAndCachenr, RWMutex.Lock, RWMutex.Unlock, hl, hk]
  obtain ⟨t, v⟩ := s
  obtain ⟨a, b, ⟨l⟩, d⟩ := v
  simp_all

theorem authenticateAndCachenr_miss_ok (env : Collaborators) (p : CommandParam) (s : State)
    (hl : s.vars.authCacheLocknr.locked = false)
    (hk : s.vars.authCachenr.Load p.CloudElementId = none)
    (hr : (env.DoAuthenticate s.trace p).2.2 = none) :
    authenticateAndCachenr env p s =
      Outcome.returned ((env.DoAuthenticate s.trace p).2.1, none)
        { trace := s.trace ++ [Call.DoAuthenticate p],
          vars := { s.vars with
            authCachenr :=
              s.vars.authCachenr.Store p.CloudElementId (env.DoAuthenticate s.trace p).2.1 } } := by
  simp only [authenticateAndCachenr, RWMutex.Lock, RWMutex.Unlock, hl, hk, hr]
  obtain ⟨t, v⟩ := s
  obtain ⟨a, b, ⟨l⟩, d⟩ := v
  simp_all

theorem authenticateAndCachenr_miss_err (env : Collaborators) (p : CommandParam) (s : State)
    (err : String) (hl : s.vars.authCacheLocknr.locked = false)
    (hk : s.vars.authCachenr.Load p.CloudElementId = none)
    (hr : (env.DoAuthenticate s.trace p).2.2 = some err) :
    authenticateAndCachenr env p s =
      Outcome.returned (none, some err) { s with trace := s.trace ++ [Call.DoAuthenticate p] } := by
  simp only [authenticateAndCachenr, RWMutex.Lock, RWMutex.Unlock, hl, hk, hr]
  obtain ⟨t, v⟩ := s
  obtain ⟨a, b, ⟨l⟩, d⟩ := v
  simp_all

theorem cloudwatchClientCachenr_held (env : Collaborators) (a : Auth) (s : State)
    (hl : s.vars.clientCacheLocknr.locked = true) :
    cloudwatchClientCachenr env a s = Outcome.blocked s := by
  simp [cloudwatchClientCachenr, RWMutex.Lock, hl]

theorem cloudwatchClientCachenr_hit (env : Collaborators) (a : Auth) (s : State)
    (c : CloudWatchPtr) (hl : s.vars.clientCacheLocknr.locked = false)
    (hk : s.vars.clientCachenr.Load a.CrossAccountRoleArn = some c) :
    cloudwatchClientCachenr env a s = Outcome.returned (c, none) s := by
  simp only [cloudwatchClientCachenr, RWMutex.Lock, RWMutex.Unlock, hl, hk]
  obtain ⟨t, v⟩ := s
  obtain ⟨a1, a2, a3, ⟨l⟩⟩ := v
  simp_all

theorem cloudwatchClientCachenr_miss (env : Collaborators) (a : Auth) (s : State)
    (hl : s.vars.clientCacheLocknr.locked = false)
    (hk : s.vars.clientCachenr.Load a.CrossAccountRoleArn = none) :
    cloudwatchClientCachenr env a s =
      Outcome.returned (env.GetClient s.trace a ServiceKind.CLOUDWATCH, none)
        { trace := s.trace ++ [Call.GetClient a ServiceKind.CLOUDWATCH],
          vars := { s.vars with
            clientCachenr :=
              s.vars.clientCachenr.Store a.CrossAccountRoleArn
                (env.GetClient s.trace a ServiceKind.CLOUDWATCH) } } := by
  simp only [cloudwatchClientCachenr, RWMutex.Lock, RWMutex.Unlock, hl, hk]
  obtain ⟨t, v⟩ := s
  obtain ⟨a1, a2, a3, ⟨l⟩⟩ := v
  simp_all

end RDS

/-! ## No eviction -/

/-- Between two maps, the only change is at most one added entry for an absent key, and
every entry of the first is an entry of the second. -/
theorem SyncMap.grow_cases {V : Type} (m : SyncMap V) (key : String) (value : V)
    (h : m.Load key = none) :
    (∀ k v, m.Load k = some v → (m.Store key value).Load k = some v) ∧
    (m.Store key value = m ∨
      ∃ k v, m.Load k = none ∧ m.Store key value = m.Store k v) :=
  ⟨SyncMap.Load_Store_of_absent m key value h, Or.inr ⟨key, value, h, rfl⟩⟩

theorem SyncMap.grow_refl {V : Type} (m : SyncMap V) :
    (∀ k v, m.Load k = some v → m.Load k = some v) ∧
    (m = m ∨ ∃ k v, m.Load k = none ∧ m = m.Store k v) :=
  ⟨fun _ _ h => h, Or.inl rfl⟩

/-- C6. No eviction, invalidation or overwrite: for every call of a credential or client
resolver (`authenticateAndCache4XX`, `cloudwatchClientCache4XX`, `authenticateAndCachenr`,
`cloudwatchClientCachenr`), in any state and for any collaborator answer, every key that maps
to `v` in the resolver's cache before the call maps to `v` after it, and the cache afterwards
is either the cache before or the cache before with one entry stored under a key that was
absent. -/
theorem C6_no_eviction (env : Collaborators) :
    (∀ (p : CommandParam) (s : ApiGateway.State),
      (∀ k v, s.vars.authCache4XX.Load k = some v →
        (ApiGateway.authenticateAndCache4XX env p s).state.vars.authCache4XX.Load k = some v) ∧
      ((ApiGateway.authenticateAndCache4XX env p s).state.vars.authCache4XX =
          s.vars.authCache4XX ∨
        ∃ k v, s.vars.authCache4XX.Load k = none ∧
          (ApiGateway.authenticateAndCache4XX env p s).state.vars.authCache4XX =
            s.vars.authCache4XX.Store k v)) ∧
    (∀ (a : Auth) (s : ApiGateway.State),
      (∀ k v, s.vars.clientCache4XX.Load k = some v →
        (ApiGateway.cloudwatchClientCache4XX env a s).state.vars.clientCache4XX.Load k =
          some v) ∧
      ((ApiGateway.cloudwatchClientCache4XX env a s).state.vars.clientCache4XX =
          s.vars.clientCache4XX ∨
        ∃ k v, s.vars.clientCache4XX.Load k = none ∧
          (ApiGateway.cloudwatchClientCache4XX env a s).state.vars.clientCache4XX =
            s.vars.clientCache4XX.Store k v)) ∧
    (∀ (p : CommandParam) (s : RDS.State),
      (∀ k v, s.vars.authCachenr.Load k = some v →
        (RDS.authenticateAndCachenr env p s).state.vars.authCachenr.Load k = some v) ∧
      ((RDS.authenticateAndCachenr env p s).state.vars.authCachenr = s.vars.authCachenr ∨
        ∃ k v, s.vars.authCachenr.Load k = none ∧
          (RDS.authenticateAndCachenr env p s).state.vars.authCachenr =
            s.vars.authCachenr.Store k v)) ∧
    (∀ (a : Auth) (s : RDS.State),
      (∀ k v, s.vars.clientCachenr.Load k = some v →
        (RDS.cloudwatchClientCachenr env a s).state.vars.clientCachenr.Load k = some v) ∧
      ((RDS.cloudwatchClientCachenr env a s).state.vars.clientCachenr = s.vars.clientCachenr ∨
        ∃ k v, s.vars.clientCachenr.Load k = none ∧
          (RDS.cloudwatchClientCachenr env a s).state.vars.clientCachenr =
            s.vars.clientCachenr.Store k v)) := by
  refine ⟨?_, ?_, ?_, ?_⟩
  · intro p s
    cases hl : s.vars.authCacheLock4XX.locked with
    | true =>
      rw [ApiGateway.authenticateAndCache4XX_held env p s hl]
      exact SyncMap.grow_refl _
    | false =>
      cases hk : s.vars.authCache4XX.Load p.CloudElementId with
      | some u =>
        rw [ApiGateway.authenticateAndCache4XX_hit env p s u hl hk]
        exact SyncMap.grow_refl _
      | none =>
        cases hr : (env.DoAuthenticate s.trace p).2.2 with
        | some err =>
          rw [ApiGateway.authenticateAndCache4XX_miss_err env p s err hl hk hr]
          exact SyncMap.grow_refl _
        | none =>
          rw [ApiGateway.authenticateAndCache4XX_miss_ok env p s hl hk hr]
          exact SyncMap.grow_cases _ _ _ hk
  · intro a s
    cases hl : s.vars.clientCacheLock4XX.locked with
    | true =>
      rw [ApiGateway.cloudwatchClientCache4XX_held env a s hl]
      exact SyncMap.grow_refl _
    | false =>
      cases hk : s.vars.clientCache4XX.Load a.CrossAccountRoleArn with
      | some c =>
        rw [ApiGateway.cloudwatchClientCache4XX_hit env a s c hl hk]
        exact SyncMap.grow_refl _
      | none =>
        rw [ApiGateway.cloudwatchClientCache4XX_miss env a s hl hk]
        exact SyncMap.grow_cases _ _ _ hk
  · intro p s
    cases hl : s.vars.authCacheLocknr.locked with
    | true =>
      rw [RDS.authenticateAndCachenr_held env p s hl]
      exact SyncMap.grow_refl _
    | false =>
      cases hk : s.vars.authCachenr.Load p.CloudElementId with
      | some u =>
        rw [RDS.authenticateAndCachenr_hit env p s u hl hk]
        exact SyncMap.grow_refl _
      | none =>
        cases hr : (env.DoAuthenticate s.trace p).2.2 with
        | some err =>
          rw [RDS.authenticateAndCachenr_miss_err env p s err hl hk hr]
          exact SyncMap.grow_refl _
        | none =>
          rw [RDS.authenticateAndCachenr_miss_ok env p s hl hk hr]
          exact SyncMap.grow_cases _ _ _ hk
  · intro a s
    cases hl : s.vars.clientCacheLocknr.locked with
    | true =>
      rw [RDS.cloudwatchClientCachenr_held env a s hl]
      exact SyncMap.grow_refl _
    | false =>
      cases hk : s.vars.clientCachenr.Load a.CrossAccountRoleArn with
      | some c =>
        rw [RDS.cloudwatchClientCachenr_hit env a s c hl hk]
        exact SyncMap.grow_refl _
      | none =>
        rw [RDS.cloudwatchClientCachenr_miss env a s hl hk]
        exact SyncMap.grow_cases _ _ _ hk

/-- C6 at a concrete input: resolving `i-123` on a cache that holds `i-999` keeps the entry
for `i-999`. -/
theorem C6_no_eviction_witness :
    (ApiGateway.authenticateAndCache4XX sampleEnv sampleElement
        sampleOtherCached).state.vars.authCache4XX.Load "i-999" =
      some (some ⟨"arn:other", "i-999"⟩) :=
  ((C6_no_eviction sampleEnv).1 sampleElement sampleOtherCached).1 "i-999"
    (some ⟨"arn:other", "i-999"⟩) (by decide)

/-! ## The identity descriptor -/

/-- C7 as stated fails: a request that carries neither `elementId` nor `crossAccountRoleArn`
yields a descriptor with neither identity path populated. -/
theorem C7_neither_path_counterexample :
    ¬ (((ApiGateway.Get4XXErrorsPanel_commandParam sampleBareQuery).CloudElementId ≠ "" ∧
        (ApiGateway.Get4XXErrorsPanel_commandParam sampleBareQuery).CrossAccountRoleArn = "" ∧
        (ApiGateway.Get4XXErrorsPanel_commandParam sampleBareQuery).ExternalId = "") ∨
      ((ApiGateway.Get4XXErrorsPanel_commandParam sampleBareQuery).CloudElementId = "" ∧
        (ApiGateway.Get4XXErrorsPanel_commandParam sampleBareQuery).CrossAccountRoleArn ≠ "")) := by
  decide

/-- C7, amended. For every set of query values the descriptor built by `Get4XXErrorsPanel`
never has both identity paths populated: either `CloudElementId` is the non-empty `elementId`
and `CrossAccountRoleArn`, `ExternalId` are empty, or `CloudElementId` is empty and
`CrossAccountRoleArn`, `ExternalId` are the request's values (possibly empty). Exactly one path
is populated precisely when `elementId` or `crossAccountRoleArn` is non-empty in the request;
when both are empty, neither is. -/
theorem C7_identity_paths (query : Values) :
    (((ApiGateway.Get4XXErrorsPanel_commandParam query).CloudElementId = query.Get "elementId" ∧
        (ApiGateway.Get4XXErrorsPanel_commandParam query).CloudElementId ≠ "" ∧
        (ApiGateway.Get4XXErrorsPanel_commandParam query).CrossAccountRoleArn = "" ∧
        (ApiGateway.Get4XXErrorsPanel_commandParam query).ExternalId = "") ∨
      ((ApiGateway.Get4XXErrorsPanel_commandParam query).CloudElementId = "" ∧
        (ApiGateway.Get4XXErrorsPanel_commandParam query).CrossAccountRoleArn =
          query.Get "crossAccountRoleArn" ∧
        (ApiGateway.Get4XXErrorsPanel_commandParam query).ExternalId =
          query.Get "externalId")) ∧
    ((((ApiGateway.Get4XXErrorsPanel_commandParam query).CloudElementId ≠ "" ∧
        (ApiGateway.Get4XXErrorsPanel_commandParam query).CrossAccountRoleArn = "" ∧
        (ApiGateway.Get4XXErrorsPanel_commandParam query).ExternalId = "") ∨
      ((ApiGateway.Get4XXErrorsPanel_commandParam query).CloudElementId = "" ∧
        (ApiGateway.Get4XXErrorsPanel_commandParam query).CrossAccountRoleArn ≠ "")) ↔
      (query.Get "elementId" ≠ "" ∨ query.Get "crossAccountRoleArn" ≠ "")) := by
  by_cases h : query.Get "elementId" = ""
  · simp [ApiGateway.Get4XXErrorsPanel_commandParam, CommandParam.zero, h]
  · simp [ApiGateway.Get4XXErrorsPanel_commandParam, CommandParam.zero, h]

/-- C8. The credential cache key is the request's `elementId` (the empty string when it is
absent), so the cross-account path shares one slot: for any two descriptors with empty
`CloudElementId`, whatever their other fields, once the first resolution has returned
credentials `v` with nil error, the second resolution returns the same `v` with nil error
and leaves the state, call history included, unchanged: `DoAuthenticate` is not invoked. -/
theorem C8_cross_account_one_slot (env : Collaborators) :
    (∀ query : Values,
      (ApiGateway.Get4XXErrorsPanel_commandParam query).CloudElementId =
        query.Get "elementId") ∧
    (∀ (p1 p2 : CommandParam) (s s1 : ApiGateway.State) (v : AuthPtr),
      p1.CloudElementId = "" → p2.CloudElementId = "" →
      s.vars.authCacheLock4XX.locked = false →
      ApiGateway.authenticateAndCache4XX env p1 s = Outcome.returned (v, none) s1 →
      ApiGateway.authenticateAndCache4XX env p2 s1 = Outcome.returned (v, none) s1) := by
  refine ⟨?_, ?_⟩
  · intro query
    by_cases h : query.Get "elementId" = ""
    · simp [ApiGateway.Get4XXErrorsPanel_commandParam, CommandParam.zero, h]
    · simp [ApiGateway.Get4XXErrorsPanel_commandParam, CommandParam.zero, h]
  · intro p1 p2 s s1 v h1 h2 hl hres
    cases hk : s.vars.authCache4XX.Load p1.CloudElementId with
    | some u =>
      rw [ApiGateway.authenticateAndCache4XX_hit env p1 s u hl hk] at hres
      injection hres with hv hs
      injection hv with hu _
      subst hs hu
      exact ApiGateway.authenticateAndCache4XX_hit env p2 s u hl (by rw [h2, ← h1]; exact hk)
    | none =>
      cases hr : (env.DoAuthenticate s.trace p1).2.2 with
      | some err =>
        rw [ApiGateway.authenticateAndCache4XX_miss_err env p1 s err hl hk hr] at hres
        injection hres with hv _
        injection hv with _ he
        exact Option.noConfusion he
      | none =>
        rw [ApiGateway.authenticateAndCache4XX_miss_ok env p1 s hl hk hr] at hres
        injection hres with hv hs
        injection hv with hu _
        subst hs hu
        exact ApiGateway.authenticateAndCache4XX_hit env p2 _ _ hl
          (by rw [h2, ← h1]; exact SyncMap.Load_Store_self _ _ _)

/-- C8 at a concrete input: after role A has resolved on the empty cache, the caller with
role B, another external id and another region receives role A's credentials. -/
theorem C8_cross_account_one_slot_witness :
    ApiGateway.authenticateAndCache4XX sampleEnv sampleRoleB
        { trace := [Call.DoAuthenticate sampleRoleA],
          vars := { ApiGateway.Vars.init with
            authCache4XX := SyncMap.empty.Store "" (some ⟨"arn:aws:iam::1:role/a", ""⟩) } } =
      Outcome.returned (some ⟨"arn:aws:iam::1:role/a", ""⟩, none)
        { trace := [Call.DoAuthenticate sampleRoleA],
          vars := { ApiGateway.Vars.init with
            authCache4XX := SyncMap.empty.Store "" (some ⟨"arn:aws:iam::1:role/a", ""⟩) } } :=
  (C8_cross_account_one_slot sampleEnv).2 sampleRoleA sampleRoleB ApiGateway.State.init _
    (some ⟨"arn:aws:iam::1:role/a", ""⟩) (by decide) (by decide) (by decide) (by decide)

/-! ## The client cache -/

/-- While the client lock is at rest and `key` is cached with `c`, any resolution returns with
nil error, keeps the lock at rest and the entry in place, returns `c` when its credentials
carry `key`, and adds no `GetClient` call for `key`. -/
theorem ApiGateway.cloudwatchClientCache4XX_cached_step (env : Collaborators) (a2 : Auth)
    (s1 : ApiGateway.State) (key : String) (c : CloudWatchPtr)
    (hl : s1.vars.clientCacheLock4XX.locked = false)
    (hc : s1.vars.clientCache4XX.Load key = some c) :
    ∃ r s2, ApiGateway.cloudwatchClientCache4XX env a2 s1 = Outcome.returned (r, none) s2 ∧
      s2.vars.clientCacheLock4XX.locked = false ∧
      s2.vars.clientCache4XX.Load key = some c ∧
      (a2.CrossAccountRoleArn = key → r = c) ∧
      clientCallsFor key s2.trace = clientCallsFor key s1.trace := by
  cases hk : s1.vars.clientCache4XX.Load a2.CrossAccountRoleArn with
  | some c2 =>
    refine ⟨c2, s1, ApiGateway.cloudwatchClientCache4XX_hit env a2 s1 c2 hl hk, hl, hc, ?_, rfl⟩
    intro e
    rw [e, hc] at hk
    exact (Option.some.inj hk).symm
  | none =>
    have hne : a2.CrossAccountRoleArn ≠ key := by
      intro e
      rw [e, hc] at hk
      exact Option.noConfusion hk
    refine ⟨_, _, ApiGateway.cloudwatchClientCache4XX_miss env a2 s1 hl hk, hl, ?_, ?_, ?_⟩
    · exact SyncMap.Load_Store_of_absent _ _ _ hk _ _ hc
    · intro e
      exact absurd e hne
    · simp [clientCallsFor, List.countP_append, hne]

/-- While `key` is cached with `c`, any sequence of resolutions returns, each resolution whose
credentials carry `key` returns `(c, nil)`, and no `GetClient` call for `key` is made. -/
theorem ApiGateway.cloudwatchClientCache4XX_cached_seq (env : Collaborators) (key : String)
    (c : CloudWatchPtr) (later : List Auth) :
    ∀ s1 : ApiGateway.State, s1.vars.clientCacheLock4XX.locked = false →
      s1.vars.clientCache4XX.Load key = some c →
      ∃ rs s2, runSeq (ApiGateway.cloudwatchClientCache4XX env) later s1 =
          Outcome.returned rs s2 ∧
        rs.length = later.length ∧
        (∀ x ∈ later.zip rs, x.1.CrossAccountRoleArn = key → x.2 = (c, none)) ∧
        clientCallsFor key s2.trace = clientCallsFor key s1.trace := by
  induction later with
  | nil =>
    intro s1 _ _
    exact ⟨[], s1, rfl, rfl, by simp, rfl⟩
  | cons a2 rest ih =>
    intro s1 hl hc
    obtain ⟨r, s2, h1, hl2, hc2, hr, hn⟩ :=
      ApiGateway.cloudwatchClientCache4XX_cached_step env a2 s1 key c hl hc
    obtain ⟨rs, s3, h3, hlen, hall, hn3⟩ := ih s2 hl2 hc2
    refine ⟨(r, none) :: rs, s3, ?_, ?_, ?_, ?_⟩
    · simp [runSeq, h1, h3]
    · simp [hlen]
    · intro x hx hkx
      rw [List.zip_cons_cons, List.mem_cons] at hx
      rcases hx with hx | hx
      · subst hx
        simp [hr hkx]
      · exact hall x hx hkx
    · rw [hn3, hn]

/-- C9. The client cache of the 4XX panel is keyed by the credentials' role key
`Auth.CrossAccountRoleArn`. With the lock at rest and the role key of `a` absent, the
resolution invokes `GetClient(a, CLOUDWATCH)` once, stores its client under the role key and
returns it with nil error. Then, in every later sequence of resolutions, each resolution whose
credentials carry the same role key (whatever their other fields) returns that same client
with nil error, and no further `GetClient` call is made for that role key; and a resolution
for credentials with another role key that is not cached invokes `GetClient` for them and
returns their own client. -/
theorem C9_client_cache_by_role_key (env : Collaborators) (a : Auth) (s : ApiGateway.State)
    (hl : s.vars.clientCacheLock4XX.locked = false)
    (hk : s.vars.clientCache4XX.Load a.CrossAccountRoleArn = none) :
    ∃ s1, ApiGateway.cloudwatchClientCache4XX env a s =
        Outcome.returned (env.GetClient s.trace a ServiceKind.CLOUDWATCH, none) s1 ∧
      s1.trace = s.trace ++ [Call.GetClient a ServiceKind.CLOUDWATCH] ∧
      s1.vars.clientCache4XX.Load a.CrossAccountRoleArn =
        some (env.GetClient s.trace a ServiceKind.CLOUDWATCH) ∧
      (∀ later : List Auth, ∃ rs s2,
        runSeq (ApiGateway.cloudwatchClientCache4XX env) later s1 = Outcome.returned rs s2 ∧
        rs.length = later.length ∧
        (∀ x ∈ later.zip rs, x.1.CrossAccountRoleArn = a.CrossAccountRoleArn →
          x.2 = (env.GetClient s.trace a ServiceKind.CLOUDWATCH, none)) ∧
        clientCallsFor a.CrossAccountRoleArn s2.trace =
          clientCallsFor a.CrossAccountRoleArn s.trace + 1) ∧
      (∀ a3 : Auth, a3.CrossAccountRoleArn ≠ a.CrossAccountRoleArn →
        s.vars.clientCache4XX.Load a3.CrossAccountRoleArn = none →
        ∃ s2, ApiGateway.cloudwatchClientCache4XX env a3 s1 =
            Outcome.returned (env.GetClient s1.trace a3 ServiceKind.CLOUDWATCH, none) s2 ∧
          s2.trace = s1.trace ++ [Call.GetClient a3 ServiceKind.CLOUDWATCH] ∧
          s2.vars.clientCache4XX.Load a3.CrossAccountRoleArn =
            some (env.GetClient s1.trace a3 ServiceKind.CLOUDWATCH) ∧
          s2.vars.clientCache4XX.Load a.CrossAccountRoleArn =
            some (env.GetClient s.trace a ServiceKind.CLOUDWATCH)) := by
  refine ⟨_, ApiGateway.cloudwatchClientCache4XX_miss env a s hl hk, rfl,
    SyncMap.Load_Store_self _ _ _, ?_, ?_⟩
  · intro later
    obtain ⟨rs, s2, h1, h2, h3, h4⟩ :=
      ApiGateway.cloudwatchClientCache4XX_cached_seq env a.CrossAccountRoleArn
        (env.GetClient s.trace a ServiceKind.CLOUDWATCH) later
        { trace := s.trace ++ [Call.GetClient a ServiceKind.CLOUDWATCH],
          vars := { s.vars with
            clientCache4XX := s.vars.clientCache4XX.Store a.CrossAccountRoleArn
              (env.GetClient s.trace a ServiceKind.CLOUDWATCH) } }
        hl (SyncMap.Load_Store_self _ _ _)
    refine ⟨rs, s2, h1, h2, h3, ?_⟩
    rw [h4]
    simp [clientCallsFor, List.countP_append]
  · intro a3 hne h3
    have hk3 : (s.vars.clientCache4XX.Store a.CrossAccountRoleArn
        (env.GetClient s.trace a ServiceKind.CLOUDWATCH)).Load a3.CrossAccountRoleArn = none := by
      rw [SyncMap.Load_Store_of_ne _ _ hne, h3]
    refine ⟨_, ApiGateway.cloudwatchClientCache4XX_miss env a3
      { trace := s.trace ++ [Call.GetClient a ServiceKind.CLOUDWATCH],
        vars := { s.vars with
          clientCache4XX := s.vars.clientCache4XX.Store a.CrossAccountRoleArn
            (env.GetClient s.trace a ServiceKind.CLOUDWATCH) } } hl hk3, rfl,
      SyncMap.Load_Store_self _ _ _, ?_⟩
    exact SyncMap.Load_Store_of_absent _ _ _ hk3 _ _ (SyncMap.Load_Store_self _ _ _)

/-- C9 at a concrete input: on the empty cache the credentials with role key `role` build
one client; later resolutions carrying role key `role` get that client back without a build,
and credentials with another role key get their own client. -/
theorem C9_client_cache_by_role_key_witness :
    ∃ s1, ApiGateway.cloudwatchClientCache4XX sampleEnv ⟨"role", "x"⟩ ApiGateway.State.init =
        Outcome.returned (sampleEnv.GetClient [] ⟨"role", "x"⟩ ServiceKind.CLOUDWATCH, none) s1 ∧
      s1.trace = [] ++ [Call.GetClient ⟨"role", "x"⟩ ServiceKind.CLOUDWATCH] ∧
      s1.vars.clientCache4XX.Load "role" =
        some (sampleEnv.GetClient [] ⟨"role", "x"⟩ ServiceKind.CLOUDWATCH) ∧
      (∀ later : List Auth, ∃ rs s2,
        runSeq (ApiGateway.cloudwatchClientCache4XX sampleEnv) later s1 =
          Outcome.returned rs s2 ∧
        rs.length = later.length ∧
        (∀ x ∈ later.zip rs, x.1.CrossAccountRoleArn = "role" →
          x.2 = (sampleEnv.GetClient [] ⟨"role", "x"⟩ ServiceKind.CLOUDWATCH, none)) ∧
        clientCallsFor "role" s2.trace = clientCallsFor "role" [] + 1) ∧
      (∀ a3 : Auth, a3.CrossAccountRoleArn ≠ "role" →
        ApiGateway.State.init.vars.clientCache4XX.Load a3.CrossAccountRoleArn = none →
        ∃ s2, ApiGateway.cloudwatchClientCache4XX sampleEnv a3 s1 =
            Outcome.returned (sampleEnv.GetClient s1.trace a3 ServiceKind.CLOUDWATCH, none) s2 ∧
          s2.trace = s1.trace ++ [Call.GetClient a3 ServiceKind.CLOUDWATCH] ∧
          s2.vars.clientCache4XX.Load a3.CrossAccountRoleArn =
            some (sampleEnv.GetClient s1.trace a3 ServiceKind.CLOUDWATCH) ∧
          s2.vars.clientCache4XX.Load "role" =
            some (sampleEnv.GetClient [] ⟨"role", "x"⟩ ServiceKind.CLOUDWATCH)) :=
  C9_client_cache_by_role_key sampleEnv ⟨"role", "x"⟩ ApiGateway.State.init
    (by decide) (by decide)

/-! ## Concurrent resolutions -/

namespace ApiGateway

/-- The statement-by-statement execution agrees with `authenticateAndCache4XX`: a goroutine
that runs alone for five statements ends where the function says. -/
theorem authenticateAndCache4XX_eq_steps (env : Collaborators) (p : CommandParam) (s : State) :
    authenticateAndCache4XX env p s =
      match stepsAuthenticateAndCache4XX env p 5 (s, Pc.start) with
      | (s1, Pc.done result) => Outcome.returned result s1
      | (s1, Pc.fatal) => Outcome.fatal s1
      | (s1, _) => Outcome.blocked s1 := by
  cases hl : s.vars.authCacheLock4XX.locked with
  | true =>
    simp [authenticateAndCache4XX, stepsAuthenticateAndCache4XX, stepAuthenticateAndCache4XX,
      RWMutex.Lock, hl]
  | false =>
    cases hk : s.vars.authCache4XX.Load p.CloudElementId with
    | some u =>
      simp [authenticateAndCache4XX, stepsAuthenticateAndCache4XX,
        stepAuthenticateAndCache4XX, RWMutex.Lock, RWMutex.Unlock, hl, hk]
    | none =>
      cases hr : (env.DoAuthenticate s.trace p).2.2 with
      | some err =>
        simp [authenticateAndCache4XX, stepsAuthenticateAndCache4XX,
          stepAuthenticateAndCache4XX, RWMutex.Lock, RWMutex.Unlock, hl, hk, hr]
      | none =>
        simp [authenticateAndCache4XX, stepsAuthenticateAndCache4XX,
          stepAuthenticateAndCache4XX, RWMutex.Lock, RWMutex.Unlock, hl, hk, hr]

end ApiGateway

/-! ## Lists of goroutines -/

theorem List.set_same_of_getElem? {α : Type} (l : List α) (i : Nat) (a : α)
    (h : l[i]? = some a) : l.set i a = l := by
  induction l generalizing i with
  | nil => simp
  | cons x xs ih =>
    cases i with
    | zero => simp at h; simp [h]
    | succ n => simp at h; simp [ih n h]

theorem List.getElem?_set_cases {α : Type} (l : List α) (i j : Nat) (a b : α)
    (h : (l.set i a)[j]? = some b) : (j = i ∧ b = a) ∨ (j ≠ i ∧ l[j]? = some b) := by
  rw [List.getElem?_set] at h
  by_cases hij : i = j
  · subst hij
    simp only [if_true] at h
    split at h
    · exact Or.inl ⟨rfl, (Option.some.inj h).symm⟩
    · exact Option.noConfusion h
  · simp only [hij, if_false] at h
    exact Or.inr ⟨fun e => hij e.symm, h⟩

theorem ApiGateway.totalFuel_set (gs : List ApiGateway.Goroutine) (i : Nat)
    (g g2 : ApiGateway.Goroutine) (h : gs[i]? = some g) :
    ApiGateway.totalFuel (gs.set i g2) + g.pc.fuel = ApiGateway.totalFuel gs + g2.pc.fuel := by
  induction gs generalizing i with
  | nil => simp at h
  | cons x xs ih =>
    cases i with
    | zero =>
      simp at h
      subst h
      simp [ApiGateway.totalFuel]
      omega
    | succ n =>
      simp at h
      have := ih n h
      simp [ApiGateway.totalFuel] at this ⊢
      omega

/-! ## The invariant is kept by every statement -/

namespace ApiGateway

/-- For a goroutine that does not hold the lock, `Ok` only depends on what is cached. -/
theorem Ok.of_inactive {env : Collaborators} {k : String} {t0 : List Call} {s s' : State}
    {g : Goroutine} (hact : g.pc.active = false) (hok : Ok env k t0 s g)
    (hload : ∀ v, s.vars.authCache4XX.Load k = some v →
      s'.vars.authCache4XX.Load k = some v) :
    Ok env k t0 s' g := by
  obtain ⟨cp, pc⟩ := g
  cases pc with
  | start => trivial
  | locked => trivial
  | miss => simp [Pc.active] at hact
  | authenticated r => simp [Pc.active] at hact
  | returning result => simp [Pc.active] at hact
  | done result =>
    obtain ⟨v, hv, hres⟩ := hok
    exact ⟨v, hload v hv, hres⟩
  | fatal => exact hok.elim

/-- Rebuilding the invariant after goroutine `i`, which holds the lock or finds it free,
executed one statement. -/
theorem InvH.update {env : Collaborators} {k : String} {t0 : List Call} {h : Option Nat}
    {c : Config} {i : Nat} {g : Goroutine} (hinv : InvH env k t0 h c)
    (hg : c.goroutines[i]? = some g) (hh : h = none ∨ h = some i)
    (s' : State) (pc' : Pc) (h' : Option Nat) (hh' : h' = none ∨ h' = some i)
    (hlock : s'.vars.authCacheLock4XX.locked = h'.isSome)
    (hload : ∀ v, c.shared.vars.authCache4XX.Load k = some v →
      s'.vars.authCache4XX.Load k = some v)
    (hact : pc'.active = true ↔ h' = some i)
    (hok : Ok env k t0 s' ⟨g.commandParam, pc'⟩)
    (hcached : ∀ v, s'.vars.authCache4XX.Load k = some v →
      ∃ p, s'.trace = t0 ++ [Call.DoAuthenticate p] ∧ v = (env.DoAuthenticate t0 p).2.1)
    (habsent : s'.vars.authCache4XX.Load k = none →
      s'.trace = t0 ∨ ∃ r, pc' = Pc.authenticated r) :
    InvH env k t0 h' ⟨s', c.goroutines.set i ⟨g.commandParam, pc'⟩⟩ := by
  have hi : i < c.goroutines.length := by
    by_contra hcon
    rw [List.getElem?_eq_none (Nat.le_of_not_lt hcon)] at hg
    exact Option.noConfusion hg
  refine ⟨hlock, ?_, ?_, hcached, ?_⟩
  · intro j hj
    rcases hh' with e | e
    · rw [e] at hj; exact Option.noConfusion hj
    · rw [e] at hj
      have : i = j := Option.some.inj hj
      subst this
      simpa using hi
  · intro j gj hj
    rcases List.getElem?_set_cases _ _ _ _ _ hj with ⟨e1, e2⟩ | ⟨hne, hold⟩
    · subst e1 e2
      obtain ⟨hk, hs, _, _⟩ := hinv.each j g hg
      exact ⟨hk, hs, hact, hok⟩
    · obtain ⟨hk, hs, ha, ho⟩ := hinv.each j gj hold
      have hna : gj.pc.active = false := by
        cases hb : gj.pc.active with
        | false => rfl
        | true =>
          have := ha.1 hb
          rcases hh with e | e
          · rw [e] at this; exact Option.noConfusion this
          · rw [e] at this; exact absurd (Option.some.inj this).symm hne
      refine ⟨hk, hs, ?_, Ok.of_inactive hna ho hload⟩
      constructor
      · intro hb
        rw [hna] at hb
        exact Bool.noConfusion hb
      · intro e
        rcases hh' with e2 | e2
        · rw [e2] at e; exact Option.noConfusion e
        · rw [e2] at e; exact absurd (Option.some.inj e).symm hne
  · intro hnone
    rcases habsent hnone with e | ⟨r, e⟩
    · exact Or.inl e
    · refine Or.inr ⟨i, ⟨g.commandParam, pc'⟩, r, ?_, e⟩
      simp [List.getElem?_set, hi]

/-- A statement of the goroutine that holds the lock, or of any goroutine while the lock is
free: the invariant is kept, the lock is afterwards free or held by that goroutine, only
that goroutine moved, and it came closer to its return unless it had returned already. -/
theorem InvH.step_progress {env : Collaborators} {k : String} {t0 : List Call}
    {h : Option Nat} {c : Config} {i : Nat} {g : Goroutine} (hinv : InvH env k t0 h c)
    (hg : c.goroutines[i]? = some g) (hh : h = none ∨ h = some i) :
    ∃ (h' : Option Nat) (s' : State) (pc' : Pc),
      c.step env i = ⟨s', c.goroutines.set i ⟨g.commandParam, pc'⟩⟩ ∧
      InvH env k t0 h' ⟨s', c.goroutines.set i ⟨g.commandParam, pc'⟩⟩ ∧
      (h' = none ∨ h' = some i) ∧
      (pc'.fuel < g.pc.fuel ∨ (g.pc.fuel = 0 ∧ pc' = g.pc)) := by
  obtain ⟨hk, hs, ha, ho⟩ := hinv.each i g hg
  obtain ⟨cp, pc⟩ := g
  simp only at hk hs ha
  cases pc with
  | start =>
    have hn : h = none := by
      rcases hh with e | e
      · exact e
      · have := ha.2 e
        simp [Pc.active] at this
    have hl : c.shared.vars.authCacheLock4XX.locked = false := by rw [hinv.lock, hn]; rfl
    refine ⟨some i, { c.shared with vars := { c.shared.vars with authCacheLock4XX := ⟨true⟩ } },
      Pc.locked, ?_, ?_, Or.inr rfl, Or.inl (by simp [Pc.fuel])⟩
    · simp [Config.step, hg, stepAuthenticateAndCache4XX, RWMutex.Lock, hl]
    · refine hinv.update hg hh _ _ _ (Or.inr rfl) rfl (fun v hv => hv) (by simp [Pc.active])
        trivial (fun v hv => hinv.cached v hv) ?_
      intro hnone
      rcases hinv.absent hnone with e | ⟨j, gj, r, hj, hpc⟩
      · exact Or.inl e
      · have := (hinv.each j gj hj).2.2.1.1 (by rw [hpc]; rfl)
        rw [hn] at this
        exact Option.noConfusion this
  | locked =>
    cases hload : c.shared.vars.authCache4XX.Load k with
    | some u =>
      refine ⟨h, c.shared, Pc.returning (u, none), ?_, ?_, hh, Or.inl (by simp [Pc.fuel])⟩
      · simp [Config.step, hg, stepAuthenticateAndCache4XX, hk, hload]
      · have hhi : h = some i := ha.1 rfl
        exact hinv.update hg hh _ _ _ hh hinv.lock (fun v hv => hv)
          (by simp [Pc.active, hhi]) ⟨u, hload, rfl⟩ (fun v hv => hinv.cached v hv)
          (fun hnone => by rw [hload] at hnone; exact Option.noConfusion hnone)
    | none =>
      have hhi : h = some i := ha.1 rfl
      have ht : c.shared.trace = t0 := by
        rcases hinv.absent hload with e | ⟨j, gj, r, hj, hpc⟩
        · exact e
        · have hj2 := (hinv.each j gj hj).2.2.1.1 (by rw [hpc]; rfl)
          rw [hhi] at hj2
          have hij : i = j := Option.some.inj hj2
          subst hij
          rw [hg] at hj
          have := Option.some.inj hj
          rw [← this] at hpc
          exact Pc.noConfusion hpc
      refine ⟨h, c.shared, Pc.miss, ?_, ?_, hh, Or.inl (by simp [Pc.fuel])⟩
      · simp [Config.step, hg, stepAuthenticateAndCache4XX, hk, hload]
      · exact hinv.update hg hh _ _ _ hh hinv.lock (fun v hv => hv)
          (by simp [Pc.active, hhi]) ⟨hload, ht⟩ (fun v hv => hinv.cached v hv)
          (fun _ => Or.inl ht)
  | miss =>
    have hhi : h = some i := ha.1 rfl
    obtain ⟨hload, ht⟩ := ho
    refine ⟨h, { c.shared with trace := c.shared.trace ++ [Call.DoAuthenticate cp] },
      Pc.authenticated (env.DoAuthenticate c.shared.trace cp), ?_, ?_, hh, Or.inl (by simp [Pc.fuel])⟩
    · simp [Config.step, hg, stepAuthenticateAndCache4XX]
    · refine hinv.update hg hh _ _ _ hh hinv.lock (fun v hv => hv)
        (by simp [Pc.active, hhi]) ⟨hload, by simp [ht], by rw [ht]⟩ ?_ ?_
      · intro v hv
        simp only at hv
        rw [hload] at hv
        exact Option.noConfusion hv
      · intro _
        exact Or.inr ⟨_, rfl⟩
  | authenticated r =>
    have hhi : h = some i := ha.1 rfl
    obtain ⟨hload, ht, hr⟩ := ho
    have hr2 : r.2.2 = none := by rw [hr]; exact hs
    refine ⟨h, { c.shared with vars := { c.shared.vars with
        authCache4XX := c.shared.vars.authCache4XX.Store cp.CloudElementId r.2.1 } },
      Pc.returning (r.2.1, none), ?_, ?_, hh, Or.inl (by simp [Pc.fuel])⟩
    · simp [Config.step, hg, stepAuthenticateAndCache4XX, hr2]
    · have hnew : (c.shared.vars.authCache4XX.Store cp.CloudElementId r.2.1).Load k =
          some r.2.1 := by
        rw [hk]; exact SyncMap.Load_Store_self _ _ _
      refine hinv.update hg hh _ _ _ hh hinv.lock ?_ (by simp [Pc.active, hhi])
        ⟨r.2.1, hnew, rfl⟩
        (fun v hv => ⟨cp, ht, by
          simp only at hv
          rw [hnew] at hv
          rw [← Option.some.inj hv, hr]⟩) ?_
      · intro v hv
        rw [hload] at hv
        exact Option.noConfusion hv
      · intro hnone
        simp only at hnone
        rw [hnew] at hnone
        exact Option.noConfusion hnone
  | returning result =>
    have hhi : h = some i := ha.1 rfl
    have hl : c.shared.vars.authCacheLock4XX.locked = true := by rw [hinv.lock, hhi]; rfl
    obtain ⟨v, hload, hres⟩ := ho
    refine ⟨none, { c.shared with vars := { c.shared.vars with authCacheLock4XX := ⟨false⟩ } },
      Pc.done result, ?_, ?_, Or.inl rfl, Or.inl (by simp [Pc.fuel])⟩
    · simp [Config.step, hg, stepAuthenticateAndCache4XX, RWMutex.Unlock, hl]
    · exact hinv.update hg hh _ _ _ (Or.inl rfl) rfl (fun v hv => hv) (by simp [Pc.active])
        ⟨v, hload, hres⟩ (fun v hv => hinv.cached v hv)
        (fun hnone => by
          simp only at hnone
          rw [hload] at hnone
          exact Option.noConfusion hnone)
  | done result =>
    have hn : h = none := by
      rcases hh with e | e
      · exact e
      · have := ha.2 e
        simp [Pc.active] at this
    refine ⟨h, c.shared, Pc.done result, ?_, ?_, hh, Or.inr ⟨rfl, rfl⟩⟩
    · simp [Config.step, hg, stepAuthenticateAndCache4XX]
    · rw [List.set_same_of_getElem? _ _ _ hg]
      exact hinv
  | fatal => exact ho.elim

/-- A goroutine that neither holds the lock nor finds it free does not move. -/
theorem InvH.step_waiting {env : Collaborators} {k : String} {t0 : List Call}
    {h : Option Nat} {c : Config} {i j : Nat} (hinv : InvH env k t0 h c)
    (hh : h = some j) (hij : j ≠ i) : c.step env i = c := by
  cases hg : c.goroutines[i]? with
  | none => simp [Config.step, hg]
  | some g =>
    obtain ⟨_, _, ha, ho⟩ := hinv.each i g hg
    have hl : c.shared.vars.authCacheLock4XX.locked = true := by rw [hinv.lock, hh]; rfl
    have hna : g.pc.active = false := by
      cases hb : g.pc.active with
      | false => rfl
      | true =>
        have := ha.1 hb
        rw [hh] at this
        exact absurd (Option.some.inj this) hij
    obtain ⟨cp, pc⟩ := g
    obtain ⟨s, gs⟩ := c
    cases pc with
    | start =>
      simp only [Config.step, hg, stepAuthenticateAndCache4XX, RWMutex.Lock]
      simp only at hl hg
      simp [hl, List.set_same_of_getElem? _ _ _ hg]
    | locked => simp [Pc.active] at hna
    | miss => simp [Pc.active] at hna
    | authenticated r => simp [Pc.active] at hna
    | returning result => simp [Pc.active] at hna
    | done result =>
      simp only [Config.step, hg, stepAuthenticateAndCache4XX]
      simp only at hg
      simp [List.set_same_of_getElem? _ _ _ hg]
    | fatal => exact ho.elim

/-- Every statement of every goroutine keeps the invariant. -/
theorem InvH.step {env : Collaborators} {k : String} {t0 : List Call} {h : Option Nat}
    {c : Config} (hinv : InvH env k t0 h c) (i : Nat) :
    ∃ h', InvH env k t0 h' (c.step env i) := by
  cases hg : c.goroutines[i]? with
  | none => exact ⟨h, by simpa [Config.step, hg] using hinv⟩
  | some g =>
    by_cases hh : h = none ∨ h = some i
    · obtain ⟨h', s', pc', he, hi', _, _⟩ := hinv.step_progress hg hh
      exact ⟨h', by rw [he]; exact hi'⟩
    · cases h with
      | none => exact absurd (Or.inl rfl) hh
      | some j =>
        have hij : j ≠ i := fun e => hh (Or.inr (by rw [e]))
        exact ⟨some j, by rw [hinv.step_waiting rfl hij]; exact hinv⟩

/-- Every schedule keeps the invariant. -/
theorem InvH.run {env : Collaborators} {k : String} {t0 : List Call} (schedule : List Nat) :
    ∀ {h : Option Nat} {c : Config}, InvH env k t0 h c →
      ∃ h', InvH env k t0 h' (c.run env schedule) := by
  induction schedule with
  | nil => intro h c hinv; exact ⟨h, hinv⟩
  | cons i rest ih =>
    intro h c hinv
    obtain ⟨h1, h1inv⟩ := hinv.step i
    exact ih h1inv

/-- Callers about to enter the resolver, on a state with the lock at rest and the key
absent, satisfy the invariant. -/
theorem InvH.start {env : Collaborators} {k : String} (s0 : State) (ps : List CommandParam)
    (hl : s0.vars.authCacheLock4XX.locked = false)
    (hk : s0.vars.authCache4XX.Load k = none)
    (hkey : ∀ p ∈ ps, p.CloudElementId = k)
    (hok : ∀ p ∈ ps, (env.DoAuthenticate s0.trace p).2.2 = none) :
    InvH env k s0.trace none (Config.start s0 ps) := by
  refine ⟨hl, ?_, ?_, ?_, ?_⟩
  · intro i hi
    exact Option.noConfusion hi
  · intro i g hg
    simp only [Config.start, List.getElem?_map, Option.map_eq_some'] at hg
    obtain ⟨p, hp, rfl⟩ := hg
    have hmem : p ∈ ps := List.getElem?_mem hp
    exact ⟨hkey p hmem, hok p hmem, by simp [Pc.active], trivial⟩
  · intro v hv
    simp only [Config.start] at hv
    rw [hk] at hv
    exact Option.noConfusion hv
  · intro _
    exact Or.inl rfl

/-- A schedule is executed front to back. -/
theorem Config.run_append (env : Collaborators) (c : Config) (a b : List Nat) :
    c.run env (a ++ b) = (c.run env a).run env b := by
  simp [Config.run, List.foldl_append]

/-- Statements never change which descriptor a goroutine resolves. -/
theorem Config.step_commandParams (env : Collaborators) (c : Config) (i : Nat) :
    (c.step env i).goroutines.map (fun g => g.commandParam) =
      c.goroutines.map (fun g => g.commandParam) := by
  cases hg : c.goroutines[i]? with
  | none => simp [Config.step, hg]
  | some g =>
    simp only [Config.step, hg, List.map_set]
    apply List.set_same_of_getElem?
    simp [List.getElem?_map, hg]

theorem Config.run_commandParams (env : Collaborators) (schedule : List Nat) :
    ∀ c : Config, (c.run env schedule).goroutines.map (fun g => g.commandParam) =
      c.goroutines.map (fun g => g.commandParam) := by
  induction schedule with
  | nil => intro c; rfl
  | cons i rest ih =>
    intro c
    have h1 := ih (c.step env i)
    rw [Config.step_commandParams] at h1
    exact h1

/-- A list of goroutines that all stand at `pc` is determined by their descriptors. -/
theorem goroutines_eq_of_pc (gs : List Goroutine) (pc : Pc) (h : ∀ g ∈ gs, g.pc = pc) :
    gs = (gs.map (fun g => g.commandParam)).map (fun p => ⟨p, pc⟩) := by
  induction gs with
  | nil => rfl
  | cons g rest ih =>
    have h1 := h g (List.mem_cons_self g rest)
    have h2 := ih (fun x hx => h x (List.mem_cons_of_mem g hx))
    obtain ⟨cp, pc1⟩ := g
    simp only at h1
    subst h1
    simp only [List.map_cons, List.cons.injEq, true_and]
    exact h2

/-- From any configuration that satisfies the invariant, some continuation of the schedule
lets every caller return: nobody is stuck on the lock and the runtime does not abort. -/
theorem InvH.complete {env : Collaborators} {k : String} {t0 : List Call} (n : Nat) :
    ∀ {h : Option Nat} {c : Config}, InvH env k t0 h c → totalFuel c.goroutines ≤ n →
      ∃ more, (c.run env more).allDone = true := by
  induction n with
  | zero =>
    intro h c hinv hn
    by_cases hd : c.allDone = true
    · exact ⟨[], hd⟩
    · exfalso
      simp only [Config.allDone, List.all_eq_true, not_forall] at hd
      obtain ⟨g, hmem, hnd⟩ := hd
      obtain ⟨i, hi⟩ := List.mem_iff_getElem?.1 hmem
      have ho := (hinv.each i g hi).2.2.2
      have hpos : 0 < g.pc.fuel := by
        obtain ⟨cp, pc⟩ := g
        cases pc <;> simp [Pc.fuel] at hnd ⊢
        exact ho.elim
      have hge : g.pc.fuel ≤ totalFuel c.goroutines := by
        have h0 := totalFuel_set c.goroutines i g ⟨g.commandParam, Pc.done (none, none)⟩ hi
        have hz : (⟨g.commandParam, Pc.done (none, none)⟩ : Goroutine).pc.fuel = 0 := rfl
        rw [hz] at h0
        omega
      omega
  | succ n ih =>
    intro h c hinv hn
    by_cases hd : c.allDone = true
    · exact ⟨[], hd⟩
    · simp only [Config.allDone, List.all_eq_true, not_forall] at hd
      obtain ⟨g, hmem, hnd⟩ := hd
      obtain ⟨i, hi⟩ := List.mem_iff_getElem?.1 hmem
      -- the goroutine to move: the holder of the lock, or else the one that has not returned
      have hpick : ∃ j gj, c.goroutines[j]? = some gj ∧ (h = none ∨ h = some j) ∧
          0 < gj.pc.fuel := by
        cases h with
        | none =>
          refine ⟨i, g, hi, Or.inl rfl, ?_⟩
          have ho := (hinv.each i g hi).2.2.2
          obtain ⟨cp, pc⟩ := g
          cases pc <;> simp [Pc.fuel] at hnd ⊢
          exact ho.elim
        | some j =>
          have hj := hinv.holder j rfl
          refine ⟨j, c.goroutines[j], List.getElem?_eq_getElem hj, Or.inr rfl, ?_⟩
          have ha := (hinv.each j c.goroutines[j] (List.getElem?_eq_getElem hj)).2.2.1.2 rfl
          generalize c.goroutines[j] = gj at ha
          obtain ⟨cp, pc⟩ := gj
          cases pc <;> simp [Pc.fuel, Pc.active] at ha ⊢
      obtain ⟨j, gj, hj, hh, hpos⟩ := hpick
      obtain ⟨h', s', pc', he, hinv', _, hfuel⟩ := hinv.step_progress hj hh
      have hlt : pc'.fuel < gj.pc.fuel := by
        rcases hfuel with hlt | ⟨h0, _⟩
        · exact hlt
        · omega
      have hset := totalFuel_set c.goroutines j gj ⟨gj.commandParam, pc'⟩ hj
      simp only at hset
      have hle : totalFuel (c.goroutines.set j ⟨gj.commandParam, pc'⟩) ≤ n := by omega
      obtain ⟨more, hmore⟩ := ih hinv' hle
      refine ⟨j :: more, ?_⟩
      simp only [Config.run, List.foldl_cons] at hmore ⊢
      rw [he]
      exact hmore

end ApiGateway

/-- C10 as stated fails when authentication fails: two callers with the same key on the empty
cache, whose `DoAuthenticate` returns an error, both return after `DoAuthenticate` has been
invoked twice (a failure is not cached, so the second caller authenticates again). -/
theorem C10_failed_authentication_counterexample :
    ((ApiGateway.Config.start ApiGateway.State.init [sampleNoRegion, sampleNoRegion]).run
        sampleEnv [0, 1, 0, 1, 0, 0, 0, 1, 1, 1, 1, 1]).allDone = true ∧
    authCalls ((ApiGateway.Config.start ApiGateway.State.init
        [sampleNoRegion, sampleNoRegion]).run sampleEnv
        [0, 1, 0, 1, 0, 0, 0, 1, 1, 1, 1, 1]).shared.trace = 2 ∧
    ¬ (authCalls ((ApiGateway.Config.start ApiGateway.State.init
        [sampleNoRegion, sampleNoRegion]).run sampleEnv
        [0, 1, 0, 1, 0, 0, 0, 1, 1, 1, 1, 1]).shared.trace = 1) := by
  decide

/-- C10, amended. At-most-one authentication under concurrency: `N ≥ 1` goroutines enter
`authenticateAndCache4XX` with descriptors of the same key `k`, on a state where the lock is
at rest and `k` is not cached, and `DoAuthenticate` succeeds for whichever of them calls it
first. Then, for every schedule of their statements: (1) at every moment `DoAuthenticate` has
been invoked at most once; (2) once all callers have returned, it has been invoked exactly
once, for some descriptor `p`, and every caller has received the credentials of that one call
with nil error; (3) the schedule can always be continued until all callers have returned
(no caller is stuck on the lock, the runtime does not abort). -/
theorem C10_concurrent_authenticate_once (env : Collaborators) (k : String)
    (s0 : ApiGateway.State) (p0 : CommandParam) (ps : List CommandParam)
    (hl : s0.vars.authCacheLock4XX.locked = false)
    (hk : s0.vars.authCache4XX.Load k = none)
    (hkey : ∀ p ∈ p0 :: ps, p.CloudElementId = k)
    (hok : ∀ p ∈ p0 :: ps, (env.DoAuthenticate s0.trace p).2.2 = none) :
    (∀ schedule : List Nat,
      authCalls ((ApiGateway.Config.start s0 (p0 :: ps)).run env schedule).shared.trace ≤
        authCalls s0.trace + 1) ∧
    (∀ schedule : List Nat,
      ((ApiGateway.Config.start s0 (p0 :: ps)).run env schedule).allDone = true →
      ∃ p, ((ApiGateway.Config.start s0 (p0 :: ps)).run env schedule).shared.trace =
          s0.trace ++ [Call.DoAuthenticate p] ∧
        authCalls ((ApiGateway.Config.start s0 (p0 :: ps)).run env schedule).shared.trace =
          authCalls s0.trace + 1 ∧
        ((ApiGateway.Config.start s0 (p0 :: ps)).run env schedule).goroutines =
          (p0 :: ps).map
            (fun q => ⟨q, ApiGateway.Pc.done ((env.DoAuthenticate s0.trace p).2.1, none)⟩)) ∧
    (∀ schedule : List Nat, ∃ more : List Nat,
      ((ApiGateway.Config.start s0 (p0 :: ps)).run env (schedule ++ more)).allDone = true) := by
  have hstart := @ApiGateway.InvH.start env k s0 (p0 :: ps) hl hk hkey hok
  refine ⟨?_, ?_, ?_⟩
  · intro schedule
    obtain ⟨h, hinv⟩ := hstart.run schedule
    cases hload : ((ApiGateway.Config.start s0 (p0 :: ps)).run env
        schedule).shared.vars.authCache4XX.Load k with
    | some v =>
      obtain ⟨p, hp, _⟩ := hinv.cached v hload
      rw [hp, authCalls_append_auth]
    | none =>
      rcases hinv.absent hload with e | ⟨i, g, r, hg, hpc⟩
      · rw [e]; exact Nat.le_succ _
      · have ho := (hinv.each i g hg).2.2.2
        obtain ⟨cp, pc⟩ := g
        simp only at hpc
        subst hpc
        rw [ho.2.1, authCalls_append_auth]
  · intro schedule hdone
    obtain ⟨h, hinv⟩ := hstart.run schedule
    have hparams := ApiGateway.Config.run_commandParams env schedule
      (ApiGateway.Config.start s0 (p0 :: ps))
    generalize (ApiGateway.Config.start s0 (p0 :: ps)).run env schedule = c
      at hdone hinv hparams
    have hps : (ApiGateway.Config.start s0 (p0 :: ps)).goroutines.map
        (fun g => g.commandParam) = p0 :: ps := by
      simp [ApiGateway.Config.start, List.map_map, Function.comp_def]
    rw [hps] at hparams
    -- every caller stands at `done (v, nil)` for a cached `v`
    have hall : ∀ g ∈ c.goroutines, ∃ v, c.shared.vars.authCache4XX.Load k = some v ∧
        g.pc = ApiGateway.Pc.done (v, none) := by
      intro g hg
      obtain ⟨i, hi⟩ := List.mem_iff_getElem?.1 hg
      have ho := (hinv.each i g hi).2.2.2
      simp only [ApiGateway.Config.allDone, List.all_eq_true] at hdone
      have hd := hdone g hg
      obtain ⟨cp, pc⟩ := g
      cases pc <;> simp at hd
      obtain ⟨v, hv, hres⟩ := ho
      exact ⟨v, hv, by rw [hres]⟩
    have hne : c.goroutines ≠ [] := by
      intro e
      rw [e] at hparams
      exact List.noConfusion hparams
    obtain ⟨g0, hg0⟩ := List.exists_mem_of_ne_nil _ hne
    obtain ⟨v, hv, _⟩ := hall g0 hg0
    obtain ⟨p, hp, hvp⟩ := hinv.cached v hv
    refine ⟨p, hp, by rw [hp, authCalls_append_auth], ?_⟩
    have hsame : ∀ g ∈ c.goroutines, g.pc = ApiGateway.Pc.done (v, none) := by
      intro g hg
      obtain ⟨v2, hv2, hpc⟩ := hall g hg
      rw [hv] at hv2
      rw [hpc, Option.some.inj hv2]
    have := ApiGateway.goroutines_eq_of_pc c.goroutines _ hsame
    rw [hparams, hvp] at this
    exact this
  · intro schedule
    obtain ⟨h, hinv⟩ := hstart.run schedule
    obtain ⟨more, hmore⟩ := hinv.complete _ (Nat.le_refl _)
    exact ⟨more, by rw [ApiGateway.Config.run_append]; exact hmore⟩

/-- C10 at a concrete input: two callers for element `i-123` on the empty cache, interleaved
so that the second caller takes the lock first; both return the credentials of the single
`DoAuthenticate` call. -/
theorem C10_concurrent_authenticate_once_witness :
    ∃ p, ((ApiGateway.Config.start ApiGateway.State.init
          [sampleElement, sampleElementWest]).run sampleEnv
          [1, 0, 1, 0, 1, 0, 1, 1, 0, 0, 0]).shared.trace =
        ApiGateway.State.init.trace ++ [Call.DoAuthenticate p] ∧
      authCalls ((ApiGateway.Config.start ApiGateway.State.init
          [sampleElement, sampleElementWest]).run sampleEnv
          [1, 0, 1, 0, 1, 0, 1, 1, 0, 0, 0]).shared.trace =
        authCalls ApiGateway.State.init.trace + 1 ∧
      ((ApiGateway.Config.start ApiGateway.State.init
          [sampleElement, sampleElementWest]).run sampleEnv
          [1, 0, 1, 0, 1, 0, 1, 1, 0, 0, 0]).goroutines =
        [sampleElement, sampleElementWest].map
          (fun q => ⟨q, ApiGateway.Pc.done
            ((sampleEnv.DoAuthenticate ApiGateway.State.init.trace p).2.1, none)⟩) :=
  (C10_concurrent_authenticate_once sampleEnv "i-123" ApiGateway.State.init sampleElement
    [sampleElementWest] (by decide) (by decide) (by decide) (by decide)).2.1
    [1, 0, 1, 0, 1, 0, 1, 1, 0, 0, 0] (by decide)

/-! ## Laws of the HTTP response -/

theorem headerGet_headerSet_self (h : List (String × String)) (key value : String) :
    headerGet (headerSet h key value) key = value := by
  induction h with
  | nil => simp [headerSet, headerGet]
  | cons e rest ih =>
    obtain ⟨k, v⟩ := e
    by_cases hk : k = key
    · simp [headerSet, headerGet, hk]
    · have hb : (k == key) = false := by simpa using hk
      simp only [headerSet, hb, Bool.false_eq_true, if_false]
      simp only [headerGet, List.find?_cons, hb] at ih ⊢
      exact ih

theorem headerGet_headerSet_of_ne (h : List (String × String)) (key key2 value : String)
    (hne : key2 ≠ key) : headerGet (headerSet h key value) key2 = headerGet h key2 := by
  induction h with
  | nil =>
    have : (key == key2) = false := by simpa using fun e => hne e.symm
    simp [headerSet, headerGet, this]
  | cons e rest ih =>
    obtain ⟨k, v⟩ := e
    by_cases hk : k = key
    · subst hk
      have : (k == key2) = false := by simpa using fun e => hne e.symm
      simp [headerSet, headerGet, this]
    · have hb : (k == key) = false := by simpa using hk
      simp only [headerSet, hb, Bool.false_eq_true, if_false]
      by_cases hk2 : k = key2
      · simp [headerGet, hk2]
      · have hb2 : (k == key2) = false := by simpa using hk2
        simp only [headerGet, List.find?_cons, hb2] at ih ⊢
        exact ih

namespace ResponseWriter

/-- The writer of a handler after its first statement
`w.Header().Set("Content-Type", "application/json")`. -/
theorem fresh_HeaderSet (errs : List GoError) (key value : String) :
    (fresh errs).HeaderSet key value = ⟨[(key, value)], none, "", errs⟩ := rfl

theorem Write_status_of_unsent (w : ResponseWriter) (data : String)
    (h : w.wroteHeader = none) : (w.Write data).2.status = some 200 := by
  rcases hw : w.writeErrs with _ | ⟨_ | e, rest⟩ <;>
    simp [Write, WriteHeader, status, h, hw]

theorem Write_sentContentType_of_unsent (w : ResponseWriter) (data : String)
    (h : w.wroteHeader = none) :
    (w.Write data).2.sentContentType = some (headerGet w.header "Content-Type") := by
  rcases hw : w.writeErrs with _ | ⟨_ | e, rest⟩ <;>
    simp [Write, WriteHeader, sentContentType, h, hw]

theorem Write_wroteHeader_of_sent (w : ResponseWriter) (data : String)
    (x : Nat × List (String × String)) (h : w.wroteHeader = some x) :
    (w.Write data).2.wroteHeader = some x := by
  rcases hw : w.writeErrs with _ | ⟨_ | e, rest⟩ <;>
    simp [Write, WriteHeader, h, hw]

theorem Write_body (w : ResponseWriter) (data : String) :
    (w.Write data).2.body = if firstWriteFails w.writeErrs then w.body else w.body ++ data := by
  rcases hw : w.writeErrs with _ | ⟨_ | e, rest⟩ <;>
    cases hh : w.wroteHeader <;> simp [Write, WriteHeader, firstWriteFails, hw, hh]

theorem Write_err (w : ResponseWriter) (data : String) :
    ((w.Write data).1 = none ↔ firstWriteFails w.writeErrs = false) := by
  rcases hw : w.writeErrs with _ | ⟨_ | e, rest⟩ <;>
    cases hh : w.wroteHeader <;> simp [Write, WriteHeader, firstWriteFails, hw, hh]

end ResponseWriter

namespace http

theorem Error_status_of_unsent (w : ResponseWriter) (msg : String) (code : Nat)
    (h : w.wroteHeader = none) : (Error w msg code).status = some code := by
  rcases hw : w.writeErrs with _ | ⟨_ | e, rest⟩ <;>
    simp [Error, ResponseWriter.Write, ResponseWriter.WriteHeader, ResponseWriter.HeaderSet,
      ResponseWriter.status, h, hw]

theorem Error_sentContentType_of_unsent (w : ResponseWriter) (msg : String) (code : Nat)
    (h : w.wroteHeader = none) :
    (Error w msg code).sentContentType = some "text/plain; charset=utf-8" := by
  have hget : headerGet (headerSet (headerSet w.header "Content-Type"
      "text/plain; charset=utf-8") "X-Content-Type-Options" "nosniff") "Content-Type" =
      "text/plain; charset=utf-8" := by
    rw [headerGet_headerSet_of_ne _ _ _ _ (by decide), headerGet_headerSet_self]
  rcases hw : w.writeErrs with _ | ⟨_ | e, rest⟩ <;>
    simp [Error, ResponseWriter.Write, ResponseWriter.WriteHeader, ResponseWriter.HeaderSet,
      ResponseWriter.sentContentType, h, hw, hget]

theorem Error_wroteHeader_of_sent (w : ResponseWriter) (msg : String) (code : Nat)
    (x : Nat × List (String × String)) (h : w.wroteHeader = some x) :
    (Error w msg code).wroteHeader = some x := by
  rcases hw : w.writeErrs with _ | ⟨_ | e, rest⟩ <;>
    simp [Error, ResponseWriter.Write, ResponseWriter.WriteHeader, ResponseWriter.HeaderSet,
      h, hw]

theorem Error_body (w : ResponseWriter) (msg : String) (code : Nat) :
    (Error w msg code).body =
      if firstWriteFails w.writeErrs then w.body else w.body ++ (msg ++ "\n") := by
  rcases hw : w.writeErrs with _ | ⟨_ | e, rest⟩ <;>
    cases hh : w.wroteHeader <;>
    simp [Error, ResponseWriter.Write, ResponseWriter.WriteHeader, ResponseWriter.HeaderSet,
      firstWriteFails, hw, hh]

end http

/-! ## Authentication failures of the handlers that use http.Error -/

/-- What `http.Error` leaves on the writer of a handler that has only set its content type:
status `code`, `Content-Type: text/plain; charset=utf-8`, and the message with a newline as
body unless the write of the message fails. -/
theorem http.Error_on_handler_writer (errs : List GoError) (msg : String) (code : Nat) :
    (http.Error ((ResponseWriter.fresh errs).HeaderSet "Content-Type" "application/json")
        msg code).status = some code ∧
    (http.Error ((ResponseWriter.fresh errs).HeaderSet "Content-Type" "application/json")
        msg code).sentContentType = some "text/plain; charset=utf-8" ∧
    (http.Error ((ResponseWriter.fresh errs).HeaderSet "Content-Type" "application/json")
        msg code).body = if firstWriteFails errs then "" else msg ++ "\n" := by
  refine ⟨http.Error_status_of_unsent _ _ _ rfl, http.Error_sentContentType_of_unsent _ _ _ rfl,
    ?_⟩
  rw [http.Error_body]
  simp [ResponseWriter.fresh, ResponseWriter.HeaderSet]

/-- C11 as stated fails: for a request that `sampleEnv` cannot authenticate,
`Get4XXErrorsPanel` answers with status 500, but the body is the plain text
`Authentication failed: region missing` followed by a newline, sent as `text/plain`; it is
not a JSON text at all (reading it as JSON fails at its first character), hence not the
envelope `{"error": ...}`. -/
theorem C11_plain_text_counterexample :
    (ApiGateway.Get4XXErrorsPanel sampleEnv (samplePanelFetch "" none none) sampleNoZoneQuery
        ApiGateway.State.init (ResponseWriter.fresh [])).w.status = some 500 ∧
    (ApiGateway.Get4XXErrorsPanel sampleEnv (samplePanelFetch "" none none) sampleNoZoneQuery
        ApiGateway.State.init (ResponseWriter.fresh [])).w.body =
      "Authentication failed: region missing\n" ∧
    (ApiGateway.Get4XXErrorsPanel sampleEnv (samplePanelFetch "" none none) sampleNoZoneQuery
        ApiGateway.State.init (ResponseWriter.fresh [])).w.sentContentType =
      some "text/plain; charset=utf-8" ∧
    Json.parse (ApiGateway.Get4XXErrorsPanel sampleEnv (samplePanelFetch "" none none)
        sampleNoZoneQuery ApiGateway.State.init (ResponseWriter.fresh [])).w.body =
      Except.error (Json.SyntaxError.invalidCharacter 'A' "looking for beginning of value") ∧
    (ApiGateway.Get4XXErrorsPanel sampleEnv (samplePanelFetch "" none none) sampleNoZoneQuery
        ApiGateway.State.init (ResponseWriter.fresh [])).w.body ≠
      Json.encodeStringMap [("error", "Authentication failed: region missing")] ++ "\n" := by
  refine ⟨by decide, by decide, by decide, rfl, by decide⟩

/-- C11, amended. In `Get4XXErrorsPanel` and in the other handlers that report failures with
`http.Error` (`GetECSWriteBytesPanel`, `NodeUptimePanelHandler`,
`GetNetworkReceiveThroughputPanel`), whenever the credential cache resolve fails with error
`err`, the handler returns without calling the metric collaborator, the response has HTTP
status 500 and `Content-Type: text/plain; charset=utf-8`, and its body is the plain text
`Authentication failed: <err>` followed by a newline (empty when the write of that text
fails). -/
theorem C11_authentication_failure_response (env : Collaborators) (fetch : PanelFetch)
    (query : Values) (errs : List GoError) (v : AuthPtr) (err : String) :
    (∀ (s s1 : ApiGateway.State),
      ApiGateway.authenticateAndCache4XX env (ApiGateway.Get4XXErrorsPanel_commandParam query) s =
        Outcome.returned (v, some err) s1 →
      (ApiGateway.Get4XXErrorsPanel env fetch query s (ResponseWriter.fresh errs)).ending =
        Ending.returned ∧
      (ApiGateway.Get4XXErrorsPanel env fetch query s (ResponseWriter.fresh errs)).fetches = 0 ∧
      (ApiGateway.Get4XXErrorsPanel env fetch query s (ResponseWriter.fresh errs)).w.status =
        some 500 ∧
      (ApiGateway.Get4XXErrorsPanel env fetch query s
        (ResponseWriter.fresh errs)).w.sentContentType = some "text/plain; charset=utf-8" ∧
      (ApiGateway.Get4XXErrorsPanel env fetch query s (ResponseWriter.fresh errs)).w.body =
        if firstWriteFails errs then "" else "Authentication failed: " ++ err ++ "\n") ∧
    (∀ (lib : ECS.JSON) (s s1 : ECS.State),
      ECS.writeBytesAuthenticateAndCache env (ECS.GetECSWriteBytesPanel_commandParam query) s =
        Outcome.returned (v, some err) s1 →
      (ECS.GetECSWriteBytesPanel env lib fetch query s (ResponseWriter.fresh errs)).ending =
        Ending.returned ∧
      (ECS.GetECSWriteBytesPanel env lib fetch query s (ResponseWriter.fresh errs)).fetches =
        0 ∧
      (ECS.GetECSWriteBytesPanel env lib fetch query s (ResponseWriter.fresh errs)).w.status =
        some 500 ∧
      (ECS.GetECSWriteBytesPanel env lib fetch query s
        (ResponseWriter.fresh errs)).w.sentContentType = some "text/plain; charset=utf-8" ∧
      (ECS.GetECSWriteBytesPanel env lib fetch query s (ResponseWriter.fresh errs)).w.body =
        if firstWriteFails errs then "" else "Authentication failed: " ++ err ++ "\n") ∧
    (∀ (marshal : MetricDataPtr → Except String String) (s s1 : EKS.State),
      EKS.nodeUptimeAuthenticateAndCache env (EKS.NodeUptimePanelHandler_commandParam query) s =
        Outcome.returned (v, some err) s1 →
      (EKS.NodeUptimePanelHandler env marshal fetch query s (ResponseWriter.fresh errs)).ending =
        Ending.returned ∧
      (EKS.NodeUptimePanelHandler env marshal fetch query s
        (ResponseWriter.fresh errs)).fetches = 0 ∧
      (EKS.NodeUptimePanelHandler env marshal fetch query s
        (ResponseWriter.fresh errs)).w.status = some 500 ∧
      (EKS.NodeUptimePanelHandler env marshal fetch query s
        (ResponseWriter.fresh errs)).w.sentContentType = some "text/plain; charset=utf-8" ∧
      (EKS.NodeUptimePanelHandler env marshal fetch query s
        (ResponseWriter.fresh errs)).w.body =
        if firstWriteFails errs then "" else "Authentication failed: " ++ err ++ "\n") ∧
    (∀ (lib : RDS.JSON) (s s1 : RDS.State),
      RDS.authenticateAndCachenr env (RDS.GetNetworkReceiveThroughputPanel_commandParam query) s =
        Outcome.returned (v, some err) s1 →
      (RDS.GetNetworkReceiveThroughputPanel env lib fetch query s
        (ResponseWriter.fresh errs)).ending = Ending.returned ∧
      (RDS.GetNetworkReceiveThroughputPanel env lib fetch query s
        (ResponseWriter.fresh errs)).fetches = 0 ∧
      (RDS.GetNetworkReceiveThroughputPanel env lib fetch query s
        (ResponseWriter.fresh errs)).w.status = some 500 ∧
      (RDS.GetNetworkReceiveThroughputPanel env lib fetch query s
        (ResponseWriter.fresh errs)).w.sentContentType = some "text/plain; charset=utf-8" ∧
      (RDS.GetNetworkReceiveThroughputPanel env lib fetch query s
        (ResponseWriter.fresh errs)).w.body =
        if firstWriteFails errs then "" else "Authentication failed: " ++ err ++ "\n") := by
  have hw := http.Error_on_handler_writer errs ("Authentication failed: " ++ err) 500
  refine ⟨?_, ?_, ?_, ?_⟩
  · intro s s1 h
    simp only [ApiGateway.Get4XXErrorsPanel, h, http.StatusInternalServerError]
    exact ⟨trivial, trivial, hw.1, hw.2.1, by simpa [String.append_assoc] using hw.2.2⟩
  · intro lib s s1 h
    simp only [ECS.GetECSWriteBytesPanel, h, http.StatusInternalServerError]
    exact ⟨trivial, trivial, hw.1, hw.2.1, by simpa [String.append_assoc] using hw.2.2⟩
  · intro marshal s s1 h
    simp only [EKS.NodeUptimePanelHandler, h, http.StatusInternalServerError]
    exact ⟨trivial, trivial, hw.1, hw.2.1, by simpa [String.append_assoc] using hw.2.2⟩
  · intro lib s s1 h
    simp only [RDS.GetNetworkReceiveThroughputPanel, h, http.StatusInternalServerError]
    exact ⟨trivial, trivial, hw.1, hw.2.1, by simpa [String.append_assoc] using hw.2.2⟩

/-- C11 at a concrete input: the request without a zone on the empty cache, all writes
succeeding. -/
theorem C11_authentication_failure_response_witness :
    (ApiGateway.Get4XXErrorsPanel sampleEnv (samplePanelFetch "" none none) sampleNoZoneQuery
        ApiGateway.State.init (ResponseWriter.fresh [])).ending = Ending.returned ∧
    (ApiGateway.Get4XXErrorsPanel sampleEnv (samplePanelFetch "" none none) sampleNoZoneQuery
        ApiGateway.State.init (ResponseWriter.fresh [])).fetches = 0 ∧
    (ApiGateway.Get4XXErrorsPanel sampleEnv (samplePanelFetch "" none none) sampleNoZoneQuery
        ApiGateway.State.init (ResponseWriter.fresh [])).w.status = some 500 ∧
    (ApiGateway.Get4XXErrorsPanel sampleEnv (samplePanelFetch "" none none) sampleNoZoneQuery
        ApiGateway.State.init (ResponseWriter.fresh [])).w.sentContentType =
      some "text/plain; charset=utf-8" ∧
    (ApiGateway.Get4XXErrorsPanel sampleEnv (samplePanelFetch "" none none) sampleNoZoneQuery
        ApiGateway.State.init (ResponseWriter.fresh [])).w.body =
      if firstWriteFails [] then "" else "Authentication failed: " ++ "region missing" ++ "\n" :=
  (C11_authentication_failure_response sampleEnv (samplePanelFetch "" none none)
    sampleNoZoneQuery [] none "region missing").1 ApiGateway.State.init
    { ApiGateway.State.init with
      trace := [Call.DoAuthenticate (ApiGateway.Get4XXErrorsPanel_commandParam
        sampleNoZoneQuery)] } (by decide)

/-! ## ParseParams -/

/-- A key that a query does not carry reads as the empty string, the same as a key given
with the empty string. -/
theorem Values.Get_absent (query : Values) (key : String)
    (h : query.entries.find? (fun e => e.1 == key) = none) : query.Get key = "" := by
  simp [Values.Get, h]

/-- Adding a key with the empty string to a query that does not carry it changes the value
of no key. -/
theorem Values.Get_add_empty (query : Values) (key key2 : String)
    (h : query.entries.find? (fun e => e.1 == key) = none) :
    (Values.mk ((key, [""]) :: query.entries)).Get key2 = query.Get key2 := by
  by_cases hk : key = key2
  · subst hk
    simp [Values.Get, h]
  · have hb : (key == key2) = false := by simpa using hk
    simp [Values.Get, List.find?_cons, hb]

/-- C20. ParseParams of `Get4XXErrorsPanel` is a total function of the query values that
branches on the presence of `elementId` only. `Region` is `zone` on both paths; when
`elementId` is not empty the descriptor is `(elementId, cmdbApiUrl, zone)` with
`CrossAccountRoleArn` and `ExternalId` left empty, whatever the request gives for them;
otherwise it is `(crossAccountRoleArn, externalId, zone)` with `CloudElementId` and
`CloudElementApiUrl` empty. The descriptor depends on the query only through the values
`Get` reads for the five keys, so an absent parameter and one given as the empty string
yield the same descriptor. The function has no failing result: every query yields a
descriptor. -/
theorem C20_parse_params_presence_only (query : Values) :
    (ApiGateway.Get4XXErrorsPanel_commandParam query).Region = query.Get "zone" ∧
    (query.Get "elementId" ≠ "" →
      ApiGateway.Get4XXErrorsPanel_commandParam query =
        ⟨query.Get "elementId", query.Get "cmdbApiUrl", query.Get "zone", "", ""⟩) ∧
    (query.Get "elementId" = "" →
      ApiGateway.Get4XXErrorsPanel_commandParam query =
        ⟨"", "", query.Get "zone", query.Get "crossAccountRoleArn", query.Get "externalId"⟩) ∧
    (∀ query2 : Values,
      query2.Get "zone" = query.Get "zone" →
      query2.Get "elementId" = query.Get "elementId" →
      query2.Get "cmdbApiUrl" = query.Get "cmdbApiUrl" →
      query2.Get "crossAccountRoleArn" = query.Get "crossAccountRoleArn" →
      query2.Get "externalId" = query.Get "externalId" →
      ApiGateway.Get4XXErrorsPanel_commandParam query2 =
        ApiGateway.Get4XXErrorsPanel_commandParam query) ∧
    (∀ key : String, query.entries.find? (fun e => e.1 == key) = none →
      query.Get key = "" ∧
      ApiGateway.Get4XXErrorsPanel_commandParam (Values.mk ((key, [""]) :: query.entries)) =
        ApiGateway.Get4XXErrorsPanel_commandParam query) := by
  refine ⟨?_, ?_, ?_, ?_, ?_⟩
  · by_cases h : query.Get "elementId" = "" <;>
      simp [ApiGateway.Get4XXErrorsPanel_commandParam, CommandParam.zero, h]
  · intro h
    simp [ApiGateway.Get4XXErrorsPanel_commandParam, CommandParam.zero, h]
  · intro h
    simp [ApiGateway.Get4XXErrorsPanel_commandParam, CommandParam.zero, h]
  · intro query2 h1 h2 h3 h4 h5
    simp only [ApiGateway.Get4XXErrorsPanel_commandParam, h1, h2, h3, h4, h5]
  · intro key h
    refine ⟨Values.Get_absent query key h, ?_⟩
    simp only [ApiGateway.Get4XXErrorsPanel_commandParam, Values.Get_add_empty query key _ h]

/-- C20 at concrete inputs: a request that carries `elementId` next to cross-account values
yields the delegated descriptor without them, and adding an empty `externalId` to the bare
request changes nothing. -/
theorem C20_parse_params_presence_only_witness :
    ApiGateway.Get4XXErrorsPanel_commandParam
        ⟨[("zone", ["us-east-1"]), ("elementId", ["i-123"]), ("cmdbApiUrl", ["http://cmdb"]),
          ("crossAccountRoleArn", ["arn:aws:iam::1:role/a"]), ("externalId", ["ext-a"])]⟩ =
      ⟨"i-123", "http://cmdb", "us-east-1", "", ""⟩ ∧
    (sampleBareQuery.Get "externalId" = "" ∧
      ApiGateway.Get4XXErrorsPanel_commandParam
          (Values.mk (("externalId", [""]) :: sampleBareQuery.entries)) =
        ApiGateway.Get4XXErrorsPanel_commandParam sampleBareQuery) :=
  ⟨(C20_parse_params_presence_only
      ⟨[("zone", ["us-east-1"]), ("elementId", ["i-123"]), ("cmdbApiUrl", ["http://cmdb"]),
        ("crossAccountRoleArn", ["arn:aws:iam::1:role/a"]), ("externalId", ["ext-a"])]⟩).2.1
      (by decide),
   (C20_parse_params_presence_only sampleBareQuery).2.2.2.2 "externalId" (by decide)⟩

/-! ## The handlers once credentials and client are resolved -/

theorem ApiGateway.Get4XXErrorsPanel_fetched (env : Collaborators) (fetch : PanelFetch)
    (query : Values) (s s1 s2 : ApiGateway.State) (w : ResponseWriter) (a : Auth)
    (c : CloudWatchPtr)
    (h1 : ApiGateway.authenticateAndCache4XX env
      (ApiGateway.Get4XXErrorsPanel_commandParam query) s = Outcome.returned (some a, none) s1)
    (h2 : ApiGateway.cloudwatchClientCache4XX env a s1 = Outcome.returned (c, none) s2) :
    ApiGateway.Get4XXErrorsPanel env fetch query s w =
      ⟨Ending.returned, s2,
        ApiGateway.Get4XXErrorsPanel_respond
          (fetch ⟨query.Get "elementId", query.Get "instanceId", query.Get "elementType",
            query.Get "startTime", query.Get "endTime", query.Get "responseType"⟩ a c).1
          (fetch ⟨query.Get "elementId", query.Get "instanceId", query.Get "elementType",
            query.Get "startTime", query.Get "endTime", query.Get "responseType"⟩ a c).2.2
          (w.HeaderSet "Content-Type" "application/json"), 1⟩ := by
  simp only [ApiGateway.Get4XXErrorsPanel, h1, h2]

theorem ECS.GetECSWriteBytesPanel_fetched (env : Collaborators) (lib : ECS.JSON)
    (fetch : PanelFetch) (query : Values) (s s1 s2 : ECS.State) (w : ResponseWriter)
    (a : Auth) (c : CloudWatchPtr)
    (h1 : ECS.writeBytesAuthenticateAndCache env
      (ECS.GetECSWriteBytesPanel_commandParam query) s = Outcome.returned (some a, none) s1)
    (h2 : ECS.writeBytesCloudwatchClientCache env a s1 = Outcome.returned (c, none) s2) :
    ECS.GetECSWriteBytesPanel env lib fetch query s w =
      ⟨Ending.returned, s2,
        ECS.GetECSWriteBytesPanel_respond lib (query.Get "responseType")
          (fetch ⟨query.Get "elementId", query.Get "instanceId", query.Get "elementType",
            query.Get "startTime", query.Get "endTime", query.Get "responseType"⟩ a c).1
          (fetch ⟨query.Get "elementId", query.Get "instanceId", query.Get "elementType",
            query.Get "startTime", query.Get "endTime", query.Get "responseType"⟩ a c).2.1
          (fetch ⟨query.Get "elementId", query.Get "instanceId", query.Get "elementType",
            query.Get "startTime", query.Get "endTime", query.Get "responseType"⟩ a c).2.2
          (w.HeaderSet "Content-Type" "application/json"), 1⟩ := by
  simp only [ECS.GetECSWriteBytesPanel, h1, h2]

theorem EKS.NodeUptimePanelHandler_fetched (env : Collaborators)
    (marshal : MetricDataPtr → Except String String) (fetch : PanelFetch) (query : Values)
    (s s1 s2 : EKS.State) (w : ResponseWriter) (a : Auth) (c : CloudWatchPtr)
    (h1 : EKS.nodeUptimeAuthenticateAndCache env
      (EKS.NodeUptimePanelHandler_commandParam query) s = Outcome.returned (some a, none) s1)
    (h2 : EKS.nodeUptimeCloudwatchClientCache env a s1 = Outcome.returned (c, none) s2) :
    EKS.NodeUptimePanelHandler env marshal fetch query s w =
      ⟨Ending.returned, s2,
        EKS.NodeUptimePanelHandler_respond marshal (query.Get "responseType")
          (fetch ⟨query.Get "elementId", query.Get "instanceId", query.Get "elementType",
            query.Get "startTime", query.Get "endTime", query.Get "responseType"⟩ a c).1
          (fetch ⟨query.Get "elementId", query.Get "instanceId", query.Get "elementType",
            query.Get "startTime", query.Get "endTime", query.Get "responseType"⟩ a c).2.1
          (fetch ⟨query.Get "elementId", query.Get "instanceId", query.Get "elementType",
            query.Get "startTime", query.Get "endTime", query.Get "responseType"⟩ a c).2.2
          (w.HeaderSet "Content-Type" "application/json"), 1⟩ := by
  simp only [EKS.NodeUptimePanelHandler, h1, h2]

theorem EC2.InstanceHourStoppedPanel_fetched (env : Collaborators) (lib : EC2.Lib)
    (fetch : EC2.LogsFetch) (queries : Values) (s s1 s2 : EC2.State) (w : ResponseWriter)
    (a : Auth) (c : CloudWatchPtr)
    (h1 : EC2.authenticateAndCacheInstanceHourStoppedPanel env
      (EC2.InstanceHourStoppedPanel_commandParam queries) s =
        Outcome.returned (some a, none) s1)
    (h2 : EC2.cloudwatchClientCacheInstanceHourStoppedPanel env a s1 =
      Outcome.returned (c, none) s2)
    (h3 : lib.ParseFlags (EC2.InstanceHourStoppedPanel_flags queries) = none) :
    EC2.InstanceHourStoppedPanel env lib fetch queries s w =
      ⟨Ending.returned, s2,
        EC2.InstanceHourStoppedPanel_respond lib
          (fetch (EC2.InstanceHourStoppedPanel_flags queries) a c).1
          (fetch (EC2.InstanceHourStoppedPanel_flags queries) a c).2
          (w.HeaderSet "Content-Type" "application/json"), 1⟩ := by
  simp only [EC2.InstanceHourStoppedPanel, h1, h2, h3]

theorem EC2.InstanceStopCountPanelHandler_fetched (env : Collaborators) (lib : EC2.Lib)
    (fetch : EC2.LogsFetch) (queries : Values) (s s1 s2 : EC2.State) (w : ResponseWriter)
    (a : Auth) (c : CloudWatchPtr)
    (h1 : EC2.authenticateAndCacheInstanceStopPanel env
      (EC2.InstanceHourStoppedPanel_commandParam queries) s =
        Outcome.returned (some a, none) s1)
    (h2 : EC2.cloudwatchClientCacheInstanceStopPanel env a s1 =
      Outcome.returned (c, none) s2)
    (h3 : lib.ParseFlags (EC2.InstanceHourStoppedPanel_flags queries) = none) :
    EC2.InstanceStopCountPanelHandler env lib fetch queries s w =
      ⟨Ending.returned, s2,
        EC2.InstanceStopCountPanelHandler_respond lib
          (fetch (EC2.InstanceHourStoppedPanel_flags queries) a c).1
          (fetch (EC2.InstanceHourStoppedPanel_flags queries) a c).2
          (w.HeaderSet "Content-Type" "application/json"), 1⟩ := by
  simp only [EC2.InstanceStopCountPanelHandler, h1, h2, h3]

/-! ## The writer after a body write -/

/-- A handler that has only set `Content-Type: application/json` writes `data`: the status is
200 and the content type sent is `application/json`, also when the write fails and the
failure is reported with `http.Error`; the body is `data` when the write succeeds. -/
theorem write_then_report (errs : List GoError) (data : String) (report : String → String) :
    (match (ResponseWriter.mk [("Content-Type", "application/json")] none "" errs).Write data
      with
      | (some e, w2) => http.Error w2 (report e) http.StatusInternalServerError
      | (none, w2) => w2).status = some 200 ∧
    (match (ResponseWriter.mk [("Content-Type", "application/json")] none "" errs).Write data
      with
      | (some e, w2) => http.Error w2 (report e) http.StatusInternalServerError
      | (none, w2) => w2).sentContentType = some "application/json" ∧
    (firstWriteFails errs = false →
      (match (ResponseWriter.mk [("Content-Type", "application/json")] none "" errs).Write data
        with
        | (some e, w2) => http.Error w2 (report e) http.StatusInternalServerError
        | (none, w2) => w2).body = data) := by
  rcases errs with _ | ⟨_ | e, rest⟩
  · simp [ResponseWriter.Write, ResponseWriter.WriteHeader, ResponseWriter.status,
      ResponseWriter.sentContentType, headerGet]
  · simp [ResponseWriter.Write, ResponseWriter.WriteHeader, ResponseWriter.status,
      ResponseWriter.sentContentType, headerGet]
  · refine ⟨?_, ?_, ?_⟩
    · simp only [ResponseWriter.Write, ResponseWriter.WriteHeader, ResponseWriter.status]
      rw [http.Error_wroteHeader_of_sent _ _ _ _ rfl]
      rfl
    · simp only [ResponseWriter.Write, ResponseWriter.WriteHeader,
        ResponseWriter.sentContentType]
      rw [http.Error_wroteHeader_of_sent _ _ _ _ rfl]
      simp [headerGet]
    · intro h
      simp [firstWriteFails] at h

/-! ## Metric-fetch results -/

/-- C12. `InstanceHourStoppedPanel` and `InstanceStopCountPanelHandler` evaluated on a
collaborator that returns query results that are not nil together with the error
`query failed`: the handlers never read that error, marshal the results and answer with
HTTP 200, the results as body and no error envelope. With nil results the same error does
lead to HTTP 500. -/
theorem C12_fetch_error_with_data_answers_200 :
    (EC2.InstanceHourStoppedPanel sampleEnv EC2.sampleLib
        (sampleLogsFetch (some ⟨7⟩) (some "query failed")) sampleQuery EC2.State.init
        (ResponseWriter.fresh [])).w.status = some 200 ∧
    (EC2.InstanceHourStoppedPanel sampleEnv EC2.sampleLib
        (sampleLogsFetch (some ⟨7⟩) (some "query failed")) sampleQuery EC2.State.init
        (ResponseWriter.fresh [])).w.body = "\x7b\"results\":7\x7d" ∧
    (EC2.InstanceStopCountPanelHandler sampleEnv EC2.sampleLib
        (sampleLogsFetch (some ⟨7⟩) (some "query failed")) sampleQuery EC2.State.init
        (ResponseWriter.fresh [])).w.status = some 200 ∧
    (EC2.InstanceStopCountPanelHandler sampleEnv EC2.sampleLib
        (sampleLogsFetch (some ⟨7⟩) (some "query failed")) sampleQuery EC2.State.init
        (ResponseWriter.fresh [])).w.body = "\x7b\"results\":7\x7d" ∧
    (EC2.InstanceHourStoppedPanel sampleEnv EC2.sampleLib
        (sampleLogsFetch none (some "query failed")) sampleQuery EC2.State.init
        (ResponseWriter.fresh [])).w.status = some 500 ∧
    (EC2.InstanceStopCountPanelHandler sampleEnv EC2.sampleLib
        (sampleLogsFetch none (some "query failed")) sampleQuery EC2.State.init
        (ResponseWriter.fresh [])).w.status = some 500 := by
  decide

/-- C13 as stated fails: when the collaborator of `Get4XXErrorsPanel` returns the empty
document with a nil error, the handler answers with HTTP 200 and an empty body; and in
`GetECSWriteBytesPanel` with `responseType=frame` a nil series with a nil error gives HTTP 200
with the body `null`. -/
theorem C13_empty_result_counterexample :
    (ApiGateway.Get4XXErrorsPanel sampleEnv (samplePanelFetch "" none none) sampleQuery
        ApiGateway.State.init (ResponseWriter.fresh [])).w.status = some 200 ∧
    (ApiGateway.Get4XXErrorsPanel sampleEnv (samplePanelFetch "" none none) sampleQuery
        ApiGateway.State.init (ResponseWriter.fresh [])).w.body = "" ∧
    (ECS.GetECSWriteBytesPanel sampleEnv ECS.sampleJSON (samplePanelFetch "" none none)
        sampleFrameQuery ECS.State.init (ResponseWriter.fresh [])).w.status = some 200 ∧
    (ECS.GetECSWriteBytesPanel sampleEnv ECS.sampleJSON (samplePanelFetch "" none none)
        sampleFrameQuery ECS.State.init (ResponseWriter.fresh [])).w.body = "null\n" := by
  decide

/-- C13, amended. When the metric collaborator returns an empty or nil result with a nil
error: (1) `Get4XXErrorsPanel` writes the empty document as it is, so the status is 200 and,
the write succeeding, the body is empty; (2) `GetECSWriteBytesPanel` on the default path
hands the empty document to `json.Unmarshal`, and when that fails with `e` the response has
status 500, content type `text/plain` and the body `Exception: <e>` followed by a newline;
(3) `GetECSWriteBytesPanel` with `responseType == "frame"` encodes the nil series, so the
status is 200 and the body is that encoding followed by a newline. -/
theorem C13_empty_result (env : Collaborators) (fetch : PanelFetch) (query : Values)
    (errs : List GoError) (a : Auth) (c : CloudWatchPtr) (series : MetricDataPtr) :
    (∀ (s s1 s2 : ApiGateway.State),
      ApiGateway.authenticateAndCache4XX env (ApiGateway.Get4XXErrorsPanel_commandParam query) s =
        Outcome.returned (some a, none) s1 →
      ApiGateway.cloudwatchClientCache4XX env a s1 = Outcome.returned (c, none) s2 →
      fetch ⟨query.Get "elementId", query.Get "instanceId", query.Get "elementType",
        query.Get "startTime", query.Get "endTime", query.Get "responseType"⟩ a c =
        ("", series, none) →
      (ApiGateway.Get4XXErrorsPanel env fetch query s (ResponseWriter.fresh errs)).w.status =
        some 200 ∧
      (firstWriteFails errs = false →
        (ApiGateway.Get4XXErrorsPanel env fetch query s (ResponseWriter.fresh errs)).w.body =
          "")) ∧
    (∀ (lib : ECS.JSON) (s s1 s2 : ECS.State) (e : String),
      ECS.writeBytesAuthenticateAndCache env (ECS.GetECSWriteBytesPanel_commandParam query) s =
        Outcome.returned (some a, none) s1 →
      ECS.writeBytesCloudwatchClientCache env a s1 = Outcome.returned (c, none) s2 →
      fetch ⟨query.Get "elementId", query.Get "instanceId", query.Get "elementType",
        query.Get "startTime", query.Get "endTime", query.Get "responseType"⟩ a c =
        ("", series, none) →
      query.Get "responseType" ≠ "frame" →
      lib.UnmarshalWriteBytes "" = Except.error e →
      (ECS.GetECSWriteBytesPanel env lib fetch query s (ResponseWriter.fresh errs)).w.status =
        some 500 ∧
      (ECS.GetECSWriteBytesPanel env lib fetch query s
        (ResponseWriter.fresh errs)).w.sentContentType = some "text/plain; charset=utf-8" ∧
      (ECS.GetECSWriteBytesPanel env lib fetch query s (ResponseWriter.fresh errs)).w.body =
        if firstWriteFails errs then "" else "Exception: " ++ e ++ "\n") ∧
    (∀ (lib : ECS.JSON) (s s1 s2 : ECS.State) (doc enc : String),
      ECS.writeBytesAuthenticateAndCache env (ECS.GetECSWriteBytesPanel_commandParam query) s =
        Outcome.returned (some a, none) s1 →
      ECS.writeBytesCloudwatchClientCache env a s1 = Outcome.returned (c, none) s2 →
      fetch ⟨query.Get "elementId", query.Get "instanceId", query.Get "elementType",
        query.Get "startTime", query.Get "endTime", query.Get "responseType"⟩ a c =
        (doc, none, none) →
      query.Get "responseType" = "frame" →
      lib.MarshalMetricData none = Except.ok enc →
      (ECS.GetECSWriteBytesPanel env lib fetch query s (ResponseWriter.fresh errs)).w.status =
        some 200 ∧
      (firstWriteFails errs = false →
        (ECS.GetECSWriteBytesPanel env lib fetch query s (ResponseWriter.fresh errs)).w.body =
          enc ++ "\n")) := by
  refine ⟨?_, ?_, ?_⟩
  · intro s s1 s2 h1 h2 hf
    rw [ApiGateway.Get4XXErrorsPanel_fetched env fetch query s s1 s2 _ a c h1 h2, hf]
    have hw := write_then_report errs "" (fun e => "Exception: " ++ e)
    exact ⟨hw.1, hw.2.2⟩
  · intro lib s s1 s2 e h1 h2 hf hrt hu
    rw [ECS.GetECSWriteBytesPanel_fetched env lib fetch query s s1 s2 _ a c h1 h2, hf]
    simp only [ECS.GetECSWriteBytesPanel_respond, hrt, if_false, hu,
      http.StatusInternalServerError]
    have hw := http.Error_on_handler_writer errs ("Exception: " ++ e) 500
    exact ⟨hw.1, hw.2.1, by simpa [String.append_assoc] using hw.2.2⟩
  · intro lib s s1 s2 doc enc h1 h2 hf hrt hm
    rw [ECS.GetECSWriteBytesPanel_fetched env lib fetch query s s1 s2 _ a c h1 h2, hf]
    simp only [ECS.GetECSWriteBytesPanel_respond, hrt, if_true, hm, json.Encode]
    have hw := write_then_report errs (enc ++ "\n") (fun e => "Exception: " ++ e ++ " ")
    exact ⟨hw.1, hw.2.2⟩

/-- C13 at a concrete input: `Get4XXErrorsPanel` on the empty caches with a collaborator that
returns the empty document. -/
theorem C13_empty_result_witness :
    (ApiGateway.Get4XXErrorsPanel sampleEnv (samplePanelFetch "" none none) sampleQuery
        ApiGateway.State.init (ResponseWriter.fresh [])).w.status = some 200 ∧
    (ApiGateway.Get4XXErrorsPanel sampleEnv (samplePanelFetch "" none none) sampleQuery
        ApiGateway.State.init (ResponseWriter.fresh [])).w.body = "" :=
  have h := (C13_empty_result sampleEnv (samplePanelFetch "" none none) sampleQuery []
    ⟨"", "i-123"⟩ (some ⟨1⟩) none).1 ApiGateway.State.init
    (ApiGateway.authenticateAndCache4XX sampleEnv
      (ApiGateway.Get4XXErrorsPanel_commandParam sampleQuery) ApiGateway.State.init).state
    (ApiGateway.cloudwatchClientCache4XX sampleEnv ⟨"", "i-123"⟩
      (ApiGateway.authenticateAndCache4XX sampleEnv
        (ApiGateway.Get4XXErrorsPanel_commandParam sampleQuery) ApiGateway.State.init).state).state
    (by decide) (by decide) rfl
  ⟨h.1, h.2 rfl⟩

/-! ## The response type -/

/-- On the default path the value of `responseType` does not matter. -/
theorem ECS.GetECSWriteBytesPanel_respond_default (lib : ECS.JSON) (rt doc : String)
    (series : MetricDataPtr) (err : GoError) (w : ResponseWriter) (h : rt ≠ "frame") :
    ECS.GetECSWriteBytesPanel_respond lib rt doc series err w =
      ECS.GetECSWriteBytesPanel_respond lib "" doc series err w := by
  simp [ECS.GetECSWriteBytesPanel_respond, h]

/-- C14. In `GetECSWriteBytesPanel`, for a metric collaborator whose results do not depend on
the `responseType` flag, a request whose `responseType` is any value other than `frame`
(1) gets the same outcome as the request that differs from it only in omitting `responseType`
(empty string): the same ending, package state and response (status, headers, body); and
(2) is answered on the default path, where the value produces no error: once the credentials
and the client are resolved, the collaborator reports no error and the document is accepted
(`json.Unmarshal` fills `data`, `json.Marshal(data)` yields `jsonBytes`), the handler returns
with status 200 and content type `application/json`, and the body is `jsonBytes` when the
write succeeds; (3) when the response has status 500 all the same, the request without
`responseType` is answered with status 500 as well. -/
theorem C14_response_type_default (env : Collaborators) (lib : ECS.JSON) (fetch : PanelFetch)
    (q1 q2 : Values) (s : ECS.State) (w : ResponseWriter) (errs : List GoError)
    (hkeys : ∀ key : String, key ≠ "responseType" → q2.Get key = q1.Get key)
    (h1 : q1.Get "responseType" = "") (h2 : q2.Get "responseType" ≠ "frame")
    (hfetch : ∀ (f : PanelFlags) (rt : String) (a : Auth) (c : CloudWatchPtr),
      fetch { f with responseType := rt } a c = fetch f a c) :
    ECS.GetECSWriteBytesPanel env lib fetch q2 s w =
      ECS.GetECSWriteBytesPanel env lib fetch q1 s w ∧
    (∀ (a : Auth) (c : CloudWatchPtr) (s1 s2 : ECS.State) (doc jsonBytes : String)
        (series : MetricDataPtr) (data : ECS.WriteBytes),
      ECS.writeBytesAuthenticateAndCache env (ECS.GetECSWriteBytesPanel_commandParam q2) s =
        Outcome.returned (some a, none) s1 →
      ECS.writeBytesCloudwatchClientCache env a s1 = Outcome.returned (c, none) s2 →
      fetch ⟨q2.Get "elementId", q2.Get "instanceId", q2.Get "elementType",
        q2.Get "startTime", q2.Get "endTime", q2.Get "responseType"⟩ a c =
        (doc, series, none) →
      lib.UnmarshalWriteBytes doc = Except.ok data →
      lib.MarshalWriteBytes data = Except.ok jsonBytes →
      (ECS.GetECSWriteBytesPanel env lib fetch q2 s (ResponseWriter.fresh errs)).ending =
        Ending.returned ∧
      (ECS.GetECSWriteBytesPanel env lib fetch q2 s (ResponseWriter.fresh errs)).w.status =
        some 200 ∧
      (ECS.GetECSWriteBytesPanel env lib fetch q2 s
        (ResponseWriter.fresh errs)).w.sentContentType = some "application/json" ∧
      (firstWriteFails errs = false →
        (ECS.GetECSWriteBytesPanel env lib fetch q2 s (ResponseWriter.fresh errs)).w.body =
          jsonBytes)) ∧
    ((ECS.GetECSWriteBytesPanel env lib fetch q2 s (ResponseWriter.fresh errs)).w.status =
        some 500 →
      (ECS.GetECSWriteBytesPanel env lib fetch q1 s (ResponseWriter.fresh errs)).w.status =
        some 500) := by
  have hf : ∀ (a : Auth) (c : CloudWatchPtr),
      fetch ⟨q1.Get "elementId", q1.Get "instanceId", q1.Get "elementType",
        q1.Get "startTime", q1.Get "endTime", q2.Get "responseType"⟩ a c =
      fetch ⟨q1.Get "elementId", q1.Get "instanceId", q1.Get "elementType",
        q1.Get "startTime", q1.Get "endTime", ""⟩ a c := by
    intro a c
    exact hfetch ⟨q1.Get "elementId", q1.Get "instanceId", q1.Get "elementType",
      q1.Get "startTime", q1.Get "endTime", ""⟩ (q2.Get "responseType") a c
  have hr := fun doc series err w0 =>
    ECS.GetECSWriteBytesPanel_respond_default lib (q2.Get "responseType") doc series err w0 h2
  have heq : ∀ w0 : ResponseWriter, ECS.GetECSWriteBytesPanel env lib fetch q2 s w0 =
      ECS.GetECSWriteBytesPanel env lib fetch q1 s w0 := by
    intro w0
    simp only [ECS.GetECSWriteBytesPanel, ECS.GetECSWriteBytesPanel_commandParam,
      hkeys "zone" (by decide), hkeys "elementId" (by decide), hkeys "cmdbApiUrl" (by decide),
      hkeys "crossAccountRoleArn" (by decide), hkeys "externalId" (by decide),
      hkeys "instanceId" (by decide), hkeys "elementType" (by decide),
      hkeys "startTime" (by decide), hkeys "endTime" (by decide), h1, hf, hr]
  refine ⟨heq w, ?_, ?_⟩
  · intro a c s1 s2 doc jsonBytes series data ha hc hd hu hm
    rw [ECS.GetECSWriteBytesPanel_fetched env lib fetch q2 s s1 s2 _ a c ha hc, hd]
    simp only [ECS.GetECSWriteBytesPanel_respond, h2, if_false, hu, hm]
    have hw := write_then_report errs jsonBytes (fun e => "Exception: " ++ e)
    exact ⟨trivial, hw.1, hw.2.1, hw.2.2⟩
  · intro h
    rw [← heq (ResponseWriter.fresh errs)]
    exact h

/-- C14 at a concrete input: `responseType=json` against no `responseType`, with a
collaborator that returns the document `{}` for every call: the two outcomes are the same,
and the answer to `responseType=json` has status 200 and the body `{"RawData":null}`. -/
theorem C14_response_type_default_witness :
    ECS.GetECSWriteBytesPanel sampleEnv ECS.sampleJSON (samplePanelFetch "\x7b\x7d" none none)
        ⟨[("zone", ["us-east-1"]), ("elementId", ["i-123"]), ("responseType", ["json"])]⟩
        ECS.State.init (ResponseWriter.fresh []) =
      ECS.GetECSWriteBytesPanel sampleEnv ECS.sampleJSON (samplePanelFetch "\x7b\x7d" none none)
        sampleQuery ECS.State.init (ResponseWriter.fresh []) ∧
    (ECS.GetECSWriteBytesPanel sampleEnv ECS.sampleJSON (samplePanelFetch "\x7b\x7d" none none)
        ⟨[("zone", ["us-east-1"]), ("elementId", ["i-123"]), ("responseType", ["json"])]⟩
        ECS.State.init (ResponseWriter.fresh [])).w.status = some 200 ∧
    (ECS.GetECSWriteBytesPanel sampleEnv ECS.sampleJSON (samplePanelFetch "\x7b\x7d" none none)
        ⟨[("zone", ["us-east-1"]), ("elementId", ["i-123"]), ("responseType", ["json"])]⟩
        ECS.State.init (ResponseWriter.fresh [])).w.body = "\x7b\"RawData\":null\x7d" :=
  have h := C14_response_type_default sampleEnv ECS.sampleJSON
    (samplePanelFetch "\x7b\x7d" none none) sampleQuery
    ⟨[("zone", ["us-east-1"]), ("elementId", ["i-123"]), ("responseType", ["json"])]⟩
    ECS.State.init (ResponseWriter.fresh []) []
    (fun key hk => by
      have hb : ("responseType" == key) = false := by simpa using fun e => hk e.symm
      simp [Values.Get, sampleQuery, List.find?_cons, hb])
    (by decide) (by decide) (fun _ _ _ _ => rfl)
  have h2 := h.2.1 ⟨"", "i-123"⟩ (some ⟨1⟩)
    (ECS.writeBytesAuthenticateAndCache sampleEnv
      (ECS.GetECSWriteBytesPanel_commandParam
        ⟨[("zone", ["us-east-1"]), ("elementId", ["i-123"]), ("responseType", ["json"])]⟩)
      ECS.State.init).state
    (ECS.writeBytesCloudwatchClientCache sampleEnv ⟨"", "i-123"⟩
      (ECS.writeBytesAuthenticateAndCache sampleEnv
        (ECS.GetECSWriteBytesPanel_commandParam
          ⟨[("zone", ["us-east-1"]), ("elementId", ["i-123"]), ("responseType", ["json"])]⟩)
        ECS.State.init).state).state
    "\x7b\x7d" "\x7b\"RawData\":null\x7d" none ⟨none⟩ (by decide) (by decide) rfl rfl rfl
  ⟨h.1, h2.2.1, h2.2.2.2 rfl⟩

/-! ## Reading back what json.Marshal writes -/

/-- C16. In `GetECSWriteBytesPanel` on the default path, when `json.Unmarshal` of the document
into `WriteBytes` fails with `e`, the response has status 500 (never 200) and content type
`text/plain`, and the body is `Exception: <e>` followed by a newline, or empty when the write
of that message fails: no byte of the document is written. -/
theorem C16_parse_failure (env : Collaborators) (lib : ECS.JSON) (fetch : PanelFetch)
    (query : Values) (errs : List GoError) (a : Auth) (c : CloudWatchPtr) (doc e : String)
    (series : MetricDataPtr) (s s1 s2 : ECS.State)
    (h1 : ECS.writeBytesAuthenticateAndCache env (ECS.GetECSWriteBytesPanel_commandParam query)
      s = Outcome.returned (some a, none) s1)
    (h2 : ECS.writeBytesCloudwatchClientCache env a s1 = Outcome.returned (c, none) s2)
    (hrt : query.Get "responseType" ≠ "frame")
    (hf : fetch ⟨query.Get "elementId", query.Get "instanceId", query.Get "elementType",
      query.Get "startTime", query.Get "endTime", query.Get "responseType"⟩ a c =
      (doc, series, none))
    (hu : lib.UnmarshalWriteBytes doc = Except.error e) :
    (ECS.GetECSWriteBytesPanel env lib fetch query s (ResponseWriter.fresh errs)).ending =
      Ending.returned ∧
    (ECS.GetECSWriteBytesPanel env lib fetch query s (ResponseWriter.fresh errs)).w.status =
      some 500 ∧
    (ECS.GetECSWriteBytesPanel env lib fetch query s
      (ResponseWriter.fresh errs)).w.sentContentType = some "text/plain; charset=utf-8" ∧
    (ECS.GetECSWriteBytesPanel env lib fetch query s (ResponseWriter.fresh errs)).w.body =
      if firstWriteFails errs then "" else "Exception: " ++ e ++ "\n" := by
  rw [ECS.GetECSWriteBytesPanel_fetched env lib fetch query s s1 s2 _ a c h1 h2, hf]
  simp only [ECS.GetECSWriteBytesPanel_respond, hrt, if_false, hu,
    http.StatusInternalServerError]
  have hw := http.Error_on_handler_writer errs ("Exception: " ++ e) 500
  exact ⟨trivial, hw.1, hw.2.1, by simpa [String.append_assoc] using hw.2.2⟩

/-- C16 at a concrete input: the document `oops`. -/
theorem C16_parse_failure_witness :
    (ECS.GetECSWriteBytesPanel sampleEnv ECS.sampleJSON (samplePanelFetch "oops" none none)
        sampleQuery ECS.State.init (ResponseWriter.fresh [])).ending = Ending.returned ∧
    (ECS.GetECSWriteBytesPanel sampleEnv ECS.sampleJSON (samplePanelFetch "oops" none none)
        sampleQuery ECS.State.init (ResponseWriter.fresh [])).w.status = some 500 ∧
    (ECS.GetECSWriteBytesPanel sampleEnv ECS.sampleJSON (samplePanelFetch "oops" none none)
        sampleQuery ECS.State.init (ResponseWriter.fresh [])).w.sentContentType =
      some "text/plain; charset=utf-8" ∧
    (ECS.GetECSWriteBytesPanel sampleEnv ECS.sampleJSON (samplePanelFetch "oops" none none)
        sampleQuery ECS.State.init (ResponseWriter.fresh [])).w.body =
      if firstWriteFails [] then ""
      else "Exception: " ++ "invalid character 'o' looking for beginning of value" ++ "\n" :=
  C16_parse_failure sampleEnv ECS.sampleJSON (samplePanelFetch "oops" none none) sampleQuery []
    ⟨"", "i-123"⟩ (some ⟨1⟩) "oops" "invalid character 'o' looking for beginning of value" none
    ECS.State.init
    (ECS.writeBytesAuthenticateAndCache sampleEnv
      (ECS.GetECSWriteBytesPanel_commandParam sampleQuery) ECS.State.init).state
    (ECS.writeBytesCloudwatchClientCache sampleEnv ⟨"", "i-123"⟩
      (ECS.writeBytesAuthenticateAndCache sampleEnv
        (ECS.GetECSWriteBytesPanel_commandParam sampleQuery) ECS.State.init).state).state
    (by decide) (by decide) (by decide) rfl rfl

/-- C17 as stated fails: the document `oops` is not a JSON text, yet on the default path
`Get4XXErrorsPanel` and `NodeUptimePanelHandler` transmit it with status 200. -/
theorem C17_pass_through_counterexample :
    Json.parse "oops" =
      Except.error (Json.SyntaxError.invalidCharacter 'o' "looking for beginning of value") ∧
    (ApiGateway.Get4XXErrorsPanel sampleEnv (samplePanelFetch "oops" none none) sampleQuery
        ApiGateway.State.init (ResponseWriter.fresh [])).w.status = some 200 ∧
    (ApiGateway.Get4XXErrorsPanel sampleEnv (samplePanelFetch "oops" none none) sampleQuery
        ApiGateway.State.init (ResponseWriter.fresh [])).w.body = "oops" ∧
    (EKS.NodeUptimePanelHandler sampleEnv sampleMarshalMetricData
        (samplePanelFetch "oops" none none) sampleQuery EKS.State.init
        (ResponseWriter.fresh [])).w.status = some 200 ∧
    (EKS.NodeUptimePanelHandler sampleEnv sampleMarshalMetricData
        (samplePanelFetch "oops" none none) sampleQuery EKS.State.init
        (ResponseWriter.fresh [])).w.body = "oops" := by
  refine ⟨rfl, by decide, by decide, by decide, by decide⟩

/-- C17, amended. In `Get4XXErrorsPanel`, and in `NodeUptimePanelHandler` on the default
(non-frame) path, the pre-serialized document is not parsed: for every document string that
the metric collaborator returns with a nil error, the response has status 200 and content
type `application/json`, and, the write succeeding, the body is the document itself, byte
for byte. -/
theorem C17_document_pass_through (env : Collaborators) (fetch : PanelFetch) (query : Values)
    (errs : List GoError) (a : Auth) (c : CloudWatchPtr) (doc : String)
    (series : MetricDataPtr)
    (hf : fetch ⟨query.Get "elementId", query.Get "instanceId", query.Get "elementType",
      query.Get "startTime", query.Get "endTime", query.Get "responseType"⟩ a c =
      (doc, series, none)) :
    (∀ (s s1 s2 : ApiGateway.State),
      ApiGateway.authenticateAndCache4XX env (ApiGateway.Get4XXErrorsPanel_commandParam query) s =
        Outcome.returned (some a, none) s1 →
      ApiGateway.cloudwatchClientCache4XX env a s1 = Outcome.returned (c, none) s2 →
      (ApiGateway.Get4XXErrorsPanel env fetch query s (ResponseWriter.fresh errs)).w.status =
        some 200 ∧
      (ApiGateway.Get4XXErrorsPanel env fetch query s
        (ResponseWriter.fresh errs)).w.sentContentType = some "application/json" ∧
      (firstWriteFails errs = false →
        (ApiGateway.Get4XXErrorsPanel env fetch query s (ResponseWriter.fresh errs)).w.body =
          doc)) ∧
    (∀ (marshal : MetricDataPtr → Except String String) (s s1 s2 : EKS.State),
      EKS.nodeUptimeAuthenticateAndCache env (EKS.NodeUptimePanelHandler_commandParam query) s =
        Outcome.returned (some a, none) s1 →
      EKS.nodeUptimeCloudwatchClientCache env a s1 = Outcome.returned (c, none) s2 →
      query.Get "responseType" ≠ "frame" →
      (EKS.NodeUptimePanelHandler env marshal fetch query s
        (ResponseWriter.fresh errs)).w.status = some 200 ∧
      (EKS.NodeUptimePanelHandler env marshal fetch query s
        (ResponseWriter.fresh errs)).w.sentContentType = some "application/json" ∧
      (firstWriteFails errs = false →
        (EKS.NodeUptimePanelHandler env marshal fetch query s
          (ResponseWriter.fresh errs)).w.body = doc)) := by
  have hw := write_then_report errs doc (fun e => "Exception: " ++ e)
  refine ⟨?_, ?_⟩
  · intro s s1 s2 h1 h2
    rw [ApiGateway.Get4XXErrorsPanel_fetched env fetch query s s1 s2 _ a c h1 h2, hf]
    exact hw
  · intro marshal s s1 s2 h1 h2 hrt
    rw [EKS.NodeUptimePanelHandler_fetched env marshal fetch query s s1 s2 _ a c h1 h2, hf]
    simp only [EKS.NodeUptimePanelHandler_respond, hrt, if_false]
    exact hw

/-- C17 at a concrete input: `NodeUptimePanelHandler` with the document `oops`. -/
theorem C17_document_pass_through_witness :
    (EKS.NodeUptimePanelHandler sampleEnv sampleMarshalMetricData
        (samplePanelFetch "oops" none none) sampleQuery EKS.State.init
        (ResponseWriter.fresh [])).w.status = some 200 ∧
    (EKS.NodeUptimePanelHandler sampleEnv sampleMarshalMetricData
        (samplePanelFetch "oops" none none) sampleQuery EKS.State.init
        (ResponseWriter.fresh [])).w.body = "oops" :=
  have h := (C17_document_pass_through sampleEnv (samplePanelFetch "oops" none none)
    sampleQuery [] ⟨"", "i-123"⟩ (some ⟨1⟩) "oops" none rfl).2 sampleMarshalMetricData
    EKS.State.init
    (EKS.nodeUptimeAuthenticateAndCache sampleEnv
      (EKS.NodeUptimePanelHandler_commandParam sampleQuery) EKS.State.init).state
    (EKS.nodeUptimeCloudwatchClientCache sampleEnv ⟨"", "i-123"⟩
      (EKS.nodeUptimeAuthenticateAndCache sampleEnv
        (EKS.NodeUptimePanelHandler_commandParam sampleQuery) EKS.State.init).state).state
    (by decide) (by decide) (by decide)
  ⟨h.1, h.2.2 rfl⟩

/-! ## The frame path -/

/-- On the frame path the document is not read. -/
theorem ECS.GetECSWriteBytesPanel_respond_frame (lib : ECS.JSON) (doc doc2 : String)
    (series : MetricDataPtr) (err : GoError) (w : ResponseWriter) :
    ECS.GetECSWriteBytesPanel_respond lib "frame" doc series err w =
      ECS.GetECSWriteBytesPanel_respond lib "frame" doc2 series err w := by
  simp [ECS.GetECSWriteBytesPanel_respond]

/-- C18. In `GetECSWriteBytesPanel` with `responseType == "frame"`: (1) two metric
collaborators that return the same series and error, whatever documents they return
(parseable or not), lead to the same outcome: ending, package state and response;
(2) when the collaborator returns a nil error and `json.Marshal` of the series yields `enc`,
the response has status 200 and content type `application/json`, and, the write succeeding,
the body is `enc` followed by the newline that `Encoder.Encode` appends. -/
theorem C18_frame_path (env : Collaborators) (lib : ECS.JSON) (query : Values)
    (hrt : query.Get "responseType" = "frame") :
    (∀ (fetch1 fetch2 : PanelFetch) (s : ECS.State) (w : ResponseWriter),
      (∀ (f : PanelFlags) (a : Auth) (c : CloudWatchPtr), (fetch1 f a c).2 = (fetch2 f a c).2) →
      ECS.GetECSWriteBytesPanel env lib fetch1 query s w =
        ECS.GetECSWriteBytesPanel env lib fetch2 query s w) ∧
    (∀ (fetch : PanelFetch) (s s1 s2 : ECS.State) (errs : List GoError) (a : Auth)
      (c : CloudWatchPtr) (doc enc : String) (series : MetricDataPtr),
      ECS.writeBytesAuthenticateAndCache env (ECS.GetECSWriteBytesPanel_commandParam query) s =
        Outcome.returned (some a, none) s1 →
      ECS.writeBytesCloudwatchClientCache env a s1 = Outcome.returned (c, none) s2 →
      fetch ⟨query.Get "elementId", query.Get "instanceId", query.Get "elementType",
        query.Get "startTime", query.Get "endTime", query.Get "responseType"⟩ a c =
        (doc, series, none) →
      lib.MarshalMetricData series = Except.ok enc →
      (ECS.GetECSWriteBytesPanel env lib fetch query s (ResponseWriter.fresh errs)).w.status =
        some 200 ∧
      (ECS.GetECSWriteBytesPanel env lib fetch query s
        (ResponseWriter.fresh errs)).w.sentContentType = some "application/json" ∧
      (firstWriteFails errs = false →
        (ECS.GetECSWriteBytesPanel env lib fetch query s (ResponseWriter.fresh errs)).w.body =
          enc ++ "\n")) := by
  refine ⟨?_, ?_⟩
  · intro fetch1 fetch2 s w hsame
    have h21 : ∀ f a c, (fetch1 f a c).2.1 = (fetch2 f a c).2.1 := fun f a c => by
      rw [hsame f a c]
    have h22 : ∀ f a c, (fetch1 f a c).2.2 = (fetch2 f a c).2.2 := fun f a c => by
      rw [hsame f a c]
    have hr := fun (f : PanelFlags) (a : Auth) (c : CloudWatchPtr) (series : MetricDataPtr)
        (err : GoError) (w0 : ResponseWriter) =>
      ECS.GetECSWriteBytesPanel_respond_frame lib (fetch1 f a c).1 (fetch2 f a c).1 series err w0
    simp only [ECS.GetECSWriteBytesPanel, hrt, h21, h22, hr]
  · intro fetch s s1 s2 errs a c doc enc series h1 h2 hf hm
    rw [ECS.GetECSWriteBytesPanel_fetched env lib fetch query s s1 s2 _ a c h1 h2, hf]
    simp only [ECS.GetECSWriteBytesPanel_respond, hrt, if_true, hm, json.Encode]
    exact write_then_report errs (enc ++ "\n") (fun e => "Exception: " ++ e ++ " ")

/-- C18 at a concrete input: a parseable and an unparseable document next to the same nil
series give the same outcome. -/
theorem C18_frame_path_witness :
    ECS.GetECSWriteBytesPanel sampleEnv ECS.sampleJSON (samplePanelFetch "\x7b\x7d" none none)
        sampleFrameQuery ECS.State.init (ResponseWriter.fresh []) =
      ECS.GetECSWriteBytesPanel sampleEnv ECS.sampleJSON (samplePanelFetch "oops" none none)
        sampleFrameQuery ECS.State.init (ResponseWriter.fresh []) :=
  (C18_frame_path sampleEnv ECS.sampleJSON sampleFrameQuery (by decide)).1
    (samplePanelFetch "\x7b\x7d" none none) (samplePanelFetch "oops" none none)
    ECS.State.init (ResponseWriter.fresh []) (fun _ _ _ => rfl)

/-! ## The status line once sent -/

/-- `sendErrorrResponse` on a response whose status line was sent already leaves that status
line as it is. -/
theorem EC2.sendErrorrResponse_wroteHeader_of_sent (lib : EC2.Lib) (w : ResponseWriter)
    (message : String) (statusCode : Nat) (x : Nat × List (String × String))
    (h : w.wroteHeader = some x) :
    (EC2.sendErrorrResponse lib w message statusCode).wroteHeader = some x := by
  rcases hw : w.writeErrs with _ | ⟨_ | e, rest⟩ <;>
    simp [EC2.sendErrorrResponse, json.Encode, ResponseWriter.Write,
      ResponseWriter.WriteHeader, ResponseWriter.HeaderSet, h, hw]

theorem EC2.sendErrorrResponse_body (lib : EC2.Lib) (w : ResponseWriter) (message : String)
    (statusCode : Nat) :
    (EC2.sendErrorrResponse lib w message statusCode).body =
      if firstWriteFails w.writeErrs then w.body
      else w.body ++ (lib.MarshalStringMap [("error", message)] ++ "\n") := by
  rcases hw : w.writeErrs with _ | ⟨_ | e, rest⟩ <;>
    cases hh : w.wroteHeader <;>
    simp [EC2.sendErrorrResponse, json.Encode, ResponseWriter.Write,
      ResponseWriter.WriteHeader, ResponseWriter.HeaderSet, firstWriteFails, hw, hh]

/-- C19. In `InstanceHourStoppedPanel`, on every execution that reaches `WriteHeader(200)`
(credentials and client resolved, flags parsed, query results not nil and marshalled to
`data`), the status recorded after the handler returns is 200 with content type
`application/json`, whatever the outcomes of the writes: when the body write succeeds the
body is `data`; when it fails with `e`, `sendErrorrResponse` is called with status 500, its
`WriteHeader(500)` has no effect, and the body is the error envelope for
`Failed to write response: <e>` (or empty when that write fails too). -/
theorem C19_status_stays_200 (env : Collaborators) (lib : EC2.Lib) (fetch : EC2.LogsFetch)
    (queries : Values) (errs : List GoError) (a : Auth) (c : CloudWatchPtr)
    (s s1 s2 : EC2.State) (d : EC2.QueryResults) (err : GoError) (data : String)
    (h1 : EC2.authenticateAndCacheInstanceHourStoppedPanel env
      (EC2.InstanceHourStoppedPanel_commandParam queries) s =
        Outcome.returned (some a, none) s1)
    (h2 : EC2.cloudwatchClientCacheInstanceHourStoppedPanel env a s1 =
      Outcome.returned (c, none) s2)
    (h3 : lib.ParseFlags (EC2.InstanceHourStoppedPanel_flags queries) = none)
    (hf : fetch (EC2.InstanceHourStoppedPanel_flags queries) a c = (some d, err))
    (hm : lib.MarshalQueryResults d = Except.ok data) :
    (EC2.InstanceHourStoppedPanel env lib fetch queries s (ResponseWriter.fresh errs)).w.status =
      some 200 ∧
    (EC2.InstanceHourStoppedPanel env lib fetch queries s
      (ResponseWriter.fresh errs)).w.sentContentType = some "application/json" ∧
    (firstWriteFails errs = false →
      (EC2.InstanceHourStoppedPanel env lib fetch queries s (ResponseWriter.fresh errs)).w.body =
        data) ∧
    (∀ (e : String) (rest : List GoError), errs = some e :: rest →
      (EC2.InstanceHourStoppedPanel env lib fetch queries s (ResponseWriter.fresh errs)).w.body =
        if firstWriteFails rest then ""
        else lib.MarshalStringMap [("error", "Failed to write response: " ++ e)] ++ "\n") := by
  rw [EC2.InstanceHourStoppedPanel_fetched env lib fetch queries s s1 s2 _ a c h1 h2 h3, hf]
  simp only [EC2.InstanceHourStoppedPanel_respond, hm, http.StatusOK,
    http.StatusInternalServerError]
  rcases errs with _ | ⟨_ | e, rest⟩
  · simp [ResponseWriter.fresh, ResponseWriter.HeaderSet, headerSet, ResponseWriter.Write,
      ResponseWriter.WriteHeader, ResponseWriter.status, ResponseWriter.sentContentType,
      headerGet]
  · simp [ResponseWriter.fresh, ResponseWriter.HeaderSet, headerSet, ResponseWriter.Write,
      ResponseWriter.WriteHeader, ResponseWriter.status, ResponseWriter.sentContentType,
      headerGet]
  · refine ⟨?_, ?_, ?_, ?_⟩
    · simp only [ResponseWriter.fresh, ResponseWriter.HeaderSet, headerSet,
        ResponseWriter.Write, ResponseWriter.WriteHeader, ResponseWriter.status]
      rw [EC2.sendErrorrResponse_wroteHeader_of_sent _ _ _ _ _ rfl]
      rfl
    · simp only [ResponseWriter.fresh, ResponseWriter.HeaderSet, headerSet,
        ResponseWriter.Write, ResponseWriter.WriteHeader, ResponseWriter.sentContentType]
      rw [EC2.sendErrorrResponse_wroteHeader_of_sent _ _ _ _ _ rfl]
      simp [headerGet]
    · intro h
      simp [firstWriteFails] at h
    · intro e2 rest2 he
      injection he with he1 he2
      injection he1 with he1
      subst he1 he2
      simp only [ResponseWriter.fresh, ResponseWriter.HeaderSet, headerSet,
        ResponseWriter.Write, ResponseWriter.WriteHeader]
      rw [EC2.sendErrorrResponse_body]
      simp

/-- C19 at a concrete input: the body write fails with `broken pipe`; the status stays 200
and the body is the envelope that `sendErrorrResponse` writes. -/
theorem C19_status_stays_200_witness :
    (EC2.InstanceHourStoppedPanel sampleEnv EC2.sampleLib (sampleLogsFetch (some ⟨7⟩) none)
        sampleQuery EC2.State.init (ResponseWriter.fresh [some "broken pipe"])).w.status =
      some 200 ∧
    (EC2.InstanceHourStoppedPanel sampleEnv EC2.sampleLib (sampleLogsFetch (some ⟨7⟩) none)
        sampleQuery EC2.State.init (ResponseWriter.fresh [some "broken pipe"])).w.body =
      if firstWriteFails [] then ""
      else EC2.sampleLib.MarshalStringMap
        [("error", "Failed to write response: " ++ "broken pipe")] ++ "\n" :=
  have h := C19_status_stays_200 sampleEnv EC2.sampleLib (sampleLogsFetch (some ⟨7⟩) none)
    sampleQuery [some "broken pipe"] ⟨"", "i-123"⟩ (some ⟨1⟩) EC2.State.init
    (EC2.authenticateAndCacheInstanceHourStoppedPanel sampleEnv
      (EC2.InstanceHourStoppedPanel_commandParam sampleQuery) EC2.State.init).state
    (EC2.cloudwatchClientCacheInstanceHourStoppedPanel sampleEnv ⟨"", "i-123"⟩
      (EC2.authenticateAndCacheInstanceHourStoppedPanel sampleEnv
        (EC2.InstanceHourStoppedPanel_commandParam sampleQuery) EC2.State.init).state).state
    ⟨7⟩ none "\x7b\"results\":7\x7d" (by decide) (by decide) rfl rfl rfl
  ⟨h.1, h.2.2.2 "broken pipe" [] rfl⟩

/-! ## The error envelope of the EC2 log panels -/

/-- What `sendErrorrResponse` leaves on the writer of a handler that has only set its content
type: status `code`, `Content-Type: application/json`, and as body the encoding of the
one-entry map `error ↦ message` followed by a newline, unless the write fails. -/
theorem EC2.sendErrorrResponse_on_handler_writer (lib : EC2.Lib) (errs : List GoError)
    (message : String) (code : Nat) :
    (EC2.sendErrorrResponse lib
        ((ResponseWriter.fresh errs).HeaderSet "Content-Type" "application/json")
        message code).status = some code ∧
    (EC2.sendErrorrResponse lib
        ((ResponseWriter.fresh errs).HeaderSet "Content-Type" "application/json")
        message code).sentContentType = some "application/json" ∧
    (EC2.sendErrorrResponse lib
        ((ResponseWriter.fresh errs).HeaderSet "Content-Type" "application/json")
        message code).body =
      if firstWriteFails errs then "" else lib.MarshalStringMap [("error", message)] ++ "\n" := by
  rcases errs with _ | ⟨_ | e, rest⟩ <;>
    simp [EC2.sendErrorrResponse, json.Encode, ResponseWriter.fresh, ResponseWriter.HeaderSet,
      headerSet, ResponseWriter.Write, ResponseWriter.WriteHeader, ResponseWriter.status,
      ResponseWriter.sentContentType, headerGet, firstWriteFails]

/-- C21. In `InstanceHourStoppedPanel`: (1) whenever the metric collaborator is reached
(credentials and client resolved, flags parsed) and returns a nil data value, with or without
an error, the handler returns with status 500, `Content-Type: application/json` and, the write
succeeding, the body is the JSON encoding of the one-field object
`error ↦ "Failed to get instance hours stopped metrics data"` followed by the newline that
`Encode` appends; (2) whenever the credential resolve fails with `err`, the handler returns
without calling the metric collaborator, with status 500, `Content-Type: application/json`
and the encoding of `error ↦ "Authentication failed: <err>"` as body. -/
theorem C21_nil_data_error_envelope (env : Collaborators) (lib : EC2.Lib)
    (fetch : EC2.LogsFetch) (queries : Values) (errs : List GoError) (s : EC2.State) :
    (∀ (s1 s2 : EC2.State) (a : Auth) (c : CloudWatchPtr),
      EC2.authenticateAndCacheInstanceHourStoppedPanel env
        (EC2.InstanceHourStoppedPanel_commandParam queries) s =
          Outcome.returned (some a, none) s1 →
      EC2.cloudwatchClientCacheInstanceHourStoppedPanel env a s1 =
        Outcome.returned (c, none) s2 →
      lib.ParseFlags (EC2.InstanceHourStoppedPanel_flags queries) = none →
      (fetch (EC2.InstanceHourStoppedPanel_flags queries) a c).1 = none →
      (EC2.InstanceHourStoppedPanel env lib fetch queries s (ResponseWriter.fresh errs)).ending =
        Ending.returned ∧
      (EC2.InstanceHourStoppedPanel env lib fetch queries s (ResponseWriter.fresh errs)).w.status =
        some 500 ∧
      (EC2.InstanceHourStoppedPanel env lib fetch queries s
        (ResponseWriter.fresh errs)).w.sentContentType = some "application/json" ∧
      (EC2.InstanceHourStoppedPanel env lib fetch queries s (ResponseWriter.fresh errs)).w.body =
        if firstWriteFails errs then ""
        else lib.MarshalStringMap
          [("error", "Failed to get instance hours stopped metrics data")] ++ "\n") ∧
    (∀ (s1 : EC2.State) (v : AuthPtr) (err : String),
      EC2.authenticateAndCacheInstanceHourStoppedPanel env
        (EC2.InstanceHourStoppedPanel_commandParam queries) s =
          Outcome.returned (v, some err) s1 →
      (EC2.InstanceHourStoppedPanel env lib fetch queries s (ResponseWriter.fresh errs)).ending =
        Ending.returned ∧
      (EC2.InstanceHourStoppedPanel env lib fetch queries s (ResponseWriter.fresh errs)).fetches =
        0 ∧
      (EC2.InstanceHourStoppedPanel env lib fetch queries s (ResponseWriter.fresh errs)).w.status =
        some 500 ∧
      (EC2.InstanceHourStoppedPanel env lib fetch queries s
        (ResponseWriter.fresh errs)).w.sentContentType = some "application/json" ∧
      (EC2.InstanceHourStoppedPanel env lib fetch queries s (ResponseWriter.fresh errs)).w.body =
        if firstWriteFails errs then ""
        else lib.MarshalStringMap [("error", "Authentication failed: " ++ err)] ++ "\n") := by
  refine ⟨?_, ?_⟩
  · intro s1 s2 a c h1 h2 h3 hf
    rw [EC2.InstanceHourStoppedPanel_fetched env lib fetch queries s s1 s2 _ a c h1 h2 h3]
    simp only [EC2.InstanceHourStoppedPanel_respond, hf, http.StatusInternalServerError]
    have hw := EC2.sendErrorrResponse_on_handler_writer lib errs
      "Failed to get instance hours stopped metrics data" 500
    exact ⟨trivial, hw.1, hw.2.1, hw.2.2⟩
  · intro s1 v err h
    simp only [EC2.InstanceHourStoppedPanel, h, http.StatusInternalServerError]
    have hw := EC2.sendErrorrResponse_on_handler_writer lib errs
      ("Authentication failed: " ++ err) 500
    exact ⟨trivial, trivial, hw.1, hw.2.1, hw.2.2⟩

/-- C21 at concrete inputs: on the empty caches, a collaborator that returns nil data together
with the error `query failed` gives status 500 and the envelope for the fixed message; the
body is a JSON text, the object with the one member `error`. -/
theorem C21_nil_data_error_envelope_witness :
    (EC2.InstanceHourStoppedPanel sampleEnv EC2.sampleLib
        (sampleLogsFetch none (some "query failed")) sampleQuery EC2.State.init
        (ResponseWriter.fresh [])).w.status = some 500 ∧
    (EC2.InstanceHourStoppedPanel sampleEnv EC2.sampleLib
        (sampleLogsFetch none (some "query failed")) sampleQuery EC2.State.init
        (ResponseWriter.fresh [])).w.sentContentType = some "application/json" ∧
    (EC2.InstanceHourStoppedPanel sampleEnv EC2.sampleLib
        (sampleLogsFetch none (some "query failed")) sampleQuery EC2.State.init
        (ResponseWriter.fresh [])).w.body =
      "\x7b\"error\":\"Failed to get instance hours stopped metrics data\"\x7d\n" ∧
    Json.parse (EC2.InstanceHourStoppedPanel sampleEnv EC2.sampleLib
        (sampleLogsFetch none (some "query failed")) sampleQuery EC2.State.init
        (ResponseWriter.fresh [])).w.body =
      Except.ok (Json.obj
        [("error", Json.str "Failed to get instance hours stopped metrics data")]) :=
  have h := (C21_nil_data_error_envelope sampleEnv EC2.sampleLib
    (sampleLogsFetch none (some "query failed")) sampleQuery [] EC2.State.init).1
    (EC2.authenticateAndCacheInstanceHourStoppedPanel sampleEnv
      (EC2.InstanceHourStoppedPanel_commandParam sampleQuery) EC2.State.init).state
    (EC2.cloudwatchClientCacheInstanceHourStoppedPanel sampleEnv ⟨"", "i-123"⟩
      (EC2.authenticateAndCacheInstanceHourStoppedPanel sampleEnv
        (EC2.InstanceHourStoppedPanel_commandParam sampleQuery) EC2.State.init).state).state
    ⟨"", "i-123"⟩ (some ⟨1⟩) (by decide) (by decide) rfl rfl
  ⟨h.2.1, h.2.2.1, h.2.2.2, by rw [h.2.2.2]; rfl⟩

/-! ## The resolvers of the stop-count panel -/

namespace EC2

/-- Cache hit in the start panel's credential map: the stored pointer is returned, nothing
changes. -/
theorem authenticateAndCacheInstanceStopPanel_hit (env : Collaborators) (p : CommandParam)
    (s : State) (u : AuthPtr) (hl : s.vars.authCacheLockInstanceStartPanel.locked = false)
    (hk : s.vars.authCacheInstanceStartPanel.Load p.CloudElementId = some u) :
    authenticateAndCacheInstanceStopPanel env p s = Outcome.returned (u, none) s := by
  simp only [authenticateAndCacheInstanceStopPanel, RWMutex.Lock, RWMutex.Unlock, hl, hk]
  obtain ⟨t, v⟩ := s
  obtain ⟨a1, a2, a3, a4, a5, a6, a7, a8, a9, a10, ⟨l⟩, a12⟩ := v
  simp_all

/-- Cache hit in the start panel's client map: the stored client is returned, nothing
changes. -/
theorem cloudwatchClientCacheInstanceStopPanel_hit (env : Collaborators) (a : Auth)
    (s : State) (c : CloudWatchPtr)
    (hl : s.vars.clientCacheLockInstanceStartPanel.locked = false)
    (hk : s.vars.clientCacheInstanceStartPanel.Load a.CrossAccountRoleArn = some c) :
    cloudwatchClientCacheInstanceStopPanel env a s = Outcome.returned (c, none) s := by
  simp only [cloudwatchClientCacheInstanceStopPanel, RWMutex.Lock, RWMutex.Unlock, hl, hk]
  obtain ⟨t, v⟩ := s
  obtain ⟨a1, a2, a3, a4, a5, a6, a7, a8, a9, a10, a11, ⟨l⟩⟩ := v
  simp_all

/-- Successful miss: one `DoAuthenticate` call, its pointer is stored in the start panel's map
and returned. -/
theorem authenticateAndCacheInstanceStopPanel_miss_ok (env : Collaborators) (p : CommandParam)
    (s : State) (hl : s.vars.authCacheLockInstanceStartPanel.locked = false)
    (hk : s.vars.authCacheInstanceStartPanel.Load p.CloudElementId = none)
    (hr : (env.DoAuthenticate s.trace p).2.2 = none) :
    authenticateAndCacheInstanceStopPanel env p s =
      Outcome.returned ((env.DoAuthenticate s.trace p).2.1, none)
        { trace := s.trace ++ [Call.DoAuthenticate p],
          vars := { s.vars with
            authCacheInstanceStartPanel :=
              s.vars.authCacheInstanceStartPanel.Store p.CloudElementId
                (env.DoAuthenticate s.trace p).2.1 } } := by
  simp only [authenticateAndCacheInstanceStopPanel, RWMutex.Lock, RWMutex.Unlock, hl, hk, hr]
  obtain ⟨t, v⟩ := s
  obtain ⟨a1, a2, a3, a4, a5, a6, a7, a8, a9, a10, ⟨l⟩, a12⟩ := v
  simp_all

/-- Failed miss: one `DoAuthenticate` call, `(nil, err)` is returned, nothing is stored. -/
theorem authenticateAndCacheInstanceStopPanel_miss_err (env : Collaborators)
    (p : CommandParam) (s : State) (err : String)
    (hl : s.vars.authCacheLockInstanceStartPanel.locked = false)
    (hk : s.vars.authCacheInstanceStartPanel.Load p.CloudElementId = none)
    (hr : (env.DoAuthenticate s.trace p).2.2 = some err) :
    authenticateAndCacheInstanceStopPanel env p s =
      Outcome.returned (none, some err) { s with trace := s.trace ++ [Call.DoAuthenticate p] } := by
  simp only [authenticateAndCacheInstanceStopPanel, RWMutex.Lock, RWMutex.Unlock, hl, hk, hr]
  obtain ⟨t, v⟩ := s
  obtain ⟨a1, a2, a3, a4, a5, a6, a7, a8, a9, a10, ⟨l⟩, a12⟩ := v
  simp_all

/-- The start panel's credential lock is held: the resolver waits and nothing changes. -/
theorem authenticateAndCacheInstanceStopPanel_held (env : Collaborators) (p : CommandParam)
    (s : State) (hl : s.vars.authCacheLockInstanceStartPanel.locked = true) :
    authenticateAndCacheInstanceStopPanel env p s = Outcome.blocked s := by
  simp [authenticateAndCacheInstanceStopPanel, RWMutex.Lock, hl]

/-- Miss: one `GetClient` call, its client is stored in the start panel's map and returned. -/
theorem cloudwatchClientCacheInstanceStopPanel_miss (env : Collaborators) (a : Auth)
    (s : State) (hl : s.vars.clientCacheLockInstanceStartPanel.locked = false)
    (hk : s.vars.clientCacheInstanceStartPanel.Load a.CrossAccountRoleArn = none) :
    cloudwatchClientCacheInstanceStopPanel env a s =
      Outcome.returned (env.GetClient s.trace a ServiceKind.CLOUDWATCH_LOG, none)
        { trace := s.trace ++ [Call.GetClient a ServiceKind.CLOUDWATCH_LOG],
          vars := { s.vars with
            clientCacheInstanceStartPanel :=
              s.vars.clientCacheInstanceStartPanel.Store a.CrossAccountRoleArn
                (env.GetClient s.trace a ServiceKind.CLOUDWATCH_LOG) } } := by
  simp only [cloudwatchClientCacheInstanceStopPanel, RWMutex.Lock, RWMutex.Unlock, hl, hk]
  obtain ⟨t, v⟩ := s
  obtain ⟨a1, a2, a3, a4, a5, a6, a7, a8, a9, a10, a11, ⟨l⟩⟩ := v
  simp_all

/-- The start panel's client lock is held: the resolver waits and nothing changes. -/
theorem cloudwatchClientCacheInstanceStopPanel_held (env : Collaborators) (a : Auth)
    (s : State) (hl : s.vars.clientCacheLockInstanceStartPanel.locked = true) :
    cloudwatchClientCacheInstanceStopPanel env a s = Outcome.blocked s := by
  simp [cloudwatchClientCacheInstanceStopPanel, RWMutex.Lock, hl]

end EC2

/-- C22. The resolvers of the stop-count panel work on the start panel's variables.
(1, 2) Whatever a call does, the state it leaves differs from the state it found at most in
the call history and in `authCacheInstanceStartPanel` / `authCacheLockInstanceStartPanel`
(credential resolver), or in `clientCacheInstanceStartPanel` /
`clientCacheLockInstanceStartPanel` (client resolver): the stop panel's own maps and locks are
unchanged. (3, 4) The stop panel's own four variables are not read either: a call started
with any other values `m1`, `m2`, `l1`, `l2` in them ends the same way, returns the same and
leaves the same state, apart from those four values. (5, 6) When the start panel's lock is free
and its map holds an entry for the key, the stop panel's resolver returns that entry and the
state is unchanged, so neither `DoAuthenticate` nor `GetClient` is invoked. (7) When the start
panel's credential lock is held, the credential resolver waits. -/
theorem C22_stop_resolvers_use_start_state (env : Collaborators) (p : CommandParam)
    (a : Auth) (s : EC2.State) (m1 : SyncMap AuthPtr) (m2 : SyncMap CloudWatchPtr)
    (l1 l2 : RWMutex) :
    (EC2.authenticateAndCacheInstanceStopPanel env p s).state.vars =
      { s.vars with
        authCacheInstanceStartPanel :=
          (EC2.authenticateAndCacheInstanceStopPanel env p s).state.vars.authCacheInstanceStartPanel,
        authCacheLockInstanceStartPanel :=
          (EC2.authenticateAndCacheInstanceStopPanel env p
            s).state.vars.authCacheLockInstanceStartPanel } ∧
    (EC2.cloudwatchClientCacheInstanceStopPanel env a s).state.vars =
      { s.vars with
        clientCacheInstanceStartPanel :=
          (EC2.cloudwatchClientCacheInstanceStopPanel env a
            s).state.vars.clientCacheInstanceStartPanel,
        clientCacheLockInstanceStartPanel :=
          (EC2.cloudwatchClientCacheInstanceStopPanel env a
            s).state.vars.clientCacheLockInstanceStartPanel } ∧
    EC2.authenticateAndCacheInstanceStopPanel env p
        { s with vars := { s.vars with
            authCacheInstanceStopPanel := m1, clientCacheInstanceStopPanel := m2,
            authCacheLockInstanceStopPanel := l1, clientCacheLockInstanceStopPanel := l2 } } =
      (EC2.authenticateAndCacheInstanceStopPanel env p s).mapState
        (fun t => { t with vars := { t.vars with
            authCacheInstanceStopPanel := m1, clientCacheInstanceStopPanel := m2,
            authCacheLockInstanceStopPanel := l1, clientCacheLockInstanceStopPanel := l2 } }) ∧
    EC2.cloudwatchClientCacheInstanceStopPanel env a
        { s with vars := { s.vars with
            authCacheInstanceStopPanel := m1, clientCacheInstanceStopPanel := m2,
            authCacheLockInstanceStopPanel := l1, clientCacheLockInstanceStopPanel := l2 } } =
      (EC2.cloudwatchClientCacheInstanceStopPanel env a s).mapState
        (fun t => { t with vars := { t.vars with
            authCacheInstanceStopPanel := m1, clientCacheInstanceStopPanel := m2,
            authCacheLockInstanceStopPanel := l1, clientCacheLockInstanceStopPanel := l2 } }) ∧
    (∀ u : AuthPtr, s.vars.authCacheLockInstanceStartPanel.locked = false →
      s.vars.authCacheInstanceStartPanel.Load p.CloudElementId = some u →
      EC2.authenticateAndCacheInstanceStopPanel env p s = Outcome.returned (u, none) s) ∧
    (∀ c : CloudWatchPtr, s.vars.clientCacheLockInstanceStartPanel.locked = false →
      s.vars.clientCacheInstanceStartPanel.Load a.CrossAccountRoleArn = some c →
      EC2.cloudwatchClientCacheInstanceStopPanel env a s = Outcome.returned (c, none) s) ∧
    (s.vars.authCacheLockInstanceStartPanel.locked = true →
      EC2.authenticateAndCacheInstanceStopPanel env p s = Outcome.blocked s) := by
  refine ⟨?_, ?_, ?_, ?_, ?_, ?_, ?_⟩
  · cases hl : s.vars.authCacheLockInstanceStartPanel.locked with
    | true => rw [EC2.authenticateAndCacheInstanceStopPanel_held env p s hl]; rfl
    | false =>
      cases hk : s.vars.authCacheInstanceStartPanel.Load p.CloudElementId with
      | some u => rw [EC2.authenticateAndCacheInstanceStopPanel_hit env p s u hl hk]; rfl
      | none =>
        cases hr : (env.DoAuthenticate s.trace p).2.2 with
        | none => rw [EC2.authenticateAndCacheInstanceStopPanel_miss_ok env p s hl hk hr]; rfl
        | some err =>
          rw [EC2.authenticateAndCacheInstanceStopPanel_miss_err env p s err hl hk hr]; rfl
  · cases hl : s.vars.clientCacheLockInstanceStartPanel.locked with
    | true => rw [EC2.cloudwatchClientCacheInstanceStopPanel_held env a s hl]; rfl
    | false =>
      cases hk : s.vars.clientCacheInstanceStartPanel.Load a.CrossAccountRoleArn with
      | some c => rw [EC2.cloudwatchClientCacheInstanceStopPanel_hit env a s c hl hk]; rfl
      | none => rw [EC2.cloudwatchClientCacheInstanceStopPanel_miss env a s hl hk]; rfl
  · cases hl : s.vars.authCacheLockInstanceStartPanel.locked with
    | true =>
      rw [EC2.authenticateAndCacheInstanceStopPanel_held env p s hl,
        EC2.authenticateAndCacheInstanceStopPanel_held env p
          ({ s with vars := { s.vars with
            authCacheInstanceStopPanel := m1, clientCacheInstanceStopPanel := m2,
            authCacheLockInstanceStopPanel := l1, clientCacheLockInstanceStopPanel := l2 } } :
          EC2.State) hl]
      rfl
    | false =>
      cases hk : s.vars.authCacheInstanceStartPanel.Load p.CloudElementId with
      | some u =>
        rw [EC2.authenticateAndCacheInstanceStopPanel_hit env p s u hl hk,
          EC2.authenticateAndCacheInstanceStopPanel_hit env p
          ({ s with vars := { s.vars with
            authCacheInstanceStopPanel := m1, clientCacheInstanceStopPanel := m2,
            authCacheLockInstanceStopPanel := l1, clientCacheLockInstanceStopPanel := l2 } } :
          EC2.State) u hl hk]
        rfl
      | none =>
        cases hr : (env.DoAuthenticate s.trace p).2.2 with
        | none =>
          rw [EC2.authenticateAndCacheInstanceStopPanel_miss_ok env p s hl hk hr,
            EC2.authenticateAndCacheInstanceStopPanel_miss_ok env p
          ({ s with vars := { s.vars with
            authCacheInstanceStopPanel := m1, clientCacheInstanceStopPanel := m2,
            authCacheLockInstanceStopPanel := l1, clientCacheLockInstanceStopPanel := l2 } } :
          EC2.State) hl hk hr]
          rfl
        | some err =>
          rw [EC2.authenticateAndCacheInstanceStopPanel_miss_err env p s err hl hk hr,
            EC2.authenticateAndCacheInstanceStopPanel_miss_err env p
          ({ s with vars := { s.vars with
            authCacheInstanceStopPanel := m1, clientCacheInstanceStopPanel := m2,
            authCacheLockInstanceStopPanel := l1, clientCacheLockInstanceStopPanel := l2 } } :
          EC2.State) err hl hk hr]
          rfl
  · cases hl : s.vars.clientCacheLockInstanceStartPanel.locked with
    | true =>
      rw [EC2.cloudwatchClientCacheInstanceStopPanel_held env a s hl,
        EC2.cloudwatchClientCacheInstanceStopPanel_held env a
          ({ s with vars := { s.vars with
            authCacheInstanceStopPanel := m1, clientCacheInstanceStopPanel := m2,
            authCacheLockInstanceStopPanel := l1, clientCacheLockInstanceStopPanel := l2 } } :
          EC2.State) hl]
      rfl
    | false =>
      cases hk : s.vars.clientCacheInstanceStartPanel.Load a.CrossAccountRoleArn with
      | some c =>
        rw [EC2.cloudwatchClientCacheInstanceStopPanel_hit env a s c hl hk,
          EC2.cloudwatchClientCacheInstanceStopPanel_hit env a
          ({ s with vars := { s.vars with
            authCacheInstanceStopPanel := m1, clientCacheInstanceStopPanel := m2,
            authCacheLockInstanceStopPanel := l1, clientCacheLockInstanceStopPanel := l2 } } :
          EC2.State) c hl hk]
        rfl
      | none =>
        rw [EC2.cloudwatchClientCacheInstanceStopPanel_miss env a s hl hk,
          EC2.cloudwatchClientCacheInstanceStopPanel_miss env a
          ({ s with vars := { s.vars with
            authCacheInstanceStopPanel := m1, clientCacheInstanceStopPanel := m2,
            authCacheLockInstanceStopPanel := l1, clientCacheLockInstanceStopPanel := l2 } } :
          EC2.State) hl hk]
        rfl
  · intro u hl hk
    exact EC2.authenticateAndCacheInstanceStopPanel_hit env p s u hl hk
  · intro c hl hk
    exact EC2.cloudwatchClientCacheInstanceStopPanel_hit env a s c hl hk
  · intro hl
    exact EC2.authenticateAndCacheInstanceStopPanel_held env p s hl

/-- C22 at a concrete input: the start panel has stored credentials for `i-123`, the stop
panel's own map is empty; the stop panel's resolver returns the start panel's entry and leaves
the state, call history included, as it was. -/
theorem C22_stop_resolvers_use_start_state_witness :
    EC2.authenticateAndCacheInstanceStopPanel sampleEnv sampleElement sampleStartCached =
      Outcome.returned (some ⟨"arn:start", "i-123"⟩, none) sampleStartCached :=
  (C22_stop_resolvers_use_start_state sampleEnv sampleElement ⟨"arn:start", "i-123"⟩
    sampleStartCached SyncMap.empty SyncMap.empty RWMutex.zero RWMutex.zero).2.2.2.2.1
    (some ⟨"arn:start", "i-123"⟩) (by decide) (by decide)

/-! ## Failed authentication ends the request -/

/-- `http.Error` makes exactly one `Write` call: it takes one scripted outcome. -/
theorem http.Error_writeErrs (w : ResponseWriter) (msg : String) (code : Nat) :
    (http.Error w msg code).writeErrs = w.writeErrs.tail := by
  rcases hw : w.writeErrs with _ | ⟨_ | e, rest⟩ <;>
    cases hh : w.wroteHeader <;>
    simp [http.Error, ResponseWriter.Write, ResponseWriter.WriteHeader,
      ResponseWriter.HeaderSet, hw, hh]

/-- A resolution by `authenticateAndCache4XX` that returns an error found the key absent,
called `DoAuthenticate` once, got that error from it, returns a nil pointer and changed
nothing but the call history. -/
theorem ApiGateway.authenticateAndCache4XX_error_inv (env : Collaborators) (p : CommandParam)
    (s s1 : ApiGateway.State) (v : AuthPtr) (err : String)
    (h : ApiGateway.authenticateAndCache4XX env p s = Outcome.returned (v, some err) s1) :
    v = none ∧ s1 = { s with trace := s.trace ++ [Call.DoAuthenticate p] } ∧
      s.vars.authCache4XX.Load p.CloudElementId = none ∧
      (env.DoAuthenticate s.trace p).2.2 = some err := by
  cases hl : s.vars.authCacheLock4XX.locked with
  | true =>
    rw [ApiGateway.authenticateAndCache4XX_held env p s hl] at h
    cases h
  | false =>
    cases hk : s.vars.authCache4XX.Load p.CloudElementId with
    | some u =>
      rw [ApiGateway.authenticateAndCache4XX_hit env p s u hl hk] at h
      cases h
    | none =>
      cases hr : (env.DoAuthenticate s.trace p).2.2 with
      | none =>
        rw [ApiGateway.authenticateAndCache4XX_miss_ok env p s hl hk hr] at h
        cases h
      | some e =>
        rw [ApiGateway.authenticateAndCache4XX_miss_err env p s e hl hk hr] at h
        cases h
        exact ⟨rfl, rfl, rfl, rfl⟩

/-- C23. In `Get4XXErrorsPanel`, on every execution in which the credential resolve returns
an error, the handler returns right after reporting it: the metric collaborator is not
invoked, the call history has grown by the one `DoAuthenticate` call of the resolve and by
nothing else (so `GetClient` is not invoked), the client cache and its lock are as they were
before the request, and the response is written once: status 500, one `Write` call, whose
text is `Authentication failed: <err>` followed by a newline. -/
theorem C23_failed_auth_is_terminal (env : Collaborators) (fetch : PanelFetch)
    (query : Values) (errs : List GoError) (s s1 : ApiGateway.State) (v : AuthPtr)
    (err : String)
    (h : ApiGateway.authenticateAndCache4XX env (ApiGateway.Get4XXErrorsPanel_commandParam query)
      s = Outcome.returned (v, some err) s1) :
    (ApiGateway.Get4XXErrorsPanel env fetch query s (ResponseWriter.fresh errs)).ending =
      Ending.returned ∧
    (ApiGateway.Get4XXErrorsPanel env fetch query s (ResponseWriter.fresh errs)).fetches = 0 ∧
    (ApiGateway.Get4XXErrorsPanel env fetch query s (ResponseWriter.fresh errs)).state = s1 ∧
    (ApiGateway.Get4XXErrorsPanel env fetch query s (ResponseWriter.fresh errs)).state.trace =
      s.trace ++ [Call.DoAuthenticate (ApiGateway.Get4XXErrorsPanel_commandParam query)] ∧
    clientCalls
        (ApiGateway.Get4XXErrorsPanel env fetch query s (ResponseWriter.fresh errs)).state.trace =
      clientCalls s.trace ∧
    (ApiGateway.Get4XXErrorsPanel env fetch query s
      (ResponseWriter.fresh errs)).state.vars.clientCache4XX = s.vars.clientCache4XX ∧
    (ApiGateway.Get4XXErrorsPanel env fetch query s
      (ResponseWriter.fresh errs)).state.vars.clientCacheLock4XX = s.vars.clientCacheLock4XX ∧
    (ApiGateway.Get4XXErrorsPanel env fetch query s (ResponseWriter.fresh errs)).w.status =
      some 500 ∧
    (ApiGateway.Get4XXErrorsPanel env fetch query s (ResponseWriter.fresh errs)).w.writeErrs =
      errs.tail ∧
    (ApiGateway.Get4XXErrorsPanel env fetch query s (ResponseWriter.fresh errs)).w.body =
      if firstWriteFails errs then "" else "Authentication failed: " ++ err ++ "\n" := by
  have hinv := ApiGateway.authenticateAndCache4XX_error_inv env _ s s1 v err h
  have hw := http.Error_on_handler_writer errs ("Authentication failed: " ++ err) 500
  have he := http.Error_writeErrs
    ((ResponseWriter.fresh errs).HeaderSet "Content-Type" "application/json")
    ("Authentication failed: " ++ err) 500
  simp only [ApiGateway.Get4XXErrorsPanel, h, http.StatusInternalServerError]
  refine ⟨trivial, trivial, trivial, ?_, ?_, ?_, ?_, hw.1, ?_, ?_⟩
  · rw [hinv.2.1]
  · rw [hinv.2.1]
    exact clientCalls_append_auth _ _
  · rw [hinv.2.1]
  · rw [hinv.2.1]
  · rw [he]
    rfl
  · simpa [String.append_assoc] using hw.2.2

/-- C23 at a concrete input: the request without a zone on the empty caches, the first write
failing. The handler stops after the failed authentication, with status 500 and an empty
body. -/
theorem C23_failed_auth_is_terminal_witness :
    (ApiGateway.Get4XXErrorsPanel sampleEnv (samplePanelFetch "" none none) sampleNoZoneQuery
        ApiGateway.State.init (ResponseWriter.fresh [some "broken pipe"])).fetches = 0 ∧
    (ApiGateway.Get4XXErrorsPanel sampleEnv (samplePanelFetch "" none none) sampleNoZoneQuery
        ApiGateway.State.init (ResponseWriter.fresh [some "broken pipe"])).state.trace =
      [] ++ [Call.DoAuthenticate (ApiGateway.Get4XXErrorsPanel_commandParam sampleNoZoneQuery)] ∧
    (ApiGateway.Get4XXErrorsPanel sampleEnv (samplePanelFetch "" none none) sampleNoZoneQuery
        ApiGateway.State.init
        (ResponseWriter.fresh [some "broken pipe"])).state.vars.clientCache4XX =
      SyncMap.empty ∧
    (ApiGateway.Get4XXErrorsPanel sampleEnv (samplePanelFetch "" none none) sampleNoZoneQuery
        ApiGateway.State.init (ResponseWriter.fresh [some "broken pipe"])).w.status =
      some 500 ∧
    (ApiGateway.Get4XXErrorsPanel sampleEnv (samplePanelFetch "" none none) sampleNoZoneQuery
        ApiGateway.State.init (ResponseWriter.fresh [some "broken pipe"])).w.writeErrs = [] ∧
    (ApiGateway.Get4XXErrorsPanel sampleEnv (samplePanelFetch "" none none) sampleNoZoneQuery
        ApiGateway.State.init (ResponseWriter.fresh [some "broken pipe"])).w.body = "" :=
  have h := C23_failed_auth_is_terminal sampleEnv (samplePanelFetch "" none none)
    sampleNoZoneQuery [some "broken pipe"] ApiGateway.State.init
    { ApiGateway.State.init with
      trace := [Call.DoAuthenticate (ApiGateway.Get4XXErrorsPanel_commandParam
        sampleNoZoneQuery)] } none "region missing" (by decide)
  ⟨h.2.1, h.2.2.2.1, h.2.2.2.2.2.1, h.2.2.2.2.2.2.2.1, h.2.2.2.2.2.2.2.2.1,
    h.2.2.2.2.2.2.2.2.2⟩

/-! ## Client resolution never reports an error -/

theorem ApiGateway.cloudwatchClientCache4XX_err_nil (env : Collaborators)
    (a : Auth) (s s1 : ApiGateway.State) (c : CloudWatchPtr) (e : GoError)
    (h : ApiGateway.cloudwatchClientCache4XX env a s = Outcome.returned (c, e) s1) :
    e = none := by
  unfold ApiGateway.cloudwatchClientCache4XX at h
  simp only [RWMutex.Lock, RWMutex.Unlock] at h
  repeat' split at h
  all_goals first | (cases h; rfl) | cases h

theorem ApiGateway.cloudwatchClientCacheLatency_err_nil (env : Collaborators)
    (a : Auth) (s s1 : ApiGateway.State) (c : CloudWatchPtr) (e : GoError)
    (h : ApiGateway.cloudwatchClientCacheLatency env a s = Outcome.returned (c, e) s1) :
    e = none := by
  unfold ApiGateway.cloudwatchClientCacheLatency at h
  simp only [RWMutex.Lock, RWMutex.Unlock] at h
  repeat' split at h
  all_goals first | (cases h; rfl) | cases h

theorem ApiGateway.cloudwatchClientCacheIntegLatency_err_nil (env : Collaborators)
    (a : Auth) (s s1 : ApiGateway.State) (c : CloudWatchPtr) (e : GoError)
    (h : ApiGateway.cloudwatchClientCacheIntegLatency env a s = Outcome.returned (c, e) s1) :
    e = none := by
  unfold ApiGateway.cloudwatchClientCacheIntegLatency at h
  simp only [RWMutex.Lock, RWMutex.Unlock] at h
  repeat' split at h
  all_goals first | (cases h; rfl) | cases h

theorem ECS.writeBytesCloudwatchClientCache_err_nil (env : Collaborators)
    (a : Auth) (s s1 : ECS.State) (c : CloudWatchPtr) (e : GoError)
    (h : ECS.writeBytesCloudwatchClientCache env a s = Outcome.returned (c, e) s1) :
    e = none := by
  unfold ECS.writeBytesCloudwatchClientCache at h
  simp only [RWMutex.Lock, RWMutex.Unlock] at h
  repeat' split at h
  all_goals first | (cases h; rfl) | cases h

theorem EKS.nodeUptimeCloudwatchClientCache_err_nil (env : Collaborators)
    (a : Auth) (s s1 : EKS.State) (c : CloudWatchPtr) (e : GoError)
    (h : EKS.nodeUptimeCloudwatchClientCache env a s = Outcome.returned (c, e) s1) :
    e = none := by
  unfold EKS.nodeUptimeCloudwatchClientCache at h
  simp only [RWMutex.Lock, RWMutex.Unlock] at h
  repeat' split at h
  all_goals first | (cases h; rfl) | cases h

theorem EKS.allocatedCloudwatchClientCache_err_nil (env : Collaborators)
    (a : Auth) (s s1 : EKS.State) (c : CloudWatchPtr) (e : GoError)
    (h : EKS.allocatedCloudwatchClientCache env a s = Outcome.returned (c, e) s1) :
    e = none := by
  unfold EKS.allocatedCloudwatchClientCache at h
  simp only [RWMutex.Lock, RWMutex.Unlock] at h
  repeat' split at h
  all_goals first | (cases h; rfl) | cases h

theorem RDS.cloudwatchClientCachenr_err_nil (env : Collaborators)
    (a : Auth) (s s1 : RDS.State) (c : CloudWatchPtr) (e : GoError)
    (h : RDS.cloudwatchClientCachenr env a s = Outcome.returned (c, e) s1) :
    e = none := by
  unfold RDS.cloudwatchClientCachenr at h
  simp only [RWMutex.Lock, RWMutex.Unlock] at h
  repeat' split at h
  all_goals first | (cases h; rfl) | cases h

theorem Lambda.cloudwatchClientCacheFR_err_nil (env : Collaborators)
    (a : Auth) (s s1 : Lambda.State) (c : CloudWatchPtr) (e : GoError)
    (h : Lambda.cloudwatchClientCacheFR env a s = Outcome.returned (c, e) s1) :
    e = none := by
  unfold Lambda.cloudwatchClientCacheFR at h
  simp only [RWMutex.Lock, RWMutex.Unlock] at h
  repeat' split at h
  all_goals first | (cases h; rfl) | cases h

theorem EC2.cloudwatchClientCacheInstanceHourStoppedPanel_err_nil (env : Collaborators)
    (a : Auth) (s s1 : EC2.State) (c : CloudWatchPtr) (e : GoError)
    (h : EC2.cloudwatchClientCacheInstanceHourStoppedPanel env a s = Outcome.returned (c, e) s1) :
    e = none := by
  unfold EC2.cloudwatchClientCacheInstanceHourStoppedPanel at h
  simp only [RWMutex.Lock, RWMutex.Unlock] at h
  repeat' split at h
  all_goals first | (cases h; rfl) | cases h

theorem EC2.cloudwatchClientCacheInstanceStopPanel_err_nil (env : Collaborators)
    (a : Auth) (s s1 : EC2.State) (c : CloudWatchPtr) (e : GoError)
    (h : EC2.cloudwatchClientCacheInstanceStopPanel env a s = Outcome.returned (c, e) s1) :
    e = none := by
  unfold EC2.cloudwatchClientCacheInstanceStopPanel at h
  simp only [RWMutex.Lock, RWMutex.Unlock] at h
  repeat' split at h
  all_goals first | (cases h; rfl) | cases h

theorem ApiGateway.Get4XXErrorsPanel_fetches_of_resolved (env : Collaborators) (a : Auth)
    (fetch : PanelFetch) (query : Values) (s s1 : ApiGateway.State) (w : ResponseWriter)
    (h1 : ApiGateway.authenticateAndCache4XX env
      (ApiGateway.Get4XXErrorsPanel_commandParam query) s = Outcome.returned (some a, none) s1)
    (hend : (ApiGateway.Get4XXErrorsPanel env fetch query s w).ending = Ending.returned) :
    (ApiGateway.Get4XXErrorsPanel env fetch query s w).fetches = 1 := by
  cases h2 : ApiGateway.cloudwatchClientCache4XX env a s1 with
  | blocked s2 => simp [ApiGateway.Get4XXErrorsPanel, h1, h2] at hend
  | fatal s2 => simp [ApiGateway.Get4XXErrorsPanel, h1, h2] at hend
  | returned r s2 =>
    obtain ⟨c, e⟩ := r
    have he := ApiGateway.cloudwatchClientCache4XX_err_nil env a s1 s2 c e h2
    subst he
    simp [ApiGateway.Get4XXErrorsPanel, h1, h2]

theorem ApiGateway.GetLatencyPanel_fetches_of_resolved (env : Collaborators) (a : Auth)
    (fetch : PanelFetch) (query : Values) (s s1 : ApiGateway.State) (w : ResponseWriter)
    (h1 : ApiGateway.authenticateAndCacheLatency env
      (ApiGateway.GetLatencyPanel_commandParam query) s = Outcome.returned (some a, none) s1)
    (hend : (ApiGateway.GetLatencyPanel env fetch query s w).ending = Ending.returned) :
    (ApiGateway.GetLatencyPanel env fetch query s w).fetches = 1 := by
  cases h2 : ApiGateway.cloudwatchClientCacheLatency env a s1 with
  | blocked s2 => simp [ApiGateway.GetLatencyPanel, h1, h2] at hend
  | fatal s2 => simp [ApiGateway.GetLatencyPanel, h1, h2] at hend
  | returned r s2 =>
    obtain ⟨c, e⟩ := r
    have he := ApiGateway.cloudwatchClientCacheLatency_err_nil env a s1 s2 c e h2
    subst he
    simp [ApiGateway.GetLatencyPanel, h1, h2]

theorem ApiGateway.GetIntegrationLatencyPanel_fetches_of_resolved (env : Collaborators) (a : Auth)
    (fetch : PanelFetch) (query : Values) (s s1 : ApiGateway.State) (w : ResponseWriter)
    (h1 : ApiGateway.authenticateAndCacheIntegLatency env
      (ApiGateway.GetIntegrationLatencyPanel_commandParam query) s =
        Outcome.returned (some a, none) s1)
    (hend : (ApiGateway.GetIntegrationLatencyPanel env fetch query s w).ending = Ending.returned) :
    (ApiGateway.GetIntegrationLatencyPanel env fetch query s w).fetches = 1 := by
  cases h2 : ApiGateway.cloudwatchClientCacheIntegLatency env a s1 with
  | blocked s2 => simp [ApiGateway.GetIntegrationLatencyPanel, h1, h2] at hend
  | fatal s2 => simp [ApiGateway.GetIntegrationLatencyPanel, h1, h2] at hend
  | returned r s2 =>
    obtain ⟨c, e⟩ := r
    have he := ApiGateway.cloudwatchClientCacheIntegLatency_err_nil env a s1 s2 c e h2
    subst he
    simp [ApiGateway.GetIntegrationLatencyPanel, h1, h2]

theorem ECS.GetECSWriteBytesPanel_fetches_of_resolved (env : Collaborators) (a : Auth)
    (lib : ECS.JSON)
    (fetch : PanelFetch) (query : Values) (s s1 : ECS.State) (w : ResponseWriter)
    (h1 : ECS.writeBytesAuthenticateAndCache env
      (ECS.GetECSWriteBytesPanel_commandParam query) s = Outcome.returned (some a, none) s1)
    (hend : (ECS.GetECSWriteBytesPanel env lib fetch query s w).ending = Ending.returned) :
    (ECS.GetECSWriteBytesPanel env lib fetch query s w).fetches = 1 := by
  cases h2 : ECS.writeBytesCloudwatchClientCache env a s1 with
  | blocked s2 => simp [ECS.GetECSWriteBytesPanel, h1, h2] at hend
  | fatal s2 => simp [ECS.GetECSWriteBytesPanel, h1, h2] at hend
  | returned r s2 =>
    obtain ⟨c, e⟩ := r
    have he := ECS.writeBytesCloudwatchClientCache_err_nil env a s1 s2 c e h2
    subst he
    simp [ECS.GetECSWriteBytesPanel, h1, h2]

theorem EKS.NodeUptimePanelHandler_fetches_of_resolved (env : Collaborators) (a : Auth)
    (marshal : MetricDataPtr → Except String String)
    (fetch : PanelFetch) (query : Values) (s s1 : EKS.State) (w : ResponseWriter)
    (h1 : EKS.nodeUptimeAuthenticateAndCache env
      (EKS.NodeUptimePanelHandler_commandParam query) s = Outcome.returned (some a, none) s1)
    (hend : (EKS.NodeUptimePanelHandler env marshal fetch query s w).ending = Ending.returned) :
    (EKS.NodeUptimePanelHandler env marshal fetch query s w).fetches = 1 := by
  cases h2 : EKS.nodeUptimeCloudwatchClientCache env a s1 with
  | blocked s2 => simp [EKS.NodeUptimePanelHandler, h1, h2] at hend
  | fatal s2 => simp [EKS.NodeUptimePanelHandler, h1, h2] at hend
  | returned r s2 =>
    obtain ⟨c, e⟩ := r
    have he := EKS.nodeUptimeCloudwatchClientCache_err_nil env a s1 s2 c e h2
    subst he
    simp [EKS.NodeUptimePanelHandler, h1, h2]

theorem EKS.GetEKSAllocatableCPUPanel_fetches_of_resolved (env : Collaborators) (a : Auth)
    (lib : EKS.AllocatableJSON)
    (fetch : PanelFetch) (query : Values) (s s1 : EKS.State) (w : ResponseWriter)
    (h1 : EKS.allocatedAuthenticateAndCache env
      (EKS.GetEKSAllocatableCPUPanel_commandParam query) s = Outcome.returned (some a, none) s1)
    (hend : (EKS.GetEKSAllocatableCPUPanel env lib fetch query s w).ending = Ending.returned) :
    (EKS.GetEKSAllocatableCPUPanel env lib fetch query s w).fetches = 1 := by
  cases h2 : EKS.allocatedCloudwatchClientCache env a s1 with
  | blocked s2 => simp [EKS.GetEKSAllocatableCPUPanel, h1, h2] at hend
  | fatal s2 => simp [EKS.GetEKSAllocatableCPUPanel, h1, h2] at hend
  | returned r s2 =>
    obtain ⟨c, e⟩ := r
    have he := EKS.allocatedCloudwatchClientCache_err_nil env a s1 s2 c e h2
    subst he
    simp [EKS.GetEKSAllocatableCPUPanel, h1, h2]

theorem RDS.GetNetworkReceiveThroughputPanel_fetches_of_resolved (env : Collaborators) (a : Auth)
    (lib : RDS.JSON)
    (fetch : PanelFetch) (query : Values) (s s1 : RDS.State) (w : ResponseWriter)
    (h1 : RDS.authenticateAndCachenr env
      (RDS.GetNetworkReceiveThroughputPanel_commandParam query) s =
        Outcome.returned (some a, none) s1)
    (hend : (RDS.GetNetworkReceiveThroughputPanel env lib fetch query s w).ending =
      Ending.returned) :
    (RDS.GetNetworkReceiveThroughputPanel env lib fetch query s w).fetches = 1 := by
  cases h2 : RDS.cloudwatchClientCachenr env a s1 with
  | blocked s2 => simp [RDS.GetNetworkReceiveThroughputPanel, h1, h2] at hend
  | fatal s2 => simp [RDS.GetNetworkReceiveThroughputPanel, h1, h2] at hend
  | returned r s2 =>
    obtain ⟨c, e⟩ := r
    have he := RDS.cloudwatchClientCachenr_err_nil env a s1 s2 c e h2
    subst he
    simp [RDS.GetNetworkReceiveThroughputPanel, h1, h2]

theorem EC2.InstanceHourStoppedPanel_fetches_of_resolved (env : Collaborators) (a : Auth)
    (lib : EC2.Lib)
    (fetch : EC2.LogsFetch) (queries : Values) (s s1 : EC2.State) (w : ResponseWriter)
    (h1 : EC2.authenticateAndCacheInstanceHourStoppedPanel env
      (EC2.InstanceHourStoppedPanel_commandParam queries) s = Outcome.returned (some a, none) s1)
    (h3 : lib.ParseFlags (EC2.InstanceHourStoppedPanel_flags queries) = none)
    (hend : (EC2.InstanceHourStoppedPanel env lib fetch queries s w).ending = Ending.returned) :
    (EC2.InstanceHourStoppedPanel env lib fetch queries s w).fetches = 1 := by
  cases h2 : EC2.cloudwatchClientCacheInstanceHourStoppedPanel env a s1 with
  | blocked s2 => simp [EC2.InstanceHourStoppedPanel, h1, h2] at hend
  | fatal s2 => simp [EC2.InstanceHourStoppedPanel, h1, h2] at hend
  | returned r s2 =>
    obtain ⟨c, e⟩ := r
    have he := EC2.cloudwatchClientCacheInstanceHourStoppedPanel_err_nil env a s1 s2 c e h2
    subst he
    simp [EC2.InstanceHourStoppedPanel, h1, h2, h3]

theorem EC2.InstanceStopCountPanelHandler_fetches_of_resolved (env : Collaborators) (a : Auth)
    (lib : EC2.Lib)
    (fetch : EC2.LogsFetch) (queries : Values) (s s1 : EC2.State) (w : ResponseWriter)
    (h1 : EC2.authenticateAndCacheInstanceStopPanel env
      (EC2.InstanceHourStoppedPanel_commandParam queries) s = Outcome.returned (some a, none) s1)
    (h3 : lib.ParseFlags (EC2.InstanceHourStoppedPanel_flags queries) = none)
    (hend : (EC2.InstanceStopCountPanelHandler env lib fetch queries s w).ending =
      Ending.returned) :
    (EC2.InstanceStopCountPanelHandler env lib fetch queries s w).fetches = 1 := by
  cases h2 : EC2.cloudwatchClientCacheInstanceStopPanel env a s1 with
  | blocked s2 => simp [EC2.InstanceStopCountPanelHandler, h1, h2] at hend
  | fatal s2 => simp [EC2.InstanceStopCountPanelHandler, h1, h2] at hend
  | returned r s2 =>
    obtain ⟨c, e⟩ := r
    have he := EC2.cloudwatchClientCacheInstanceStopPanel_err_nil env a s1 s2 c e h2
    subst he
    simp [EC2.InstanceStopCountPanelHandler, h1, h2, h3]

/-- C24. Every client-cache resolver returns a nil error on every return path:
`cloudwatchClientCache4XX`, `cloudwatchClientCacheLatency`,
`cloudwatchClientCacheIntegLatency`, `writeBytesCloudwatchClientCache`,
`nodeUptimeCloudwatchClientCache`, `allocatedCloudwatchClientCache`,
`cloudwatchClientCachenr`, `cloudwatchClientCacheFR`,
`cloudwatchClientCacheInstanceHourStoppedPanel` and `cloudwatchClientCacheInstanceStopPanel`.
So the branch of a handler that reports a client-resolution failure
(`Cloudwatch client creation/store in cache failed`, `Failed to create CloudWatch client`) is
never taken: in each of the nine handlers that have it, once the credentials are resolved
(and, in the EC2 log panels, the flags parsed), every execution in which the handler returns
has gone on to call the metric collaborator. -/
theorem C24_client_resolution_never_fails (env : Collaborators) (a : Auth) :
    (∀ (s s1 : ApiGateway.State) (c : CloudWatchPtr) (e : GoError),
      ApiGateway.cloudwatchClientCache4XX env a s = Outcome.returned (c, e) s1 →
      e = none) ∧
    (∀ (s s1 : ApiGateway.State) (c : CloudWatchPtr) (e : GoError),
      ApiGateway.cloudwatchClientCacheLatency env a s = Outcome.returned (c, e) s1 →
      e = none) ∧
    (∀ (s s1 : ApiGateway.State) (c : CloudWatchPtr) (e : GoError),
      ApiGateway.cloudwatchClientCacheIntegLatency env a s = Outcome.returned (c, e) s1 →
      e = none) ∧
    (∀ (s s1 : ECS.State) (c : CloudWatchPtr) (e : GoError),
      ECS.writeBytesCloudwatchClientCache env a s = Outcome.returned (c, e) s1 →
      e = none) ∧
    (∀ (s s1 : EKS.State) (c : CloudWatchPtr) (e : GoError),
      EKS.nodeUptimeCloudwatchClientCache env a s = Outcome.returned (c, e) s1 →
      e = none) ∧
    (∀ (s s1 : EKS.State) (c : CloudWatchPtr) (e : GoError),
      EKS.allocatedCloudwatchClientCache env a s = Outcome.returned (c, e) s1 →
      e = none) ∧
    (∀ (s s1 : RDS.State) (c : CloudWatchPtr) (e : GoError),
      RDS.cloudwatchClientCachenr env a s = Outcome.returned (c, e) s1 →
      e = none) ∧
    (∀ (s s1 : Lambda.State) (c : CloudWatchPtr) (e : GoError),
      Lambda.cloudwatchClientCacheFR env a s = Outcome.returned (c, e) s1 →
      e = none) ∧
    (∀ (s s1 : EC2.State) (c : CloudWatchPtr) (e : GoError),
      EC2.cloudwatchClientCacheInstanceHourStoppedPanel env a s = Outcome.returned (c, e) s1 →
      e = none) ∧
    (∀ (s s1 : EC2.State) (c : CloudWatchPtr) (e : GoError),
      EC2.cloudwatchClientCacheInstanceStopPanel env a s = Outcome.returned (c, e) s1 →
      e = none) ∧
    (∀ (fetch : PanelFetch) (query : Values)
        (s s1 : ApiGateway.State) (w : ResponseWriter),
      ApiGateway.authenticateAndCache4XX env
        (ApiGateway.Get4XXErrorsPanel_commandParam query) s = Outcome.returned (some a, none) s1 →
      (ApiGateway.Get4XXErrorsPanel env fetch query s w).ending = Ending.returned →
      (ApiGateway.Get4XXErrorsPanel env fetch query s w).fetches = 1) ∧
    (∀ (fetch : PanelFetch) (query : Values)
        (s s1 : ApiGateway.State) (w : ResponseWriter),
      ApiGateway.authenticateAndCacheLatency env
        (ApiGateway.GetLatencyPanel_commandParam query) s = Outcome.returned (some a, none) s1 →
      (ApiGateway.GetLatencyPanel env fetch query s w).ending = Ending.returned →
      (ApiGateway.GetLatencyPanel env fetch query s w).fetches = 1) ∧
    (∀ (fetch : PanelFetch) (query : Values)
        (s s1 : ApiGateway.State) (w : ResponseWriter),
      ApiGateway.authenticateAndCacheIntegLatency env
        (ApiGateway.GetIntegrationLatencyPanel_commandParam query) s =
          Outcome.returned (some a, none) s1 →
      (ApiGateway.GetIntegrationLatencyPanel env fetch query s w).ending = Ending.returned →
      (ApiGateway.GetIntegrationLatencyPanel env fetch query s w).fetches = 1) ∧
    (∀ (lib : ECS.JSON) (fetch : PanelFetch) (query : Values)
        (s s1 : ECS.State) (w : ResponseWriter),
      ECS.writeBytesAuthenticateAndCache env
        (ECS.GetECSWriteBytesPanel_commandParam query) s = Outcome.returned (some a, none) s1 →
      (ECS.GetECSWriteBytesPanel env lib fetch query s w).ending = Ending.returned →
      (ECS.GetECSWriteBytesPanel env lib fetch query s w).fetches = 1) ∧
    (∀ (marshal : MetricDataPtr → Except String String) (fetch : PanelFetch) (query : Values)
        (s s1 : EKS.State) (w : ResponseWriter),
      EKS.nodeUptimeAuthenticateAndCache env
        (EKS.NodeUptimePanelHandler_commandParam query) s = Outcome.returned (some a, none) s1 →
      (EKS.NodeUptimePanelHandler env marshal fetch query s w).ending = Ending.returned →
      (EKS.NodeUptimePanelHandler env marshal fetch query s w).fetches = 1) ∧
    (∀ (lib : EKS.AllocatableJSON) (fetch : PanelFetch) (query : Values)
        (s s1 : EKS.State) (w : ResponseWriter),
      EKS.allocatedAuthenticateAndCache env
        (EKS.GetEKSAllocatableCPUPanel_commandParam query) s = Outcome.returned (some a, none) s1 →
      (EKS.GetEKSAllocatableCPUPanel env lib fetch query s w).ending = Ending.returned →
      (EKS.GetEKSAllocatableCPUPanel env lib fetch query s w).fetches = 1) ∧
    (∀ (lib : RDS.JSON) (fetch : PanelFetch) (query : Values)
        (s s1 : RDS.State) (w : ResponseWriter),
      RDS.authenticateAndCachenr env
        (RDS.GetNetworkReceiveThroughputPanel_commandParam query) s =
          Outcome.returned (some a, none) s1 →
      (RDS.GetNetworkReceiveThroughputPanel env lib fetch query s w).ending = Ending.returned →
      (RDS.GetNetworkReceiveThroughputPanel env lib fetch query s w).fetches = 1) ∧
    (∀ (lib : EC2.Lib) (fetch : EC2.LogsFetch) (queries : Values)
        (s s1 : EC2.State) (w : ResponseWriter),
      EC2.authenticateAndCacheInstanceHourStoppedPanel env
        (EC2.InstanceHourStoppedPanel_commandParam queries) s = Outcome.returned (some a, none) s1 →
      lib.ParseFlags (EC2.InstanceHourStoppedPanel_flags queries) = none →
      (EC2.InstanceHourStoppedPanel env lib fetch queries s w).ending = Ending.returned →
      (EC2.InstanceHourStoppedPanel env lib fetch queries s w).fetches = 1) ∧
    (∀ (lib : EC2.Lib) (fetch : EC2.LogsFetch) (queries : Values)
        (s s1 : EC2.State) (w : ResponseWriter),
      EC2.authenticateAndCacheInstanceStopPanel env
        (EC2.InstanceHourStoppedPanel_commandParam queries) s = Outcome.returned (some a, none) s1 →
      lib.ParseFlags (EC2.InstanceHourStoppedPanel_flags queries) = none →
      (EC2.InstanceStopCountPanelHandler env lib fetch queries s w).ending = Ending.returned →
      (EC2.InstanceStopCountPanelHandler env lib fetch queries s w).fetches = 1) :=
  ⟨fun s s1 c e h => ApiGateway.cloudwatchClientCache4XX_err_nil env a s s1 c e h,
    fun s s1 c e h => ApiGateway.cloudwatchClientCacheLatency_err_nil env a s s1 c e h,
    fun s s1 c e h => ApiGateway.cloudwatchClientCacheIntegLatency_err_nil env a s s1 c e h,
    fun s s1 c e h => ECS.writeBytesCloudwatchClientCache_err_nil env a s s1 c e h,
    fun s s1 c e h => EKS.nodeUptimeCloudwatchClientCache_err_nil env a s s1 c e h,
    fun s s1 c e h => EKS.allocatedCloudwatchClientCache_err_nil env a s s1 c e h,
    fun s s1 c e h => RDS.cloudwatchClientCachenr_err_nil env a s s1 c e h,
    fun s s1 c e h => Lambda.cloudwatchClientCacheFR_err_nil env a s s1 c e h,
    fun s s1 c e h => EC2.cloudwatchClientCacheInstanceHourStoppedPanel_err_nil env a s s1 c e h,
    fun s s1 c e h => EC2.cloudwatchClientCacheInstanceStopPanel_err_nil env a s s1 c e h,
    fun fetch query s s1 w h1 hend =>
      ApiGateway.Get4XXErrorsPanel_fetches_of_resolved env a fetch query s s1 w h1 hend,
    fun fetch query s s1 w h1 hend =>
      ApiGateway.GetLatencyPanel_fetches_of_resolved env a fetch query s s1 w h1 hend,
    fun fetch query s s1 w h1 hend =>
      ApiGateway.GetIntegrationLatencyPanel_fetches_of_resolved env a fetch query s s1 w h1 hend,
    fun lib fetch query s s1 w h1 hend =>
      ECS.GetECSWriteBytesPanel_fetches_of_resolved env a lib fetch query s s1 w h1 hend,
    fun marshal fetch query s s1 w h1 hend =>
      EKS.NodeUptimePanelHandler_fetches_of_resolved env a marshal fetch query s s1 w h1 hend,
    fun lib fetch query s s1 w h1 hend =>
      EKS.GetEKSAllocatableCPUPanel_fetches_of_resolved env a lib fetch query s s1 w h1 hend,
    fun lib fetch query s s1 w h1 hend =>
      RDS.GetNetworkReceiveThroughputPanel_fetches_of_resolved env a lib fetch query s s1 w h1 hend,
    fun lib fetch queries s s1 w h1 h3 hend =>
      EC2.InstanceHourStoppedPanel_fetches_of_resolved env a lib fetch queries s s1 w h1 h3 hend,
    fun lib fetch queries s s1 w h1 h3 hend =>
      EC2.InstanceStopCountPanelHandler_fetches_of_resolved env a
        lib fetch queries s s1 w h1 h3 hend⟩

/-- C24 at a concrete input: on the empty caches the client resolver of the 4XX panel returns
with a nil error, and the request for element `i-123` reaches the metric collaborator. -/
theorem C24_client_resolution_never_fails_witness :
    (ApiGateway.cloudwatchClientCache4XX sampleEnv ⟨"", "i-123"⟩ ApiGateway.State.init).value? =
      some (some ⟨0⟩, none) ∧
    (none : GoError) = none ∧
    (ApiGateway.Get4XXErrorsPanel sampleEnv (samplePanelFetch "" none none) sampleQuery
        ApiGateway.State.init (ResponseWriter.fresh [])).fetches = 1 :=
  ⟨by decide,
    (C24_client_resolution_never_fails sampleEnv ⟨"", "i-123"⟩).1 ApiGateway.State.init
      (ApiGateway.cloudwatchClientCache4XX sampleEnv ⟨"", "i-123"⟩ ApiGateway.State.init).state
      (some ⟨0⟩) none (by decide),
    (C24_client_resolution_never_fails sampleEnv
      ⟨"", "i-123"⟩).2.2.2.2.2.2.2.2.2.2.1 (samplePanelFetch "" none none) sampleQuery
      ApiGateway.State.init
      (ApiGateway.authenticateAndCache4XX sampleEnv
        (ApiGateway.Get4XXErrorsPanel_commandParam sampleQuery) ApiGateway.State.init).state
      (ResponseWriter.fresh []) (by decide) (by decide)⟩

/-! ## Nil credentials -/

/-- The writer of `Get4XXErrorsPanel` after the metric collaborator has returned: a status
was sent, 200 or 500. -/
theorem ApiGateway.Get4XXErrorsPanel_respond_status (errs : List GoError) (jsonString : String)
    (err : GoError) :
    (ApiGateway.Get4XXErrorsPanel_respond jsonString err
      ((ResponseWriter.fresh errs).HeaderSet "Content-Type" "application/json")).status =
        some 200 ∨
    (ApiGateway.Get4XXErrorsPanel_respond jsonString err
      ((ResponseWriter.fresh errs).HeaderSet "Content-Type" "application/json")).status =
        some 500 := by
  cases err with
  | some e =>
    right
    exact (http.Error_on_handler_writer errs ("Exception: " ++ e) 500).1
  | none =>
    left
    exact (write_then_report errs jsonString (fun e => "Exception: " ++ e)).1

/-- C25. In `Get4XXErrorsPanel`: (1) when the credential resolve returns a nil pointer with a
nil error, the handler faults at `*clientAuth`: it does not return, no status and no body
were written, neither `GetClient` nor the metric collaborator was invoked; (2) this happens
when the key is absent and `DoAuthenticate` yields a nil pointer with a nil error:
`authenticateAndCache4XX` stores the nil pointer under the key and returns `(nil, nil)`, so the
next request for that key faults again, without a call of `DoAuthenticate`; (3) an execution
that gets past the guard `if clientAuth != nil` to the metric collaborator has resolved a
pointer that is not nil; (4) a handler that returns has written a response, with status 200 or
500: the guard never skips the body. -/
theorem C25_nil_credentials_fault (env : Collaborators) (fetch : PanelFetch) (query : Values)
    (errs : List GoError) (s : ApiGateway.State) :
    (∀ s1 : ApiGateway.State,
      ApiGateway.authenticateAndCache4XX env (ApiGateway.Get4XXErrorsPanel_commandParam query) s =
        Outcome.returned (none, none) s1 →
      (ApiGateway.Get4XXErrorsPanel env fetch query s (ResponseWriter.fresh errs)).ending =
        Ending.panicked ∧
      (ApiGateway.Get4XXErrorsPanel env fetch query s (ResponseWriter.fresh errs)).state = s1 ∧
      (ApiGateway.Get4XXErrorsPanel env fetch query s (ResponseWriter.fresh errs)).fetches = 0 ∧
      (ApiGateway.Get4XXErrorsPanel env fetch query s (ResponseWriter.fresh errs)).w.status =
        none ∧
      (ApiGateway.Get4XXErrorsPanel env fetch query s (ResponseWriter.fresh errs)).w.body =
        "") ∧
    (∀ b : Bool, s.vars.authCacheLock4XX.locked = false →
      s.vars.authCache4XX.Load (ApiGateway.Get4XXErrorsPanel_commandParam query).CloudElementId =
        none →
      env.DoAuthenticate s.trace (ApiGateway.Get4XXErrorsPanel_commandParam query) =
        (b, none, none) →
      ∃ s1 : ApiGateway.State,
        ApiGateway.authenticateAndCache4XX env (ApiGateway.Get4XXErrorsPanel_commandParam query)
          s = Outcome.returned (none, none) s1 ∧
        s1.trace = s.trace ++
          [Call.DoAuthenticate (ApiGateway.Get4XXErrorsPanel_commandParam query)] ∧
        s1.vars.authCache4XX.Load
          (ApiGateway.Get4XXErrorsPanel_commandParam query).CloudElementId = some none ∧
        ApiGateway.authenticateAndCache4XX env (ApiGateway.Get4XXErrorsPanel_commandParam query)
          s1 = Outcome.returned (none, none) s1 ∧
        (ApiGateway.Get4XXErrorsPanel env fetch query s1 (ResponseWriter.fresh errs)).ending =
          Ending.panicked) ∧
    ((ApiGateway.Get4XXErrorsPanel env fetch query s (ResponseWriter.fresh errs)).fetches = 1 →
      ∃ (clientAuth : Auth) (s1 : ApiGateway.State),
        ApiGateway.authenticateAndCache4XX env (ApiGateway.Get4XXErrorsPanel_commandParam query)
          s = Outcome.returned (some clientAuth, none) s1) ∧
    ((ApiGateway.Get4XXErrorsPanel env fetch query s (ResponseWriter.fresh errs)).ending =
        Ending.returned →
      (ApiGateway.Get4XXErrorsPanel env fetch query s (ResponseWriter.fresh errs)).w.status =
        some 200 ∨
      (ApiGateway.Get4XXErrorsPanel env fetch query s (ResponseWriter.fresh errs)).w.status =
        some 500) := by
  have hpanic : ∀ s0 s1 : ApiGateway.State,
      ApiGateway.authenticateAndCache4XX env (ApiGateway.Get4XXErrorsPanel_commandParam query)
        s0 = Outcome.returned (none, none) s1 →
      ApiGateway.Get4XXErrorsPanel env fetch query s0 (ResponseWriter.fresh errs) =
        ⟨Ending.panicked, s1,
          (ResponseWriter.fresh errs).HeaderSet "Content-Type" "application/json", 0⟩ := by
    intro s0 s1 h
    simp only [ApiGateway.Get4XXErrorsPanel, h]
  refine ⟨?_, ?_, ?_, ?_⟩
  · intro s1 h
    rw [hpanic s s1 h]
    exact ⟨rfl, rfl, rfl, rfl, rfl⟩
  · intro b hl hk hr
    have hr2 : (env.DoAuthenticate s.trace
        (ApiGateway.Get4XXErrorsPanel_commandParam query)).2.2 = none := by rw [hr]
    have hr1 : (env.DoAuthenticate s.trace
        (ApiGateway.Get4XXErrorsPanel_commandParam query)).2.1 = none := by rw [hr]
    have h1 := ApiGateway.authenticateAndCache4XX_miss_ok env _ s hl hk hr2
    rw [hr1] at h1
    have hhit := ApiGateway.authenticateAndCache4XX_hit env
      (ApiGateway.Get4XXErrorsPanel_commandParam query)
      { trace := s.trace ++
          [Call.DoAuthenticate (ApiGateway.Get4XXErrorsPanel_commandParam query)],
        vars := { s.vars with
          authCache4XX := s.vars.authCache4XX.Store
            (ApiGateway.Get4XXErrorsPanel_commandParam query).CloudElementId none } }
      none hl (SyncMap.Load_Store_self _ _ _)
    refine ⟨_, h1, rfl, SyncMap.Load_Store_self _ _ _, hhit, ?_⟩
    rw [hpanic _ _ hhit]
  · intro hf
    cases h1 : ApiGateway.authenticateAndCache4XX env
        (ApiGateway.Get4XXErrorsPanel_commandParam query) s with
    | blocked s1 => simp [ApiGateway.Get4XXErrorsPanel, h1] at hf
    | fatal s1 => simp [ApiGateway.Get4XXErrorsPanel, h1] at hf
    | returned r s1 =>
      obtain ⟨v, e⟩ := r
      cases e with
      | some err => simp [ApiGateway.Get4XXErrorsPanel, h1] at hf
      | none =>
        cases v with
        | none => simp [ApiGateway.Get4XXErrorsPanel, h1] at hf
        | some clientAuth => exact ⟨clientAuth, s1, rfl⟩
  · intro hend
    cases h1 : ApiGateway.authenticateAndCache4XX env
        (ApiGateway.Get4XXErrorsPanel_commandParam query) s with
    | blocked s1 => simp [ApiGateway.Get4XXErrorsPanel, h1] at hend
    | fatal s1 => simp [ApiGateway.Get4XXErrorsPanel, h1] at hend
    | returned r s1 =>
      obtain ⟨v, e⟩ := r
      cases e with
      | some err =>
        right
        simp only [ApiGateway.Get4XXErrorsPanel, h1, http.StatusInternalServerError]
        exact (http.Error_on_handler_writer errs ("Authentication failed: " ++ err) 500).1
      | none =>
        cases v with
        | none => simp [ApiGateway.Get4XXErrorsPanel, h1] at hend
        | some a =>
          cases h2 : ApiGateway.cloudwatchClientCache4XX env a s1 with
          | blocked s2 => simp [ApiGateway.Get4XXErrorsPanel, h1, h2] at hend
          | fatal s2 => simp [ApiGateway.Get4XXErrorsPanel, h1, h2] at hend
          | returned r2 s2 =>
            obtain ⟨c, e2⟩ := r2
            have he := ApiGateway.cloudwatchClientCache4XX_err_nil env a s1 s2 c e2 h2
            subst he
            rw [ApiGateway.Get4XXErrorsPanel_fetched env fetch query s s1 s2 _ a c h1 h2]
            exact ApiGateway.Get4XXErrorsPanel_respond_status errs _ _

/-- C25 at a concrete input: with collaborators whose authentication yields a nil pointer and
a nil error, the request for element `i-123` on the empty caches faults, nothing is written,
the nil pointer is cached under `i-123`, and the next request faults as well. -/
theorem C25_nil_credentials_fault_witness :
    ∃ s1 : ApiGateway.State,
      ApiGateway.authenticateAndCache4XX sampleNilAuthEnv
        (ApiGateway.Get4XXErrorsPanel_commandParam sampleQuery) ApiGateway.State.init =
          Outcome.returned (none, none) s1 ∧
      s1.trace = ApiGateway.State.init.trace ++
        [Call.DoAuthenticate (ApiGateway.Get4XXErrorsPanel_commandParam sampleQuery)] ∧
      s1.vars.authCache4XX.Load
        (ApiGateway.Get4XXErrorsPanel_commandParam sampleQuery).CloudElementId = some none ∧
      ApiGateway.authenticateAndCache4XX sampleNilAuthEnv
        (ApiGateway.Get4XXErrorsPanel_commandParam sampleQuery) s1 =
          Outcome.returned (none, none) s1 ∧
      (ApiGateway.Get4XXErrorsPanel sampleNilAuthEnv (samplePanelFetch "" none none)
        sampleQuery s1 (ResponseWriter.fresh [])).ending = Ending.panicked :=
  (C25_nil_credentials_fault sampleNilAuthEnv (samplePanelFetch "" none none) sampleQuery []
    ApiGateway.State.init).2.1 true (by decide) (by decide) (by decide)

/-! ## The credential cache is keyed by the element id alone -/

/-- C26. For `authenticateAndCache4XX` and any two descriptors `p`, `q` with the same
`CloudElementId`, whatever their other fields, with the lock at rest: (1) once the key is
cached with `u`, the resolve of `p` and the resolve of `q` both return `(u, nil)` and leave the
state, call history included, unchanged, so `DoAuthenticate` is not consulted with either
descriptor; (2) when the key is absent and `DoAuthenticate` succeeds for `p` with `v`, the
resolve of `p` stores and returns `v`, and the resolve of `q` that follows returns that same
`v` without a further call: the call history holds the one call made with `p` and none made
with `q`. -/
theorem C26_hit_depends_on_element_id_only (env : Collaborators) (p q : CommandParam)
    (s : ApiGateway.State) (hkey : p.CloudElementId = q.CloudElementId)
    (hl : s.vars.authCacheLock4XX.locked = false) :
    (∀ u : AuthPtr, s.vars.authCache4XX.Load p.CloudElementId = some u →
      ApiGateway.authenticateAndCache4XX env p s = Outcome.returned (u, none) s ∧
      ApiGateway.authenticateAndCache4XX env q s = Outcome.returned (u, none) s) ∧
    (∀ v : AuthPtr, s.vars.authCache4XX.Load p.CloudElementId = none →
      (env.DoAuthenticate s.trace p).2 = (v, none) →
      ∃ s1 : ApiGateway.State,
        ApiGateway.authenticateAndCache4XX env p s = Outcome.returned (v, none) s1 ∧
        ApiGateway.authenticateAndCache4XX env q s1 = Outcome.returned (v, none) s1 ∧
        s1.trace = s.trace ++ [Call.DoAuthenticate p] ∧
        authCalls s1.trace = authCalls s.trace + 1) := by
  refine ⟨?_, ?_⟩
  · intro u hu
    exact ⟨ApiGateway.authenticateAndCache4XX_hit env p s u hl hu,
      ApiGateway.authenticateAndCache4XX_hit env q s u hl (by rw [← hkey]; exact hu)⟩
  · intro v hk hr
    have h1 : (env.DoAuthenticate s.trace p).2.2 = none := by rw [hr]
    have h2 : (env.DoAuthenticate s.trace p).2.1 = v := by rw [hr]
    have hfirst := ApiGateway.authenticateAndCache4XX_miss_ok env p s hl hk h1
    rw [h2] at hfirst
    refine ⟨_, hfirst, ?_, rfl, authCalls_append_auth s.trace p⟩
    exact ApiGateway.authenticateAndCache4XX_hit env q _ v hl
      (by rw [← hkey]; exact SyncMap.Load_Store_self _ _ _)

/-- C26 at a concrete input: element `i-123` is resolved first with region `us-east-1`, then
with a descriptor without region, which `sampleEnv` would refuse to authenticate; the second
resolve returns the credentials obtained for the first descriptor. -/
theorem C26_hit_depends_on_element_id_only_witness :
    ∃ s1 : ApiGateway.State,
      ApiGateway.authenticateAndCache4XX sampleEnv sampleElement ApiGateway.State.init =
        Outcome.returned (some ⟨"", "i-123"⟩, none) s1 ∧
      ApiGateway.authenticateAndCache4XX sampleEnv sampleNoRegion s1 =
        Outcome.returned (some ⟨"", "i-123"⟩, none) s1 ∧
      s1.trace = ApiGateway.State.init.trace ++ [Call.DoAuthenticate sampleElement] ∧
      authCalls s1.trace = authCalls ApiGateway.State.init.trace + 1 :=
  (C26_hit_depends_on_element_id_only sampleEnv sampleElement sampleNoRegion
    ApiGateway.State.init (by decide) (by decide)).2 (some ⟨"", "i-123"⟩) (by decide)
    (by decide)

/-! ## fmt.Sprintf: the loop ends, and text without a percent sign is kept -/

/-- Each part of a directive leaves no more characters than it found. -/
theorem fmt.skipFlags_length (cs : List Char) : (fmt.skipFlags cs).length ≤ cs.length := by
  induction cs with
  | nil => simp [fmt.skipFlags]
  | cons c cs ih =>
    simp only [fmt.skipFlags]
    split
    · exact Nat.le_succ_of_le ih
    · exact Nat.le_refl _

theorem fmt.parsenum_length (cs : List Char) (num : Nat) (isnum : Bool) :
    (fmt.parsenum cs num isnum).2.2.length ≤ cs.length := by
  induction cs generalizing num isnum with
  | nil => simp [fmt.parsenum]
  | cons c cs ih =>
    simp only [fmt.parsenum]
    split
    · split
      · simp
      · exact Nat.le_succ_of_le (ih _ _)
    · exact Nat.le_refl _

theorem List.length_lt_of_dropWhile_eq_cons {α : Type} (p : α → Bool) (l : List α) (x : α)
    (after : List α) (h : l.dropWhile p = x :: after) : after.length < l.length := by
  have h1 : (l.dropWhile p).length ≤ l.length := by
    clear h
    induction l with
    | nil => simp
    | cons a l ih =>
      simp only [List.dropWhile_cons]
      split
      · exact Nat.le_succ_of_le ih
      · exact Nat.le_refl _
  rw [h] at h1
  simp at h1
  omega

theorem fmt.argNumber_length (cs : List Char) : (fmt.argNumber cs).1.length ≤ cs.length := by
  cases cs with
  | nil => simp [fmt.argNumber]
  | cons c rest =>
    simp only [fmt.argNumber]
    split
    · split
      · simp
      · split
        · simp
        · rename_i x after hd
          have := List.length_lt_of_dropWhile_eq_cons _ _ _ _ hd
          simp
          omega
    · exact Nat.le_refl _

theorem fmt.width_length (cs : List Char) (a g : Bool) :
    (fmt.width cs a g).2.1.length ≤ cs.length := by
  unfold fmt.width
  split
  · simp
  · exact fmt.parsenum_length cs 0 false

theorem fmt.precision_length (cs : List Char) (a g : Bool) :
    (fmt.precision cs a g).2.1.length ≤ cs.length := by
  unfold fmt.precision
  split
  · rename_i c more
    have h1 := fmt.argNumber_length (c :: more)
    simp only []
    split
    · rename_i rest2 h
      rw [h] at h1
      simp at h1 ⊢
      omega
    · have h2 := fmt.parsenum_length (fmt.argNumber (c :: more)).1 0 false
      simp only [List.length_cons] at h1 h2 ⊢
      omega
  · exact Nat.le_refl _

theorem fmt.verb_length (cs : List Char) (g : Bool) :
    (fmt.verb cs g).2.length ≤ cs.length := by
  unfold fmt.verb
  split
  · simp
  · split
    · simp
    · split <;> simp

theorem fmt.directive_length (cs : List Char) : (fmt.directive cs).2.length ≤ cs.length := by
  have h1 := fmt.skipFlags_length cs
  have h2 := fmt.argNumber_length (fmt.skipFlags cs)
  have h3 := fmt.width_length (fmt.argNumber (fmt.skipFlags cs)).1
    (fmt.argNumber (fmt.skipFlags cs)).2.1 (!(fmt.argNumber (fmt.skipFlags cs)).2.2)
  simp only [fmt.directive]
  generalize fmt.width (fmt.argNumber (fmt.skipFlags cs)).1
    (fmt.argNumber (fmt.skipFlags cs)).2.1 (!(fmt.argNumber (fmt.skipFlags cs)).2.2) = w at h3 ⊢
  have h4 := fmt.precision_length w.2.1 w.2.2.1 w.2.2.2
  generalize fmt.precision w.2.1 w.2.2.1 w.2.2.2 = p at h4 ⊢
  split
  · have h5 := fmt.verb_length p.2.1 (p.2.2.2 && !false)
    simp only [] at h5 ⊢
    omega
  · have h5 := fmt.argNumber_length p.2.1
    have h6 := fmt.verb_length (fmt.argNumber p.2.1).1 (p.2.2.2 && !(fmt.argNumber p.2.1).2.2)
    omega

/-- More fuel than the format is long changes nothing: the loop has ended before. -/
theorem fmt.doPrintf_fuel (fuel : Nat) (cs : List Char) (buf : String)
    (h : cs.length < fuel) :
    fmt.doPrintf fuel cs buf = fmt.doPrintf (cs.length + 1) cs buf := by
  induction fuel using Nat.strong_induction_on generalizing cs buf with
  | _ fuel ih =>
    cases fuel with
    | zero => omega
    | succ n =>
      simp only [fmt.doPrintf]
      split
      · rfl
      · rename_i x rest hd
        have hlt := List.length_lt_of_dropWhile_eq_cons _ _ _ _ hd
        have hdl := fmt.directive_length rest
        have e1 := ih n (Nat.lt_succ_self n) (fmt.directive rest).2
          (buf ++ String.mk (cs.takeWhile (fun c => c != '%')) ++ (fmt.directive rest).1)
          (by omega)
        by_cases hc : (fmt.directive rest).2.length + 1 = cs.length
        · rw [e1, hc]
        · have e2 := ih cs.length h (fmt.directive rest).2
            (buf ++ String.mk (cs.takeWhile (fun c => c != '%')) ++ (fmt.directive rest).1)
            (by omega)
          rw [e1, e2]

/-- A format without a percent sign is printed as it is. -/
theorem fmt.Sprintf_of_no_percent (format : String) (h : '%' ∉ format.data) :
    fmt.Sprintf format = format := by
  have hd : format.data.dropWhile (fun c => c != '%') = [] := by
    rw [List.dropWhile_eq_nil_iff]
    intro x hx
    have : x ≠ '%' := fun e => h (e ▸ hx)
    simpa using this
  simp [fmt.Sprintf, fmt.doPrintf, hd]

/-! ## The document of GetFunctionByRegionPanel -/

/-- C27. `GetFunctionByRegionPanel` evaluated, on the default path, with a collaborator that
returns the document `{"cpu":"50%"}`: the document goes through `fmt.Sprintf` as a format, the
percent sign starts a directive without operand, and the body written (with status 200) is
`{"cpu":"50%!"(MISSING)}`. That is not the document, and it is no JSON text any more, while
the document is one. `Get4XXErrorsPanel`, which writes `[]byte(jsonString)`, passes the same
document through unchanged, and a document without a percent sign is passed through by
both. -/
theorem C27_percent_document_is_rewritten :
    (Lambda.GetFunctionByRegionPanel sampleEnv sampleMarshalFunctionCounts
        (sampleFunctionsFetch samplePercentDocument none 0) sampleQuery Lambda.State.init
        (ResponseWriter.fresh [])).w.status = some 200 ∧
    (Lambda.GetFunctionByRegionPanel sampleEnv sampleMarshalFunctionCounts
        (sampleFunctionsFetch samplePercentDocument none 0) sampleQuery Lambda.State.init
        (ResponseWriter.fresh [])).w.body = "\x7b\"cpu\":\"50%!\"(MISSING)\x7d" ∧
    (Lambda.GetFunctionByRegionPanel sampleEnv sampleMarshalFunctionCounts
        (sampleFunctionsFetch samplePercentDocument none 0) sampleQuery Lambda.State.init
        (ResponseWriter.fresh [])).w.body ≠ samplePercentDocument ∧
    Json.parse samplePercentDocument = Except.ok (Json.obj [("cpu", Json.str "50%")]) ∧
    Json.parse (Lambda.GetFunctionByRegionPanel sampleEnv sampleMarshalFunctionCounts
        (sampleFunctionsFetch samplePercentDocument none 0) sampleQuery Lambda.State.init
        (ResponseWriter.fresh [])).w.body =
      Except.error (Json.SyntaxError.invalidCharacter '(' "after object key:value pair") ∧
    (ApiGateway.Get4XXErrorsPanel sampleEnv (samplePanelFetch samplePercentDocument none none)
        sampleQuery ApiGateway.State.init (ResponseWriter.fresh [])).w.body =
      samplePercentDocument ∧
    (Lambda.GetFunctionByRegionPanel sampleEnv sampleMarshalFunctionCounts
        (sampleFunctionsFetch "\x7b\"us-east-1\":3\x7d" none 3) sampleQuery Lambda.State.init
        (ResponseWriter.fresh [])).w.body = "\x7b\"us-east-1\":3\x7d" := by
  refine ⟨by decide, by decide, by decide, rfl, rfl, by decide, by decide⟩

/-- `GetFunctionByRegionPanel` once the credentials are resolved: the collaborator is called
and the statements after it run with the `err` of the resolve, which is nil. -/
theorem Lambda.GetFunctionByRegionPanel_fetched (env : Collaborators)
    (marshal : Option Lambda.FunctionCounts → Except String String)
    (fetch : Lambda.FunctionsFetch) (query : Values) (s s1 : Lambda.State) (w : ResponseWriter)
    (a : Auth)
    (h1 : Lambda.authenticateAndCacheFR env
      (Lambda.GetFunctionByRegionPanel_commandParam query) s =
        Outcome.returned (some a, none) s1) :
    Lambda.GetFunctionByRegionPanel env marshal fetch query s w =
      ⟨Ending.returned, s1,
        Lambda.GetFunctionByRegionPanel_respond marshal (query.Get "responseType")
          (fetch a).1 (fetch a).2.1 none (w.HeaderSet "Content-Type" "application/json"), 1⟩ := by
  simp only [Lambda.GetFunctionByRegionPanel, h1]

/-- C28. In `GetFunctionByRegionPanel`: (1) an execution that calls
`Lambda.GetLambdaFunctionsByRegion` has resolved credentials that are not nil with a nil
error; (2) once the credentials are resolved, the handler calls the collaborator, returns,
and the statements after the call run with `err = nil`, the `err` of the resolve, whatever the
collaborator returned: the branch `Exception: <err>` after the call is not taken; (3) on the
default path the status is 200 (also when the write fails) and, the write succeeding, a
document without a percent sign is the body as it is (the handler hands the document to
`fmt.Sprintf` as a format); (4) with `responseType == "frame"`, when the function counts can
be marshalled the status is 200 and the body their encoding followed by a newline; (5) when
they cannot, with error `e`, the status is 500 with the text `Exception: <e>`: the encode
error is the only one reported after the call. -/
theorem C28_fetch_error_branch_unreachable (env : Collaborators)
    (marshal : Option Lambda.FunctionCounts → Except String String)
    (fetch : Lambda.FunctionsFetch) (query : Values) (errs : List GoError)
    (s : Lambda.State) :
    ((Lambda.GetFunctionByRegionPanel env marshal fetch query s
        (ResponseWriter.fresh errs)).fetches = 1 →
      ∃ (a : Auth) (s1 : Lambda.State),
        Lambda.authenticateAndCacheFR env (Lambda.GetFunctionByRegionPanel_commandParam query)
          s = Outcome.returned (some a, none) s1) ∧
    (∀ (a : Auth) (s1 : Lambda.State),
      Lambda.authenticateAndCacheFR env (Lambda.GetFunctionByRegionPanel_commandParam query) s =
        Outcome.returned (some a, none) s1 →
      Lambda.GetFunctionByRegionPanel env marshal fetch query s (ResponseWriter.fresh errs) =
        ⟨Ending.returned, s1,
          Lambda.GetFunctionByRegionPanel_respond marshal (query.Get "responseType")
            (fetch a).1 (fetch a).2.1 none
            ((ResponseWriter.fresh errs).HeaderSet "Content-Type" "application/json"), 1⟩ ∧
      (query.Get "responseType" ≠ "frame" →
        (Lambda.GetFunctionByRegionPanel env marshal fetch query s
          (ResponseWriter.fresh errs)).w.status = some 200 ∧
        (Lambda.GetFunctionByRegionPanel env marshal fetch query s
          (ResponseWriter.fresh errs)).w.sentContentType = some "application/json" ∧
        (firstWriteFails errs = false → '%' ∉ (fetch a).1.data →
          (Lambda.GetFunctionByRegionPanel env marshal fetch query s
            (ResponseWriter.fresh errs)).w.body = (fetch a).1)) ∧
      (query.Get "responseType" = "frame" →
        ∀ enc : String, marshal (fetch a).2.1 = Except.ok enc →
        (Lambda.GetFunctionByRegionPanel env marshal fetch query s
          (ResponseWriter.fresh errs)).w.status = some 200 ∧
        (Lambda.GetFunctionByRegionPanel env marshal fetch query s
          (ResponseWriter.fresh errs)).w.sentContentType = some "application/json" ∧
        (firstWriteFails errs = false →
          (Lambda.GetFunctionByRegionPanel env marshal fetch query s
            (ResponseWriter.fresh errs)).w.body = enc ++ "\n")) ∧
      (query.Get "responseType" = "frame" →
        ∀ e : String, marshal (fetch a).2.1 = Except.error e →
        (Lambda.GetFunctionByRegionPanel env marshal fetch query s
          (ResponseWriter.fresh errs)).w.status = some 500 ∧
        (Lambda.GetFunctionByRegionPanel env marshal fetch query s
          (ResponseWriter.fresh errs)).w.body =
          if firstWriteFails errs then "" else "Exception: " ++ e ++ "\n")) := by
  refine ⟨?_, ?_⟩
  · intro hf
    cases h1 : Lambda.authenticateAndCacheFR env
        (Lambda.GetFunctionByRegionPanel_commandParam query) s with
    | blocked s1 => simp [Lambda.GetFunctionByRegionPanel, h1] at hf
    | fatal s1 => simp [Lambda.GetFunctionByRegionPanel, h1] at hf
    | returned r s1 =>
      obtain ⟨v, e⟩ := r
      cases e with
      | some err => simp [Lambda.GetFunctionByRegionPanel, h1] at hf
      | none =>
        cases v with
        | none => simp [Lambda.GetFunctionByRegionPanel, h1] at hf
        | some a => exact ⟨a, s1, rfl⟩
  · intro a s1 h1
    have hfetched := Lambda.GetFunctionByRegionPanel_fetched env marshal fetch query s s1
      (ResponseWriter.fresh errs) a h1
    refine ⟨hfetched, ?_, ?_, ?_⟩
    · intro hrt
      rw [hfetched]
      simp only [Lambda.GetFunctionByRegionPanel_respond, hrt, if_false]
      have hw := write_then_report errs (fmt.Sprintf (fetch a).1) (fun e => "Exception: " ++ e)
      refine ⟨hw.1, hw.2.1, ?_⟩
      intro hwr hp
      exact (hw.2.2 hwr).trans (fmt.Sprintf_of_no_percent (fetch a).1 hp)
    · intro hrt enc hm
      rw [hfetched]
      simp only [Lambda.GetFunctionByRegionPanel_respond, hrt, if_true, hm, json.Encode]
      have hw := write_then_report errs (enc ++ "\n") (fun e => "Exception: " ++ e)
      exact ⟨hw.1, hw.2.1, hw.2.2⟩
    · intro hrt e hm
      rw [hfetched]
      simp only [Lambda.GetFunctionByRegionPanel_respond, hrt, if_true, hm, json.Encode,
        http.StatusInternalServerError]
      have hw := http.Error_on_handler_writer errs ("Exception: " ++ e) 500
      exact ⟨hw.1, by simpa [String.append_assoc] using hw.2.2⟩

/-- C28 at a concrete input: the request for element `i-123` on the empty caches, default
path; the handler answers 200 with the collaborator's document. -/
theorem C28_fetch_error_branch_unreachable_witness :
    (Lambda.GetFunctionByRegionPanel sampleEnv sampleMarshalFunctionCounts
        (sampleFunctionsFetch "\x7b\"us-east-1\":3\x7d" (some ⟨1⟩) 3) sampleQuery
        Lambda.State.init (ResponseWriter.fresh [])).w.status = some 200 ∧
    (Lambda.GetFunctionByRegionPanel sampleEnv sampleMarshalFunctionCounts
        (sampleFunctionsFetch "\x7b\"us-east-1\":3\x7d" (some ⟨1⟩) 3) sampleQuery
        Lambda.State.init (ResponseWriter.fresh [])).w.body = "\x7b\"us-east-1\":3\x7d" :=
  have h := ((C28_fetch_error_branch_unreachable sampleEnv sampleMarshalFunctionCounts
    (sampleFunctionsFetch "\x7b\"us-east-1\":3\x7d" (some ⟨1⟩) 3) sampleQuery []
    Lambda.State.init).2 ⟨"", "i-123"⟩
    (Lambda.authenticateAndCacheFR sampleEnv
      (Lambda.GetFunctionByRegionPanel_commandParam sampleQuery) Lambda.State.init).state
    (by decide)).2.1 (by decide)
  ⟨h.1, h.2.2 rfl (by decide)⟩

/-! ## GetEc2 and GetDynamodb -/

/-- `GetEc2` runs the same statements on what `AuthenticateData` returns, whichever branch of
`if vaultUrl != ""` is taken. -/
theorem handlers.GetEc2_eq_respond (result : Bool × AuthPtr × GoError)
    (GetEc2Instances : handlers.Ec2Controller)
    (marshal : Option handlers.Ec2Instances → Except String String) (query : Values)
    (w : ResponseWriter) :
    handlers.GetEc2 (sampleAuthenticateData result.1 result.2.1 result.2.2) GetEc2Instances
        marshal query w =
      handlers.GetEc2_respond GetEc2Instances marshal result.1 result.2.1 result.2.2
        (w.HeaderSet "Content-Type" "application/json") := by
  simp only [handlers.GetEc2, sampleAuthenticateData]
  split <;> rfl

/-- `GetDynamodb` runs the same statements on what `AuthenticateData` returns, whichever
branch of `if vaultUrl != ""` is taken. -/
theorem handlers.GetDynamodb_eq_respond (result : Bool × AuthPtr × GoError)
    (GetDynamodbDetails : handlers.DynamodbController) (lib : handlers.DynamodbJSON)
    (query : Values) (w : ResponseWriter) :
    handlers.GetDynamodb (sampleAuthenticateData result.1 result.2.1 result.2.2)
        GetDynamodbDetails lib query w =
      handlers.GetDynamodb_respond GetDynamodbDetails lib result.1 result.2.1 result.2.2
        (w.HeaderSet "Content-Type" "application/json") := by
  simp only [handlers.GetDynamodb, sampleAuthenticateData]
  split <;> rfl

/-- C29. `GetEc2` and `GetDynamodb` evaluated with an `AuthenticateData` that reports failure
through its flag alone, `(false, clientAuth, nil)`: for every request, controller and
credentials pointer, the handler enters the branch `err != nil || !authFlag` and calls
`err.Error()` on the nil error, so it faults: it does not return, no status and no body are
written (the resource controller is not called). With an error, `(authFlag, clientAuth, err)`
and `err` not nil, the handlers do return with status 500 without calling the controller, and
for an error text without a percent sign the body is `Exception: <err>` followed by a newline
(empty when the write of that message fails). -/
theorem C29_auth_flag_false_without_error (GetEc2Instances : handlers.Ec2Controller)
    (marshal : Option handlers.Ec2Instances → Except String String)
    (GetDynamodbDetails : handlers.DynamodbController) (lib : handlers.DynamodbJSON)
    (query : Values) (errs : List GoError) (clientAuth : AuthPtr) :
    (handlers.GetEc2 (sampleAuthenticateData false clientAuth none) GetEc2Instances marshal
        query (ResponseWriter.fresh errs)).ending = Ending.panicked ∧
    (handlers.GetEc2 (sampleAuthenticateData false clientAuth none) GetEc2Instances marshal
        query (ResponseWriter.fresh errs)).w.status = none ∧
    (handlers.GetEc2 (sampleAuthenticateData false clientAuth none) GetEc2Instances marshal
        query (ResponseWriter.fresh errs)).w.body = "" ∧
    (handlers.GetEc2 (sampleAuthenticateData false clientAuth none) GetEc2Instances marshal
        query (ResponseWriter.fresh errs)).fetches = 0 ∧
    (handlers.GetDynamodb (sampleAuthenticateData false clientAuth none) GetDynamodbDetails lib
        query (ResponseWriter.fresh errs)).ending = Ending.panicked ∧
    (handlers.GetDynamodb (sampleAuthenticateData false clientAuth none) GetDynamodbDetails lib
        query (ResponseWriter.fresh errs)).w.status = none ∧
    (handlers.GetDynamodb (sampleAuthenticateData false clientAuth none) GetDynamodbDetails lib
        query (ResponseWriter.fresh errs)).w.body = "" ∧
    (handlers.GetDynamodb (sampleAuthenticateData false clientAuth none) GetDynamodbDetails lib
        query (ResponseWriter.fresh errs)).fetches = 0 ∧
    (∀ (authFlag : Bool) (err : String),
      (handlers.GetEc2 (sampleAuthenticateData authFlag clientAuth (some err)) GetEc2Instances
          marshal query (ResponseWriter.fresh errs)).ending = Ending.returned ∧
      (handlers.GetEc2 (sampleAuthenticateData authFlag clientAuth (some err)) GetEc2Instances
          marshal query (ResponseWriter.fresh errs)).fetches = 0 ∧
      (handlers.GetEc2 (sampleAuthenticateData authFlag clientAuth (some err)) GetEc2Instances
          marshal query (ResponseWriter.fresh errs)).w.status = some 500 ∧
      (handlers.GetDynamodb (sampleAuthenticateData authFlag clientAuth (some err))
          GetDynamodbDetails lib query (ResponseWriter.fresh errs)).ending = Ending.returned ∧
      (handlers.GetDynamodb (sampleAuthenticateData authFlag clientAuth (some err))
          GetDynamodbDetails lib query (ResponseWriter.fresh errs)).fetches = 0 ∧
      (handlers.GetDynamodb (sampleAuthenticateData authFlag clientAuth (some err))
          GetDynamodbDetails lib query (ResponseWriter.fresh errs)).w.status = some 500 ∧
      ('%' ∉ err.data →
        (handlers.GetEc2 (sampleAuthenticateData authFlag clientAuth (some err)) GetEc2Instances
            marshal query (ResponseWriter.fresh errs)).w.body =
          (if firstWriteFails errs then "" else "Exception: " ++ err ++ "\n") ∧
        (handlers.GetDynamodb (sampleAuthenticateData authFlag clientAuth (some err))
            GetDynamodbDetails lib query (ResponseWriter.fresh errs)).w.body =
          (if firstWriteFails errs then "" else "Exception: " ++ err ++ "\n"))) := by
  have e1 := handlers.GetEc2_eq_respond (false, clientAuth, none) GetEc2Instances marshal query
    (ResponseWriter.fresh errs)
  have d1 := handlers.GetDynamodb_eq_respond (false, clientAuth, none) GetDynamodbDetails lib
    query (ResponseWriter.fresh errs)
  simp only [] at e1 d1
  rw [e1, d1]
  refine ⟨rfl, rfl, rfl, rfl, rfl, rfl, rfl, rfl, ?_⟩
  intro authFlag err
  have e2 := handlers.GetEc2_eq_respond (authFlag, clientAuth, some err) GetEc2Instances
    marshal query (ResponseWriter.fresh errs)
  have d2 := handlers.GetDynamodb_eq_respond (authFlag, clientAuth, some err)
    GetDynamodbDetails lib query (ResponseWriter.fresh errs)
  simp only [] at e2 d2
  rw [e2, d2]
  have hw := http.Error_on_handler_writer errs (fmt.Sprintf ("Exception: " ++ err)) 500
  simp only [handlers.GetEc2_respond, handlers.GetDynamodb_respond, Option.isSome_some,
    Bool.true_or, if_true, http.StatusInternalServerError]
  refine ⟨trivial, trivial, hw.1, trivial, trivial, hw.1, ?_⟩
  intro hp
  have hp2 : '%' ∉ ("Exception: " ++ err).data := by
    rw [String.data_append, List.mem_append]
    rintro (h | h)
    · revert h
      decide
    · exact hp h
  have hb := hw.2.2
  rw [fmt.Sprintf_of_no_percent _ hp2] at hb ⊢
  exact ⟨hb, hb⟩

/-- C29 at a concrete input: the request for element `i-123`, a controller that would return
a nil result, and an `AuthenticateData` that returns `(false, nil, nil)`: both handlers fault.
With the error `access denied` both answer 500 with the body `Exception: access denied`. -/
theorem C29_auth_flag_false_without_error_witness :
    (handlers.GetEc2 (sampleAuthenticateData false none none) (fun _ => (none, none))
        (fun _ => Except.ok "null") sampleQuery (ResponseWriter.fresh [])).ending =
      Ending.panicked ∧
    (handlers.GetDynamodb (sampleAuthenticateData false none none) (fun _ => ("[]", none))
        ⟨fun _ => Except.ok ⟨0⟩, fun _ => Except.ok "[]"⟩ sampleQuery
        (ResponseWriter.fresh [])).ending = Ending.panicked ∧
    (handlers.GetEc2 (sampleAuthenticateData false none (some "access denied"))
        (fun _ => (none, none)) (fun _ => Except.ok "null") sampleQuery
        (ResponseWriter.fresh [])).w.body = "Exception: access denied\n" ∧
    (handlers.GetDynamodb (sampleAuthenticateData false none (some "access denied"))
        (fun _ => ("[]", none)) ⟨fun _ => Except.ok ⟨0⟩, fun _ => Except.ok "[]"⟩ sampleQuery
        (ResponseWriter.fresh [])).w.body = "Exception: access denied\n" :=
  have h := C29_auth_flag_false_without_error (fun _ => (none, none))
    (fun _ => Except.ok "null") (fun _ => ("[]", none))
    ⟨fun _ => Except.ok ⟨0⟩, fun _ => Except.ok "[]"⟩ sampleQuery [] none
  have hb := (h.2.2.2.2.2.2.2.2 false "access denied").2.2.2.2.2.2 (by decide)
  ⟨h.1, h.2.2.2.2.1, hb.1, hb.2⟩

/-! ## The two tiers of the 4XX panel and the other panels of the package -/

/-- C30. For the two resolvers of `Get4XXErrorsPanel`. (1) Whatever a call of
`authenticateAndCache4XX` does, the state it leaves differs from the state it found at most in
the call history, in `authCache4XX` and in `authCacheLock4XX`; (2) a call of
`cloudwatchClientCache4XX` changes at most the call history, `clientCache4XX` and
`clientCacheLock4XX`. So neither modifies the other tier, nor a variable of the latency or
integration-latency panel. (3) `authenticateAndCache4XX` does not read them either: started
with any other values in `clientCache4XX`, `clientCacheLock4XX` and the eight variables of the
other two panels, it ends the same way, returns the same and leaves the same state, apart
from those values. (4) Likewise `cloudwatchClientCache4XX` for any other values in
`authCache4XX`, `authCacheLock4XX` and the eight variables of the other two panels. -/
theorem C30_cache_tiers_independent (env : Collaborators) (p : CommandParam) (a : Auth)
    (s : ApiGateway.State) (m mL mI : SyncMap AuthPtr) (c cL cI : SyncMap CloudWatchPtr)
    (l lL1 lL2 lI1 lI2 : RWMutex) :
    (ApiGateway.authenticateAndCache4XX env p s).state.vars =
      { s.vars with
        authCache4XX := (ApiGateway.authenticateAndCache4XX env p s).state.vars.authCache4XX,
        authCacheLock4XX :=
          (ApiGateway.authenticateAndCache4XX env p s).state.vars.authCacheLock4XX } ∧
    (ApiGateway.cloudwatchClientCache4XX env a s).state.vars =
      { s.vars with
        clientCache4XX := (ApiGateway.cloudwatchClientCache4XX env a s).state.vars.clientCache4XX,
        clientCacheLock4XX :=
          (ApiGateway.cloudwatchClientCache4XX env a s).state.vars.clientCacheLock4XX } ∧
    ApiGateway.authenticateAndCache4XX env p
        { s with vars := { s.vars with
            clientCache4XX := c, clientCacheLock4XX := l,
            authCacheLatency := mL, clientCacheLatency := cL,
            authCacheLockLatency := lL1, clientCacheLockLatency := lL2,
            authCacheIntegLatency := mI, clientCacheIntegLatency := cI,
            authCacheLockIntegLatency := lI1, clientCacheLockIntegLatency := lI2 } } =
      (ApiGateway.authenticateAndCache4XX env p s).mapState
        (fun t => { t with vars := { t.vars with
            clientCache4XX := c, clientCacheLock4XX := l,
            authCacheLatency := mL, clientCacheLatency := cL,
            authCacheLockLatency := lL1, clientCacheLockLatency := lL2,
            authCacheIntegLatency := mI, clientCacheIntegLatency := cI,
            authCacheLockIntegLatency := lI1, clientCacheLockIntegLatency := lI2 } }) ∧
    ApiGateway.cloudwatchClientCache4XX env a
        { s with vars := { s.vars with
            authCache4XX := m, authCacheLock4XX := l,
            authCacheLatency := mL, clientCacheLatency := cL,
            authCacheLockLatency := lL1, clientCacheLockLatency := lL2,
            authCacheIntegLatency := mI, clientCacheIntegLatency := cI,
            authCacheLockIntegLatency := lI1, clientCacheLockIntegLatency := lI2 } } =
      (ApiGateway.cloudwatchClientCache4XX env a s).mapState
        (fun t => { t with vars := { t.vars with
            authCache4XX := m, authCacheLock4XX := l,
            authCacheLatency := mL, clientCacheLatency := cL,
            authCacheLockLatency := lL1, clientCacheLockLatency := lL2,
            authCacheIntegLatency := mI, clientCacheIntegLatency := cI,
            authCacheLockIntegLatency := lI1, clientCacheLockIntegLatency := lI2 } }) := by
  refine ⟨?_, ?_, ?_, ?_⟩
  · cases hl : s.vars.authCacheLock4XX.locked with
    | true => rw [ApiGateway.authenticateAndCache4XX_held env p s hl]; rfl
    | false =>
      cases hk : s.vars.authCache4XX.Load p.CloudElementId with
      | some u => rw [ApiGateway.authenticateAndCache4XX_hit env p s u hl hk]; rfl
      | none =>
        cases hr : (env.DoAuthenticate s.trace p).2.2 with
        | none => rw [ApiGateway.authenticateAndCache4XX_miss_ok env p s hl hk hr]; rfl
        | some err => rw [ApiGateway.authenticateAndCache4XX_miss_err env p s err hl hk hr]; rfl
  · cases hl : s.vars.clientCacheLock4XX.locked with
    | true => rw [ApiGateway.cloudwatchClientCache4XX_held env a s hl]; rfl
    | false =>
      cases hk : s.vars.clientCache4XX.Load a.CrossAccountRoleArn with
      | some u => rw [ApiGateway.cloudwatchClientCache4XX_hit env a s u hl hk]; rfl
      | none => rw [ApiGateway.cloudwatchClientCache4XX_miss env a s hl hk]; rfl
  · cases hl : s.vars.authCacheLock4XX.locked with
    | true =>
      rw [ApiGateway.authenticateAndCache4XX_held env p s hl,
        ApiGateway.authenticateAndCache4XX_held env p
          ({ s with vars := { s.vars with
            clientCache4XX := c, clientCacheLock4XX := l,
            authCacheLatency := mL, clientCacheLatency := cL,
            authCacheLockLatency := lL1, clientCacheLockLatency := lL2,
            authCacheIntegLatency := mI, clientCacheIntegLatency := cI,
            authCacheLockIntegLatency := lI1, clientCacheLockIntegLatency := lI2 } } :
          ApiGateway.State) hl]
      rfl
    | false =>
      cases hk : s.vars.authCache4XX.Load p.CloudElementId with
      | some u =>
        rw [ApiGateway.authenticateAndCache4XX_hit env p s u hl hk,
          ApiGateway.authenticateAndCache4XX_hit env p
          ({ s with vars := { s.vars with
            clientCache4XX := c, clientCacheLock4XX := l,
            authCacheLatency := mL, clientCacheLatency := cL,
            authCacheLockLatency := lL1, clientCacheLockLatency := lL2,
            authCacheIntegLatency := mI, clientCacheIntegLatency := cI,
            authCacheLockIntegLatency := lI1, clientCacheLockIntegLatency := lI2 } } :
          ApiGateway.State) u hl hk]
        rfl
      | none =>
        cases hr : (env.DoAuthenticate s.trace p).2.2 with
        | none =>
          rw [ApiGateway.authenticateAndCache4XX_miss_ok env p s hl hk hr,
            ApiGateway.authenticateAndCache4XX_miss_ok env p
          ({ s with vars := { s.vars with
            clientCache4XX := c, clientCacheLock4XX := l,
            authCacheLatency := mL, clientCacheLatency := cL,
            authCacheLockLatency := lL1, clientCacheLockLatency := lL2,
            authCacheIntegLatency := mI, clientCacheIntegLatency := cI,
            authCacheLockIntegLatency := lI1, clientCacheLockIntegLatency := lI2 } } :
          ApiGateway.State) hl hk hr]
          rfl
        | some err =>
          rw [ApiGateway.authenticateAndCache4XX_miss_err env p s err hl hk hr,
            ApiGateway.authenticateAndCache4XX_miss_err env p
          ({ s with vars := { s.vars with
            clientCache4XX := c, clientCacheLock4XX := l,
            authCacheLatency := mL, clientCacheLatency := cL,
            authCacheLockLatency := lL1, clientCacheLockLatency := lL2,
            authCacheIntegLatency := mI, clientCacheIntegLatency := cI,
            authCacheLockIntegLatency := lI1, clientCacheLockIntegLatency := lI2 } } :
          ApiGateway.State) err hl hk hr]
          rfl
  · cases hl : s.vars.clientCacheLock4XX.locked with
    | true =>
      rw [ApiGateway.cloudwatchClientCache4XX_held env a s hl,
        ApiGateway.cloudwatchClientCache4XX_held env a
          ({ s with vars := { s.vars with
            authCache4XX := m, authCacheLock4XX := l,
            authCacheLatency := mL, clientCacheLatency := cL,
            authCacheLockLatency := lL1, clientCacheLockLatency := lL2,
            authCacheIntegLatency := mI, clientCacheIntegLatency := cI,
            authCacheLockIntegLatency := lI1, clientCacheLockIntegLatency := lI2 } } :
          ApiGateway.State) hl]
      rfl
    | false =>
      cases hk : s.vars.clientCache4XX.Load a.CrossAccountRoleArn with
      | some u =>
        rw [ApiGateway.cloudwatchClientCache4XX_hit env a s u hl hk,
          ApiGateway.cloudwatchClientCache4XX_hit env a
          ({ s with vars := { s.vars with
            authCache4XX := m, authCacheLock4XX := l,
            authCacheLatency := mL, clientCacheLatency := cL,
            authCacheLockLatency := lL1, clientCacheLockLatency := lL2,
            authCacheIntegLatency := mI, clientCacheIntegLatency := cI,
            authCacheLockIntegLatency := lI1, clientCacheLockIntegLatency := lI2 } } :
          ApiGateway.State) u hl hk]
        rfl
      | none =>
        rw [ApiGateway.cloudwatchClientCache4XX_miss env a s hl hk,
          ApiGateway.cloudwatchClientCache4XX_miss env a
          ({ s with vars := { s.vars with
            authCache4XX := m, authCacheLock4XX := l,
            authCacheLatency := mL, clientCacheLatency := cL,
            authCacheLockLatency := lL1, clientCacheLockLatency := lL2,
            authCacheIntegLatency := mI, clientCacheIntegLatency := cI,
            authCacheLockIntegLatency := lI1, clientCacheLockIntegLatency := lI2 } } :
          ApiGateway.State) hl hk]
        rfl

end AwsxApi
